import Mathlib

/-!
# SOF audio pipeline core: equalizer setup, equalizer control commands, mixer

A shallow embedding of `src/audio/eq_fir/eq_fir.c`, `src/audio/eq_iir/eq_iir.c` and
`src/audio/mixer.c`.

Conventions of the embedding.

* C `int` values are `Int`; `uint32_t` and `size_t` values are `Nat`, reduced modulo
  `2 ^ 32` wherever the C code computes on them (the DSP is a 32-bit target).
* A C array that the code indexes without a bound (`config->data[]`, `sources[]`, the
  samples of a buffer) is a total function of the index: what lies past the object is
  whatever memory holds, and every theorem is stated for all such contents.
* A pointer into an object is an offset; `none` is `NULL`.
* Declarations of headers that are outside the verified sources (`user/eq.h`,
  `sof/audio/eq_fir/fir.h`, `sof/audio/eq_iir/iir.h`, `sof/lib/alloc.h`, `ipc/control.h`)
  enter as fields of an environment record, so that every statement holds for all values
  of them.
-/

namespace sof

/-! ## Platform constants and C integer conversions -/

/-- Constant `PLATFORM_MAX_CHANNELS` of `platform/imx8/include/platform/platform.h`. -/
def PLATFORM_MAX_CHANNELS : Nat := 4

/-- Constant `PLATFORM_MAX_STREAMS` of `platform/imx8/include/platform/platform.h`. -/
def PLATFORM_MAX_STREAMS : Nat := 5

/-- Value of `EINVAL` (errno.h). -/
def EINVAL : Int := 22

/-- Value of `ENOMEM` (errno.h). -/
def ENOMEM : Int := 12

/-- Value of `EBUSY` (errno.h). -/
def EBUSY : Int := 16

/-- Number of values of a 32-bit unsigned object (`uint32_t`, and `size_t` on the DSP). -/
def UINT32_MOD : Nat := 2 ^ 32

/-- Conversion of a C integer to `size_t` / `uint32_t`: reduction modulo `2 ^ 32`. -/
def to_size_t (r : Int) : Nat := (r % (UINT32_MOD : Int)).toNat

/-- Conversion of an integer to `int32_t` (two's complement wrap). -/
def wrap_int32 (x : Int) : Int := (x + 2 ^ 31) % 2 ^ 32 - 2 ^ 31

/-- Conversion of an integer to `int64_t` (two's complement wrap). -/
def wrap_int64 (x : Int) : Int := (x + 2 ^ 63) % 2 ^ 64 - 2 ^ 63

/-! ## Equalizer configuration blob and per-channel filter state -/

/-- The typed view of a stored blob, `struct sof_eq_fir_config` /
`struct sof_eq_iir_config`: the header fields the setup code reads and the flexible array
`data[]` (16-bit words for the FIR, 32-bit words for the IIR), indexed as the C code
indexes it. -/
structure sof_eq_config where
  /-- Field `size`, the blob size in bytes. -/
  size : Nat
  /-- Field `channels_in_config`. -/
  channels_in_config : Nat
  /-- Field `number_of_responses`. -/
  number_of_responses : Nat
  /-- The words `data[k]`. -/
  data : Int → Int

/-- The part of `struct fir_state_32x16` / `struct iir_state_df2t` that setup manages. -/
structure eq_chan_state where
  /-- The response record the coefficients come from, as an index into the coefficient
  data; `none` when the channel is in bypass. -/
  coef : Option Int
  /-- Bytes of delay line the channel needs. -/
  delay_size : Nat
  /-- Start of the channel's delay line as a byte offset into the arena; `none` is `NULL`. -/
  delay : Option Nat
deriving DecidableEq, Repr

/-- Modelled from the spec: `fir_reset` / `iir_reset_df2t` (the filter cores `fir.c` and
`iir.c` are outside the verified sources). The spec: "Negative resolved response ⇒
channel initialized to bypass (zero-length state)". -/
def eq_chan_reset : eq_chan_state := ⟨none, 0, none⟩

/-- Modelled from the spec: the state `fir_init_coef` / `iir_init_coef_df2t` leaves in a
channel ("initialize that channel's coefficients from the response record and accumulate
its delay-line size"): the coefficients refer to the record `eq`, the delay line is not
assigned yet, and the channel needs as many bytes of delay line as the call returned
(`ret`, converted to `size_t` by the assignment `s = ...`). -/
def eq_chan_init_coef (eq : Option Int) (ret : Int) : eq_chan_state :=
  ⟨eq, to_size_t ret, none⟩

/-- Modelled from the spec: `fir_init_delay` / `iir_init_delay_df2t` ("assign each
non-bypass channel's delay-line pointer into a partition of that arena (pointer arithmetic
advances monotonically ...)"): the channel's delay line starts at the running pointer `p`,
which then advances by the channel's delay-line size. -/
def eq_chan_init_delay (c : eq_chan_state) (p : Nat) : eq_chan_state × Nat :=
  (⟨c.coef, c.delay_size, some p⟩, p + c.delay_size)

/-- Declarations used by the equalizers that are outside the verified sources. -/
structure eq_env where
  /-- Constant `SOF_EQ_FIR_MAX_SIZE` (user/eq.h). -/
  SOF_EQ_FIR_MAX_SIZE : Nat
  /-- Constant `SOF_EQ_FIR_MAX_RESPONSES` (user/eq.h). -/
  SOF_EQ_FIR_MAX_RESPONSES : Nat
  /-- Constant `SOF_EQ_FIR_COEF_NHEADER` (user/eq.h). -/
  SOF_EQ_FIR_COEF_NHEADER : Nat
  /-- Constant `SOF_EQ_IIR_MAX_SIZE` (user/eq.h). -/
  SOF_EQ_IIR_MAX_SIZE : Nat
  /-- Constant `SOF_EQ_IIR_MAX_RESPONSES` (user/eq.h). -/
  SOF_EQ_IIR_MAX_RESPONSES : Nat
  /-- Constant `SOF_EQ_IIR_NHEADER_DF2T` (user/eq.h). -/
  SOF_EQ_IIR_NHEADER_DF2T : Nat
  /-- Constant `SOF_EQ_IIR_NBIQUAD_DF2T` (user/eq.h). -/
  SOF_EQ_IIR_NBIQUAD_DF2T : Nat
  /-- Field `num_sections` of the `struct sof_eq_iir_header_df2t` that starts at
  coefficient-data index `j`. -/
  iir_num_sections : sof_eq_config → Int → Int
  /-- Return value of `fir_init_coef(&fir[i], eq)` for the record pointer `eq`. -/
  fir_init_coef : sof_eq_config → Option Int → Int
  /-- Return value of `iir_init_coef_df2t(&iir[i], eq)` for the record pointer `eq`. -/
  iir_init_coef_df2t : sof_eq_config → Option Int → Int
  /-- Whether the allocator (`rballoc`, `rzalloc`) can serve a request of that many bytes. -/
  alloc_ok : Nat → Bool
  /-- Contents of byte `k` of a block that `rballoc` returns (it does not clear). -/
  alloc_junk : Nat → Nat
  /-- Constant `SOF_EQ_FIR_IDX_SWITCH` (user/eq.h). -/
  SOF_EQ_FIR_IDX_SWITCH : Nat
  /-- Constant `SOF_EQ_IIR_IDX_SWITCH` (user/eq.h). -/
  SOF_EQ_IIR_IDX_SWITCH : Nat
  /-- Field `size` of a `struct sof_eq_fir_config` held in the given bytes. -/
  fir_config_size : (Nat → Nat) → Nat
  /-- Field `size` of a `struct sof_eq_iir_config` held in the given bytes. -/
  iir_config_size : (Nat → Nat) → Nat
  /-- Field `channels_in_config` of a `struct sof_eq_fir_config` held in the given bytes. -/
  fir_config_channels : (Nat → Nat) → Nat
  /-- Field `channels_in_config` of a `struct sof_eq_iir_config` held in the given bytes. -/
  iir_config_channels : (Nat → Nat) → Nat
  /-- The bytes of a stored FIR blob after the store `config->data[ch] = response`. -/
  fir_config_store : List Nat → Nat → Int → List Nat
  /-- The bytes of a stored IIR blob after the store `config->data[ch] = response`. -/
  iir_config_store : List Nat → Nat → Int → List Nat
  /-- Value of `COMP_SIZE(struct sof_ipc_comp_process)`, the bytes of a component device. -/
  comp_dev_size : Nat
  /-- Value of `sizeof(struct comp_data)` of eq_fir.c. -/
  fir_comp_data_size : Nat
  /-- Value of `sizeof(struct comp_data)` of eq_iir.c. -/
  iir_comp_data_size : Nat

/-- The word `coef_data[j]`, with `coef_data = &config->data[config->channels_in_config]`. -/
def coef_data (config : sof_eq_config) (j : Int) : Int :=
  config.data ((config.channels_in_config : Int) + j)

/-- The loop "Collect index of response start positions" of `eq_fir_setup`
(eq_fir.c 279-289) and `eq_iir_setup` (eq_iir.c 369-380): `n` iterations are left, `i` is
the loop counter, `j` the running index, and `next j` the value of `j` after the update
`j += ...` of the loop body. The result lists `lookup[i], lookup[i+1], ...`. -/
def eq_setup_lookup (number_of_responses : Nat) (next : Int → Int) :
    Nat → Nat → Int → List (Option Int)
  | 0, _, _ => []
  | n + 1, i, j =>
    if i < number_of_responses then
      some j :: eq_setup_lookup number_of_responses next n (i + 1) (next j)
    else
      none :: eq_setup_lookup number_of_responses next n (i + 1) j

/-- The loop "Initialize 1st phase" of `eq_fir_setup` (eq_fir.c 292-325) and
`eq_iir_setup` (eq_iir.c 383-416): `n` iterations are left, `i` is the channel, `fir` the
channel states and `size_sum` the accumulated size. The first component of the result is
`0` when the loop ran to its end and the value of the `return` that left it otherwise. -/
def eq_setup_phase1 (config : sof_eq_config) (lookup : List (Option Int))
    (init_coef : Option Int → Int) :
    Nat → Nat → (Nat → eq_chan_state) → Nat → Int × (Nat → eq_chan_state) × Nat
  | 0, _, fir, size_sum => (0, fir, size_sum)
  | n + 1, i, fir, size_sum =>
    let resp : Int :=
      if i < config.channels_in_config then config.data (i : Int) else config.data 0
    if resp < 0 then
      eq_setup_phase1 config lookup init_coef n (i + 1)
        (Function.update fir i eq_chan_reset) size_sum
    else if resp ≥ (config.number_of_responses : Int) then
      (-EINVAL, fir, size_sum)
    else
      let eq := lookup.getD resp.toNat none
      let r := init_coef eq
      let s := to_size_t r
      let fir1 := Function.update fir i (eq_chan_init_coef eq r)
      if s > 0 then
        eq_setup_phase1 config lookup init_coef n (i + 1) fir1 ((size_sum + s) % UINT32_MOD)
      else
        (-EINVAL, fir1, size_sum)

/-- The loop "Initialize 2nd phase to set EQ delay lines pointers" of `eq_fir_setup`
(eq_fir.c 345-349) and `eq_iir_setup` (eq_iir.c 434-438): `n` iterations are left, `i` is
the channel and `p` the running pointer `fir_delay` / `iir_delay`. -/
def eq_setup_phase2 (config : sof_eq_config) :
    Nat → Nat → (Nat → eq_chan_state) → Nat → (Nat → eq_chan_state) × Nat
  | 0, _, fir, p => (fir, p)
  | n + 1, i, fir, p =>
    let resp : Int := config.data (i : Int)
    if resp ≥ 0 then
      eq_setup_phase2 config n (i + 1)
        (Function.update fir i (eq_chan_init_delay (fir i) p).1) (eq_chan_init_delay (fir i) p).2
    else
      eq_setup_phase2 config n (i + 1) fir p

/-! ## `eq_fir.c`: component data and setup -/

/-- The processing functions `eq_fir_func` / `eq_fir_func_even` can point at (generic
build). -/
inductive eq_fir_func_t where
  | eq_fir_s16
  | eq_fir_s24
  | eq_fir_s32
  | eq_fir_s16_passthrough
  | eq_fir_s32_passthrough
deriving DecidableEq, Repr

/-- Type `enum sof_ipc_frame` (ipc/stream.h). -/
inductive sof_ipc_frame where
  | S16_LE
  | S24_4LE
  | S32_LE
  | FLOAT
deriving DecidableEq, Repr

/-- Type `struct comp_data` of eq_fir.c. The stored blob `config` is kept as its bytes
(that is what the control commands copy); `none` is `NULL`. `fir_delay = some n` is a
non-null pointer to an arena that was allocated with `n` bytes. -/
structure eq_fir_comp_data where
  /-- Field `fir[PLATFORM_MAX_CHANNELS]`. -/
  fir : Nat → eq_chan_state
  /-- Field `config`. -/
  config : Option (List Nat)
  /-- Field `source_format`. -/
  source_format : sof_ipc_frame
  /-- Field `sink_format`. -/
  sink_format : sof_ipc_frame
  /-- Field `fir_delay`. -/
  fir_delay : Option Nat
  /-- Field `fir_delay_size`. -/
  fir_delay_size : Nat
  /-- Field `eq_fir_func_even`. -/
  eq_fir_func_even : eq_fir_func_t
  /-- Field `eq_fir_func`. -/
  eq_fir_func : eq_fir_func_t

/-- Function `eq_fir_free_delaylines` (eq_fir.c 228-240). The arena is handed to `rfree`;
the pointer field `fir_delay` keeps its value, the code does not clear it. -/
def eq_fir_free_delaylines (cd : eq_fir_comp_data) : eq_fir_comp_data :=
  { cd with
    fir_delay_size := 0
    fir := fun i =>
      if i < PLATFORM_MAX_CHANNELS then ⟨(cd.fir i).coef, (cd.fir i).delay_size, none⟩
      else cd.fir i }

/-- The two sanity checks of `eq_fir_setup` (eq_fir.c 262-273): `true` when one of them
rejects. -/
def eq_fir_setup_rejects (env : eq_env) (config : sof_eq_config) (nch : Int) : Bool :=
  decide (nch > (PLATFORM_MAX_CHANNELS : Int)) ||
    decide (config.channels_in_config > PLATFORM_MAX_CHANNELS) ||
    decide (config.channels_in_config = 0) ||
    decide (config.number_of_responses > env.SOF_EQ_FIR_MAX_RESPONSES)

/-- The table `lookup[]` that `eq_fir_setup` builds (eq_fir.c 276-289):
`j += SOF_EQ_FIR_COEF_NHEADER + coef_data[j]`, `j` being an `int`. -/
def eq_fir_setup_lookup (env : eq_env) (config : sof_eq_config) : List (Option Int) :=
  eq_setup_lookup config.number_of_responses
    (fun j => wrap_int32 (j + (env.SOF_EQ_FIR_COEF_NHEADER : Int) + coef_data config j))
    env.SOF_EQ_FIR_MAX_RESPONSES 0 0

/-- What `eq_fir_setup` does after its sanity checks (eq_fir.c 275-351). -/
def eq_fir_setup_body (env : eq_env) (cd : eq_fir_comp_data) (config : sof_eq_config)
    (nch : Int) : Int × eq_fir_comp_data :=
  let lookup := eq_fir_setup_lookup env config
  let r1 := eq_setup_phase1 config lookup (env.fir_init_coef config) nch.toNat 0 cd.fir 0
  if r1.1 ≠ 0 then
    (r1.1, { cd with fir := r1.2.1 })
  else
    let size_sum := r1.2.2
    let cd1 : eq_fir_comp_data :=
      { cd with fir := r1.2.1, fir_delay := none, fir_delay_size := size_sum }
    if size_sum = 0 then
      (0, cd1)
    else if env.alloc_ok size_sum = false then
      (-ENOMEM, cd1)
    else
      (0, { cd1 with
            fir_delay := some size_sum
            fir := (eq_setup_phase2 config nch.toNat 0 r1.2.1 0).1 })

/-- Function `eq_fir_setup(cd, nch)` (eq_fir.c 242-352); `config` is `cd->config` seen
through `struct sof_eq_fir_config`. The result is the return value and the component data
the call leaves. -/
def eq_fir_setup (env : eq_env) (cd : eq_fir_comp_data) (config : sof_eq_config)
    (nch : Int) : Int × eq_fir_comp_data :=
  if eq_fir_setup_rejects env config nch then (-EINVAL, cd)
  else eq_fir_setup_body env cd config nch

/-! ## `eq_iir.c`: component data and setup -/

/-- The processing functions of eq_iir.c. -/
inductive eq_iir_func_t where
  | eq_iir_s16_default
  | eq_iir_s24_default
  | eq_iir_s32_default
  | eq_iir_s32_16_default
  | eq_iir_s32_24_default
  | eq_iir_s16_pass
  | eq_iir_s32_pass
  | eq_iir_s32_s16_pass
  | eq_iir_s32_s24_pass
deriving DecidableEq, Repr

/-- Type `struct comp_data` of eq_iir.c, as `eq_fir_comp_data`. -/
structure eq_iir_comp_data where
  /-- Field `iir[PLATFORM_MAX_CHANNELS]`. -/
  iir : Nat → eq_chan_state
  /-- Field `config`. -/
  config : Option (List Nat)
  /-- Field `source_format`. -/
  source_format : sof_ipc_frame
  /-- Field `sink_format`. -/
  sink_format : sof_ipc_frame
  /-- Field `iir_delay`. -/
  iir_delay : Option Nat
  /-- Field `iir_delay_size`. -/
  iir_delay_size : Nat
  /-- Field `eq_iir_func`; `none` is `NULL`. -/
  eq_iir_func : Option eq_iir_func_t

/-- Function `eq_iir_free_delaylines` (eq_iir.c 316-328). The arena is handed to `rfree`;
the pointer field `iir_delay` keeps its value, the code does not clear it. -/
def eq_iir_free_delaylines (cd : eq_iir_comp_data) : eq_iir_comp_data :=
  { cd with
    iir_delay_size := 0
    iir := fun i =>
      if i < PLATFORM_MAX_CHANNELS then ⟨(cd.iir i).coef, (cd.iir i).delay_size, none⟩
      else cd.iir i }

/-- The two sanity checks of `eq_iir_setup` (eq_iir.c 352-363): `true` when one of them
rejects. -/
def eq_iir_setup_rejects (env : eq_env) (config : sof_eq_config) (nch : Int) : Bool :=
  decide (nch > (PLATFORM_MAX_CHANNELS : Int)) ||
    decide (config.channels_in_config > PLATFORM_MAX_CHANNELS) ||
    decide (config.channels_in_config = 0) ||
    decide (config.number_of_responses > env.SOF_EQ_IIR_MAX_RESPONSES)

/-- The table `lookup[]` that `eq_iir_setup` builds (eq_iir.c 366-380):
`j += SOF_EQ_IIR_NHEADER_DF2T + SOF_EQ_IIR_NBIQUAD_DF2T * eq->num_sections`. -/
def eq_iir_setup_lookup (env : eq_env) (config : sof_eq_config) : List (Option Int) :=
  eq_setup_lookup config.number_of_responses
    (fun j => wrap_int32 (j + (env.SOF_EQ_IIR_NHEADER_DF2T : Int) +
      (env.SOF_EQ_IIR_NBIQUAD_DF2T : Int) * env.iir_num_sections config j))
    env.SOF_EQ_IIR_MAX_RESPONSES 0 0

/-- What `eq_iir_setup` does after its sanity checks (eq_iir.c 365-439); `cd` already has
its delay lines freed. -/
def eq_iir_setup_body (env : eq_env) (cd : eq_iir_comp_data) (config : sof_eq_config)
    (nch : Int) : Int × eq_iir_comp_data :=
  let lookup := eq_iir_setup_lookup env config
  let r1 := eq_setup_phase1 config lookup (env.iir_init_coef_df2t config) nch.toNat 0 cd.iir 0
  if r1.1 ≠ 0 then
    (r1.1, { cd with iir := r1.2.1 })
  else
    let size_sum := r1.2.2
    let cd1 : eq_iir_comp_data :=
      { cd with iir := r1.2.1, iir_delay := none, iir_delay_size := size_sum }
    if size_sum = 0 then
      (0, cd1)
    else if env.alloc_ok size_sum = false then
      (-ENOMEM, cd1)
    else
      (0, { cd1 with
            iir_delay := some size_sum
            iir := (eq_setup_phase2 config nch.toNat 0 r1.2.1 0).1 })

/-- Function `eq_iir_setup(cd, nch)` (eq_iir.c 330-440); `config` is `cd->config` seen
through `struct sof_eq_iir_config`. -/
def eq_iir_setup (env : eq_env) (cd : eq_iir_comp_data) (config : sof_eq_config)
    (nch : Int) : Int × eq_iir_comp_data :=
  if eq_iir_setup_rejects env config nch then (-EINVAL, eq_iir_free_delaylines cd)
  else eq_iir_setup_body env (eq_iir_free_delaylines cd) config nch

/-! ## Control commands of the equalizers -/

/-- Component states, `COMP_STATE_*` (sof/audio/component.h). -/
inductive comp_state where
  | COMP_STATE_INIT
  | COMP_STATE_READY
  | COMP_STATE_SUSPEND
  | COMP_STATE_PREPARE
  | COMP_STATE_PAUSED
  | COMP_STATE_ACTIVE
deriving DecidableEq, Repr

/-- Type `enum sof_ipc_ctrl_cmd` (ipc/control.h). -/
inductive sof_ipc_ctrl_cmd where
  | SOF_CTRL_CMD_VOLUME
  | SOF_CTRL_CMD_ENUM
  | SOF_CTRL_CMD_SWITCH
  | SOF_CTRL_CMD_BINARY
deriving DecidableEq, Repr

/-- The fields of `struct sof_ipc_ctrl_data` the equalizers use. The payload
`cdata->data->data` appears twice, as the bytes `data` and as the array `compv` of
`struct sof_ipc_ctrl_value_comp` (`index`, `svalue`) the enum command reads. -/
structure sof_ipc_ctrl_data where
  /-- Field `cmd`. -/
  cmd : sof_ipc_ctrl_cmd
  /-- Field `index`. -/
  index : Nat
  /-- Field `msg_index` (`uint32_t`). -/
  msg_index : Nat
  /-- Field `num_elems` (`uint32_t`). -/
  num_elems : Nat
  /-- Field `elems_remaining` (`uint32_t`). -/
  elems_remaining : Nat
  /-- The payload as `compv[i]`. -/
  compv : Nat → Nat × Int
  /-- The payload as bytes. -/
  data : Nat → Nat
  /-- Field `data->size` of the ABI header. -/
  data_size : Nat

/-- How a control call ends: it returns `ret` and leaves the component data `cd`, or an
`assert` fails (the firmware panics), or it runs into undefined behaviour (a null pointer
is dereferenced, or a copy runs past the end of an allocated block). -/
inductive cmd_result (σ : Type) where
  | done (ret : Int) (cd : σ)
  | assert_failed
  | undefined

/-- The return value of a call that returned. -/
def cmd_result.ret? {σ : Type} : cmd_result σ → Option Int
  | cmd_result.done ret _ => some ret
  | _ => none

/-- The stored blob a call that returned leaves, `proj` selecting it in the component
data. -/
def cmd_result.blob? {σ : Type} (proj : σ → Option (List Nat)) : cmd_result σ →
    Option (Option (List Nat))
  | cmd_result.done _ cd => some (proj cd)
  | _ => none

/-- Whether the call ended in a failed `assert`. -/
def cmd_result.is_assert_failed {σ : Type} : cmd_result σ → Bool
  | cmd_result.assert_failed => true
  | _ => false

/-- The bytes of a stored blob as memory: byte `k` of the block, and `0` past its end. -/
def blob_mem (b : List Nat) (k : Nat) : Nat := b.getD k 0

/-- The block `b` after `n` bytes of `src` were copied to its offset `offset`. -/
def blob_write (b : List Nat) (offset : Nat) (src : Nat → Nat) (n : Nat) : List Nat :=
  b.take offset ++ (List.range n).map src ++ b.drop (offset + n)

/-- Modelled from the spec: `memcpy_s` (sof/string.h is outside the verified sources),
the bounds check of the spec ("reject if offset + chunk size exceeds the allocated
total"), under the `assert` of the callers: `assert(!memcpy_s(dst + offset, dest_size,
src, src_size))` with `dst` the block `b`. The copy is refused, and the `assert` fails,
when `src_size` exceeds `dest_size`; a copy that passes the check and does not fit the
block runs past its end. -/
def assert_memcpy_s (b : List Nat) (offset dest_size : Nat) (src : Nat → Nat)
    (src_size : Nat) : Option (Option (List Nat)) :=
  if src_size > dest_size then none
  else if offset + src_size > b.length then some none
  else some (some (blob_write b offset src src_size))

/-- Function `rballoc(zone, caps, n)`: a block of `n` bytes that is not cleared, or
`NULL`. -/
def rballoc (env : eq_env) (n : Nat) : Option (List Nat) :=
  if env.alloc_ok n then some ((List.range n).map env.alloc_junk) else none

/-- Function `rzalloc(zone, caps, n)`: a block of `n` zero bytes, or `NULL`. -/
def rzalloc (env : eq_env) (n : Nat) : Option (List Nat) :=
  if env.alloc_ok n then some (List.replicate n 0) else none

/-- Function `eq_fir_switch_store` (eq_fir.c 354-367) on the stored blob; the channel
states are not touched. -/
def eq_fir_switch_store (env : eq_env) (config : Option (List Nat)) (ch : Nat)
    (response : Int) : Int × Option (List Nat) :=
  match config with
  | none => (-EINVAL, none)
  | some b =>
    if ch ≥ env.fir_config_channels (blob_mem b) then (-EINVAL, some b)
    else (0, some (env.fir_config_store b ch response))

/-- The loop of the enum command in `fir_cmd_set_data` (eq_fir.c 532-548): `n` iterations
are left, `i` is the loop counter. -/
def fir_cmd_set_data_switch (env : eq_env) (compv : Nat → Nat × Int) :
    Nat → Nat → Option (List Nat) → Int × Option (List Nat)
  | 0, _, config => (0, config)
  | n + 1, i, config =>
    let r := eq_fir_switch_store env config (compv i).1 (compv i).2
    if r.1 < 0 then (-EINVAL, r.2)
    else fir_cmd_set_data_switch env compv n (i + 1) r.2

/-- Function `fir_cmd_set_data` (eq_fir.c 517-618); `dev_state` is `dev->state`. -/
def fir_cmd_set_data (env : eq_env) (dev_state : comp_state) (cd : eq_fir_comp_data)
    (cdata : sof_ipc_ctrl_data) : cmd_result eq_fir_comp_data :=
  match cdata.cmd with
  | sof_ipc_ctrl_cmd.SOF_CTRL_CMD_ENUM =>
    if cdata.index = env.SOF_EQ_FIR_IDX_SWITCH then
      let r := fir_cmd_set_data_switch env cdata.compv
        (wrap_int32 (cdata.num_elems : Int)).toNat 0 cd.config
      cmd_result.done r.1 { cd with config := r.2 }
    else
      cmd_result.done (-EINVAL) cd
  | sof_ipc_ctrl_cmd.SOF_CTRL_CMD_BINARY =>
    if dev_state ≠ comp_state.COMP_STATE_READY then
      cmd_result.done (-EBUSY) cd
    else
      let total := (cdata.num_elems + cdata.elems_remaining) % UINT32_MOD
      if total > env.SOF_EQ_FIR_MAX_SIZE then
        cmd_result.done (-EINVAL) cd
      else if cdata.msg_index = 0 then
        match rballoc env total with
        | none => cmd_result.done (-EINVAL) { cd with config := none }
        | some b =>
          match assert_memcpy_s b 0 (to_size_t ((total : Int) - 0)) cdata.data
            cdata.num_elems with
          | none => cmd_result.assert_failed
          | some none => cmd_result.undefined
          | some (some b1) => cmd_result.done 0 { cd with config := some b1 }
      else
        match cd.config with
        | none => cmd_result.undefined
        | some b =>
          let offset := to_size_t ((env.fir_config_size (blob_mem b) : Int)
            - (cdata.elems_remaining : Int) - (cdata.num_elems : Int))
          match assert_memcpy_s b offset (to_size_t ((total : Int) - (offset : Int)))
            cdata.data cdata.num_elems with
          | none => cmd_result.assert_failed
          | some none => cmd_result.undefined
          | some (some b1) => cmd_result.done 0 { cd with config := some b1 }
  | _ => cmd_result.done (-EINVAL) cd

/-- Function `eq_iir_switch_store` (eq_iir.c 442-455) on the stored blob. -/
def eq_iir_switch_store (env : eq_env) (config : Option (List Nat)) (ch : Nat)
    (response : Int) : Int × Option (List Nat) :=
  match config with
  | none => (-EINVAL, none)
  | some b =>
    if ch ≥ env.iir_config_channels (blob_mem b) then (-EINVAL, some b)
    else (0, some (env.iir_config_store b ch response))

/-- The loop of the enum command in `iir_cmd_set_data` (eq_iir.c 607-623). -/
def iir_cmd_set_data_switch (env : eq_env) (compv : Nat → Nat × Int) :
    Nat → Nat → Option (List Nat) → Int × Option (List Nat)
  | 0, _, config => (0, config)
  | n + 1, i, config =>
    let r := eq_iir_switch_store env config (compv i).1 (compv i).2
    if r.1 < 0 then (-EINVAL, r.2)
    else iir_cmd_set_data_switch env compv n (i + 1) r.2

/-- Function `iir_cmd_set_data` (eq_iir.c 592-679); `dev_state` is `dev->state`. -/
def iir_cmd_set_data (env : eq_env) (dev_state : comp_state) (cd : eq_iir_comp_data)
    (cdata : sof_ipc_ctrl_data) : cmd_result eq_iir_comp_data :=
  match cdata.cmd with
  | sof_ipc_ctrl_cmd.SOF_CTRL_CMD_ENUM =>
    if cdata.index = env.SOF_EQ_IIR_IDX_SWITCH then
      let r := iir_cmd_set_data_switch env cdata.compv
        (wrap_int32 (cdata.num_elems : Int)).toNat 0 cd.config
      cmd_result.done r.1 { cd with config := r.2 }
    else
      cmd_result.done (-EINVAL) cd
  | sof_ipc_ctrl_cmd.SOF_CTRL_CMD_BINARY =>
    if dev_state ≠ comp_state.COMP_STATE_READY then
      cmd_result.done (-EBUSY) cd
    else
      let bs := env.iir_config_size cdata.data
      if bs > env.SOF_EQ_IIR_MAX_SIZE ∨ bs = 0 then
        cmd_result.done (-EINVAL) { cd with config := none }
      else
        match rzalloc env bs with
        | none => cmd_result.done (-EINVAL) { cd with config := none }
        | some b =>
          match assert_memcpy_s b 0 bs cdata.data bs with
          | none => cmd_result.assert_failed
          | some none => cmd_result.undefined
          | some (some b1) => cmd_result.done 0 { cd with config := some b1 }
  | _ => cmd_result.done (-EINVAL) cd

/-- The fields of the `struct sof_ipc_comp_process` that `eq_fir_new` / `eq_iir_new`
receive. -/
structure sof_ipc_comp_process where
  /-- Value of `IPC_IS_COMP_SIZE_INVALID(ipc)` for the message. -/
  comp_size_invalid : Bool
  /-- Field `size`, the size of the embedded blob. -/
  size : Nat
  /-- Field `data[]`, the embedded blob. -/
  data : Nat → Nat

/-- Function `eq_fir_new` (eq_fir.c 373-439): `none` is the `NULL` return; otherwise the
state of the new device and its component data. -/
def eq_fir_new (env : eq_env) (ipc_fir : sof_ipc_comp_process) :
    Option (comp_state × eq_fir_comp_data) :=
  let bs := ipc_fir.size
  if ipc_fir.comp_size_invalid then none
  else if bs > env.SOF_EQ_FIR_MAX_SIZE then none
  else if env.alloc_ok env.comp_dev_size = false then none
  else if env.alloc_ok env.fir_comp_data_size = false then none
  else
    let cd : eq_fir_comp_data :=
      { fir := fun _ => eq_chan_reset
        config := none
        source_format := sof_ipc_frame.S16_LE
        sink_format := sof_ipc_frame.S16_LE
        fir_delay := none
        fir_delay_size := 0
        eq_fir_func_even := eq_fir_func_t.eq_fir_s32_passthrough
        eq_fir_func := eq_fir_func_t.eq_fir_s32_passthrough }
    if bs ≠ 0 then
      match rballoc env bs with
      | none => none
      | some b =>
        match assert_memcpy_s b 0 bs ipc_fir.data bs with
        | some (some b1) => some (comp_state.COMP_STATE_READY, { cd with config := some b1 })
        | _ => none
    else
      some (comp_state.COMP_STATE_READY, cd)

/-- Function `eq_iir_new` (eq_iir.c 461-528): `none` is the `NULL` return. -/
def eq_iir_new (env : eq_env) (ipc_iir : sof_ipc_comp_process) :
    Option (comp_state × eq_iir_comp_data) :=
  let bs := ipc_iir.size
  if ipc_iir.comp_size_invalid then none
  else if bs > env.SOF_EQ_IIR_MAX_SIZE then none
  else if env.alloc_ok env.comp_dev_size = false then none
  else if env.alloc_ok env.iir_comp_data_size = false then none
  else
    let cd : eq_iir_comp_data :=
      { iir := fun _ => eq_chan_reset
        config := none
        source_format := sof_ipc_frame.S16_LE
        sink_format := sof_ipc_frame.S16_LE
        iir_delay := none
        iir_delay_size := 0
        eq_iir_func := some eq_iir_func_t.eq_iir_s32_pass }
    if bs ≠ 0 then
      match rzalloc env bs with
      | none => none
      | some b =>
        match assert_memcpy_s b 0 bs ipc_iir.data bs with
        | some (some b1) => some (comp_state.COMP_STATE_READY, { cd with config := some b1 })
        | _ => none
    else
      some (comp_state.COMP_STATE_READY, cd)

/-! ## `mixer.c`: the mixing functions

A buffer is seen through `buffer_read_frag_s16` / `buffer_write_frag_s16` (and the `_s32`
pair) of sof/audio/buffer.h: it is the function from the fragment index to the sample in
that fragment. The array `sources[]` is the function from the index to the buffer. Loop
counters and the fragment index are natural numbers: the samples of one call lie in one
buffer, so their number stays far below the range of the counters. -/

/-- Modelled from the spec: `sat_int16` (sof/audio/format.h is not part of the sources at
hand), "saturate down to the output width": clamp to `INT16_MIN .. INT16_MAX`. -/
def sat_int16 (x : Int) : Int :=
  if x > 32767 then 32767 else if x < -32768 then -32768 else x

/-- Modelled from the spec: `sat_int32` (sof/audio/format.h), the clamp to
`INT32_MIN .. INT32_MAX`. -/
def sat_int32 (x : Int) : Int :=
  if x > 2147483647 then 2147483647 else if x < -2147483648 then -2147483648 else x

/-- The loop over `j` of `mix_n_s16` (mixer.c 60-63) for the fragment `frag`: `n`
iterations are left and `val` is the `int32_t` accumulator. -/
def mix_n_s16_sum (sources : Nat → Nat → Int) (frag : Nat) : Nat → Nat → Int → Int
  | 0, _, val => val
  | n + 1, j, val => mix_n_s16_sum sources frag n (j + 1) (wrap_int32 (val + sources j frag))

/-- The loop over `j` of `mix_n_s32` (mixer.c 92-95), `val` being the `int64_t`
accumulator. -/
def mix_n_s32_sum (sources : Nat → Nat → Int) (frag : Nat) : Nat → Nat → Int → Int
  | 0, _, val => val
  | n + 1, j, val => mix_n_s32_sum sources frag n (j + 1) (wrap_int64 (val + sources j frag))

/-- The loop over `channel` of `mix_n_s16` / `mix_n_s32` (mixer.c 57-71, 89-103): `n`
iterations are left, the state is the sink and `frag`, and `out frag` is the value the
body stores in the sink fragment `frag`. -/
def mix_n_channels (out : Nat → Int) : Nat → (Nat → Int) × Nat → (Nat → Int) × Nat
  | 0, st => st
  | n + 1, st => mix_n_channels out n (Function.update st.1 st.2 (out st.2), st.2 + 1)

/-- The loop over `i` of `mix_n_s16` / `mix_n_s32` (mixer.c 56-72, 88-104): `n` frames are
left. -/
def mix_n_frames (out : Nat → Int) (channels : Nat) :
    Nat → (Nat → Int) × Nat → (Nat → Int) × Nat
  | 0, st => st
  | n + 1, st => mix_n_frames out channels n (mix_n_channels out channels st)

/-- Function `mix_n_s16` (mixer.c 44-73); `channels` is `dev->params.channels`. The result
is the sink after the call. -/
def mix_n_s16 (channels : Nat) (sink : Nat → Int) (sources : Nat → Nat → Int)
    (num_sources frames : Nat) : Nat → Int :=
  (mix_n_frames (fun frag => sat_int16 (mix_n_s16_sum sources frag num_sources 0 0))
    channels frames (sink, 0)).1

/-- Function `mix_n_s32` (mixer.c 76-105). -/
def mix_n_s32 (channels : Nat) (sink : Nat → Int) (sources : Nat → Nat → Int)
    (num_sources frames : Nat) : Nat → Int :=
  (mix_n_frames (fun frag => sat_int32 (mix_n_s32_sum sources frag num_sources 0 0))
    channels frames (sink, 0)).1

/-- The array `sources[]` holding the buffers of a list, in order. -/
def sources_of_list (l : List (Nat → Int)) (j : Nat) : Nat → Int :=
  l.getD j (fun _ => 0)

/-- The exact integer sum of the fragment `frag` over the first `num_sources` sources. -/
def mix_exact_sum (sources : Nat → Nat → Int) (num_sources frag : Nat) : Int :=
  ((List.range num_sources).map (fun j => sources j frag)).sum

/-! ## Specification-side notions for the setup claims -/

/-- The resolved response of output channel `c` in the words of the specification:
`assignment[c]` if `c < channels_in_config`, else `assignment[0]`. -/
def resolved_response (config : sof_eq_config) (c : Nat) : Int :=
  if c < config.channels_in_config then config.data (c : Int) else config.data 0

/-- The size the coefficient initialisation returns for channel `c` (a `size_t`), the
channel being initialised from `lookup[resolved response]`. -/
def eq_chan_init_size (config : sof_eq_config) (lookup : List (Option Int))
    (init_coef : Option Int → Int) (c : Nat) : Nat :=
  to_size_t (init_coef (lookup.getD (resolved_response config c).toNat none))

/-- The sum, over the channels `c < nch` whose resolved response is non-negative, of the
size the coefficient initialisation returns for that channel. -/
def eq_arena_sum (config : sof_eq_config) (lookup : List (Option Int))
    (init_coef : Option Int → Int) (nch : Nat) : Nat :=
  (((List.range nch).filter (fun c => decide (0 ≤ resolved_response config c))).map
    (eq_chan_init_size config lookup init_coef)).sum

/-- Words `data[k]` given by a list: `data[k]` is the `k`-th entry, and `0` outside it. -/
def data_of_list (l : List Int) (k : Int) : Int :=
  if k < 0 then 0 else l.getD k.toNat 0

/-- A sample environment for evaluating the model: blobs of at most 4096 (FIR) and 1024
(IIR) bytes, eight responses at most, a FIR record header of ten 16-bit words, an IIR
record header of six and a biquad of seven 32-bit words, the section count in the first
word of an IIR record, `fir_init_coef` returning four bytes per tap (the tap count is
`coef_data[j]`), `iir_init_coef_df2t` returning sixteen bytes per section, an allocator
that always succeeds, and little-endian blobs that start with the 32-bit `size`, followed
by `channels_in_config` and, after the rest of a header of 24 (FIR) or 28 (IIR) bytes, by
`data[]`. -/
def eq_env_sample : eq_env where
  SOF_EQ_FIR_MAX_SIZE := 4096
  SOF_EQ_FIR_MAX_RESPONSES := 8
  SOF_EQ_FIR_COEF_NHEADER := 10
  SOF_EQ_IIR_MAX_SIZE := 1024
  SOF_EQ_IIR_MAX_RESPONSES := 8
  SOF_EQ_IIR_NHEADER_DF2T := 6
  SOF_EQ_IIR_NBIQUAD_DF2T := 7
  iir_num_sections := fun config j => coef_data config j
  fir_init_coef := fun config eq =>
    match eq with
    | none => -EINVAL
    | some j => 4 * coef_data config j
  iir_init_coef_df2t := fun config eq =>
    match eq with
    | none => -EINVAL
    | some j => 16 * coef_data config j
  alloc_ok := fun _ => true
  alloc_junk := fun _ => 170
  SOF_EQ_FIR_IDX_SWITCH := 0
  SOF_EQ_IIR_IDX_SWITCH := 0
  fir_config_size := fun m => m 0 + 256 * m 1 + 65536 * m 2 + 16777216 * m 3
  iir_config_size := fun m => m 0 + 256 * m 1 + 65536 * m 2 + 16777216 * m 3
  fir_config_channels := fun m => m 4 + 256 * m 5
  iir_config_channels := fun m => m 4 + 256 * m 5 + 65536 * m 6 + 16777216 * m 7
  fir_config_store := fun b ch v =>
    (b.set (24 + 2 * ch) ((v % 256).toNat)).set (24 + 2 * ch + 1) (((v / 256) % 256).toNat)
  iir_config_store := fun b ch v =>
    (((b.set (28 + 4 * ch) ((v % 256).toNat)).set (28 + 4 * ch + 1)
      (((v / 256) % 256).toNat)).set (28 + 4 * ch + 2) (((v / 65536) % 256).toNat)).set
      (28 + 4 * ch + 3) (((v / 16777216) % 256).toNat)
  comp_dev_size := 256
  fir_comp_data_size := 128
  iir_comp_data_size := 128

/-- Component data of a FIR equalizer right after `eq_fir_new` without a blob. -/
def eq_fir_cd_sample : eq_fir_comp_data where
  fir := fun _ => eq_chan_reset
  config := none
  source_format := sof_ipc_frame.S16_LE
  sink_format := sof_ipc_frame.S16_LE
  fir_delay := none
  fir_delay_size := 0
  eq_fir_func_even := eq_fir_func_t.eq_fir_s32_passthrough
  eq_fir_func := eq_fir_func_t.eq_fir_s32_passthrough

/-- Component data of an IIR equalizer right after `eq_iir_new` without a blob. -/
def eq_iir_cd_sample : eq_iir_comp_data where
  iir := fun _ => eq_chan_reset
  config := none
  source_format := sof_ipc_frame.S16_LE
  sink_format := sof_ipc_frame.S16_LE
  iir_delay := none
  iir_delay_size := 0
  eq_iir_func := some eq_iir_func_t.eq_iir_s32_pass

/-- A FIR blob for one channel (`channels_in_config = 1`, one response): assignment
`[0]`, then the record of response 0: tap count 4, output shift -1, eight reserved words,
four taps. -/
def fir_config_mono : sof_eq_config where
  size := 54
  channels_in_config := 1
  number_of_responses := 1
  data := data_of_list [0, 4, -1, 0, 0, 0, 0, 0, 0, 0, 0, 100, 200, 300, 400]

/-- An IIR blob for two channels (one response): assignment `[-1, 0]`, so channel 0 is
bypassed, then the record of response 0: one section, one section in series, four
reserved words, the seven words of the biquad. -/
def iir_config_stereo : sof_eq_config where
  size := 88
  channels_in_config := 2
  number_of_responses := 1
  data := data_of_list [-1, 0, 1, 1, 0, 0, 0, 0, 0, 0, 0, 0, 1073741824, 0, 0]

/-- A FIR blob for two channels: channel 0 bypassed (`-1`), channel 1 on response 0. -/
def fir_config_stereo : sof_eq_config where
  size := 56
  channels_in_config := 2
  number_of_responses := 1
  data := data_of_list [-1, 0, 4, 0, 0, 0, 0, 0, 0, 0, 0, 0, 100, 200, 300, 400]

/-- A blob for one channel whose assignment names response 1 while the blob holds one
response only (number 0). -/
def eq_config_bad_response : sof_eq_config where
  size := 54
  channels_in_config := 1
  number_of_responses := 1
  data := data_of_list [1, 4, 0, 0, 0, 0, 0, 0, 0, 0, 0, 100, 200, 300, 400]

/-! ## Sample control messages and buffers -/

/-- A binary SET_DATA message with the given chunk fields and payload bytes. -/
def ctrl_binary_msg (msg_index num_elems elems_remaining : Nat) (payload : List Nat) :
    sof_ipc_ctrl_data where
  cmd := sof_ipc_ctrl_cmd.SOF_CTRL_CMD_BINARY
  index := 0
  msg_index := msg_index
  num_elems := num_elems
  elems_remaining := elems_remaining
  compv := fun _ => (0, 0)
  data := blob_mem payload
  data_size := payload.length

/-- The messages that send the blob `B` in consecutive chunks of the lengths `lens`:
`k` is the message index and `off` the offset of the next chunk; `num_elems` is the chunk
length and `elems_remaining` the number of bytes still to come after the chunk. -/
def blob_chunk_msgs (B : List Nat) : List Nat → Nat → Nat → List sof_ipc_ctrl_data
  | [], _, _ => []
  | len :: lens, k, off =>
    ctrl_binary_msg k len (B.length - (off + len)) ((B.drop off).take len) ::
      blob_chunk_msgs B lens (k + 1) (off + len)

/-- Consecutive `fir_cmd_set_data` calls, one per message, as long as they return 0. -/
def fir_cmd_set_data_seq (env : eq_env) (dev_state : comp_state) :
    eq_fir_comp_data → List sof_ipc_ctrl_data → cmd_result eq_fir_comp_data
  | cd, [] => cmd_result.done 0 cd
  | cd, m :: ms =>
    match fir_cmd_set_data env dev_state cd m with
    | cmd_result.done ret cd1 =>
      if ret = 0 then fir_cmd_set_data_seq env dev_state cd1 ms else cmd_result.done ret cd1
    | r => r

/-- The bytes of the two-channel FIR blob `fir_config_stereo` (56 bytes, little endian):
`size = 56`, `channels_in_config = 2`, `number_of_responses = 1`, 16 reserved bytes, the
assignment `[-1, 0]`, and the record of response 0 (4 taps, shift 0, 8 reserved words,
taps 100, 200, 300, 400). -/
def fir_blob_stereo : List Nat :=
  [56, 0, 0, 0, 2, 0, 1, 0,
   0, 0, 0, 0, 0, 0, 0, 0, 0, 0, 0, 0, 0, 0, 0, 0,
   255, 255, 0, 0,
   4, 0, 0, 0, 0, 0, 0, 0, 0, 0, 0, 0, 0, 0, 0, 0, 0, 0, 0, 0,
   100, 0, 200, 0, 44, 1, 144, 1]

/-- A source buffer: 1000 in fragment 0 and `INT16_MIN` in the others. -/
def mix_source_a : Nat → Int := fun k => if k = 0 then 1000 else -32768

/-- A source buffer: 20000 in fragment 0 and 5 in the others. -/
def mix_source_b : Nat → Int := fun k => if k = 0 then 20000 else 5

/-- A source buffer: 30000 in fragment 0 and -7 in the others. -/
def mix_source_c : Nat → Int := fun k => if k = 0 then 30000 else -7

/-- A source buffer: `INT16_MAX` in fragment 0 and `INT16_MIN` in the others. -/
def mix_source_edge16 : Nat → Int := fun k => if k = 0 then 32767 else -32768

/-- A source buffer: `INT32_MAX` in fragment 0 and `INT32_MIN` in the others. -/
def mix_source_edge32 : Nat → Int := fun k => if k = 0 then 2147483647 else -2147483648

/-- A sink buffer filled with the value 77. -/
def mix_sink_sample : Nat → Int := fun _ => 77


/-! ## Component library: states, buffers, copy limits

The component core (`component.c`, sof/audio/component.h, sof/audio/buffer.h) is outside
the verified sources. A copy function is embedded as the function from its inputs to its
return value and the list of the calls it makes, in order, to the processing function and
to `comp_update_buffer_consume` / `comp_update_buffer_produce`: these calls are all a copy
function does to a buffer. -/

/-- Trigger commands, `COMP_TRIGGER_*` (sof/audio/component.h). -/
inductive comp_trigger where
  | COMP_TRIGGER_STOP
  | COMP_TRIGGER_START
  | COMP_TRIGGER_PAUSE
  | COMP_TRIGGER_RELEASE
  | COMP_TRIGGER_SUSPEND
  | COMP_TRIGGER_RESUME
  | COMP_TRIGGER_RESET
  | COMP_TRIGGER_PREPARE
  | COMP_TRIGGER_XRUN
deriving DecidableEq, Repr

/-- Stream directions, `SOF_IPC_STREAM_PLAYBACK` / `SOF_IPC_STREAM_CAPTURE`
(ipc/stream.h). -/
inductive sof_ipc_stream_direction where
  | SOF_IPC_STREAM_PLAYBACK
  | SOF_IPC_STREAM_CAPTURE
deriving DecidableEq, Repr

/-- The fields of `struct comp_dev` the components read and write. -/
structure comp_dev where
  /-- Field `state`. -/
  state : comp_state
  /-- Field `params.frame_fmt`. -/
  frame_fmt : sof_ipc_frame
  /-- Field `params.channels` (`uint32_t`). -/
  channels : Nat
  /-- Field `params.direction`. -/
  direction : sof_ipc_stream_direction
  /-- Field `params.rate` (`uint32_t`). -/
  rate : Nat
  /-- Field `params.sample_container_bytes`. -/
  sample_container_bytes : Nat
  /-- Field `frames`, the frames of a period (`uint32_t`). -/
  frames : Nat
deriving DecidableEq, Repr

/-- Declarations of the component core that are outside the verified sources. -/
structure comp_env where
  /-- Function `comp_set_state(dev, cmd)`: its return value and the state it leaves in
  `dev->state`, from the state before the call and the command. -/
  comp_set_state : comp_state → comp_trigger → Int × comp_state
  /-- Constant `COMP_STATUS_STATE_ALREADY_SET`. -/
  COMP_STATUS_STATE_ALREADY_SET : Int
  /-- Constant `PPL_STATUS_PATH_STOP`. -/
  PPL_STATUS_PATH_STOP : Int

/-- A buffer as the components see it: its byte counters and, read through its two
ends, the state and the frame size of the component that writes it (`buffer->source`)
and of the component that reads it (`buffer->sink`). -/
structure comp_buffer where
  /-- Field `avail`, the bytes available for reading (`uint32_t`). -/
  avail : Nat
  /-- Field `free`, the bytes free for writing (`uint32_t`). -/
  free : Nat
  /-- Value of `buffer->source->state`. -/
  source_state : comp_state
  /-- Value of `buffer->sink->state`. -/
  sink_state : comp_state
  /-- Value of `comp_frame_bytes(buffer->source)`. -/
  source_frame_bytes : Nat
  /-- Value of `comp_frame_bytes(buffer->sink)`. -/
  sink_frame_bytes : Nat
deriving DecidableEq, Repr

/-- Modelled from the spec: `comp_avail_frames(source, sink)` of sof/audio/component.h,
the copy-limits calculator: "frames processable this cycle = floor(min(source-available-
bytes / source-frame-bytes, sink-free-bytes / sink-frame-bytes))". -/
def comp_avail_frames (source sink : comp_buffer) : Nat :=
  min (source.avail / source.source_frame_bytes) (sink.free / sink.sink_frame_bytes)

/-- Type `struct comp_copy_limits` (sof/audio/component.h) without its two buffer
pointers. -/
structure comp_copy_limits where
  /-- Field `frames`. -/
  frames : Int
  /-- Field `source_bytes`. -/
  source_bytes : Int
  /-- Field `sink_bytes`. -/
  sink_bytes : Int
  /-- Field `source_frame_bytes`. -/
  source_frame_bytes : Int
  /-- Field `sink_frame_bytes`. -/
  sink_frame_bytes : Int
deriving DecidableEq, Repr

/-- Modelled from the spec: `comp_get_copy_limits(dev, &cl)` of sof/audio/component.h,
for the source and the sink of the component: the frame count of the copy-limits
calculator, the two frame sizes, and the bytes the frames take on each side. A count of
zero is not an error ("If the result is zero, the component performs no work this cycle
(non-fatal)"), so the return value is 0. -/
def comp_get_copy_limits (source sink : comp_buffer) : Int × comp_copy_limits :=
  (0, { frames := (comp_avail_frames source sink : Int)
        source_bytes := (comp_avail_frames source sink : Int) * source.source_frame_bytes
        sink_bytes := (comp_avail_frames source sink : Int) * sink.sink_frame_bytes
        source_frame_bytes := source.source_frame_bytes
        sink_frame_bytes := sink.sink_frame_bytes })

/-- A call a copy function makes: to its processing function, with the arguments `args`
that matter, to `comp_update_buffer_consume(source, bytes)` for the source buffer with
the index `source` in the source list, or to `comp_update_buffer_produce(sink, bytes)`
for the sink buffer. -/
inductive copy_call (α : Type) where
  | process (args : α)
  | consume (source : Nat) (bytes : Nat)
  | produce (bytes : Nat)
deriving DecidableEq, Repr

/-- The bytes the calls `calls` consume from the source buffer with index `source`. -/
def consumed_bytes {α : Type} (calls : List (copy_call α)) (source : Nat) : Nat :=
  (calls.map (fun c =>
    match c with
    | copy_call.consume k bytes => if k = source then bytes else 0
    | _ => 0)).sum

/-- The bytes the calls `calls` produce into the sink buffer. -/
def produced_bytes {α : Type} (calls : List (copy_call α)) : Nat :=
  (calls.map (fun c =>
    match c with
    | copy_call.produce bytes => bytes
    | _ => 0)).sum

/-- The arguments of the calls to the processing function among `calls`, in order. -/
def process_calls {α : Type} (calls : List (copy_call α)) : List α :=
  calls.filterMap (fun c =>
    match c with
    | copy_call.process args => some args
    | _ => none)

/-! ## `mixer.c`: trigger and copy -/

/-- The mixing functions `md->mix_func` can point at. -/
inductive mix_func_t where
  | mix_n_s16
  | mix_n_s32
deriving DecidableEq, Repr

/-- Function `mixer_source_status_count` (mixer.c 181-195): the number of source
buffers whose writing component is in the state `status`. -/
def mixer_source_status_count (sources : List comp_buffer) (status : comp_state) : Int :=
  match sources with
  | [] => 0
  | source :: rest =>
    (if source.source_state = status then 1 else 0) + mixer_source_status_count rest status

/-- Function `mixer_sink_status` (mixer.c 197-204). -/
def mixer_sink_status (sink : comp_buffer) : comp_state := sink.sink_state

/-- Function `mixer_trigger` (mixer.c 207-238): the return value and the state of the
mixer after the call; `sink` is the first sink buffer and `sources` the source list. -/
def mixer_trigger (cenv : comp_env) (dev_state : comp_state) (sink : comp_buffer)
    (sources : List comp_buffer) (cmd : comp_trigger) : Int × comp_state :=
  let r := cenv.comp_set_state dev_state cmd
  if r.1 < 0 then (r.1, r.2)
  else if r.1 = cenv.COMP_STATUS_STATE_ALREADY_SET then (cenv.PPL_STATUS_PATH_STOP, r.2)
  else
    match cmd with
    | comp_trigger.COMP_TRIGGER_START | comp_trigger.COMP_TRIGGER_RELEASE =>
      if mixer_sink_status sink = comp_state.COMP_STATE_ACTIVE then (1, r.2) else (0, r.2)
    | comp_trigger.COMP_TRIGGER_PAUSE | comp_trigger.COMP_TRIGGER_STOP =>
      if mixer_source_status_count sources comp_state.COMP_STATE_ACTIVE > 0 then
        (1, comp_state.COMP_STATE_ACTIVE)
      else (0, r.2)
    | _ => (0, r.2)

/-- The loop over the source list of `mixer_copy` (mixer.c 264-274): `i` is the index of
the next source buffer in the list and `sel` holds the buffers stored in
`sources[0 .. num_mix_sources - 1]`, each with its index in the source list. The result
is `none` when the loop is left by its `return 0` ("too many sources ?"), and the stored
buffers otherwise. -/
def mixer_copy_select (dev_state : comp_state) :
    List comp_buffer → Nat → List (Nat × comp_buffer) → Option (List (Nat × comp_buffer))
  | [], _, sel => some sel
  | source :: rest, i, sel =>
    let sel1 := if source.source_state = dev_state then sel ++ [(i, source)] else sel
    if (sel1.length : Int) = PLATFORM_MAX_STREAMS - 1 then none
    else mixer_copy_select dev_state rest (i + 1) sel1

/-- The loop "check for underruns" of `mixer_copy` (mixer.c 281-282) over the stored
sources, `frames` being a `uint32_t`. -/
def mixer_copy_frames (sink : comp_buffer) : List (Nat × comp_buffer) → Nat → Nat
  | [], frames => frames
  | source :: rest, frames =>
    mixer_copy_frames sink rest (min frames (comp_avail_frames source.2 sink))

/-- Constant `INT32_MAX`. -/
def INT32_MAX : Nat := 2147483647

/-- Function `mixer_copy` (mixer.c 243-304): the return value and the calls made.
`dev_state` is `dev->state`, `mix_func` is `md->mix_func`, `sink` the first sink buffer
and `bsource_list` the source list. The processing call records the function, the
indices in the source list of the buffers in `sources[]`, in the order of `sources[]`,
and the frame count. -/
def mixer_copy (dev_state : comp_state) (mix_func : Option mix_func_t) (sink : comp_buffer)
    (bsource_list : List comp_buffer) :
    Int × List (copy_call (Option mix_func_t × List Nat × Nat)) :=
  match mixer_copy_select dev_state bsource_list 0 [] with
  | none => (0, [])
  | some [] => (0, [])
  | some (first :: others) =>
    let frames := mixer_copy_frames sink (first :: others) INT32_MAX
    let source_bytes := (frames * first.2.source_frame_bytes) % UINT32_MOD
    let sink_bytes := (frames * sink.sink_frame_bytes) % UINT32_MOD
    (0, [copy_call.process (mix_func, (first :: others).map Prod.fst, frames)] ++
      (first :: others).reverse.map (fun source => copy_call.consume source.1 source_bytes) ++
      [copy_call.produce sink_bytes])

/-! ## `eq_fir.c`: copy, prepare and reset -/

/-- The two function pointers of the FIR component data. -/
inductive eq_fir_slot where
  | general
  | even
deriving DecidableEq, Repr

/-- Function `eq_fir_copy` (eq_fir.c 658-697): the return value and the calls made.
`cl` holds the values `comp_get_copy_limits(dev, &cl)` stored, `nch` is
`dev->params.channels`. A processing call records the pointer it went through
(`eq_fir_func` is `general`, `eq_fir_func_even` is `even`), the function, the frame
count and the channel count. The test `cl.frames & 0x1` reads the lowest bit. -/
def eq_fir_copy (cd : eq_fir_comp_data) (nch : Int) (cl : comp_copy_limits) :
    Int × List (copy_call (eq_fir_slot × eq_fir_func_t × Int × Int)) :=
  let odd : Bool := decide (cl.frames % 2 = 1)
  let cl1 : comp_copy_limits :=
    if odd then
      { cl with
        frames := cl.frames - 1
        source_bytes := cl.source_bytes - cl.source_frame_bytes
        sink_bytes := cl.sink_bytes - cl.sink_frame_bytes }
    else cl
  let calls1 : List (copy_call (eq_fir_slot × eq_fir_func_t × Int × Int)) :=
    if odd then
      [copy_call.process (eq_fir_slot.general, cd.eq_fir_func, 1, nch),
       copy_call.consume 0 (to_size_t cl1.source_frame_bytes),
       copy_call.produce (to_size_t cl1.sink_frame_bytes)]
    else []
  let calls2 : List (copy_call (eq_fir_slot × eq_fir_func_t × Int × Int)) :=
    if cl1.frames > 1 then
      [copy_call.process (eq_fir_slot.even, cd.eq_fir_func_even, cl1.frames, nch),
       copy_call.consume 0 (to_size_t cl1.source_bytes),
       copy_call.produce (to_size_t cl1.sink_bytes)]
    else []
  (0, calls1 ++ calls2)

/-- Function `set_fir_func` (eq_fir.c 129-151) with `set_s16_fir`, `set_s24_fir`,
`set_s32_fir` of the generic build (eq_fir.c 110-127). -/
def set_fir_func (frame_fmt : sof_ipc_frame) (cd : eq_fir_comp_data) :
    Int × eq_fir_comp_data :=
  match frame_fmt with
  | sof_ipc_frame.S16_LE =>
    (0, { cd with eq_fir_func_even := eq_fir_func_t.eq_fir_s16
                  eq_fir_func := eq_fir_func_t.eq_fir_s16 })
  | sof_ipc_frame.S24_4LE =>
    (0, { cd with eq_fir_func_even := eq_fir_func_t.eq_fir_s24
                  eq_fir_func := eq_fir_func_t.eq_fir_s24 })
  | sof_ipc_frame.S32_LE =>
    (0, { cd with eq_fir_func_even := eq_fir_func_t.eq_fir_s32
                  eq_fir_func := eq_fir_func_t.eq_fir_s32 })
  | _ => (-EINVAL, cd)

/-- Function `set_pass_func` (eq_fir.c 191-213). -/
def set_pass_func (frame_fmt : sof_ipc_frame) (cd : eq_fir_comp_data) :
    Int × eq_fir_comp_data :=
  match frame_fmt with
  | sof_ipc_frame.S16_LE =>
    (0, { cd with eq_fir_func_even := eq_fir_func_t.eq_fir_s16_passthrough
                  eq_fir_func := eq_fir_func_t.eq_fir_s16_passthrough })
  | sof_ipc_frame.S24_4LE | sof_ipc_frame.S32_LE =>
    (0, { cd with eq_fir_func_even := eq_fir_func_t.eq_fir_s32_passthrough
                  eq_fir_func := eq_fir_func_t.eq_fir_s32_passthrough })
  | _ => (-EINVAL, cd)

/-- What `eq_fir_prepare` / `eq_iir_prepare` read from outside the component data: the
frame formats of the two neighbours, the return value of `comp_set_sink_buffer`, and the
view of the stored blob through `struct sof_eq_fir_config` / `struct sof_eq_iir_config`. -/
structure eq_prepare_args where
  /-- Value of `comp_frame_fmt(sourceb->source)`. -/
  source_fmt : sof_ipc_frame
  /-- Value of `comp_frame_fmt(sinkb->sink)`. -/
  sink_fmt : sof_ipc_frame
  /-- Return value of `comp_set_sink_buffer(dev, sink_period_bytes, periods_sink)`. -/
  set_sink_buffer : Int
  /-- The typed view of the stored blob. -/
  config_view : List Nat → sof_eq_config

/-- The label `err:` of `eq_fir_prepare` / `eq_iir_prepare`:
`comp_set_state(dev, COMP_TRIGGER_RESET)`, whose return value is dropped. -/
def eq_prepare_err (cenv : comp_env) (dev : comp_dev) : comp_dev :=
  { dev with state := (cenv.comp_set_state dev.state comp_trigger.COMP_TRIGGER_RESET).2 }

/-- The device after the first part of `eq_fir_prepare` / `eq_iir_prepare` (eq_fir.c
709-733, eq_iir.c 754-777): the PREPARE transition is done and `params.frame_fmt` is
rewritten to the format of the host side. -/
def eq_prepare_dev (cenv : comp_env) (args : eq_prepare_args) (dev : comp_dev) : comp_dev :=
  { dev with
    state := (cenv.comp_set_state dev.state comp_trigger.COMP_TRIGGER_PREPARE).2
    frame_fmt :=
      if dev.direction = sof_ipc_stream_direction.SOF_IPC_STREAM_PLAYBACK
      then args.source_fmt else args.sink_fmt }

/-- The part "Initialize EQ" of `eq_fir_prepare` (eq_fir.c 745-759); `dev` and `cd` are
the device and the component data at that point. -/
def eq_fir_prepare_init (cenv : comp_env) (env : eq_env) (args : eq_prepare_args)
    (dev : comp_dev) (cd : eq_fir_comp_data) : Int × comp_dev × eq_fir_comp_data :=
  match cd.config with
  | some blob =>
    let s := eq_fir_setup env cd (args.config_view blob) (wrap_int32 dev.channels)
    if s.1 < 0 then (s.1, eq_prepare_err cenv dev, s.2)
    else
      let f := set_fir_func dev.frame_fmt s.2
      (f.1, dev, f.2)
  | none =>
    let f := set_pass_func dev.frame_fmt cd
    (f.1, dev, f.2)

/-- Function `eq_fir_prepare` (eq_fir.c 699-764): the return value, the device and the
component data it leaves. -/
def eq_fir_prepare (cenv : comp_env) (env : eq_env) (args : eq_prepare_args)
    (dev : comp_dev) (cd : eq_fir_comp_data) : Int × comp_dev × eq_fir_comp_data :=
  let r := cenv.comp_set_state dev.state comp_trigger.COMP_TRIGGER_PREPARE
  if r.1 < 0 then (r.1, { dev with state := r.2 }, cd)
  else if r.1 = cenv.COMP_STATUS_STATE_ALREADY_SET then
    (cenv.PPL_STATUS_PATH_STOP, { dev with state := r.2 }, cd)
  else if args.set_sink_buffer < 0 then
    (args.set_sink_buffer, eq_prepare_err cenv (eq_prepare_dev cenv args dev),
      { cd with source_format := args.source_fmt, sink_format := args.sink_fmt })
  else
    eq_fir_prepare_init cenv env args (eq_prepare_dev cenv args dev)
      { cd with source_format := args.source_fmt, sink_format := args.sink_fmt }

/-- Function `eq_fir_reset` (eq_fir.c 766-782): the return value, the device and the
component data it leaves. -/
def eq_fir_reset (cenv : comp_env) (dev : comp_dev) (cd : eq_fir_comp_data) :
    Int × comp_dev × eq_fir_comp_data :=
  let cd1 := eq_fir_free_delaylines cd
  let cd2 : eq_fir_comp_data :=
    { cd1 with
      eq_fir_func_even := eq_fir_func_t.eq_fir_s32_passthrough
      eq_fir_func := eq_fir_func_t.eq_fir_s32_passthrough
      fir := fun i => if i < PLATFORM_MAX_CHANNELS then eq_chan_reset else cd1.fir i }
  (0, { dev with
        state := (cenv.comp_set_state dev.state comp_trigger.COMP_TRIGGER_RESET).2 }, cd2)

/-- The loop of `eq_fir_s32_passthrough` and of `eq_iir_s32_pass` (eq_fir.c 172-187,
eq_iir.c 211-225): `*y = *x` for the sample indices `i`, `i + 1`, ..., `i + n - 1`; `x` is
the source seen through `buffer_read_frag_s32` and `y` the sink seen through
`buffer_write_frag_s32`. -/
def eq_pass_loop (x : Nat → Int) : Nat → Nat → (Nat → Int) → (Nat → Int)
  | 0, _, y => y
  | n + 1, i, y => eq_pass_loop x n (i + 1) (Function.update y i (x i))

/-- Function `eq_fir_s32_passthrough` (eq_fir.c 172-187): the sink samples it leaves.
The count `n = frames * nch` is an `int`. -/
def eq_fir_s32_passthrough (x y : Nat → Int) (frames nch : Int) : Nat → Int :=
  eq_pass_loop x (wrap_int32 (frames * nch)).toNat 0 y

/-! ## `eq_iir.c`: copy, prepare and reset -/

/-- Function `eq_iir_copy` (eq_iir.c 719-742): the return value and the calls made.
`limits` holds the return value of `comp_get_copy_limits(dev, &cl)` and the values it
stored. The processing call records the function pointer and the frame count. -/
def eq_iir_copy (cd : eq_iir_comp_data) (limits : Int × comp_copy_limits) :
    Int × List (copy_call (Option eq_iir_func_t × Int)) :=
  if limits.1 < 0 then (limits.1, [])
  else
    (0, [copy_call.process (cd.eq_iir_func, limits.2.frames),
         copy_call.consume 0 (to_size_t limits.2.source_bytes),
         copy_call.produce (to_size_t limits.2.sink_bytes)])

/-- Type `struct eq_iir_func_map` (eq_iir.c): an entry of the dispatch tables. -/
structure eq_iir_func_map where
  /-- Field `source`. -/
  source : sof_ipc_frame
  /-- Field `sink`. -/
  sink : sof_ipc_frame
  /-- Field `func`; `none` is `NULL`. -/
  func : Option eq_iir_func_t
deriving DecidableEq, Repr

/-- Table `fm_configured` (eq_iir.c 262-272). -/
def fm_configured : List eq_iir_func_map :=
  [⟨sof_ipc_frame.S16_LE, sof_ipc_frame.S16_LE, some eq_iir_func_t.eq_iir_s16_default⟩,
   ⟨sof_ipc_frame.S16_LE, sof_ipc_frame.S24_4LE, none⟩,
   ⟨sof_ipc_frame.S16_LE, sof_ipc_frame.S32_LE, none⟩,
   ⟨sof_ipc_frame.S24_4LE, sof_ipc_frame.S16_LE, none⟩,
   ⟨sof_ipc_frame.S24_4LE, sof_ipc_frame.S24_4LE, some eq_iir_func_t.eq_iir_s24_default⟩,
   ⟨sof_ipc_frame.S24_4LE, sof_ipc_frame.S32_LE, none⟩,
   ⟨sof_ipc_frame.S32_LE, sof_ipc_frame.S16_LE, some eq_iir_func_t.eq_iir_s32_16_default⟩,
   ⟨sof_ipc_frame.S32_LE, sof_ipc_frame.S24_4LE, some eq_iir_func_t.eq_iir_s32_24_default⟩,
   ⟨sof_ipc_frame.S32_LE, sof_ipc_frame.S32_LE, some eq_iir_func_t.eq_iir_s32_default⟩]

/-- Table `fm_passthrough` (eq_iir.c 274-284). -/
def fm_passthrough : List eq_iir_func_map :=
  [⟨sof_ipc_frame.S16_LE, sof_ipc_frame.S16_LE, some eq_iir_func_t.eq_iir_s16_pass⟩,
   ⟨sof_ipc_frame.S16_LE, sof_ipc_frame.S24_4LE, none⟩,
   ⟨sof_ipc_frame.S16_LE, sof_ipc_frame.S32_LE, none⟩,
   ⟨sof_ipc_frame.S24_4LE, sof_ipc_frame.S16_LE, none⟩,
   ⟨sof_ipc_frame.S24_4LE, sof_ipc_frame.S24_4LE, some eq_iir_func_t.eq_iir_s32_pass⟩,
   ⟨sof_ipc_frame.S24_4LE, sof_ipc_frame.S32_LE, none⟩,
   ⟨sof_ipc_frame.S32_LE, sof_ipc_frame.S16_LE, some eq_iir_func_t.eq_iir_s32_s16_pass⟩,
   ⟨sof_ipc_frame.S32_LE, sof_ipc_frame.S24_4LE, some eq_iir_func_t.eq_iir_s32_s24_pass⟩,
   ⟨sof_ipc_frame.S32_LE, sof_ipc_frame.S32_LE, some eq_iir_func_t.eq_iir_s32_pass⟩]

/-- Function `eq_iir_find_func` (eq_iir.c 286-303). -/
def eq_iir_find_func (cd : eq_iir_comp_data) : List eq_iir_func_map → Option eq_iir_func_t
  | [] => none
  | entry :: rest =>
    if cd.source_format ≠ entry.source then eq_iir_find_func cd rest
    else if cd.sink_format ≠ entry.sink then eq_iir_find_func cd rest
    else entry.func

/-- The selection of the processing function in `eq_iir_prepare` from the table `map`
(eq_iir.c 788-797 and 800-809): without a function in the table `eq_iir_s32_pass` is
installed and the call ends at `err:` with `-EINVAL`. -/
def eq_iir_prepare_func (cenv : comp_env) (dev : comp_dev) (cd : eq_iir_comp_data)
    (map : List eq_iir_func_map) : Int × comp_dev × eq_iir_comp_data :=
  match eq_iir_find_func cd map with
  | none =>
    (-EINVAL, eq_prepare_err cenv dev,
      { cd with eq_iir_func := some eq_iir_func_t.eq_iir_s32_pass })
  | some f => (0, dev, { cd with eq_iir_func := some f })

/-- The part "Initialize EQ" of `eq_iir_prepare` (eq_iir.c 779-812); `dev` and `cd` are
the device and the component data at that point. -/
def eq_iir_prepare_init (cenv : comp_env) (env : eq_env) (args : eq_prepare_args)
    (dev : comp_dev) (cd : eq_iir_comp_data) : Int × comp_dev × eq_iir_comp_data :=
  match cd.config with
  | some blob =>
    let s := eq_iir_setup env cd (args.config_view blob) (wrap_int32 dev.channels)
    if s.1 < 0 then (s.1, eq_prepare_err cenv dev, s.2)
    else eq_iir_prepare_func cenv dev s.2 fm_configured
  | none => eq_iir_prepare_func cenv dev cd fm_passthrough

/-- Function `eq_iir_prepare` (eq_iir.c 744-829): the return value, the device and the
component data it leaves. -/
def eq_iir_prepare (cenv : comp_env) (env : eq_env) (args : eq_prepare_args)
    (dev : comp_dev) (cd : eq_iir_comp_data) : Int × comp_dev × eq_iir_comp_data :=
  let r := cenv.comp_set_state dev.state comp_trigger.COMP_TRIGGER_PREPARE
  if r.1 < 0 then (r.1, { dev with state := r.2 }, cd)
  else if r.1 = cenv.COMP_STATUS_STATE_ALREADY_SET then
    (cenv.PPL_STATUS_PATH_STOP, { dev with state := r.2 }, cd)
  else if args.set_sink_buffer < 0 then
    (args.set_sink_buffer, eq_prepare_err cenv (eq_prepare_dev cenv args dev),
      { cd with source_format := args.source_fmt, sink_format := args.sink_fmt })
  else
    eq_iir_prepare_init cenv env args (eq_prepare_dev cenv args dev)
      { cd with source_format := args.source_fmt, sink_format := args.sink_fmt }

/-- Function `eq_iir_reset` (eq_iir.c 831-846): the return value, the device and the
component data it leaves. -/
def eq_iir_reset (cenv : comp_env) (dev : comp_dev) (cd : eq_iir_comp_data) :
    Int × comp_dev × eq_iir_comp_data :=
  let cd1 := eq_iir_free_delaylines cd
  let cd2 : eq_iir_comp_data :=
    { cd1 with
      eq_iir_func := some eq_iir_func_t.eq_iir_s32_default
      iir := fun i => if i < PLATFORM_MAX_CHANNELS then eq_chan_reset else cd1.iir i }
  (0, { dev with
        state := (cenv.comp_set_state dev.state comp_trigger.COMP_TRIGGER_RESET).2 }, cd2)

/-- Modelled from the spec: `iir_df2t(filter, x)` of the filter core `iir.c`, which is
outside the verified sources: the output sample and the memory of the delay line
afterwards. A channel in the reset state is in bypass ("Bypass: a channel explicitly
configured to pass audio unfiltered", "re-initializes filter state to
identity/silence") and returns its input; for a configured channel the biquad cascade
`core` computes the output from the coefficients, the delay-line memory and the input. -/
def iir_df2t {σ : Type} (core : eq_chan_state → σ → Int → Int × σ) (filter : eq_chan_state)
    (mem : σ) (x : Int) : Int × σ :=
  if filter.coef = none then (x, mem) else core filter mem x

/-- The inner loop of `eq_iir_s32_default` (eq_iir.c 130-136) for one channel: `n` frames
are left, `idx` is the sample index, `mem` the delay-line memory of the channel. -/
def eq_iir_s32_default_frames {σ : Type} (core : eq_chan_state → σ → Int → Int × σ)
    (filter : eq_chan_state) (nch : Nat) (x : Nat → Int) :
    Nat → Nat → σ → (Nat → Int) → (Nat → Int) × σ
  | 0, _, mem, y => (y, mem)
  | n + 1, idx, mem, y =>
    let r := iir_df2t core filter mem (x idx)
    eq_iir_s32_default_frames core filter nch x n (idx + nch) r.2 (Function.update y idx r.1)

/-- The outer loop of `eq_iir_s32_default` (eq_iir.c 127-137): `n` channels are left, `ch`
is the channel. -/
def eq_iir_s32_default_channels {σ : Type} (core : eq_chan_state → σ → Int → Int × σ)
    (iir : Nat → eq_chan_state) (nch frames : Nat) (x : Nat → Int) :
    Nat → Nat → (Nat → σ) → (Nat → Int) → (Nat → Int) × (Nat → σ)
  | 0, _, mem, y => (y, mem)
  | n + 1, ch, mem, y =>
    let r := eq_iir_s32_default_frames core (iir ch) nch x frames ch (mem ch) y
    eq_iir_s32_default_channels core iir nch frames x n (ch + 1)
      (Function.update mem ch r.2) r.1

/-- Function `eq_iir_s32_default` (eq_iir.c 114-139): the sink samples and the delay-line
memories it leaves; `nch` is `dev->params.channels`, `frames` a `uint32_t`. -/
def eq_iir_s32_default {σ : Type} (core : eq_chan_state → σ → Int → Int × σ)
    (iir : Nat → eq_chan_state) (nch frames : Nat) (x : Nat → Int) (mem : Nat → σ)
    (y : Nat → Int) : (Nat → Int) × (Nat → σ) :=
  eq_iir_s32_default_channels core iir nch frames x nch 0 mem y

/-- Function `eq_iir_s32_pass` (eq_iir.c 211-225): the sink samples it leaves. The count
`n = frames * dev->params.channels` is an `int`. -/
def eq_iir_s32_pass (x y : Nat → Int) (frames nch : Nat) : Nat → Int :=
  eq_pass_loop x (wrap_int32 ((frames * nch) % UINT32_MOD)).toNat 0 y

/-! ## `src.c`: the sample rate converter

The coefficient tables and `struct src_stage`, `struct src_param`, `struct src_state`,
`struct polyphase_src` come from headers outside the verified sources (src.h, src_config.h
and the coefficient headers); the tables enter through `src_env`. Arithmetic on `int`
values is taken in the integers: overflow of `int` is undefined in C. Division of `int`
values truncates (`Int.tdiv`). -/

/-- Value of `EIO` (errno.h). -/
def EIO : Int := 5

/-- The fields of `struct src_stage` that src.c reads; all are `int`. -/
structure src_stage where
  /-- Field `idm`. -/
  idm : Int
  /-- Field `odm`. -/
  odm : Int
  /-- Field `num_of_subfilters`. -/
  num_of_subfilters : Int
  /-- Field `subfilter_length`. -/
  subfilter_length : Int
  /-- Field `filter_length`. -/
  filter_length : Int
  /-- Field `blk_in`. -/
  blk_in : Int
  /-- Field `blk_out`. -/
  blk_out : Int
deriving DecidableEq, Repr

/-- Type `struct src_param`; all fields are `int`. -/
structure src_param where
  /-- Field `fir_s1`. -/
  fir_s1 : Int
  /-- Field `fir_s2`. -/
  fir_s2 : Int
  /-- Field `out_s1`. -/
  out_s1 : Int
  /-- Field `out_s2`. -/
  out_s2 : Int
  /-- Field `sbuf_length`. -/
  sbuf_length : Int
  /-- Field `src_multich`. -/
  src_multich : Int
  /-- Field `total`. -/
  total : Int
  /-- Field `blk_in`. -/
  blk_in : Int
  /-- Field `blk_out`. -/
  blk_out : Int
  /-- Field `stage1_times`. -/
  stage1_times : Int
  /-- Field `stage2_times`. -/
  stage2_times : Int
  /-- Field `idx_in`. -/
  idx_in : Int
  /-- Field `idx_out`. -/
  idx_out : Int
  /-- Field `nch`. -/
  nch : Int
deriving DecidableEq, Repr

/-- Declarations used by src.c that are outside the verified sources. -/
structure src_env where
  /-- Table `src_in_fs[NUM_IN_FS]`. -/
  src_in_fs : List Int
  /-- Table `src_out_fs[NUM_OUT_FS]`. -/
  src_out_fs : List Int
  /-- Entry `src_table1[idx_out][idx_in]`. -/
  src_table1 : Int → Int → src_stage
  /-- Entry `src_table2[idx_out][idx_in]`. -/
  src_table2 : Int → Int → src_stage
  /-- Constant `MAX_FIR_DELAY_SIZE`. -/
  MAX_FIR_DELAY_SIZE : Int
  /-- Constant `MAX_OUT_DELAY_SIZE`. -/
  MAX_OUT_DELAY_SIZE : Int
  /-- Whether `rballoc` of the given number of bytes succeeds. -/
  alloc_ok : Nat → Bool

/-- Function `src_fir_delay_length` (src.c 74-78). -/
def src_fir_delay_length (s : src_stage) : Int :=
  s.subfilter_length + (s.num_of_subfilters - 1) * s.idm + s.blk_in

/-- Function `src_out_delay_length` (src.c 81-84). -/
def src_out_delay_length (s : src_stage) : Int :=
  1 + (s.num_of_subfilters - 1) * s.odm

/-- The loop of `src_find_fs` from the index `i` on. -/
def src_find_fs_from : List Int → Int → Int → Int
  | [], _, _ => -EINVAL
  | x :: rest, i, fs => if x = fs then i else src_find_fs_from rest (i + 1) fs

/-- Function `src_find_fs` (src.c 87-96); the list carries its length. -/
def src_find_fs (fs_list : List Int) (fs : Int) : Int := src_find_fs_from fs_list 0 fs

/-- Function `src_buffer_lengths` (src.c 99-172): the return value and the parameters
`*a` it leaves. -/
def src_buffer_lengths (env : src_env) (a : src_param) (fs_in fs_out nch source_frames : Int) :
    Int × src_param :=
  if nch > (PLATFORM_MAX_CHANNELS : Int) then (-EINVAL, a)
  else
    let a1 : src_param :=
      { a with
        nch := nch
        idx_in := src_find_fs env.src_in_fs fs_in
        idx_out := src_find_fs env.src_out_fs fs_out }
    if a1.idx_in < 0 ∨ a1.idx_out < 0 then (-EINVAL, a1)
    else
      let stage1 := env.src_table1 a1.idx_out a1.idx_in
      let stage2 := env.src_table2 a1.idx_out a1.idx_in
      if stage1.filter_length < 1 then (-EINVAL, a1)
      else
        let a2 : src_param :=
          { a1 with
            fir_s1 := nch * src_fir_delay_length stage1
            out_s1 := nch * src_out_delay_length stage1
            stage1_times := 0
            stage2_times := 0
            blk_in := 0
            blk_out := 0 }
        let a3 : src_param :=
          if stage2.filter_length = 1 then
            { a2 with fir_s2 := 0, out_s2 := 0, sbuf_length := 0 }
          else
            { a2 with
              fir_s2 := nch * src_fir_delay_length stage2
              out_s2 := nch * src_out_delay_length stage2
              sbuf_length :=
                2 * nch * stage1.blk_out * (Int.tdiv source_frames stage1.blk_in + 1) }
        let a4 : src_param :=
          { a3 with src_multich := a3.fir_s1 + a3.fir_s2 + a3.out_s1 + a3.out_s2 }
        (0, { a4 with total := a4.sbuf_length + a4.src_multich })

/-- Type `struct src_state`: the sizes and the pointers of the delay lines of a stage.
A pointer is a word offset into the block `cd->delay_lines`; `none` is `NULL`. -/
structure src_state where
  /-- Field `fir_delay_size`. -/
  fir_delay_size : Int
  /-- Field `out_delay_size`. -/
  out_delay_size : Int
  /-- Field `fir_delay`. -/
  fir_delay : Option Int
  /-- Field `out_delay`. -/
  out_delay : Option Int
  /-- Field `fir_wp`. -/
  fir_wp : Option Int
  /-- Field `out_rp`. -/
  out_rp : Option Int
deriving DecidableEq, Repr

/-- Type `struct polyphase_src`; a stage pointer is the stage it points at, `none` is
`NULL`. -/
structure polyphase_src where
  /-- Field `number_of_stages`. -/
  number_of_stages : Int
  /-- Field `stage1`. -/
  stage1 : Option src_stage
  /-- Field `stage2`. -/
  stage2 : Option src_stage
  /-- Field `state1`. -/
  state1 : src_state
  /-- Field `state2`. -/
  state2 : src_state
deriving DecidableEq, Repr

/-- Function `src_state_reset` (src.c 174-178). -/
def src_state_reset (state : src_state) : src_state :=
  { state with fir_delay_size := 0, out_delay_size := 0 }

/-- Function `init_stages` (src.c 180-240): the return value and the converter state
`*src` it leaves. The macros `MAX_FIR_DELAY_SIZE_XNCH` and `MAX_OUT_DELAY_SIZE_XNCH`
(src.c 48-49) are written out. -/
def init_stages (env : src_env) (stage1 stage2 : src_stage) (src : polyphase_src)
    (p : src_param) (n : Int) (delay_lines_start : Int) : Int × polyphase_src :=
  let src0 : polyphase_src :=
    { number_of_stages := n
      stage1 := some stage1
      stage2 := some stage2
      state1 := src_state_reset src.state1
      state2 := src_state_reset src.state2 }
  if n = 1 ∧ stage1.blk_out = 0 then (-EINVAL, src0)
  else if stage1.filter_length > 1 ∧ stage1.subfilter_length % 4 > 0 then (-EINVAL, src0)
  else if stage2.filter_length > 1 ∧ stage2.subfilter_length % 4 > 0 then (-EINVAL, src0)
  else
    let state1 : src_state :=
      { fir_delay_size := p.fir_s1
        out_delay_size := p.out_s1
        fir_delay := some delay_lines_start
        out_delay := some (delay_lines_start + p.fir_s1)
        fir_wp := some (delay_lines_start + (p.fir_s1 - 1))
        out_rp := some (delay_lines_start + p.fir_s1) }
    let state2 : src_state :=
      if n > 1 then
        { fir_delay_size := p.fir_s2
          out_delay_size := p.out_s2
          fir_delay := some (delay_lines_start + p.fir_s1 + p.out_s1)
          out_delay := some (delay_lines_start + p.fir_s1 + p.out_s1 + p.fir_s2)
          fir_wp := some (delay_lines_start + p.fir_s1 + p.out_s1 + (p.fir_s2 - 1))
          out_rp := some (delay_lines_start + p.fir_s1 + p.out_s1 + p.fir_s2) }
      else
        { src0.state2 with
          fir_delay_size := 0, out_delay_size := 0, fir_delay := none, out_delay := none }
    if state1.fir_delay_size > (PLATFORM_MAX_CHANNELS : Int) * env.MAX_FIR_DELAY_SIZE ∨
        state1.out_delay_size > (PLATFORM_MAX_CHANNELS : Int) * env.MAX_OUT_DELAY_SIZE ∨
        state2.fir_delay_size > (PLATFORM_MAX_CHANNELS : Int) * env.MAX_FIR_DELAY_SIZE ∨
        state2.out_delay_size > (PLATFORM_MAX_CHANNELS : Int) * env.MAX_OUT_DELAY_SIZE then
      (-EINVAL,
        { src0 with
          state1 := { state1 with fir_delay := none, out_delay := none }
          state2 := { state2 with fir_delay := none, out_delay := none } })
    else (0, { src0 with state1 := state1, state2 := state2 })

/-- Function `src_polyphase_init` (src.c 251-292): the return value and the converter
state it leaves. -/
def src_polyphase_init (env : src_env) (src : polyphase_src) (p : src_param)
    (delay_lines_start : Int) : Int × polyphase_src :=
  if p.idx_in < 0 ∨ p.idx_out < 0 then (-EINVAL, src)
  else
    let stage1 := env.src_table1 p.idx_out p.idx_in
    let stage2 := env.src_table2 p.idx_out p.idx_in
    let r := init_stages env stage1 stage2 src p 2 delay_lines_start
    if r.1 < 0 then (-EINVAL, r.2)
    else
      let n_stages : Int := if stage2.filter_length = 1 then 1 else 2
      let n_stages : Int := if p.idx_in = p.idx_out then 0 else n_stages
      if stage1.filter_length = 0 then (-EINVAL, r.2)
      else (n_stages, r.2)

/-- The functions `cd->src_func` can point at. -/
inductive src_func_t where
  | src_fallback
  | src_copy_s32
  | src_copy_s16
  | src_1s
  | src_2s
deriving DecidableEq, Repr

/-- Type `struct comp_data` of src.c (src.c 52-71) without `polyphase_func`.
`delay_lines = some n` is a non-null pointer to a block allocated with `n` bytes; the
pointers into the stage buffer are word offsets into that block. -/
structure src_comp_data where
  /-- Field `src`. -/
  src : polyphase_src
  /-- Field `param`. -/
  param : src_param
  /-- Field `delay_lines`. -/
  delay_lines : Option Nat
  /-- Field `sink_rate` (`uint32_t`). -/
  sink_rate : Nat
  /-- Field `source_rate` (`uint32_t`). -/
  source_rate : Nat
  /-- Field `sbuf_w_ptr`. -/
  sbuf_w_ptr : Option Int
  /-- Field `sbuf_r_ptr`. -/
  sbuf_r_ptr : Option Int
  /-- Field `sbuf_avail`. -/
  sbuf_avail : Int
  /-- Field `data_shift`. -/
  data_shift : Int
  /-- Field `source_frames`. -/
  source_frames : Int
  /-- Field `sink_frames`. -/
  sink_frames : Int
  /-- Field `src_func`. -/
  src_func : src_func_t
deriving DecidableEq, Repr

/-- The two rates of `struct sof_ipc_comp_src` (ipc/topology.h), both `uint32_t`. -/
structure sof_ipc_comp_src where
  /-- Field `source_rate`. -/
  source_rate : Nat
  /-- Field `sink_rate`. -/
  sink_rate : Nat
deriving DecidableEq, Repr

/-- The first part of `src_params` (src.c 575-593): the rates and the frame counts of a
period, computed in `uint32_t` and stored in `int` fields, and the rate `params->rate`
rewritten for the next component. -/
def src_params_rates (ipc : sof_ipc_comp_src) (dev : comp_dev) (cd : src_comp_data) :
    comp_dev × src_comp_data :=
  if ipc.source_rate = 0 then
    ({ dev with rate := ipc.sink_rate },
      { cd with
        source_rate := dev.rate
        sink_rate := ipc.sink_rate
        source_frames := wrap_int32 (((dev.frames * dev.rate) % UINT32_MOD / ipc.sink_rate : Nat))
        sink_frames := wrap_int32 dev.frames })
  else
    ({ dev with rate := ipc.source_rate },
      { cd with
        source_rate := ipc.source_rate
        sink_rate := dev.rate
        source_frames := wrap_int32 dev.frames
        sink_frames :=
          wrap_int32 (((dev.frames * dev.rate) % UINT32_MOD / ipc.source_rate : Nat)) })

/-- The end of `src_params` (src.c 646-668): the function installed for the return value
`n` of `src_polyphase_init`, and the return value of `src_params`. -/
def src_params_select (n : Int) (cd : src_comp_data) : Int × src_comp_data :=
  if n = 0 then (0, { cd with src_func := src_func_t.src_copy_s32 })
  else if n = 1 then (0, { cd with src_func := src_func_t.src_1s })
  else if n = 2 then (0, { cd with src_func := src_func_t.src_2s })
  else (-EINVAL, { cd with src_func := src_func_t.src_fallback })

/-- The part of `src_params` after the allocation (src.c 630-668): the converter is
initialised behind the stage buffer, the stage buffer is reset and the conversion
function is installed. -/
def src_params_init (env : src_env) (cd : src_comp_data) (delay_lines_size : Nat) :
    Int × src_comp_data :=
  src_params_select (src_polyphase_init env cd.src cd.param cd.param.sbuf_length).1
    { cd with
      delay_lines := some delay_lines_size
      src := (src_polyphase_init env cd.src cd.param cd.param.sbuf_length).2
      sbuf_r_ptr := some 0
      sbuf_w_ptr := some 0
      sbuf_avail := 0 }

/-- The part of `src_params` after `src_buffer_lengths` succeeded (src.c 608-668);
`sizeof(int32_t) * cd->param.total` is a `size_t`. -/
def src_params_alloc (env : src_env) (cd : src_comp_data) : Int × src_comp_data :=
  if to_size_t (4 * cd.param.total) = 0 then (-EINVAL, cd)
  else if env.alloc_ok (to_size_t (4 * cd.param.total)) = false then
    (-EINVAL, { cd with delay_lines := none })
  else src_params_init env cd (to_size_t (4 * cd.param.total))

/-- The call of `src_buffer_lengths` in `src_params` (src.c 599-600), `cd` being the
component data with the rates and frame counts stored. -/
def src_params_lengths (env : src_env) (dev : comp_dev) (cd : src_comp_data) :
    Int × src_param :=
  src_buffer_lengths env cd.param (wrap_int32 cd.source_rate) (wrap_int32 cd.sink_rate)
    (wrap_int32 dev.channels) cd.source_frames

/-- Function `src_params` (src.c 560-669): the return value, the device and the
component data it leaves. -/
def src_params (env : src_env) (ipc : sof_ipc_comp_src) (dev : comp_dev)
    (cd : src_comp_data) : Int × comp_dev × src_comp_data :=
  if (src_params_lengths env dev (src_params_rates ipc dev cd).2).1 < 0 then
    ((src_params_lengths env dev (src_params_rates ipc dev cd).2).1,
      (src_params_rates ipc dev cd).1,
      { (src_params_rates ipc dev cd).2 with
        param := (src_params_lengths env dev (src_params_rates ipc dev cd).2).2 })
  else
    ((src_params_alloc env
        { (src_params_rates ipc dev cd).2 with
          param := (src_params_lengths env dev (src_params_rates ipc dev cd).2).2 }).1,
      (src_params_rates ipc dev cd).1,
      (src_params_alloc env
        { (src_params_rates ipc dev cd).2 with
          param := (src_params_lengths env dev (src_params_rates ipc dev cd).2).2 }).2)

/-- Function `src_get_copy_limits` (src.c 692-737), for the stages `s1` and `s2` that
`cd->src.stage1` and `cd->src.stage2` point at: the return value and the parameters
`cd->param` it leaves. The byte counters and the frame sizes are `uint32_t`, their
quotient is stored in an `int`. In the single-stage case the second `MIN` is assigned to
`frames_snk` (src.c 728), so `frames_src` stays as computed. -/
def src_get_copy_limits_stages (cd : src_comp_data) (s1 s2 : src_stage)
    (source sink : comp_buffer) : Int × src_param :=
  let sp := cd.param
  let sp1 : src_param :=
    if s2.filter_length > 1 then
      let frames_snk : Int := wrap_int32 ((sink.free / sink.sink_frame_bytes : Nat))
      let frames_snk : Int := min frames_snk (cd.sink_frames + s2.blk_out)
      let stage2_times : Int := Int.tdiv frames_snk s2.blk_out
      let frames_src : Int := wrap_int32 ((source.avail / source.source_frame_bytes : Nat))
      let frames_src : Int := min frames_src (cd.source_frames + s1.blk_in)
      let stage1_times : Int := Int.tdiv frames_src s1.blk_in
      { sp with
        stage2_times := stage2_times
        stage1_times := stage1_times
        blk_in := stage1_times * s1.blk_in
        blk_out := stage2_times * s2.blk_out }
    else
      let frames_snk : Int := wrap_int32 ((sink.free / sink.sink_frame_bytes : Nat))
      let frames_snk : Int := min frames_snk (cd.sink_frames + s1.blk_out)
      let stage1_times : Int := Int.tdiv frames_snk s1.blk_out
      let frames_src : Int := wrap_int32 ((source.avail / source.source_frame_bytes : Nat))
      let stage1_times : Int := min stage1_times (Int.tdiv frames_src s1.blk_in)
      { sp with
        stage1_times := stage1_times
        blk_in := stage1_times * s1.blk_in
        blk_out := stage1_times * s1.blk_out }
  if sp1.blk_in = 0 ∨ sp1.blk_out = 0 then (- EIO, sp1) else (0, sp1)

/-- Function `src_get_copy_limits` (src.c 692-737); `none` stands for the read through a
null stage pointer. -/
def src_get_copy_limits (cd : src_comp_data) (source sink : comp_buffer) :
    Option (Int × src_param) :=
  match cd.src.stage1, cd.src.stage2 with
  | some s1, some s2 => some (src_get_copy_limits_stages cd s1 s2 source sink)
  | _, _ => none

/-- Function `src_copy` (src.c 740-786): the return value and the calls made; `none`
stands for the read through a null stage pointer. `run` gives the frame counts
`consumed` and `produced` that the conversion function reports for the component data
it is called with. The processing call records the function and the block sizes
`blk_in` and `blk_out` it finds in `cd->param`. -/
def src_copy (run : src_func_t → src_comp_data → Int × Int) (cd : src_comp_data)
    (source sink : comp_buffer) :
    Option (Int × List (copy_call (src_func_t × Int × Int))) :=
  match src_get_copy_limits cd source sink with
  | none => none
  | some r =>
    if r.1 ≠ 0 then some (r.1, [])
    else
      let cd1 : src_comp_data := { cd with param := r.2 }
      let consumed := (run cd.src_func cd1).1
      let produced := (run cd.src_func cd1).2
      some (0, [copy_call.process (cd.src_func, r.2.blk_in, r.2.blk_out)] ++
        (if consumed > 0 then
          [copy_call.consume 0 (to_size_t (consumed * source.source_frame_bytes))]
         else []) ++
        (if produced > 0 then
          [copy_call.produce (to_size_t (produced * sink.sink_frame_bytes))]
         else []))

/-! ## Specification-side notions for the mixer copy claims -/

/-- The source buffers of `bsource_list` whose writing component is in the state `st`,
each with its index in the list, in list order. -/
def mixer_qualifying (st : comp_state) (bsource_list : List comp_buffer) :
    List (Nat × comp_buffer) :=
  bsource_list.enum.filter (fun source => source.2.source_state = st)

/-- The minimum of `INT32_MAX` and of `comp_avail_frames(source, sink)` over the buffers
`sel`. -/
def mixer_frame_budget (sink : comp_buffer) (sel : List (Nat × comp_buffer)) : Nat :=
  (sel.map (fun source => comp_avail_frames source.2 sink)).foldr min INT32_MAX

/-- The indices of the source buffers the calls `calls` consume from, in call order. -/
def consumed_sources {α : Type} (calls : List (copy_call α)) : List Nat :=
  calls.filterMap (fun c =>
    match c with
    | copy_call.consume source _ => some source
    | _ => none)

/-- The number of calls to `comp_update_buffer_produce` among `calls`. -/
def produce_count {α : Type} (calls : List (copy_call α)) : Nat :=
  (calls.filter (fun c =>
    match c with
    | copy_call.produce _ => true
    | _ => false)).length

/-! ## Sample buffers for the copy claims -/

/-- A buffer between a component in the state `source_state` and one in the state
`sink_state`, with stereo 16-bit frames on both ends. -/
def buffer_s16_stereo (avail free : Nat) (source_state sink_state : comp_state) :
    comp_buffer :=
  { avail := avail, free := free, source_state := source_state, sink_state := sink_state
    source_frame_bytes := 4, sink_frame_bytes := 4 }

/-- The sink buffer of a mixer: 40 bytes free, read by an active component. -/
def mixer_sink_buffer : comp_buffer :=
  buffer_s16_stereo 0 40 comp_state.COMP_STATE_ACTIVE comp_state.COMP_STATE_ACTIVE

/-- Three source buffers of a mixer: an active one with 100 bytes, a paused one with 8
bytes, an active one with 24 bytes. -/
def mixer_sources_three : List comp_buffer :=
  [buffer_s16_stereo 100 0 comp_state.COMP_STATE_ACTIVE comp_state.COMP_STATE_ACTIVE,
   buffer_s16_stereo 8 0 comp_state.COMP_STATE_PAUSED comp_state.COMP_STATE_ACTIVE,
   buffer_s16_stereo 24 0 comp_state.COMP_STATE_ACTIVE comp_state.COMP_STATE_ACTIVE]

/-- Four source buffers of a mixer, all written by active components, 16 bytes each. -/
def mixer_sources_four : List comp_buffer :=
  List.replicate 4
    (buffer_s16_stereo 16 0 comp_state.COMP_STATE_ACTIVE comp_state.COMP_STATE_ACTIVE)

/-- Five source buffers of a mixer: a paused one and four written by active
components, with 32 bytes each. -/
def mixer_sources_five : List comp_buffer :=
  buffer_s16_stereo 32 0 comp_state.COMP_STATE_PAUSED comp_state.COMP_STATE_ACTIVE ::
    List.replicate 4
      (buffer_s16_stereo 32 0 comp_state.COMP_STATE_ACTIVE comp_state.COMP_STATE_ACTIVE)

/-- One source buffer of a mixer, written by an active component, with nothing to
read. -/
def mixer_sources_empty : List comp_buffer :=
  [buffer_s16_stereo 0 64 comp_state.COMP_STATE_ACTIVE comp_state.COMP_STATE_ACTIVE]

/-- A component core for the sample runs: every command is accepted with the return
value 0, `COMP_TRIGGER_START` and `COMP_TRIGGER_RELEASE` lead to ACTIVE,
`COMP_TRIGGER_PAUSE` to PAUSED, `COMP_TRIGGER_STOP` and `COMP_TRIGGER_PREPARE` to
PREPARE, `COMP_TRIGGER_RESET` to READY, and a command that asks for the state the
component is in returns `COMP_STATUS_STATE_ALREADY_SET`. -/
def comp_env_sample : comp_env :=
  { comp_set_state := fun st cmd =>
      let target :=
        match cmd with
        | comp_trigger.COMP_TRIGGER_START => comp_state.COMP_STATE_ACTIVE
        | comp_trigger.COMP_TRIGGER_RELEASE => comp_state.COMP_STATE_ACTIVE
        | comp_trigger.COMP_TRIGGER_PAUSE => comp_state.COMP_STATE_PAUSED
        | comp_trigger.COMP_TRIGGER_STOP => comp_state.COMP_STATE_PREPARE
        | comp_trigger.COMP_TRIGGER_PREPARE => comp_state.COMP_STATE_PREPARE
        | comp_trigger.COMP_TRIGGER_RESET => comp_state.COMP_STATE_READY
        | _ => st
      if target = st then (1, st) else (0, target)
    COMP_STATUS_STATE_ALREADY_SET := 1
    PPL_STATUS_PATH_STOP := 1 }

/-! ## Sample inputs for the equalizer copy, prepare and reset claims -/

/-- The four bytes of a 32-bit word, little endian. -/
def le32_bytes (v : Int) : List Nat :=
  [(v % 256).toNat, ((v / 256) % 256).toNat, ((v / 65536) % 256).toNat,
   ((v / 16777216) % 256).toNat]

/-- The 32-bit word stored little endian at the byte offset `off` of `b`, as an
`int32_t`. -/
def le32_word (b : List Nat) (off : Nat) : Int :=
  wrap_int32 ((b.getD off 0 : Int) + 256 * (b.getD (off + 1) 0 : Int) +
    65536 * (b.getD (off + 2) 0 : Int) + 16777216 * (b.getD (off + 3) 0 : Int))

/-- The bytes of the two-channel IIR blob `iir_config_stereo` (88 bytes): `size = 88`,
`channels_in_config = 2`, `number_of_responses = 1`, 16 reserved bytes, and the 15 words
of `data[]`. -/
def iir_blob_stereo : List Nat :=
  le32_bytes 88 ++ le32_bytes 2 ++ le32_bytes 1 ++ List.replicate 16 0 ++
    ([-1, 0, 1, 1, 0, 0, 0, 0, 0, 0, 0, 0, 1073741824, 0, 0].map le32_bytes).flatten

/-- A view of stored bytes through `struct sof_eq_iir_config`: three 32-bit header
fields, 16 reserved bytes, then the 32-bit words `data[]`. -/
def iir_config_view_sample (b : List Nat) : sof_eq_config where
  size := (le32_word b 0).toNat
  channels_in_config := (le32_word b 4).toNat
  number_of_responses := (le32_word b 8).toNat
  data := fun k => if 0 ≤ k then le32_word b (28 + 4 * k.toNat) else 0

/-- A playback device in READY state: stereo, 48 frames per period. -/
def comp_dev_sample : comp_dev where
  state := comp_state.COMP_STATE_READY
  frame_fmt := sof_ipc_frame.S32_LE
  channels := 2
  direction := sof_ipc_stream_direction.SOF_IPC_STREAM_PLAYBACK
  rate := 48000
  sample_container_bytes := 4
  frames := 48

/-- The surroundings of a prepare call: the two neighbour formats and the return value
of `comp_set_sink_buffer`; the stored blob is read as an IIR blob. -/
def eq_prepare_args_sample (source_fmt sink_fmt : sof_ipc_frame) (set_sink_buffer : Int) :
    eq_prepare_args where
  source_fmt := source_fmt
  sink_fmt := sink_fmt
  set_sink_buffer := set_sink_buffer
  config_view := iir_config_view_sample

/-- Component data of an IIR equalizer that was created with the blob
`iir_blob_stereo`. -/
def eq_iir_cd_configured : eq_iir_comp_data :=
  { eq_iir_cd_sample with config := some iir_blob_stereo }

/-- Component data of an IIR equalizer after a successful setup for two channels with
the blob `iir_blob_stereo`: channel 1 has its delay line at the start of a 16-byte
arena. -/
def eq_iir_cd_prepared : eq_iir_comp_data :=
  { eq_iir_cd_configured with
    iir := fun i => if i = 1 then ⟨some 0, 16, some 0⟩ else eq_chan_reset
    iir_delay := some 16
    iir_delay_size := 16
    eq_iir_func := some eq_iir_func_t.eq_iir_s32_default }

/-- Component data of a FIR equalizer after a successful setup for two channels with
the blob `fir_blob_stereo`: channel 1 has its delay line at the start of a 16-byte
arena. -/
def eq_fir_cd_prepared : eq_fir_comp_data :=
  { eq_fir_cd_sample with
    config := some fir_blob_stereo
    fir := fun i => if i = 1 then ⟨some 0, 16, some 0⟩ else eq_chan_reset
    fir_delay := some 16
    fir_delay_size := 16
    eq_fir_func_even := eq_fir_func_t.eq_fir_s32
    eq_fir_func := eq_fir_func_t.eq_fir_s32 }

/-- Copy limits for `frames` frames of stereo 32-bit samples on both sides. -/
def copy_limits_sample (frames : Int) : comp_copy_limits where
  frames := frames
  source_bytes := frames * 8
  sink_bytes := frames * 8
  source_frame_bytes := 8
  sink_frame_bytes := 8

/-- A source buffer with the samples 11, 22, 33, ... -/
def eq_source_sample : Nat → Int := fun k => 11 * ((k : Int) + 1)

/-! ## Specification-side notions and sample tables for the rate converter claims -/

/-- The conversion mode the specification names for a pair of rates and the second stage
of the table: 0 (direct copy) for equal rates, 1 (single stage) when the second stage has
filter length 1, 2 (two stages) otherwise. -/
def src_mode (fs_in fs_out : Int) (stage2 : src_stage) : Int :=
  if fs_in = fs_out then 0 else if stage2.filter_length = 1 then 1 else 2

/-- The conversion function that goes with `src_mode`. -/
def src_mode_func (fs_in fs_out : Int) (stage2 : src_stage) : src_func_t :=
  if fs_in = fs_out then src_func_t.src_copy_s32
  else if stage2.filter_length = 1 then src_func_t.src_1s
  else src_func_t.src_2s

/-- What `init_stages` asks of a table entry: a sub-filter length that is a multiple of
4 when the filter is longer than 1, and delay lines per channel within
`MAX_FIR_DELAY_SIZE` and `MAX_OUT_DELAY_SIZE`. -/
def src_stage_fits (env : src_env) (s : src_stage) : Prop :=
  (s.filter_length > 1 → s.subfilter_length % 4 = 0) ∧
  0 ≤ src_fir_delay_length s ∧ src_fir_delay_length s ≤ env.MAX_FIR_DELAY_SIZE ∧
  0 ≤ src_out_delay_length s ∧ src_out_delay_length s ≤ env.MAX_OUT_DELAY_SIZE

instance (env : src_env) (s : src_stage) : Decidable (src_stage_fits env s) := by
  unfold src_stage_fits
  infer_instance

/-- The entry of `src_table1` for a pair of rates, as `src_buffer_lengths` and
`src_polyphase_init` look it up. -/
def src_lookup1 (env : src_env) (fs_in fs_out : Int) : src_stage :=
  env.src_table1 (src_find_fs env.src_out_fs fs_out) (src_find_fs env.src_in_fs fs_in)

/-- The entry of `src_table2` for a pair of rates. -/
def src_lookup2 (env : src_env) (fs_in fs_out : Int) : src_stage :=
  env.src_table2 (src_find_fs env.src_out_fs fs_out) (src_find_fs env.src_in_fs fs_in)

/-- A supported pair of rates: both rates are in the rate lists and the first stage of
the table has a filter length of at least 1. -/
def src_supported (env : src_env) (fs_in fs_out : Int) : Prop :=
  fs_in ∈ env.src_in_fs ∧ fs_out ∈ env.src_out_fs ∧
    1 ≤ (src_lookup1 env fs_in fs_out).filter_length

instance (env : src_env) (fs_in fs_out : Int) : Decidable (src_supported env fs_in fs_out) := by
  unfold src_supported
  infer_instance

/-- What the code takes for granted about the tables at a pair of rates: the two rate
lists carry a rate at the same index, so that equal indices mean equal rates, and the two
stages pass the checks of `init_stages`. -/
def src_tables_fit (env : src_env) (fs_in fs_out : Int) : Prop :=
  (src_find_fs env.src_in_fs fs_in = src_find_fs env.src_out_fs fs_out ↔ fs_in = fs_out) ∧
    src_stage_fits env (src_lookup1 env fs_in fs_out) ∧
    src_stage_fits env (src_lookup2 env fs_in fs_out)

instance (env : src_env) (fs_in fs_out : Int) : Decidable (src_tables_fit env fs_in fs_out) := by
  unfold src_tables_fit
  infer_instance

/-- A stage for equal rates: one tap, blocks of one frame. -/
def src_stage_1_1 : src_stage :=
  { idm := 0, odm := 0, num_of_subfilters := 1, subfilter_length := 1, filter_length := 1
    blk_in := 1, blk_out := 1 }

/-- The entry of a deleted rate combination. -/
def src_stage_deleted : src_stage :=
  { idm := 0, odm := 0, num_of_subfilters := 0, subfilter_length := 0, filter_length := 0
    blk_in := 0, blk_out := 0 }

/-- A stage that converts 3 frames to 1. -/
def src_stage_1_3 : src_stage :=
  { idm := 3, odm := 1, num_of_subfilters := 1, subfilter_length := 44, filter_length := 44
    blk_in := 3, blk_out := 1 }

/-- A stage that converts 7 frames to 8. -/
def src_stage_8_7 : src_stage :=
  { idm := 7, odm := 8, num_of_subfilters := 8, subfilter_length := 16, filter_length := 128
    blk_in := 7, blk_out := 8 }

/-- A stage that converts 21 frames to 20. -/
def src_stage_20_21 : src_stage :=
  { idm := 21, odm := 20, num_of_subfilters := 20, subfilter_length := 12
    filter_length := 240, blk_in := 21, blk_out := 20 }

/-- Sample tables: the rates 8000, 16000, 44100 and 48000 on both sides; equal rates are
copied, 48000 to 16000 takes one stage, 44100 to 48000 takes two stages, every other
combination is deleted. -/
def src_env_sample : src_env where
  src_in_fs := [8000, 16000, 44100, 48000]
  src_out_fs := [8000, 16000, 44100, 48000]
  src_table1 := fun idx_out idx_in =>
    if idx_in = idx_out then src_stage_1_1
    else if idx_in = 3 ∧ idx_out = 1 then src_stage_1_3
    else if idx_in = 2 ∧ idx_out = 3 then src_stage_8_7
    else src_stage_deleted
  src_table2 := fun idx_out idx_in =>
    if idx_in = idx_out then src_stage_1_1
    else if idx_in = 3 ∧ idx_out = 1 then src_stage_1_1
    else if idx_in = 2 ∧ idx_out = 3 then src_stage_20_21
    else src_stage_deleted
  MAX_FIR_DELAY_SIZE := 432
  MAX_OUT_DELAY_SIZE := 381
  alloc_ok := fun _ => true

/-- Parameters with every field 0. -/
def src_param_zero : src_param :=
  { fir_s1 := 0, fir_s2 := 0, out_s1 := 0, out_s2 := 0, sbuf_length := 0, src_multich := 0
    total := 0, blk_in := 0, blk_out := 0, stage1_times := 0, stage2_times := 0, idx_in := 0
    idx_out := 0, nch := 0 }

/-- Component data of a rate converter right after `src_new` (src.c 515-524). -/
def src_cd_sample : src_comp_data where
  src :=
    { number_of_stages := 0, stage1 := none, stage2 := none
      state1 := ⟨0, 0, none, none, none, none⟩, state2 := ⟨0, 0, none, none, none, none⟩ }
  param := src_param_zero
  delay_lines := none
  sink_rate := 0
  source_rate := 0
  sbuf_w_ptr := none
  sbuf_r_ptr := none
  sbuf_avail := 0
  data_shift := 0
  source_frames := 0
  sink_frames := 0
  src_func := src_func_t.src_fallback

/-- The conversion functions as `src_1s`, `src_copy_s32` and `src_fallback` report
their frame counts (src.c 294-299, 410-412, 444-445); for the other functions the sample
reports the block sizes as well. -/
def src_run_sample (f : src_func_t) (cd : src_comp_data) : Int × Int :=
  match f with
  | src_func_t.src_fallback => (0, 0)
  | src_func_t.src_copy_s32 => (cd.param.blk_in, cd.param.blk_in)
  | src_func_t.src_copy_s16 => (cd.param.blk_in, cd.param.blk_in)
  | _ => (cd.param.blk_in, cd.param.blk_out)

/-- A buffer with stereo 32-bit frames on both ends between two active components. -/
def buffer_s32_stereo (avail free : Nat) : comp_buffer :=
  { avail := avail, free := free, source_state := comp_state.COMP_STATE_ACTIVE
    sink_state := comp_state.COMP_STATE_ACTIVE, source_frame_bytes := 8
    sink_frame_bytes := 8 }

/-- Component data of a rate converter from 48000 to 16000 after `src_params` on the
sample tables, for the stereo device `comp_dev_sample` with 48 frames per period: one
stage with blocks of 3 frames in and 1 frame out. -/
def src_cd_one_stage : src_comp_data :=
  (src_params src_env_sample ⟨0, 16000⟩ comp_dev_sample src_cd_sample).2.2

/-- Component data of a rate converter from 44100 to 48000 after `src_params` on the
sample tables: two stages, blocks of 7 frames in and of 20 frames out. -/
def src_cd_two_stage : src_comp_data :=
  (src_params src_env_sample ⟨44100, 0⟩ comp_dev_sample src_cd_sample).2.2

/-! ## Control commands: the switch store on the typed blob, and GET_DATA -/

/-- Conversion of an integer to `int16_t`, as a store into a 16-bit element does it (two's
complement, modulo `2^16`). -/
def wrap_int16 (x : Int) : Int := (x + 2 ^ 15) % 2 ^ 16 - 2 ^ 15

/-- Function `eq_fir_switch_store` (eq_fir.c 354-367) on the typed view of the stored
blob: the return value, the channel states `fir[]` and the blob it leaves. The elements
of `config->data[]` are 16-bit words (`int16_t *assign_response = &config->data[0]`,
eq_fir.c 250 and 277) and `response` is an `int32_t`, so the store
`config->data[ch] = response` converts. -/
def eq_fir_switch_store_view (fir : Nat → eq_chan_state) (config : Option sof_eq_config)
    (ch : Nat) (response : Int) : Int × (Nat → eq_chan_state) × Option sof_eq_config :=
  match config with
  | none => (-EINVAL, fir, none)
  | some c =>
    if ch ≥ c.channels_in_config then (-EINVAL, fir, some c)
    else
      (0, fir, some { c with data := Function.update c.data (ch : Int) (wrap_int16 response) })

/-- Function `eq_iir_switch_store` (eq_iir.c 442-455) on the typed view of the stored
blob. The elements of `config->data[]` are 32-bit words, as `response` is. -/
def eq_iir_switch_store_view (iir : Nat → eq_chan_state) (config : Option sof_eq_config)
    (ch : Nat) (response : Int) : Int × (Nat → eq_chan_state) × Option sof_eq_config :=
  match config with
  | none => (-EINVAL, iir, none)
  | some c =>
    if ch ≥ c.channels_in_config then (-EINVAL, iir, some c)
    else (0, iir, some { c with data := Function.update c.data (ch : Int) response })

/-- What a call that returned leaves behind (the component data, or the message). -/
def cmd_result.out? {σ : Type} : cmd_result σ → Option σ
  | cmd_result.done _ cd => some cd
  | _ => none

/-- Whether the call ran into undefined behaviour. -/
def cmd_result.is_undefined {σ : Type} : cmd_result σ → Bool
  | cmd_result.undefined => true
  | _ => false

/-- Function `fir_cmd_get_data` (eq_fir.c 463-515): how the call ends and the message
`*cdata` it leaves (`num_elems`, `elems_remaining`, the payload bytes and the field
`data->size` of the ABI header). `hdr_bytes` is
`sizeof(struct sof_ipc_ctrl_data) + sizeof(struct sof_abi_hdr)` (ipc/control.h and
kernel/abi.h are outside the verified sources). `max_size` is an `int`; `bs` and `offset`
are `size_t` and `msg_index` is a `uint32_t`, so the comparison `bs > max_size` and the
products with `max_size` are taken in 32-bit unsigned arithmetic. The copy is
`assert(!memcpy_s(dst, data->size, src + offset, bs))`, with `memcpy_s` as in
`assert_memcpy_s`: it is refused, and the `assert` fails, when `bs` exceeds the
destination size, here the size the ABI header of the request announces; a copy that
passes the check reads past the end of the stored block when `offset + bs` exceeds the
length of the block. -/
def fir_cmd_get_data (env : eq_env) (hdr_bytes : Nat) (cd : eq_fir_comp_data)
    (cdata : sof_ipc_ctrl_data) (max_size : Int) : cmd_result sof_ipc_ctrl_data :=
  match cdata.cmd with
  | sof_ipc_ctrl_cmd.SOF_CTRL_CMD_BINARY =>
    let max_size1 : Int := wrap_int32 (max_size - (hdr_bytes : Int))
    match cd.config with
    | none => cmd_result.done (-EINVAL) cdata
    | some b =>
      let size := env.fir_config_size (blob_mem b)
      let m := to_size_t max_size1
      let bs : Nat :=
        if size > m then
          if ((cdata.msg_index + 1) * m) % UINT32_MOD > size
          then to_size_t ((size : Int) - ((cdata.msg_index * m) % UINT32_MOD : Nat))
          else m
        else size
      let offset : Nat := if size > m then (cdata.msg_index * m) % UINT32_MOD else 0
      let elems_remaining : Nat :=
        if size > m then to_size_t ((size : Int) - (offset : Int)) else 0
      if bs > cdata.data_size then cmd_result.assert_failed
      else if offset + bs > b.length then cmd_result.undefined
      else
        cmd_result.done 0
          { cdata with
            elems_remaining := elems_remaining
            num_elems := bs
            data := fun k => if k < bs then blob_mem b (offset + k) else cdata.data k
            data_size := bs }
  | _ => cmd_result.done (-EINVAL) cdata

/-! ## IMX8 interrupt steering: interrupt-map.h, irqsteer.h and drivers/imx/interrupt.c

An interrupt number is a `uint32_t`; shifts and sums are taken modulo `2^32`. -/

/-- Constant `SOF_IRQ_BIT_SHIFT` (interrupt-map.h 20). -/
def SOF_IRQ_BIT_SHIFT : Nat := 31

/-- Constant `SOF_IRQ_LEVEL_SHIFT` (interrupt-map.h 21). -/
def SOF_IRQ_LEVEL_SHIFT : Nat := 31

/-- Constant `SOF_IRQ_CPU_SHIFT` (interrupt-map.h 22). -/
def SOF_IRQ_CPU_SHIFT : Nat := 31

/-- Constant `SOF_IRQ_ID_SHIFT` (interrupt-map.h 23). -/
def SOF_IRQ_ID_SHIFT : Nat := 5

/-- Constant `SOF_IRQ_NUM_SHIFT` (interrupt-map.h 24). -/
def SOF_IRQ_NUM_SHIFT : Nat := 0

/-- Constant `SOF_IRQ_NUM_MASK` (interrupt-map.h 25), `0x1f`. -/
def SOF_IRQ_NUM_MASK : Nat := 31

/-- Constant `SOF_IRQ_LEVEL_MASK` (interrupt-map.h 26). -/
def SOF_IRQ_LEVEL_MASK : Nat := 0

/-- Constant `SOF_IRQ_BIT_MASK` (interrupt-map.h 27). -/
def SOF_IRQ_BIT_MASK : Nat := 0

/-- Constant `SOF_IRQ_CPU_MASK` (interrupt-map.h 28). -/
def SOF_IRQ_CPU_MASK : Nat := 0

/-- Constant `SOF_IRQ_ID_MASK` (interrupt-map.h 29), `0xff`. -/
def SOF_IRQ_ID_MASK : Nat := 255

/-- Macro `SOF_ID_IRQ(_id, _bit, _level, _cpu, _number)` (interrupt-map.h 58-63) on
`uint32_t` operands. -/
def SOF_ID_IRQ (id bit level cpu number : Nat) : Nat :=
  ((id <<< SOF_IRQ_ID_SHIFT) % UINT32_MOD) ||| ((bit <<< SOF_IRQ_BIT_SHIFT) % UINT32_MOD) |||
    ((level <<< SOF_IRQ_LEVEL_SHIFT) % UINT32_MOD) |||
    ((cpu <<< SOF_IRQ_CPU_SHIFT) % UINT32_MOD) |||
    ((number <<< SOF_IRQ_NUM_SHIFT) % UINT32_MOD)

/-- Macro `SOF_IRQ_NUMBER(_irq)` (interrupt-map.h 74-75). -/
def SOF_IRQ_NUMBER (irq : Nat) : Nat := (irq >>> SOF_IRQ_NUM_SHIFT) &&& SOF_IRQ_NUM_MASK

/-- Macro `SOF_IRQ_LEVEL(_level)` (interrupt-map.h 76-77). -/
def SOF_IRQ_LEVEL (irq : Nat) : Nat := (irq >>> SOF_IRQ_LEVEL_SHIFT) &&& SOF_IRQ_LEVEL_MASK

/-- Macro `SOF_IRQ_BIT(_bit)` (interrupt-map.h 78-79). -/
def SOF_IRQ_BIT (irq : Nat) : Nat := (irq >>> SOF_IRQ_BIT_SHIFT) &&& SOF_IRQ_BIT_MASK

/-- Macro `SOF_IRQ_CPU(_cpu)` (interrupt-map.h 80-81). -/
def SOF_IRQ_CPU (irq : Nat) : Nat := (irq >>> SOF_IRQ_CPU_SHIFT) &&& SOF_IRQ_CPU_MASK

/-- Macro `SOF_IRQ_ID(_bit)` (interrupt-map.h 82-83). -/
def SOF_IRQ_ID (irq : Nat) : Nat := (irq >>> SOF_IRQ_ID_SHIFT) &&& SOF_IRQ_ID_MASK

/-- Constant `IRQ_NUM_IRQSTR_DSP0` (platform/drivers/interrupt.h 23). -/
def IRQ_NUM_IRQSTR_DSP0 : Nat := 19

/-- Constant `IRQ_NUM_IRQSTR_DSP7` (platform/drivers/interrupt.h 30). -/
def IRQ_NUM_IRQSTR_DSP7 : Nat := 26

/-- Constant `STEER_NB_IRQ_VECTORS` (irqsteer.h 34). -/
def STEER_NB_IRQ_VECTORS : Nat := 8

/-- Macro `STEERSPI2IRQ(spi)` (irqsteer.h 24-25). -/
def STEERSPI2IRQ (spi : Nat) : Nat := (spi / 64 + IRQ_NUM_IRQSTR_DSP0) % UINT32_MOD

/-- Function `sof_imx_irq` (irqsteer.h 27-28). -/
def sof_imx_irq (spi : Nat) : Nat := SOF_ID_IRQ spi 0 0 0 (STEERSPI2IRQ spi)

/-- The fields of `struct irq_desc` (sof/drivers/interrupt.h, outside the verified
sources) that `get_irq_parent` sets in a parent descriptor; its `handler` is
`irq_handler_parent`. -/
structure irq_desc where
  /-- Field `handler_arg`. -/
  handler_arg : Nat
  /-- Field `irq`. -/
  irq : Nat
deriving DecidableEq, Repr

/-- How a call of the interrupt driver ends: it returns `value` and leaves the table
`steer_irq_parent`, or an `assert` fails, or it runs into undefined behaviour (an access
outside the table). -/
inductive irq_result (α : Type) where
  | done (value : α) (steer_irq_parent : Nat → Option irq_desc)
  | assert_failed
  | undefined

/-- The value a call of the interrupt driver returned. -/
def irq_result.value? {α : Type} : irq_result α → Option α
  | irq_result.done v _ => some v
  | _ => none

/-- The table `steer_irq_parent` a call of the interrupt driver left. -/
def irq_result.parents? {α : Type} : irq_result α → Option (Nat → Option irq_desc)
  | irq_result.done _ t => some t
  | _ => none

/-- Whether a call of the interrupt driver ended in a failed `assert`. -/
def irq_result.is_assert_failed {α : Type} : irq_result α → Bool
  | irq_result.assert_failed => true
  | _ => false

/-- Function `get_irq_parent` (interrupt.c 98-118). `alloc_ok` tells whether `rzalloc` can
serve a descriptor; `steer_irq_parent` is the static table of `STEER_NB_IRQ_VECTORS`
pointers, `none` being `NULL`. The result holds the descriptor the returned pointer
points at. -/
def get_irq_parent (alloc_ok : Bool) (steer_irq_parent : Nat → Option irq_desc)
    (irq : Nat) : irq_result (Option irq_desc) :=
  let irq_num := SOF_IRQ_NUMBER irq
  let parent_idx := to_size_t ((irq_num : Int) - (IRQ_NUM_IRQSTR_DSP0 : Int))
  if parent_idx ≥ STEER_NB_IRQ_VECTORS then irq_result.undefined
  else
    match steer_irq_parent parent_idx with
    | some parent => irq_result.done (some parent) steer_irq_parent
    | none =>
      if alloc_ok then
        irq_result.done (some ⟨parent_idx, irq⟩)
          (Function.update steer_irq_parent parent_idx (some ⟨parent_idx, irq⟩))
      else irq_result.assert_failed

/-- Function `platform_irq_get_parent` (interrupt.c 126-137). -/
def platform_irq_get_parent (alloc_ok : Bool) (steer_irq_parent : Nat → Option irq_desc)
    (irq : Nat) : irq_result (Option irq_desc) :=
  let irq_num := SOF_IRQ_NUMBER irq
  if ¬ irq_num < 32 then irq_result.assert_failed
  else if irq_num ≥ IRQ_NUM_IRQSTR_DSP0 ∧ irq_num < IRQ_NUM_IRQSTR_DSP7 then
    get_irq_parent alloc_ok steer_irq_parent irq
  else irq_result.done none steer_irq_parent

/-- The call into the steering registers that `platform_interrupt_mask` /
`platform_interrupt_unmask` end with, and its argument. -/
inductive steer_call where
  | steer_mask_spi (spi : Nat)
  | steer_unmask_spi (spi : Nat)
deriving DecidableEq, Repr

/-- Function `platform_interrupt_mask` (interrupt.c 154-161): the value is the call of
`steer_mask_spi` it makes after `assert(parent)`. The parameter `mask` is not used. -/
def platform_interrupt_mask (alloc_ok : Bool) (steer_irq_parent : Nat → Option irq_desc)
    (irq : Nat) : irq_result steer_call :=
  match platform_irq_get_parent alloc_ok steer_irq_parent irq with
  | irq_result.done (some _) t => irq_result.done (steer_call.steer_mask_spi (SOF_IRQ_ID irq)) t
  | irq_result.done none _ => irq_result.assert_failed
  | irq_result.assert_failed => irq_result.assert_failed
  | irq_result.undefined => irq_result.undefined

/-- Function `platform_interrupt_unmask` (interrupt.c 163-170): the value is the call of
`steer_unmask_spi` it makes after `assert(parent)`. The parameter `mask` is not used. -/
def platform_interrupt_unmask (alloc_ok : Bool) (steer_irq_parent : Nat → Option irq_desc)
    (irq : Nat) : irq_result steer_call :=
  match platform_irq_get_parent alloc_ok steer_irq_parent irq with
  | irq_result.done (some _) t =>
    irq_result.done (steer_call.steer_unmask_spi (SOF_IRQ_ID irq)) t
  | irq_result.done none _ => irq_result.assert_failed
  | irq_result.assert_failed => irq_result.assert_failed
  | irq_result.undefined => irq_result.undefined

/-- The table `steer_irq_parent` at start-up: every entry is `NULL`. -/
def steer_irq_parent_init : Nat → Option irq_desc := fun _ => none

/-! ## Specification-side notions and sample inputs for the control and interrupt claims -/

/-- The sample environment with an allocator that has no memory left. -/
def eq_env_no_memory : eq_env := { eq_env_sample with alloc_ok := fun _ => false }

/-- Component data of a FIR equalizer that was created with the blob
`fir_blob_stereo`. -/
def eq_fir_cd_configured : eq_fir_comp_data :=
  { eq_fir_cd_sample with config := some fir_blob_stereo }

/-- A sample value of `sizeof(struct sof_ipc_ctrl_data) + sizeof(struct sof_abi_hdr)`. -/
def ctrl_hdr_bytes_sample : Nat := 120

/-- A binary GET_DATA request for the page `msg_index` whose ABI header announces room
for `room` bytes. -/
def ctrl_get_msg (msg_index room : Nat) : sof_ipc_ctrl_data :=
  { ctrl_binary_msg msg_index 0 0 [] with data_size := room }

/-- A FIR blob of the maximum size of the sample environment: the size field says 4096
and the block holds 4096 bytes. -/
def fir_blob_max : List Nat := le32_bytes 4096 ++ List.replicate 4092 0

/-- The format pairs (source, sink) the specification names for the IIR dispatch. -/
def eq_iir_supported_pairs : List (sof_ipc_frame × sof_ipc_frame) :=
  [(sof_ipc_frame.S16_LE, sof_ipc_frame.S16_LE),
   (sof_ipc_frame.S24_4LE, sof_ipc_frame.S24_4LE),
   (sof_ipc_frame.S32_LE, sof_ipc_frame.S16_LE),
   (sof_ipc_frame.S32_LE, sof_ipc_frame.S24_4LE),
   (sof_ipc_frame.S32_LE, sof_ipc_frame.S32_LE)]

/-- Component data of an IIR equalizer without a blob after `eq_iir_reset`. -/
def eq_iir_cd_after_reset : eq_iir_comp_data :=
  (eq_iir_reset comp_env_sample comp_dev_sample eq_iir_cd_sample).2.2

/-- The start of response record `i` in the coefficient data when the records follow one
another from index 0 and the record that starts at index `j` is `len j` words long: the
sum of the lengths of the records before it. -/
def eq_record_start (len : Int → Int) : Nat → Int
  | 0 => 0
  | i + 1 => eq_record_start len i + len (eq_record_start len i)

/-- The length in 16-bit words of the FIR response record that starts at coefficient-data
index `j`: the header and as many taps as the first word of the record says. -/
def eq_fir_record_len (env : eq_env) (config : sof_eq_config) (j : Int) : Int :=
  (env.SOF_EQ_FIR_COEF_NHEADER : Int) + coef_data config j

/-- The length in 32-bit words of the IIR response record that starts at
coefficient-data index `j`: the header and the biquads of its `num_sections` sections. -/
def eq_iir_record_len (env : eq_env) (config : sof_eq_config) (j : Int) : Int :=
  (env.SOF_EQ_IIR_NHEADER_DF2T : Int) +
    (env.SOF_EQ_IIR_NBIQUAD_DF2T : Int) * env.iir_num_sections config j

/-- A FIR blob for two channels with three responses of 4, 2 and 0 taps; channel 0 uses
response 2 and channel 1 response 1. -/
def fir_config_three_responses : sof_eq_config where
  size := 100
  channels_in_config := 2
  number_of_responses := 3
  data := data_of_list
    ([2, 1] ++ [4, 0, 0, 0, 0, 0, 0, 0, 0, 0, 100, 200, 300, 400] ++
      [2, 0, 0, 0, 0, 0, 0, 0, 0, 0, 500, 600] ++ [0, 0, 0, 0, 0, 0, 0, 0, 0, 0])

/-- An IIR blob for two channels with two responses of 2 sections and 1 section. -/
def iir_config_two_responses : sof_eq_config where
  size := 168
  channels_in_config := 2
  number_of_responses := 2
  data := data_of_list
    ([0, 1] ++ [2, 2, 0, 0, 0, 0] ++ [0, 0, 0, 0, 1073741824, 0, 0] ++
      [0, 0, 0, 0, 1073741824, 0, 0] ++ [1, 1, 0, 0, 0, 0] ++ [0, 0, 0, 0, 1073741824, 0, 0])

/-! ## Further loops, samples and specification-side notions: copy, setup, commands and
interrupt steering -/

/-- The indices of the local array `sources[]` that the loop over the source list of
`mixer_copy` (mixer.c 264-274) writes by `sources[num_mix_sources++] = source`, in the
order of the writes; `num` is `num_mix_sources` when the loop reaches the list. The
list ends where the loop is left by its `return 0`. -/
def mixer_copy_slots (dev_state : comp_state) : List comp_buffer → Nat → List Nat
  | [], _ => []
  | source :: rest, num =>
    let stored := if source.source_state = dev_state then [num] else []
    let num1 := if source.source_state = dev_state then num + 1 else num
    if (num1 : Int) = PLATFORM_MAX_STREAMS - 1 then stored
    else stored ++ mixer_copy_slots dev_state rest num1

/-- The stereo device `comp_dev_sample` with a period of 100000 frames. -/
def comp_dev_long_period : comp_dev := { comp_dev_sample with frames := 100000 }

/-- Component data of a rate converter from 48000 to 16000 after `src_params` on the
sample tables for the device `comp_dev_long_period`: one stage with blocks of 3 frames
in and 1 frame out; the product `100000 * 48000` of the source frame count is taken
modulo `2^32`. -/
def src_cd_long_period : src_comp_data :=
  (src_params src_env_sample ⟨0, 16000⟩ comp_dev_long_period src_cd_sample).2.2

/-- The sample environment with helpers that check the record: `fir_init_coef` returns
`-EINVAL` for a tap count below 1 or above 192 and four bytes per tap otherwise,
`iir_init_coef_df2t` returns `-EINVAL` for a section count below 1 or above 8 and sixteen
bytes per section otherwise. -/
def eq_env_checked : eq_env :=
  { eq_env_sample with
    fir_init_coef := fun config eq =>
      match eq with
      | none => -EINVAL
      | some j =>
        if coef_data config j < 1 ∨ coef_data config j > 192 then -EINVAL
        else 4 * coef_data config j
    iir_init_coef_df2t := fun config eq =>
      match eq with
      | none => -EINVAL
      | some j =>
        if coef_data config j < 1 ∨ coef_data config j > 8 then -EINVAL
        else 16 * coef_data config j }

/-- A FIR blob for two channels with two responses: response 0 declares 200 taps,
response 1 has 8 taps; channel 0 uses response 0 and channel 1 response 1. -/
def fir_config_long_record : sof_eq_config where
  size := 484
  channels_in_config := 2
  number_of_responses := 2
  data := data_of_list
    ([0, 1] ++ [200, 0, 0, 0, 0, 0, 0, 0, 0, 0] ++ List.replicate 200 7 ++
      [8, 0, 0, 0, 0, 0, 0, 0, 0, 0, 1, 2, 3, 4, 5, 6, 7, 8])

/-- An IIR blob for two channels with two responses: response 0 declares 9 sections,
response 1 has 2 sections; channel 0 uses response 0 and channel 1 response 1. -/
def iir_config_long_record : sof_eq_config where
  size := 392
  channels_in_config := 2
  number_of_responses := 2
  data := data_of_list
    ([0, 1] ++ [9, 9, 0, 0, 0, 0] ++ List.replicate 63 0 ++ [2, 2, 0, 0, 0, 0] ++
      [0, 0, 0, 0, 1073741824, 0, 0] ++ [0, 0, 0, 0, 1073741824, 0, 0])

/-- Modelled from the spec: the macro `BIT(b)` (sof/bit.h is outside the verified
sources), the word in which only bit `b` is set, as a 32-bit `unsigned long`. -/
def BIT (b : Nat) : Nat := 2 ^ b % UINT32_MOD

/-- Modelled from the spec: `io_reg_update_bits(reg, mask, value)` (sof/io.h is outside
the verified sources), as the new contents of a 32-bit register that held `old`: the
read-modify-write "new = (old AND NOT mask) OR (value AND mask)". -/
def io_reg_update_bits (old mask value : Nat) : Nat :=
  (old &&& ((UINT32_MOD - 1) ^^^ mask)) ||| (value &&& mask)

/-- Function `steer_mask_updt` (interrupt.c 46-56) on the mask registers of the
interrupt steering block, `regs a` being the contents of the register at
`IRQSTEER_MASK(BASE_IRQSTR_DSP, a)`; `none` stands for the failed `assert`. -/
def steer_mask_updt (regs : Nat → Nat) (spi val : Nat) : Option (Nat → Nat) :=
  if spi < 512 then
    let ch_num := (15 + UINT32_MOD - spi / 32) % UINT32_MOD
    let spi_bit := BIT (spi % 32)
    some (Function.update regs ch_num
      (io_reg_update_bits (regs ch_num) spi_bit (if val = 0 then 0 else BIT val)))
  else none

/-- Function `steer_unmask_spi` (interrupt.c 59-63). -/
def steer_unmask_spi (regs : Nat → Nat) (spi : Nat) : Option (Nat → Nat) :=
  steer_mask_updt regs spi 1

/-- Function `steer_mask_spi` (interrupt.c 69-73). -/
def steer_mask_spi (regs : Nat → Nat) (spi : Nat) : Option (Nat → Nat) :=
  steer_mask_updt regs spi 0

/-- The words `data[lo], ..., data[hi - 1]` of the blob `config` lie inside its first
`size` bytes, `data[]` starting `hdr_bytes` bytes into the blob and a word taking
`word_bytes` bytes. -/
@[reducible] def eq_words_inside (hdr_bytes word_bytes : Nat) (config : sof_eq_config)
    (lo hi : Int) : Prop :=
  0 ≤ lo ∧ lo ≤ hi ∧ (hdr_bytes : Int) + (word_bytes : Int) * hi ≤ (config.size : Int)

/-- A FIR blob of 54 bytes for one channel whose only record declares 64 taps: the record
would end at byte `24 + 2 * (1 + 10 + 64) = 174`. -/
def fir_config_overrun : sof_eq_config where
  size := 54
  channels_in_config := 1
  number_of_responses := 1
  data := data_of_list [0, 64, -1, 0, 0, 0, 0, 0, 0, 0, 0, 100, 200, 300, 400]

/-- An IIR blob of 88 bytes for two channels whose only record declares 8 sections: the
record would end at byte `28 + 4 * (2 + 6 + 7 * 8) = 284`. -/
def iir_config_overrun : sof_eq_config where
  size := 88
  channels_in_config := 2
  number_of_responses := 1
  data := data_of_list [-1, 0, 8, 8, 0, 0, 0, 0, 0, 0, 0, 0, 1073741824, 0, 0]

/-- The fields of `struct src_stage_prm` (src.h, outside the verified sources) that
`src_2s` fills in for `cd->polyphase_func` and reads back. The bounds of the two rings
(`x_end_addr`, `x_size`, `y_addr`, `y_end_addr`, `y_size`) do not enter the block
arithmetic and are left out; `state` is the `struct src_state` that the field points at. -/
structure src_stage_prm where
  /-- Field `nch`. -/
  nch : Int
  /-- Field `shift`. -/
  shift : Int
  /-- Field `times`. -/
  times : Int
  /-- Field `x_rptr`. -/
  x_rptr : Option Int
  /-- Field `y_wptr`. -/
  y_wptr : Option Int
  /-- The state `*state`. -/
  state : src_state
  /-- The stage `*stage`. -/
  stage : src_stage
deriving DecidableEq, Repr

/-- What a conversion function leaves behind: the frame counts `*n_read` and
`*n_written`, the component data, and the arguments of its calls of
`cd->polyphase_func`, in call order. -/
structure src_func_out where
  /-- The count `*n_read`. -/
  n_read : Int
  /-- The count `*n_written`. -/
  n_written : Int
  /-- The component data after the call. -/
  cd : src_comp_data
  /-- The arguments of the calls of `cd->polyphase_func`. -/
  calls : List src_stage_prm
deriving DecidableEq, Repr

/-- The adjustment of a repeat count in `src_2s` (src.c 356-369 and 381-388): `times`
blocks of `blk * nch` samples, or `room / (blk * nch)` blocks when the `times` blocks
exceed `room` samples. -/
def src_2s_times (times blk nch room : Int) : Int :=
  if times * blk * nch > room then Int.tdiv room (blk * nch) else times

/-- The first stage of `src_2s` (src.c 303-378), for the stage `stage1` that
`cd->src.stage1` points at. `polyphase_func` is `cd->polyphase_func` as the parameters it
leaves in `*s` (the pointers it advanced, the state it updated); `source_r_ptr` is
`source->r_ptr`. The byte counter and the stream parameters are `uint32_t` values stored
in `int` variables. -/
def src_2s_stage1 (polyphase_func : src_stage_prm → src_stage_prm) (dev : comp_dev)
    (cd : src_comp_data) (stage1 : src_stage) (source : comp_buffer)
    (source_r_ptr : Option Int) : src_func_out :=
  let nch : Int := wrap_int32 (dev.channels : Int)
  let sbuf_free : Int := cd.param.sbuf_length - cd.sbuf_avail
  let avail_b : Int := wrap_int32 (source.avail : Int)
  let sz : Int := wrap_int32 (dev.sample_container_bytes : Int)
  let s1 : src_stage_prm :=
    { nch := nch, shift := cd.data_shift
      times := src_2s_times cd.param.stage1_times stage1.blk_out nch sbuf_free
      x_rptr := source_r_ptr, y_wptr := cd.sbuf_w_ptr, state := cd.src.state1
      stage := stage1 }
  let s1_blk_in : Int := s1.times * stage1.blk_in * nch
  let s1_blk_out : Int := s1.times * stage1.blk_out * nch
  if avail_b ≥ s1_blk_in * sz ∧ sbuf_free ≥ s1_blk_out then
    { n_read := s1.times * stage1.blk_in
      n_written := 0
      cd :=
        { cd with
          src := { cd.src with state1 := (polyphase_func s1).state }
          sbuf_w_ptr := (polyphase_func s1).y_wptr
          sbuf_avail := cd.sbuf_avail + s1_blk_out }
      calls := [s1] }
  else { n_read := 0, n_written := 0, cd := cd, calls := [] }

/-- The second stage of `src_2s` (src.c 380-396), for the stage `stage2` that
`cd->src.stage2` points at, after the first stage left `out1`; `sink_w_ptr` is
`sink->w_ptr`. The first stage changes neither `cd->sbuf_r_ptr` nor `cd->src.state2`,
which `s2` was given before it ran (src.c 345-348). -/
def src_2s_stage2 (polyphase_func : src_stage_prm → src_stage_prm) (dev : comp_dev)
    (out1 : src_func_out) (stage2 : src_stage) (sink : comp_buffer)
    (sink_w_ptr : Option Int) : src_func_out :=
  let cd := out1.cd
  let nch : Int := wrap_int32 (dev.channels : Int)
  let free_b : Int := wrap_int32 (sink.free : Int)
  let sz : Int := wrap_int32 (dev.sample_container_bytes : Int)
  let s2 : src_stage_prm :=
    { nch := nch, shift := cd.data_shift
      times := src_2s_times cd.param.stage2_times stage2.blk_in nch cd.sbuf_avail
      x_rptr := cd.sbuf_r_ptr, y_wptr := sink_w_ptr, state := cd.src.state2
      stage := stage2 }
  let s2_blk_in : Int := s2.times * stage2.blk_in * nch
  let s2_blk_out : Int := s2.times * stage2.blk_out * nch
  if cd.sbuf_avail ≥ s2_blk_in ∧ free_b ≥ s2_blk_out * sz then
    { n_read := out1.n_read
      n_written := s2.times * stage2.blk_out
      cd :=
        { cd with
          src := { cd.src with state2 := (polyphase_func s2).state }
          sbuf_r_ptr := (polyphase_func s2).x_rptr
          sbuf_avail := cd.sbuf_avail - s2_blk_in }
      calls := out1.calls ++ [s2] }
  else out1

/-- Function `src_2s` (src.c 303-396), for the stages `stage1` and `stage2` that
`cd->src.stage1` and `cd->src.stage2` point at: the first stage, then the second. -/
def src_2s_stages (polyphase_func : src_stage_prm → src_stage_prm) (dev : comp_dev)
    (cd : src_comp_data) (stage1 stage2 : src_stage) (source sink : comp_buffer)
    (source_r_ptr sink_w_ptr : Option Int) : src_func_out :=
  src_2s_stage2 polyphase_func dev
    (src_2s_stage1 polyphase_func dev cd stage1 source source_r_ptr) stage2 sink sink_w_ptr

/-- Function `src_2s` (src.c 303-396); `none` stands for the read through a null stage
pointer. -/
def src_2s (polyphase_func : src_stage_prm → src_stage_prm) (dev : comp_dev)
    (cd : src_comp_data) (source sink : comp_buffer) (source_r_ptr sink_w_ptr : Option Int) :
    Option src_func_out :=
  match cd.src.stage1, cd.src.stage2 with
  | some stage1, some stage2 =>
    some (src_2s_stages polyphase_func dev cd stage1 stage2 source sink source_r_ptr
      sink_w_ptr)
  | _, _ => none

/-- The repeat count of stage 1 in the words of the specification: the configured count,
or the number of output blocks that fit the free part of the stage buffer when that is
less. -/
def src_2s_times1 (cd : src_comp_data) (stage1 : src_stage) (nch : Int) : Int :=
  min cd.param.stage1_times
    (Int.tdiv (cd.param.sbuf_length - cd.sbuf_avail) (stage1.blk_out * nch))

/-- Whether stage 1 runs: the source holds the bytes of `src_2s_times1` input blocks
and the stage buffer has room for as many output blocks. -/
def src_2s_runs1 (cd : src_comp_data) (stage1 : src_stage) (nch sz : Int)
    (source : comp_buffer) : Bool :=
  decide (wrap_int32 (source.avail : Int) ≥
      src_2s_times1 cd stage1 nch * stage1.blk_in * nch * sz ∧
    cd.param.sbuf_length - cd.sbuf_avail ≥ src_2s_times1 cd stage1 nch * stage1.blk_out * nch)

/-- The samples stage 1 adds to the stage buffer. -/
def src_2s_added (cd : src_comp_data) (stage1 : src_stage) (nch sz : Int)
    (source : comp_buffer) : Int :=
  if src_2s_runs1 cd stage1 nch sz source then
    src_2s_times1 cd stage1 nch * stage1.blk_out * nch
  else 0

/-- The repeat count of stage 2 in the words of the specification, for `staged` samples
in the stage buffer: the configured count, or the number of input blocks the staged
samples make up when that is less. -/
def src_2s_times2 (cd : src_comp_data) (stage2 : src_stage) (nch staged : Int) : Int :=
  min cd.param.stage2_times (Int.tdiv staged (stage2.blk_in * nch))

/-- Whether stage 2 runs, for `staged` samples in the stage buffer: they make up the
input blocks and the sink has room for the bytes of the output blocks. -/
def src_2s_runs2 (cd : src_comp_data) (stage2 : src_stage) (nch sz staged : Int)
    (sink : comp_buffer) : Bool :=
  decide (staged ≥ src_2s_times2 cd stage2 nch staged * stage2.blk_in * nch ∧
    wrap_int32 (sink.free : Int) ≥
      src_2s_times2 cd stage2 nch staged * stage2.blk_out * nch * sz)

/-- The samples stage 2 removes from the stage buffer. -/
def src_2s_removed (cd : src_comp_data) (stage2 : src_stage) (nch sz staged : Int)
    (sink : comp_buffer) : Int :=
  if src_2s_runs2 cd stage2 nch sz staged sink then
    src_2s_times2 cd stage2 nch staged * stage2.blk_in * nch
  else 0

/-- A sample `polyphase_func`: it advances the read pointer by the samples of `times`
input blocks and the write pointer by the samples of `times` output blocks. -/
def polyphase_func_sample (s : src_stage_prm) : src_stage_prm :=
  { s with
    x_rptr := s.x_rptr.map (fun p => p + s.times * s.stage.blk_in * s.nch)
    y_wptr := s.y_wptr.map (fun p => p + s.times * s.stage.blk_out * s.nch) }

/-- The component data `src_cd_two_stage` with the block counts that
`src_get_copy_limits` leaves for a source with 48 frames and a sink with room for 48
frames: 6 blocks of stage 1 and 2 blocks of stage 2; the stage buffer has 224 samples. -/
def src_cd_two_stage_limits : src_comp_data :=
  { src_cd_two_stage with
    param :=
      ((src_get_copy_limits src_cd_two_stage (buffer_s32_stereo 384 0)
        (buffer_s32_stereo 0 384)).map (fun r => r.2)).getD src_param_zero }

/-- Modelled from the spec: `src_inc_wrap` / `src_inc_wrap_s16` (src.h is outside the
verified sources), for a pointer given as a sample offset `ptr` from the start of a ring
of `length` samples: "read/write pointers never advance past the region end without
wrapping to the start", so a pointer at or past the end goes back by the ring size. -/
def src_inc_wrap (ptr length : Int) : Int :=
  if ptr ≥ length then ptr - length else ptr

/-- The copy `memcpy_s(snk, n_copy * sizeof(..), src, n_copy * sizeof(..))` of the
direct-copy functions on sample memories indexed by sample offset: the two sizes are the
same, so the size check of `memcpy_s` passes, and the `n_copy` samples from offset `src`
of `source` go to offset `snk` of `sink`. -/
def src_copy_bulk (source sink : Int → Int) (src snk n_copy : Int) : Int → Int :=
  fun j => if snk ≤ j ∧ j < snk + n_copy then source (src + (j - snk)) else sink j

/-- The loop of `src_copy_s32` (src.c 438-455) and `src_copy_s16` (src.c 473-490).
`source_len` and `sink_len` are the ring sizes in samples (`end_addr` as a sample
offset), `src` and `snk` the two pointers as sample offsets, `sink` the samples of the
sink ring, and `copies` the bulk copies made so far as (source offset, sink offset,
count). The first argument bounds the number of iterations: the result is `none` when
they do not suffice, and also when a bulk copy has no positive count (the loop then
makes no progress or copies backwards). -/
def src_copy_loop (source : Int → Int) (source_len sink_len : Int) :
    Nat → Int → Int → Int → (Int → Int) → List (Int × Int × Int) →
      Option ((Int → Int) × List (Int × Int × Int))
  | 0, n, _, _, sink, copies => if n > 0 then none else some (sink, copies)
  | fuel + 1, n, src, snk, sink, copies =>
    if n > 0 then
      let n_wrap_src : Int := source_len - src
      let n_wrap_snk : Int := sink_len - snk
      let n_wrap_min : Int := if n_wrap_src < n_wrap_snk then n_wrap_src else n_wrap_snk
      let n_copy : Int := if n < n_wrap_min then n else n_wrap_min
      if n_copy ≤ 0 then none
      else
        src_copy_loop source source_len sink_len fuel (n - n_copy)
          (src_inc_wrap (src + n_copy) source_len) (src_inc_wrap (snk + n_copy) sink_len)
          (src_copy_bulk source sink src snk n_copy) (copies ++ [(src, snk, n_copy)])
    else some (sink, copies)

/-- What a direct-copy function leaves: the frame counts, the samples of the sink ring
and the bulk copies it made. -/
structure src_copy_out where
  /-- The count `*n_read`. -/
  n_read : Int
  /-- The count `*n_written`. -/
  n_written : Int
  /-- The samples of the sink ring after the call. -/
  sink : Int → Int
  /-- The bulk copies as (source offset, sink offset, count), in order. -/
  copies : List (Int × Int × Int)

/-- Function `src_copy_s32` (src.c 425-458) on rings of 32-bit samples: `r` is
`source->r_ptr` and `w` is `sink->w_ptr` as sample offsets. The product
`frames * dev->params.channels` is taken in `unsigned int` and stored in an `int`.
`fuel` bounds the iterations of the loop. -/
def src_copy_s32 (dev : comp_dev) (cd : src_comp_data) (source : Int → Int)
    (source_len r : Int) (sink : Int → Int) (sink_len w : Int) (fuel : Nat) :
    Option src_copy_out :=
  let frames : Int := cd.param.blk_in
  let n : Int := wrap_int32 (frames * (dev.channels : Int))
  (src_copy_loop source source_len sink_len fuel n r w sink []).map
    (fun res => { n_read := frames, n_written := frames, sink := res.1, copies := res.2 })

/-- Function `src_copy_s16` (src.c 460-493) on rings of 16-bit samples, as
`src_copy_s32`. -/
def src_copy_s16 (dev : comp_dev) (cd : src_comp_data) (source : Int → Int)
    (source_len r : Int) (sink : Int → Int) (sink_len w : Int) (fuel : Nat) :
    Option src_copy_out :=
  let frames : Int := cd.param.blk_in
  let n : Int := wrap_int32 (frames * (dev.channels : Int))
  (src_copy_loop source source_len sink_len fuel n r w sink []).map
    (fun res => { n_read := frames, n_written := frames, sink := res.1, copies := res.2 })

/-- The per-sample circular copy of `k` samples in the words of the specification:
sample `i = 0, 1, ..` goes from `source[(r + i) mod source_len]` to
`sink[(w + i) mod sink_len]`, one sample after the other. -/
def circular_copy (source : Int → Int) (source_len sink_len : Int) :
    Nat → Int → Int → (Int → Int) → (Int → Int)
  | 0, _, _, sink => sink
  | k + 1, r, w, sink =>
    circular_copy source source_len sink_len k (r + 1) (w + 1)
      (Function.update sink (w % sink_len) (source (r % source_len)))

/-- A source ring of six samples `10, 11, .., 15` (and 0 outside). -/
def ring_source_six : Int → Int := data_of_list [10, 11, 12, 13, 14, 15]

/-- A sink ring whose samples are all `-1`. -/
def ring_sink_blank : Int → Int := fun _ => -1

/-- Component data of a converter for equal rates with a block of 2 frames. -/
def src_cd_copy : src_comp_data :=
  { src_cd_sample with param := { src_param_zero with blk_in := 2, blk_out := 2 } }

/-- Modelled from the spec: `sat_int24` (sof/audio/format.h is outside the verified
sources), "saturate down to the output width": the clamp to the 24-bit range
`-8388608 .. 8388607`. -/
def sat_int24 (x : Int) : Int :=
  if x > 8388607 then 8388607 else if x < -8388608 then -8388608 else x

/-- Modelled from the spec: the macro `Q_SHIFT_RND(x, src_q, dst_q)`
(sof/audio/format.h), the "width-conversion" of a fixed-point value from `src_q` to
`dst_q` fractional bits with rounding, `((x >> (src_q - dst_q - 1)) + 1) >> 1`; a right
shift of a signed value is the division by a power of two rounded down. -/
def Q_SHIFT_RND (x : Int) (src_q dst_q : Nat) : Int :=
  (x / 2 ^ (src_q - dst_q - 1) + 1) / 2

/-- The loop of the pass-through functions that convert (eq_iir.c 236-240): the sample
`conv (*x)` is stored into fragment `i` of the sink, for the sample indices `i`,
`i + 1`, .., `i + n - 1`; `x` is the source seen through `buffer_read_frag_s32` and `y`
the sink seen through the `buffer_write_frag` of the width of its element type. -/
def eq_pass_conv_loop (conv : Int → Int) (x : Nat → Int) :
    Nat → Nat → (Nat → Int) → (Nat → Int)
  | 0, _, y => y
  | n + 1, i, y => eq_pass_conv_loop conv x n (i + 1) (Function.update y i (conv (x i)))

/-- Function `eq_fir_s16_passthrough` (eq_fir.c 158-172): the sink samples it leaves,
source and sink seen as 16-bit fragments. The count `n = frames * nch` is an `int`. -/
def eq_fir_s16_passthrough (x y : Nat → Int) (frames nch : Int) : Nat → Int :=
  eq_pass_loop x (wrap_int32 (frames * nch)).toNat 0 y

/-- Function `eq_iir_s16_pass` (eq_iir.c 199-213): the sink samples it leaves, source and
sink seen as 16-bit fragments. The count `n = frames * dev->params.channels` is an
`int`. -/
def eq_iir_s16_pass (x y : Nat → Int) (frames nch : Nat) : Nat → Int :=
  eq_pass_loop x (wrap_int32 ((frames * nch) % UINT32_MOD)).toNat 0 y

/-- Function `eq_iir_s32_s16_pass` (eq_iir.c 229-243): the sink samples it leaves, the
source seen as 32-bit and the sink as 16-bit fragments. -/
def eq_iir_s32_s16_pass (x y : Nat → Int) (frames nch : Nat) : Nat → Int :=
  eq_pass_conv_loop (fun v => sat_int16 (Q_SHIFT_RND v 31 15)) x
    (wrap_int32 ((frames * nch) % UINT32_MOD)).toNat 0 y

/-- The 16-bit fragment that holds the low half of the 32-bit word `v`. -/
def int32_lo16 (v : Int) : Int := wrap_int16 v

/-- The 16-bit fragment that holds the high half of the 32-bit word `v`. -/
def int32_hi16 (v : Int) : Int := wrap_int16 (v / 65536)

/-- The 32-bit word held by two consecutive 16-bit fragments, the low half first
(the DSP is little endian). -/
def int32_of_frags (lo hi : Int) : Int := wrap_int32 (lo % 65536 + 65536 * hi)

/-- The loop of `eq_iir_s32_s24_pass` (eq_iir.c 253-264) on the sink seen as 16-bit
fragments: `y = buffer_write_frag_s16(sink, i)` is the address of 16-bit fragment `i`,
and `y` is an `int32_t *`, so the store `*y = ..` writes the 32-bit word into the
fragments `i` and `i + 1`. -/
def eq_iir_s32_s24_pass_loop (x : Nat → Int) : Nat → Nat → (Nat → Int) → (Nat → Int)
  | 0, _, y => y
  | n + 1, i, y =>
    eq_iir_s32_s24_pass_loop x n (i + 1)
      (Function.update
        (Function.update y i (int32_lo16 (sat_int24 (Q_SHIFT_RND (x i) 31 23))))
        (i + 1) (int32_hi16 (sat_int24 (Q_SHIFT_RND (x i) 31 23))))

/-- Function `eq_iir_s32_s24_pass` (eq_iir.c 245-265): the 16-bit fragments of the sink
it leaves, the source seen as 32-bit fragments. -/
def eq_iir_s32_s24_pass (x y : Nat → Int) (frames nch : Nat) : Nat → Int :=
  eq_iir_s32_s24_pass_loop x (wrap_int32 ((frames * nch) % UINT32_MOD)).toNat 0 y

/-- The 32-bit sample slot `k` of a sink given by its 16-bit fragments. -/
def frag_slot32 (y : Nat → Int) (k : Nat) : Int := int32_of_frags (y (2 * k)) (y (2 * k + 1))

/-- One stereo frame of 32-bit samples, `0x12345678` and `0x23456789`. -/
def pass_source_frame : Nat → Int := fun i => if i = 0 then 305419896 else 591751049

/-! ## Theorems: equalizer setup -/

/-- Summing `f` over the channels that pass a test is summing, over all channels, `f` where
the test passes and 0 elsewhere. -/
theorem filter_range_sum_shift (p : Nat → Bool) (f : Nat → Nat) :
    ∀ (n i : Nat),
      ((((List.range n).map (fun k => i + k)).filter p).map f).sum =
        (((List.range n).map (fun k => i + k)).map (fun c => if p c then f c else 0)).sum := by
  intro n i
  induction (List.range n).map (fun k => i + k) with
  | nil => simp
  | cons a l ih =>
    by_cases h : p a <;> simp [List.filter_cons, h, ih]

theorem range_succ_shift (n i : Nat) :
    (List.range (n + 1)).map (fun k => i + k) = i :: (List.range n).map (fun k => (i + 1) + k) := by
  rw [List.range_succ_eq_map]
  simp [List.map_map, Function.comp_def, Nat.add_assoc, Nat.add_comm 1]

theorem to_size_t_lt (r : Int) : to_size_t r < UINT32_MOD := by
  unfold to_size_t UINT32_MOD
  have h1 : (0 : Int) ≤ r % ((2 ^ 32 : Nat) : Int) := Int.emod_nonneg _ (by norm_num)
  have h2 : r % ((2 ^ 32 : Nat) : Int) < ((2 ^ 32 : Nat) : Int) :=
    Int.emod_lt_of_pos _ (by norm_num)
  omega

/-- Size accumulated by the first pass when it runs to its end. -/
theorem eq_setup_phase1_size (config : sof_eq_config) (lookup : List (Option Int))
    (init_coef : Option Int → Int) :
    ∀ (n i : Nat) (fir : Nat → eq_chan_state) (size_sum : Nat), size_sum < UINT32_MOD →
      (eq_setup_phase1 config lookup init_coef n i fir size_sum).1 = 0 →
      (eq_setup_phase1 config lookup init_coef n i fir size_sum).2.2 =
        (size_sum + (((List.range n).map (fun k => i + k)).map
          (fun c => if decide (0 ≤ resolved_response config c)
            then eq_chan_init_size config lookup init_coef c else 0)).sum) % UINT32_MOD := by
  intro n
  induction n with
  | zero =>
    intro i fir size_sum hlt _
    simp [eq_setup_phase1, Nat.mod_eq_of_lt hlt]
  | succ n ih =>
    intro i fir size_sum hlt h0
    rw [range_succ_shift]
    simp only [eq_setup_phase1] at h0 ⊢
    simp only [List.map_cons, List.sum_cons]
    have hres : resolved_response config i =
        (if i < config.channels_in_config then config.data (i : Int) else config.data 0) := rfl
    rw [← hres] at h0 ⊢
    by_cases hneg : resolved_response config i < 0
    · have hdec : decide (0 ≤ resolved_response config i) = false := by
        simp; omega
      simp only [hneg, if_true] at h0 ⊢
      rw [ih (i + 1) _ size_sum hlt h0, hdec]
      simp
    · have hdec : decide (0 ≤ resolved_response config i) = true := by
        simp; omega
      simp only [hneg, if_false] at h0 ⊢
      by_cases hge : resolved_response config i ≥ (config.number_of_responses : Int)
      · simp [hge, EINVAL] at h0
      · simp only [hge, if_false] at h0 ⊢
        by_cases hs :
            to_size_t (init_coef (lookup.getD (resolved_response config i).toNat none)) > 0
        · simp only [hs, if_true] at h0 ⊢
          rw [ih (i + 1) _ _ (Nat.mod_lt _ (by decide)) h0, hdec]
          simp only [if_true, eq_chan_init_size]
          rw [Nat.mod_add_mod, Nat.add_assoc]
        · rw [if_neg hs] at h0
          exact absurd h0 (by simp [EINVAL])

/-- The first pass leaves through a `return` only with `-EINVAL`. -/
theorem eq_setup_phase1_code (config : sof_eq_config) (lookup : List (Option Int))
    (init_coef : Option Int → Int) :
    ∀ (n i : Nat) (fir : Nat → eq_chan_state) (size_sum : Nat),
      (eq_setup_phase1 config lookup init_coef n i fir size_sum).1 = 0 ∨
      (eq_setup_phase1 config lookup init_coef n i fir size_sum).1 = -EINVAL := by
  intro n
  induction n with
  | zero => intro i fir size_sum; left; rfl
  | succ n ih =>
    intro i fir size_sum
    simp only [eq_setup_phase1]
    split_ifs <;> first | exact ih _ _ _ | exact Or.inr rfl

/-- Channel states after a first pass that ran to its end. -/
theorem eq_setup_phase1_state (config : sof_eq_config) (lookup : List (Option Int))
    (init_coef : Option Int → Int) :
    ∀ (n i : Nat) (fir : Nat → eq_chan_state) (size_sum : Nat),
      (eq_setup_phase1 config lookup init_coef n i fir size_sum).1 = 0 →
      ∀ c : Nat,
        (i ≤ c → c < i + n →
          (resolved_response config c < 0 →
            (eq_setup_phase1 config lookup init_coef n i fir size_sum).2.1 c = eq_chan_reset) ∧
          (0 ≤ resolved_response config c →
            resolved_response config c < (config.number_of_responses : Int) ∧
            0 < eq_chan_init_size config lookup init_coef c ∧
            (eq_setup_phase1 config lookup init_coef n i fir size_sum).2.1 c =
              eq_chan_init_coef (lookup.getD (resolved_response config c).toNat none)
                (init_coef (lookup.getD (resolved_response config c).toNat none)))) ∧
        (c < i → (eq_setup_phase1 config lookup init_coef n i fir size_sum).2.1 c = fir c) := by
  intro n
  induction n with
  | zero =>
    intro i fir size_sum _ c
    refine ⟨fun h1 h2 => by omega, fun _ => rfl⟩
  | succ n ih =>
    intro i fir size_sum h0 c
    simp only [eq_setup_phase1] at h0 ⊢
    have hres : resolved_response config i =
        (if i < config.channels_in_config then config.data (i : Int) else config.data 0) := rfl
    rw [← hres] at h0 ⊢
    by_cases hneg : resolved_response config i < 0
    · rw [if_pos hneg] at h0 ⊢
      have hrec := ih (i + 1) _ size_sum h0 c
      refine ⟨fun h1 h2 => ?_, fun h => ?_⟩
      · by_cases hc : c = i
        · subst hc
          have := hrec.2 (Nat.lt_succ_self _)
          rw [this, Function.update_same]
          exact ⟨fun _ => rfl, fun h => absurd hneg (by omega)⟩
        · exact hrec.1 (by omega) (by omega)
      · rw [hrec.2 (by omega), Function.update_noteq (by omega)]
    · rw [if_neg hneg] at h0 ⊢
      by_cases hge : resolved_response config i ≥ (config.number_of_responses : Int)
      · rw [if_pos hge] at h0
        exact absurd h0 (by simp [EINVAL])
      · rw [if_neg hge] at h0 ⊢
        by_cases hs :
            to_size_t (init_coef (lookup.getD (resolved_response config i).toNat none)) > 0
        · rw [if_pos hs] at h0 ⊢
          have hrec := ih (i + 1) _ _ h0 c
          refine ⟨fun h1 h2 => ?_, fun h => ?_⟩
          · by_cases hc : c = i
            · subst hc
              have := hrec.2 (Nat.lt_succ_self _)
              rw [this, Function.update_same]
              exact ⟨fun h => absurd h hneg, fun _ => ⟨by omega, hs, rfl⟩⟩
            · exact hrec.1 (by omega) (by omega)
          · rw [hrec.2 (by omega), Function.update_noteq (by omega)]
        · rw [if_neg hs] at h0
          exact absurd h0 (by simp [EINVAL])

/-- A first pass over bypassed channels only runs to its end and accumulates nothing. -/
theorem eq_setup_phase1_bypass (config : sof_eq_config) (lookup : List (Option Int))
    (init_coef : Option Int → Int) :
    ∀ (n i : Nat) (fir : Nat → eq_chan_state) (size_sum : Nat),
      (∀ c, i ≤ c → c < i + n → resolved_response config c < 0) →
      (eq_setup_phase1 config lookup init_coef n i fir size_sum).1 = 0 ∧
      (eq_setup_phase1 config lookup init_coef n i fir size_sum).2.2 = size_sum := by
  intro n
  induction n with
  | zero => intro i fir size_sum _; exact ⟨rfl, rfl⟩
  | succ n ih =>
    intro i fir size_sum hall
    simp only [eq_setup_phase1]
    have hres : resolved_response config i =
        (if i < config.channels_in_config then config.data (i : Int) else config.data 0) := rfl
    rw [← hres, if_pos (hall i (Nat.le_refl _) (by omega))]
    exact ih (i + 1) _ size_sum (fun c h1 h2 => hall c (by omega) (by omega))

/-- The second pass changes nothing but delay pointers. -/
theorem eq_setup_phase2_keeps (config : sof_eq_config) :
    ∀ (n i : Nat) (fir : Nat → eq_chan_state) (p : Nat) (c : Nat),
      ((eq_setup_phase2 config n i fir p).1 c).coef = (fir c).coef ∧
      ((eq_setup_phase2 config n i fir p).1 c).delay_size = (fir c).delay_size := by
  intro n
  induction n with
  | zero => intro i fir p c; exact ⟨rfl, rfl⟩
  | succ n ih =>
    intro i fir p c
    simp only [eq_setup_phase2]
    split_ifs
    · have := ih (i + 1) (Function.update fir i (eq_chan_init_delay (fir i) p).1)
        (eq_chan_init_delay (fir i) p).2 c
      rw [this.1, this.2]
      by_cases hc : c = i
      · subst hc; simp [eq_chan_init_delay]
      · simp [Function.update_noteq hc]
    · exact ih (i + 1) fir p c

/-- The sum that `eq_arena_sum` names, written over all channels below `n`. -/
theorem eq_arena_sum_eq (config : sof_eq_config) (lookup : List (Option Int))
    (init_coef : Option Int → Int) (n : Nat) :
    eq_arena_sum config lookup init_coef n =
      (((List.range n).map (fun k => 0 + k)).map
        (fun c => if decide (0 ≤ resolved_response config c)
          then eq_chan_init_size config lookup init_coef c else 0)).sum := by
  have h := filter_range_sum_shift (fun c => decide (0 ≤ resolved_response config c))
    (eq_chan_init_size config lookup init_coef) n 0
  simp only [Nat.zero_add, List.map_id'] at h ⊢
  exact h

/-- Size accumulated by a complete first pass over the channels `0 .. n-1`. -/
theorem eq_setup_phase1_total (config : sof_eq_config) (lookup : List (Option Int))
    (init_coef : Option Int → Int) (n : Nat) (fir : Nat → eq_chan_state)
    (h0 : (eq_setup_phase1 config lookup init_coef n 0 fir 0).1 = 0) :
    (eq_setup_phase1 config lookup init_coef n 0 fir 0).2.2 =
      eq_arena_sum config lookup init_coef n % UINT32_MOD := by
  rw [eq_setup_phase1_size config lookup init_coef n 0 fir 0 (by decide) h0, eq_arena_sum_eq,
    Nat.zero_add]

/-- A successful `eq_fir_setup` records the size the first pass accumulated. -/
theorem eq_fir_setup_ok_size (env : eq_env) (cd : eq_fir_comp_data) (config : sof_eq_config)
    (nch : Int) (h : (eq_fir_setup env cd config nch).1 = 0) :
    (eq_setup_phase1 config (eq_fir_setup_lookup env config) (env.fir_init_coef config)
        nch.toNat 0 cd.fir 0).1 = 0 ∧
    (eq_fir_setup env cd config nch).2.fir_delay_size =
      (eq_setup_phase1 config (eq_fir_setup_lookup env config) (env.fir_init_coef config)
        nch.toNat 0 cd.fir 0).2.2 := by
  unfold eq_fir_setup at h ⊢
  by_cases hrej : eq_fir_setup_rejects env config nch = true
  · rw [if_pos hrej] at h
    exact absurd h (by simp [EINVAL])
  · rw [if_neg hrej] at h ⊢
    unfold eq_fir_setup_body at h ⊢
    simp only at h ⊢
    split_ifs at h ⊢ with h1 h2 h3
    · exact absurd h h1
    · exact ⟨not_not.mp h1, rfl⟩
    · exact absurd h (by simp [ENOMEM])
    · exact ⟨not_not.mp h1, rfl⟩

/-- A successful `eq_iir_setup` records the size the first pass accumulated. -/
theorem eq_iir_setup_ok_size (env : eq_env) (cd : eq_iir_comp_data) (config : sof_eq_config)
    (nch : Int) (h : (eq_iir_setup env cd config nch).1 = 0) :
    (eq_setup_phase1 config (eq_iir_setup_lookup env config) (env.iir_init_coef_df2t config)
        nch.toNat 0 (eq_iir_free_delaylines cd).iir 0).1 = 0 ∧
    (eq_iir_setup env cd config nch).2.iir_delay_size =
      (eq_setup_phase1 config (eq_iir_setup_lookup env config) (env.iir_init_coef_df2t config)
        nch.toNat 0 (eq_iir_free_delaylines cd).iir 0).2.2 := by
  unfold eq_iir_setup at h ⊢
  by_cases hrej : eq_iir_setup_rejects env config nch = true
  · rw [if_pos hrej] at h
    exact absurd h (by simp [EINVAL])
  · rw [if_neg hrej] at h ⊢
    unfold eq_iir_setup_body at h ⊢
    simp only at h ⊢
    split_ifs at h ⊢ with h1 h2 h3
    · exact absurd h h1
    · exact ⟨not_not.mp h1, rfl⟩
    · exact absurd h (by simp [ENOMEM])
    · exact ⟨not_not.mp h1, rfl⟩

/-- The FIR sanity checks pass exactly inside the three ranges (no lower bound on `nch`). -/
theorem eq_fir_setup_rejects_iff (env : eq_env) (config : sof_eq_config) (nch : Int) :
    eq_fir_setup_rejects env config nch = true ↔
      (nch > (PLATFORM_MAX_CHANNELS : Int) ∨ config.channels_in_config = 0 ∨
        config.channels_in_config > PLATFORM_MAX_CHANNELS ∨
        config.number_of_responses > env.SOF_EQ_FIR_MAX_RESPONSES) := by
  unfold eq_fir_setup_rejects
  simp only [Bool.or_eq_true, decide_eq_true_eq]
  tauto

/-- The IIR sanity checks pass exactly inside the three ranges (no lower bound on `nch`). -/
theorem eq_iir_setup_rejects_iff (env : eq_env) (config : sof_eq_config) (nch : Int) :
    eq_iir_setup_rejects env config nch = true ↔
      (nch > (PLATFORM_MAX_CHANNELS : Int) ∨ config.channels_in_config = 0 ∨
        config.channels_in_config > PLATFORM_MAX_CHANNELS ∨
        config.number_of_responses > env.SOF_EQ_IIR_MAX_RESPONSES) := by
  unfold eq_iir_setup_rejects
  simp only [Bool.or_eq_true, decide_eq_true_eq]
  tauto

/-- Setup of a FIR equalizer whose channels all resolve to bypass, the sanity checks
passing. -/
theorem eq_fir_setup_all_bypass (env : eq_env) (cd : eq_fir_comp_data) (config : sof_eq_config)
    (nch : Int) (hrej : eq_fir_setup_rejects env config nch = false)
    (hall : ∀ c : Nat, (c : Int) < nch → resolved_response config c < 0) :
    (eq_fir_setup env cd config nch).1 = 0 ∧
    (eq_fir_setup env cd config nch).2.fir_delay_size = 0 ∧
    (eq_fir_setup env cd config nch).2.fir_delay = none := by
  have hb := eq_setup_phase1_bypass config (eq_fir_setup_lookup env config)
    (env.fir_init_coef config) nch.toNat 0 cd.fir 0 (fun c _ h2 => hall c (by omega))
  unfold eq_fir_setup
  rw [hrej]
  unfold eq_fir_setup_body
  simp [hb.1, hb.2]

/-- Setup of an IIR equalizer whose channels all resolve to bypass, the sanity checks
passing. -/
theorem eq_iir_setup_all_bypass (env : eq_env) (cd : eq_iir_comp_data) (config : sof_eq_config)
    (nch : Int) (hrej : eq_iir_setup_rejects env config nch = false)
    (hall : ∀ c : Nat, (c : Int) < nch → resolved_response config c < 0) :
    (eq_iir_setup env cd config nch).1 = 0 ∧
    (eq_iir_setup env cd config nch).2.iir_delay_size = 0 ∧
    (eq_iir_setup env cd config nch).2.iir_delay = none := by
  have hb := eq_setup_phase1_bypass config (eq_iir_setup_lookup env config)
    (env.iir_init_coef_df2t config) nch.toNat 0 (eq_iir_free_delaylines cd).iir 0
    (fun c _ h2 => hall c (by omega))
  unfold eq_iir_setup
  rw [hrej]
  unfold eq_iir_setup_body
  simp [hb.1, hb.2]

/-- C1. For a channel count up to `PLATFORM_MAX_CHANNELS` and a blob that passes the
sanity checks, a successful `eq_fir_setup` / `eq_iir_setup` leaves `fir_delay_size` /
`iir_delay_size` equal to the sum, over the channels `c < nch` whose resolved response is
non-negative, of the size the coefficient initialisation returned for that channel (the
sizes being such that their sum fits a `size_t`); and if every channel resolves to a
negative response, setup returns 0, the arena size is 0 and the delay pointer is `NULL`. -/
theorem eq_setup_arena_size (env : eq_env) (cdf : eq_fir_comp_data) (cdi : eq_iir_comp_data)
    (cfgf cfgi : sof_eq_config) (nch : Int)
    (hnch : 1 ≤ nch ∧ nch ≤ (PLATFORM_MAX_CHANNELS : Int))
    (hcf : 1 ≤ cfgf.channels_in_config ∧ cfgf.channels_in_config ≤ PLATFORM_MAX_CHANNELS ∧
      cfgf.number_of_responses ≤ env.SOF_EQ_FIR_MAX_RESPONSES)
    (hci : 1 ≤ cfgi.channels_in_config ∧ cfgi.channels_in_config ≤ PLATFORM_MAX_CHANNELS ∧
      cfgi.number_of_responses ≤ env.SOF_EQ_IIR_MAX_RESPONSES)
    (hfitf : eq_arena_sum cfgf (eq_fir_setup_lookup env cfgf) (env.fir_init_coef cfgf)
      nch.toNat < UINT32_MOD)
    (hfiti : eq_arena_sum cfgi (eq_iir_setup_lookup env cfgi) (env.iir_init_coef_df2t cfgi)
      nch.toNat < UINT32_MOD) :
    ((eq_fir_setup env cdf cfgf nch).1 = 0 →
      (eq_fir_setup env cdf cfgf nch).2.fir_delay_size =
        eq_arena_sum cfgf (eq_fir_setup_lookup env cfgf) (env.fir_init_coef cfgf) nch.toNat) ∧
    ((∀ c : Nat, (c : Int) < nch → resolved_response cfgf c < 0) →
      (eq_fir_setup env cdf cfgf nch).1 = 0 ∧
      (eq_fir_setup env cdf cfgf nch).2.fir_delay_size = 0 ∧
      (eq_fir_setup env cdf cfgf nch).2.fir_delay = none) ∧
    ((eq_iir_setup env cdi cfgi nch).1 = 0 →
      (eq_iir_setup env cdi cfgi nch).2.iir_delay_size =
        eq_arena_sum cfgi (eq_iir_setup_lookup env cfgi) (env.iir_init_coef_df2t cfgi)
          nch.toNat) ∧
    ((∀ c : Nat, (c : Int) < nch → resolved_response cfgi c < 0) →
      (eq_iir_setup env cdi cfgi nch).1 = 0 ∧
      (eq_iir_setup env cdi cfgi nch).2.iir_delay_size = 0 ∧
      (eq_iir_setup env cdi cfgi nch).2.iir_delay = none) := by
  have hrf : eq_fir_setup_rejects env cfgf nch = false := by
    rw [← Bool.not_eq_true, eq_fir_setup_rejects_iff]
    omega
  have hri : eq_iir_setup_rejects env cfgi nch = false := by
    rw [← Bool.not_eq_true, eq_iir_setup_rejects_iff]
    omega
  refine ⟨fun h => ?_, eq_fir_setup_all_bypass env cdf cfgf nch hrf, fun h => ?_,
    eq_iir_setup_all_bypass env cdi cfgi nch hri⟩
  · obtain ⟨h1, h2⟩ := eq_fir_setup_ok_size env cdf cfgf nch h
    rw [h2, eq_setup_phase1_total _ _ _ _ _ h1, Nat.mod_eq_of_lt hfitf]
  · obtain ⟨h1, h2⟩ := eq_iir_setup_ok_size env cdi cfgi nch h
    rw [h2, eq_setup_phase1_total _ _ _ _ _ h1, Nat.mod_eq_of_lt hfiti]

/-- C1, at a two-channel FIR blob and a two-channel IIR blob with channel 0 bypassed and
channel 1 on a response that needs 16 bytes: the arena size is 16. -/
theorem eq_setup_arena_size_witness :
    (1 ≤ (2 : Int) ∧ (2 : Int) ≤ (PLATFORM_MAX_CHANNELS : Int)) ∧
    (eq_fir_setup eq_env_sample eq_fir_cd_sample fir_config_stereo 2).1 = 0 ∧
    (eq_fir_setup eq_env_sample eq_fir_cd_sample fir_config_stereo 2).2.fir_delay_size = 16 ∧
    (eq_iir_setup eq_env_sample eq_iir_cd_sample iir_config_stereo 2).1 = 0 ∧
    (eq_iir_setup eq_env_sample eq_iir_cd_sample iir_config_stereo 2).2.iir_delay_size = 16 :=
  ⟨by decide, by decide,
    (eq_setup_arena_size eq_env_sample eq_fir_cd_sample eq_iir_cd_sample fir_config_stereo
      iir_config_stereo 2 (by decide) (by decide) (by decide) (by decide) (by decide)).1
      (by decide),
    by decide,
    (eq_setup_arena_size eq_env_sample eq_fir_cd_sample eq_iir_cd_sample fir_config_stereo
      iir_config_stereo 2 (by decide) (by decide) (by decide) (by decide) (by decide)).2.2.1
      (by decide)⟩

/-- The return value of `eq_fir_setup` and the first pass behind it: either the call
returned `-EINVAL`, or the first pass ran to its end and the channel states the call
leaves differ from those of the first pass in delay pointers only. -/
theorem eq_fir_setup_cases (env : eq_env) (cd : eq_fir_comp_data) (config : sof_eq_config)
    (nch : Int) :
    (eq_fir_setup env cd config nch).1 = -EINVAL ∨
    ((eq_setup_phase1 config (eq_fir_setup_lookup env config) (env.fir_init_coef config)
        nch.toNat 0 cd.fir 0).1 = 0 ∧
      ∀ c, ((eq_fir_setup env cd config nch).2.fir c).coef =
          ((eq_setup_phase1 config (eq_fir_setup_lookup env config) (env.fir_init_coef config)
            nch.toNat 0 cd.fir 0).2.1 c).coef ∧
        ((eq_fir_setup env cd config nch).2.fir c).delay_size =
          ((eq_setup_phase1 config (eq_fir_setup_lookup env config) (env.fir_init_coef config)
            nch.toNat 0 cd.fir 0).2.1 c).delay_size) := by
  unfold eq_fir_setup
  by_cases hrej : eq_fir_setup_rejects env config nch = true
  · rw [if_pos hrej]; left; rfl
  · rw [if_neg hrej]
    unfold eq_fir_setup_body
    simp only
    rcases eq_setup_phase1_code config (eq_fir_setup_lookup env config)
      (env.fir_init_coef config) nch.toNat 0 cd.fir 0 with h0 | h0
    · right
      refine ⟨h0, fun c => ?_⟩
      split_ifs with h1 h2 h3
      · exact absurd h0 h1
      · exact ⟨rfl, rfl⟩
      · exact ⟨rfl, rfl⟩
      · exact eq_setup_phase2_keeps config nch.toNat 0 _ 0 c
    · left
      rw [if_pos (by rw [h0]; simp [EINVAL])]
      exact h0

/-- The return value of `eq_iir_setup` and the first pass behind it, as for the FIR. -/
theorem eq_iir_setup_cases (env : eq_env) (cd : eq_iir_comp_data) (config : sof_eq_config)
    (nch : Int) :
    (eq_iir_setup env cd config nch).1 = -EINVAL ∨
    ((eq_setup_phase1 config (eq_iir_setup_lookup env config) (env.iir_init_coef_df2t config)
        nch.toNat 0 (eq_iir_free_delaylines cd).iir 0).1 = 0 ∧
      ∀ c, ((eq_iir_setup env cd config nch).2.iir c).coef =
          ((eq_setup_phase1 config (eq_iir_setup_lookup env config)
            (env.iir_init_coef_df2t config) nch.toNat 0
            (eq_iir_free_delaylines cd).iir 0).2.1 c).coef ∧
        ((eq_iir_setup env cd config nch).2.iir c).delay_size =
          ((eq_setup_phase1 config (eq_iir_setup_lookup env config)
            (env.iir_init_coef_df2t config) nch.toNat 0
            (eq_iir_free_delaylines cd).iir 0).2.1 c).delay_size) := by
  unfold eq_iir_setup
  by_cases hrej : eq_iir_setup_rejects env config nch = true
  · rw [if_pos hrej]; left; rfl
  · rw [if_neg hrej]
    unfold eq_iir_setup_body
    simp only
    rcases eq_setup_phase1_code config (eq_iir_setup_lookup env config)
      (env.iir_init_coef_df2t config) nch.toNat 0 (eq_iir_free_delaylines cd).iir 0 with h0 | h0
    · right
      refine ⟨h0, fun c => ?_⟩
      split_ifs with h1 h2 h3
      · exact absurd h0 h1
      · exact ⟨rfl, rfl⟩
      · exact ⟨rfl, rfl⟩
      · exact eq_setup_phase2_keeps config nch.toNat 0 _ 0 c
    · left
      rw [if_pos (by rw [h0]; simp [EINVAL])]
      exact h0

/-- What a first pass that ran to its end means for channel `c`, for any later change
of delay pointers. -/
theorem eq_setup_phase1_channel (config : sof_eq_config) (lookup : List (Option Int))
    (init_coef : Option Int → Int) (n : Nat) (fir : Nat → eq_chan_state) (st : eq_chan_state)
    (c : Nat) (hc : c < n)
    (h0 : (eq_setup_phase1 config lookup init_coef n 0 fir 0).1 = 0)
    (hst : st.coef = ((eq_setup_phase1 config lookup init_coef n 0 fir 0).2.1 c).coef ∧
      st.delay_size = ((eq_setup_phase1 config lookup init_coef n 0 fir 0).2.1 c).delay_size) :
    (resolved_response config c < 0 → st.coef = none ∧ st.delay_size = 0) ∧
    (0 ≤ resolved_response config c →
      resolved_response config c < (config.number_of_responses : Int) ∧
      st.coef = lookup.getD (resolved_response config c).toNat none ∧
      st.delay_size = eq_chan_init_size config lookup init_coef c ∧
      0 < eq_chan_init_size config lookup init_coef c) := by
  have h := (eq_setup_phase1_state config lookup init_coef n 0 fir 0 h0 c).1 (Nat.zero_le _)
    (by omega)
  refine ⟨fun hneg => ?_, fun hpos => ?_⟩
  · rw [hst.1, hst.2, h.1 hneg]
    exact ⟨rfl, rfl⟩
  · obtain ⟨h1, h2, h3⟩ := h.2 hpos
    rw [hst.1, hst.2, h3]
    exact ⟨h1, rfl, rfl, h2⟩

/-- C3. In `eq_fir_setup` and `eq_iir_setup`, a channel `c < nch` whose resolved response
(`assignment[c]` when `c < channels_in_config`, `assignment[0]` otherwise) is at least
`number_of_responses` makes setup return `-EINVAL`; and whenever setup does not return
`-EINVAL`, every channel `c < nch` with a negative resolved response is in bypass with no
delay-line size, and every other channel has a resolved response below
`number_of_responses` and is initialised from the record `lookup[resolved response]`,
with the positive size the initialisation returned. -/
theorem eq_setup_first_pass (env : eq_env) (cdf : eq_fir_comp_data) (cdi : eq_iir_comp_data)
    (cfgf cfgi : sof_eq_config) (nch : Int) :
    ((∃ c : Nat, (c : Int) < nch ∧
        (cfgf.number_of_responses : Int) ≤ resolved_response cfgf c) →
      (eq_fir_setup env cdf cfgf nch).1 = -EINVAL) ∧
    ((eq_fir_setup env cdf cfgf nch).1 ≠ -EINVAL →
      ∀ c : Nat, (c : Int) < nch →
        (resolved_response cfgf c < 0 →
          ((eq_fir_setup env cdf cfgf nch).2.fir c).coef = none ∧
          ((eq_fir_setup env cdf cfgf nch).2.fir c).delay_size = 0) ∧
        (0 ≤ resolved_response cfgf c →
          resolved_response cfgf c < (cfgf.number_of_responses : Int) ∧
          ((eq_fir_setup env cdf cfgf nch).2.fir c).coef =
            (eq_fir_setup_lookup env cfgf).getD (resolved_response cfgf c).toNat none ∧
          ((eq_fir_setup env cdf cfgf nch).2.fir c).delay_size =
            eq_chan_init_size cfgf (eq_fir_setup_lookup env cfgf) (env.fir_init_coef cfgf) c ∧
          0 < eq_chan_init_size cfgf (eq_fir_setup_lookup env cfgf)
            (env.fir_init_coef cfgf) c)) ∧
    ((∃ c : Nat, (c : Int) < nch ∧
        (cfgi.number_of_responses : Int) ≤ resolved_response cfgi c) →
      (eq_iir_setup env cdi cfgi nch).1 = -EINVAL) ∧
    ((eq_iir_setup env cdi cfgi nch).1 ≠ -EINVAL →
      ∀ c : Nat, (c : Int) < nch →
        (resolved_response cfgi c < 0 →
          ((eq_iir_setup env cdi cfgi nch).2.iir c).coef = none ∧
          ((eq_iir_setup env cdi cfgi nch).2.iir c).delay_size = 0) ∧
        (0 ≤ resolved_response cfgi c →
          resolved_response cfgi c < (cfgi.number_of_responses : Int) ∧
          ((eq_iir_setup env cdi cfgi nch).2.iir c).coef =
            (eq_iir_setup_lookup env cfgi).getD (resolved_response cfgi c).toNat none ∧
          ((eq_iir_setup env cdi cfgi nch).2.iir c).delay_size =
            eq_chan_init_size cfgi (eq_iir_setup_lookup env cfgi)
              (env.iir_init_coef_df2t cfgi) c ∧
          0 < eq_chan_init_size cfgi (eq_iir_setup_lookup env cfgi)
            (env.iir_init_coef_df2t cfgi) c)) := by
  refine ⟨?_, ?_, ?_, ?_⟩
  · rintro ⟨c, hc, hge⟩
    rcases eq_fir_setup_cases env cdf cfgf nch with h | ⟨h0, hk⟩
    · exact h
    · have := (eq_setup_phase1_channel cfgf _ _ nch.toNat cdf.fir _ c (by omega) h0
        (hk c)).2 (by omega)
      omega
  · intro hne c hc
    rcases eq_fir_setup_cases env cdf cfgf nch with h | ⟨h0, hk⟩
    · exact absurd h hne
    · exact eq_setup_phase1_channel cfgf _ _ nch.toNat cdf.fir _ c (by omega) h0 (hk c)
  · rintro ⟨c, hc, hge⟩
    rcases eq_iir_setup_cases env cdi cfgi nch with h | ⟨h0, hk⟩
    · exact h
    · have := (eq_setup_phase1_channel cfgi _ _ nch.toNat _ _ c (by omega) h0
        (hk c)).2 (by omega)
      omega
  · intro hne c hc
    rcases eq_iir_setup_cases env cdi cfgi nch with h | ⟨h0, hk⟩
    · exact absurd h hne
    · exact eq_setup_phase1_channel cfgi _ _ nch.toNat _ _ c (by omega) h0 (hk c)

/-- C3, at concrete blobs: a one-channel blob whose assignment names a response that does
not exist is refused with `-EINVAL`; for the two-channel blobs with assignment `[-1, 0]`
channel 0 is left in bypass and channel 1 is initialised from `lookup[0]`. -/
theorem eq_setup_first_pass_witness :
    (eq_fir_setup eq_env_sample eq_fir_cd_sample eq_config_bad_response 1).1 = -EINVAL ∧
    (eq_iir_setup eq_env_sample eq_iir_cd_sample eq_config_bad_response 1).1 = -EINVAL ∧
    ((eq_fir_setup eq_env_sample eq_fir_cd_sample fir_config_stereo 2).2.fir 0).coef = none ∧
    ((eq_fir_setup eq_env_sample eq_fir_cd_sample fir_config_stereo 2).2.fir 1).coef =
      some 0 ∧
    ((eq_iir_setup eq_env_sample eq_iir_cd_sample iir_config_stereo 2).2.iir 0).coef = none ∧
    ((eq_iir_setup eq_env_sample eq_iir_cd_sample iir_config_stereo 2).2.iir 1).coef =
      some 0 :=
  ⟨(eq_setup_first_pass eq_env_sample eq_fir_cd_sample eq_iir_cd_sample eq_config_bad_response
      eq_config_bad_response 1).1 ⟨0, by decide, by decide⟩,
    (eq_setup_first_pass eq_env_sample eq_fir_cd_sample eq_iir_cd_sample eq_config_bad_response
      eq_config_bad_response 1).2.2.1 ⟨0, by decide, by decide⟩,
    ((eq_setup_first_pass eq_env_sample eq_fir_cd_sample eq_iir_cd_sample fir_config_stereo
      iir_config_stereo 2).2.1 (by decide) 0 (by decide)).1 (by decide) |>.1,
    ((eq_setup_first_pass eq_env_sample eq_fir_cd_sample eq_iir_cd_sample fir_config_stereo
      iir_config_stereo 2).2.1 (by decide) 1 (by decide)).2 (by decide) |>.2.1,
    ((eq_setup_first_pass eq_env_sample eq_fir_cd_sample eq_iir_cd_sample fir_config_stereo
      iir_config_stereo 2).2.2.2 (by decide) 0 (by decide)).1 (by decide) |>.1,
    ((eq_setup_first_pass eq_env_sample eq_fir_cd_sample eq_iir_cd_sample fir_config_stereo
      iir_config_stereo 2).2.2.2 (by decide) 1 (by decide)).2 (by decide) |>.2.1⟩

/-- C4 as stated fails: `nch = 0` lies outside `1..PLATFORM_MAX_CHANNELS`, and both setup
functions return 0 for it. -/
theorem eq_setup_accepts_zero_channels :
    ¬ (1 ≤ (0 : Int) ∧ (0 : Int) ≤ (PLATFORM_MAX_CHANNELS : Int)) ∧
    (eq_fir_setup eq_env_sample eq_fir_cd_sample fir_config_stereo 0).1 = 0 ∧
    (eq_fir_setup eq_env_sample eq_fir_cd_sample fir_config_stereo 0).1 ≠ -EINVAL ∧
    (eq_iir_setup eq_env_sample eq_iir_cd_sample iir_config_stereo 0).1 = 0 ∧
    (eq_iir_setup eq_env_sample eq_iir_cd_sample iir_config_stereo 0).1 ≠ -EINVAL := by
  decide

/-- C4, amended. `eq_fir_setup` and `eq_iir_setup` return `-EINVAL` whenever `nch` exceeds
`PLATFORM_MAX_CHANNELS`, or `channels_in_config` is outside `1..PLATFORM_MAX_CHANNELS`, or
`number_of_responses` exceeds the maximum number of responses; for every input with
`nch ≤ PLATFORM_MAX_CHANNELS` and the two blob fields inside their ranges the checks do not
reject (setup continues with the table of responses and the two passes); the checks put no
lower bound on `nch`, and for `nch ≤ 0` and such a blob setup returns 0 with an arena size
of 0 and a null delay pointer. -/
theorem eq_setup_sanity_checks (env : eq_env) (cdf : eq_fir_comp_data) (cdi : eq_iir_comp_data)
    (cfgf cfgi : sof_eq_config) (nch : Int) :
    ((nch > (PLATFORM_MAX_CHANNELS : Int) ∨ cfgf.channels_in_config = 0 ∨
        cfgf.channels_in_config > PLATFORM_MAX_CHANNELS ∨
        cfgf.number_of_responses > env.SOF_EQ_FIR_MAX_RESPONSES) →
      (eq_fir_setup env cdf cfgf nch).1 = -EINVAL) ∧
    ((nch ≤ (PLATFORM_MAX_CHANNELS : Int) ∧ 1 ≤ cfgf.channels_in_config ∧
        cfgf.channels_in_config ≤ PLATFORM_MAX_CHANNELS ∧
        cfgf.number_of_responses ≤ env.SOF_EQ_FIR_MAX_RESPONSES) →
      eq_fir_setup_rejects env cfgf nch = false ∧
      eq_fir_setup env cdf cfgf nch = eq_fir_setup_body env cdf cfgf nch ∧
      (nch ≤ 0 → (eq_fir_setup env cdf cfgf nch).1 = 0 ∧
        (eq_fir_setup env cdf cfgf nch).2.fir_delay_size = 0 ∧
        (eq_fir_setup env cdf cfgf nch).2.fir_delay = none)) ∧
    ((nch > (PLATFORM_MAX_CHANNELS : Int) ∨ cfgi.channels_in_config = 0 ∨
        cfgi.channels_in_config > PLATFORM_MAX_CHANNELS ∨
        cfgi.number_of_responses > env.SOF_EQ_IIR_MAX_RESPONSES) →
      (eq_iir_setup env cdi cfgi nch).1 = -EINVAL) ∧
    ((nch ≤ (PLATFORM_MAX_CHANNELS : Int) ∧ 1 ≤ cfgi.channels_in_config ∧
        cfgi.channels_in_config ≤ PLATFORM_MAX_CHANNELS ∧
        cfgi.number_of_responses ≤ env.SOF_EQ_IIR_MAX_RESPONSES) →
      eq_iir_setup_rejects env cfgi nch = false ∧
      eq_iir_setup env cdi cfgi nch =
        eq_iir_setup_body env (eq_iir_free_delaylines cdi) cfgi nch ∧
      (nch ≤ 0 → (eq_iir_setup env cdi cfgi nch).1 = 0 ∧
        (eq_iir_setup env cdi cfgi nch).2.iir_delay_size = 0 ∧
        (eq_iir_setup env cdi cfgi nch).2.iir_delay = none)) := by
  refine ⟨fun h => ?_, fun h => ?_, fun h => ?_, fun h => ?_⟩
  · have hr := (eq_fir_setup_rejects_iff env cfgf nch).mpr h
    unfold eq_fir_setup
    rw [if_pos hr]
  · have hr : eq_fir_setup_rejects env cfgf nch = false := by
      rw [← Bool.not_eq_true, eq_fir_setup_rejects_iff]
      omega
    refine ⟨hr, ?_, fun hn => ?_⟩
    · unfold eq_fir_setup
      rw [hr]
      rfl
    · exact eq_fir_setup_all_bypass env cdf cfgf nch hr (fun c hc => by omega)
  · have hr := (eq_iir_setup_rejects_iff env cfgi nch).mpr h
    unfold eq_iir_setup
    rw [if_pos hr]
  · have hr : eq_iir_setup_rejects env cfgi nch = false := by
      rw [← Bool.not_eq_true, eq_iir_setup_rejects_iff]
      omega
    refine ⟨hr, ?_, fun hn => ?_⟩
    · unfold eq_iir_setup
      rw [hr]
      rfl
    · exact eq_iir_setup_all_bypass env cdi cfgi nch hr (fun c hc => by omega)

/-- C4 amended, at concrete inputs: five channels are refused by both setup functions, and
for zero channels and the two-channel blobs both return 0 with no arena. -/
theorem eq_setup_sanity_checks_witness :
    (eq_fir_setup eq_env_sample eq_fir_cd_sample fir_config_stereo 5).1 = -EINVAL ∧
    (eq_iir_setup eq_env_sample eq_iir_cd_sample iir_config_stereo 5).1 = -EINVAL ∧
    (eq_fir_setup eq_env_sample eq_fir_cd_sample fir_config_stereo 0).1 = 0 ∧
    (eq_iir_setup eq_env_sample eq_iir_cd_sample iir_config_stereo 0).1 = 0 :=
  ⟨(eq_setup_sanity_checks eq_env_sample eq_fir_cd_sample eq_iir_cd_sample fir_config_stereo
      iir_config_stereo 5).1 (Or.inl (by decide)),
    (eq_setup_sanity_checks eq_env_sample eq_fir_cd_sample eq_iir_cd_sample fir_config_stereo
      iir_config_stereo 5).2.2.1 (Or.inl (by decide)),
    ((eq_setup_sanity_checks eq_env_sample eq_fir_cd_sample eq_iir_cd_sample fir_config_stereo
      iir_config_stereo 0).2.1 (by decide)).2.2 (by decide) |>.1,
    ((eq_setup_sanity_checks eq_env_sample eq_fir_cd_sample eq_iir_cd_sample fir_config_stereo
      iir_config_stereo 0).2.2.2 (by decide)).2.2 (by decide) |>.1⟩

/-- C2, the code at a failing input. A one-channel FIR blob (assignment `[0]`) set up for
three channels: all three channels resolve to response 0 and the arena holds their three
delay lines (48 bytes), but the second pass reads `assign_response[2]`, which is the
second word of the first response record (-1), and leaves channel 2 without a delay
line. A two-channel IIR blob with assignment `[-1, 0]` set up for three channels:
channel 2 resolves to bypass, but the second pass reads `assign_response[2]`, the first
word of the first response record (1), and hands the bypassed channel a delay pointer. -/
theorem eq_setup_second_pass_reads_raw_assignment :
    (eq_fir_setup eq_env_sample eq_fir_cd_sample fir_config_mono 3).1 = 0 ∧
    (eq_fir_setup eq_env_sample eq_fir_cd_sample fir_config_mono 3).2.fir_delay_size = 48 ∧
    resolved_response fir_config_mono 2 = 0 ∧
    (eq_fir_setup eq_env_sample eq_fir_cd_sample fir_config_mono 3).2.fir 0 =
      ⟨some 0, 16, some 0⟩ ∧
    (eq_fir_setup eq_env_sample eq_fir_cd_sample fir_config_mono 3).2.fir 1 =
      ⟨some 0, 16, some 16⟩ ∧
    (eq_fir_setup eq_env_sample eq_fir_cd_sample fir_config_mono 3).2.fir 2 =
      ⟨some 0, 16, none⟩ ∧
    (eq_iir_setup eq_env_sample eq_iir_cd_sample iir_config_stereo 3).1 = 0 ∧
    (eq_iir_setup eq_env_sample eq_iir_cd_sample iir_config_stereo 3).2.iir_delay_size = 16 ∧
    resolved_response iir_config_stereo 2 = -1 ∧
    (eq_iir_setup eq_env_sample eq_iir_cd_sample iir_config_stereo 3).2.iir 1 =
      ⟨some 0, 16, some 0⟩ ∧
    (eq_iir_setup eq_env_sample eq_iir_cd_sample iir_config_stereo 3).2.iir 2 =
      ⟨none, 0, some 16⟩ := by
  decide

/-- The second pass hands out the delay lines back to back: with `sz c` the delay-line
size of channel `c`, the running pointer advances by the sizes of the channels whose
assignment word is non-negative, each such channel starts where the pointer stands, and
the other channels are left as they are. -/
theorem eq_setup_phase2_spec (config : sof_eq_config) (sz : Nat → Nat) :
    ∀ (n i : Nat) (fir : Nat → eq_chan_state) (p : Nat),
      (∀ c, (fir c).delay_size = sz c) →
      (eq_setup_phase2 config n i fir p).2 =
        p + (((List.range n).map (fun k => i + k)).map
          (fun c : Nat => if 0 ≤ config.data (c : Int) then sz c else 0)).sum ∧
      ∀ c : Nat,
        (i ≤ c → c < i + n →
          (0 ≤ config.data (c : Int) →
            ((eq_setup_phase2 config n i fir p).1 c).delay =
              some (p + (((List.range (c - i)).map (fun k => i + k)).map
                (fun c : Nat => if 0 ≤ config.data (c : Int) then sz c else 0)).sum)) ∧
          (config.data (c : Int) < 0 → (eq_setup_phase2 config n i fir p).1 c = fir c)) ∧
        (c < i → (eq_setup_phase2 config n i fir p).1 c = fir c) := by
  intro n
  induction n with
  | zero =>
    intro i fir p _
    refine ⟨by simp [eq_setup_phase2], fun c => ⟨fun h1 h2 => by omega, fun _ => rfl⟩⟩
  | succ n ih =>
    intro i fir p hsz
    rw [range_succ_shift]
    simp only [eq_setup_phase2, List.map_cons, List.sum_cons]
    by_cases hpos : config.data (i : Int) ≥ 0
    · rw [if_pos hpos]
      have hpos' : 0 ≤ config.data (i : Int) := hpos
      rw [if_pos hpos']
      have hsz1 : ∀ c, ((Function.update fir i (eq_chan_init_delay (fir i) p).1) c).delay_size
          = sz c := by
        intro c
        by_cases hc : c = i
        · subst hc; rw [Function.update_same]; exact hsz c
        · rw [Function.update_noteq hc]; exact hsz c
      obtain ⟨h1, h2⟩ := ih (i + 1) _ (eq_chan_init_delay (fir i) p).2 hsz1
      have hp : (eq_chan_init_delay (fir i) p).2 = p + sz i := by
        simp [eq_chan_init_delay, hsz i]
      refine ⟨by rw [h1, hp]; omega, fun c => ⟨fun hc1 hc2 => ⟨fun hd => ?_, fun hd => ?_⟩,
        fun hc => ?_⟩⟩
      · by_cases hci : c = i
        · subst hci
          rw [(h2 c).2 (Nat.lt_succ_self _), Function.update_same]
          simp [eq_chan_init_delay]
        · have hstep : c - i = (c - (i + 1)) + 1 := by omega
          rw [((h2 c).1 (by omega) (by omega)).1 hd, hp, hstep, range_succ_shift]
          simp only [List.map_cons, List.sum_cons, if_pos hpos']
          congr 1
          omega
      · have hci : c ≠ i := fun h => by rw [h] at hd; omega
        rw [((h2 c).1 (by omega) (by omega)).2 hd, Function.update_noteq hci]
      · rw [(h2 c).2 (by omega), Function.update_noteq (by omega)]
    · rw [if_neg hpos]
      have hneg : ¬ 0 ≤ config.data (i : Int) := hpos
      rw [if_neg hneg]
      obtain ⟨h1, h2⟩ := ih (i + 1) fir p hsz
      refine ⟨by rw [h1]; omega, fun c => ⟨fun hc1 hc2 => ⟨fun hd => ?_, fun hd => ?_⟩,
        fun hc => ?_⟩⟩
      · have hci : c ≠ i := fun h => hneg (h ▸ hd)
        have hstep : c - i = (c - (i + 1)) + 1 := by omega
        rw [((h2 c).1 (by omega) (by omega)).1 hd, hstep, range_succ_shift]
        simp only [List.map_cons, List.sum_cons, if_neg hneg]
        congr 1
        omega
      · by_cases hci : c = i
        · subst hci; exact (h2 c).2 (Nat.lt_succ_self _)
        · exact ((h2 c).1 (by omega) (by omega)).2 hd
      · exact (h2 c).2 (by omega)


/-- The arena sum grows by the size of channel `c` when its resolved response is
non-negative, and not at all otherwise. -/
theorem eq_arena_sum_succ (config : sof_eq_config) (lookup : List (Option Int))
    (init_coef : Option Int → Int) (c : Nat) :
    eq_arena_sum config lookup init_coef (c + 1) =
      eq_arena_sum config lookup init_coef c +
        (if 0 ≤ resolved_response config c then eq_chan_init_size config lookup init_coef c
         else 0) := by
  unfold eq_arena_sum
  rw [List.range_succ, List.filter_append, List.map_append, List.sum_append]
  by_cases h : 0 ≤ resolved_response config c
  · simp [List.filter_cons, h]
  · simp [List.filter_cons, h]

/-- The arena sum does not decrease with the channel count. -/
theorem eq_arena_sum_mono (config : sof_eq_config) (lookup : List (Option Int))
    (init_coef : Option Int → Int) (c d : Nat) (h : c ≤ d) :
    eq_arena_sum config lookup init_coef c ≤ eq_arena_sum config lookup init_coef d := by
  induction d with
  | zero =>
    have hc : c = 0 := by omega
    rw [hc]
  | succ d ih =>
    by_cases hcd : c = d + 1
    · rw [hcd]
    · have := ih (by omega)
      rw [eq_arena_sum_succ]
      omega

/-- The two passes together, for a channel count that does not exceed
`channels_in_config`: channel `c` is left without a delay line when its resolved response
is negative, and otherwise starts at the arena offset that is the sum of the sizes of the
non-bypassed channels before it, with the size its initialisation returned. -/
theorem eq_setup_passes_within_config (config : sof_eq_config) (lookup : List (Option Int))
    (init_coef : Option Int → Int) (n : Nat) (fir0 : Nat → eq_chan_state)
    (hn : n ≤ config.channels_in_config)
    (h0 : (eq_setup_phase1 config lookup init_coef n 0 fir0 0).1 = 0)
    (c : Nat) (hc : c < n) :
    (resolved_response config c < 0 →
      ((eq_setup_phase2 config n 0
        (eq_setup_phase1 config lookup init_coef n 0 fir0 0).2.1 0).1 c).delay = none) ∧
    (0 ≤ resolved_response config c →
      ((eq_setup_phase2 config n 0
        (eq_setup_phase1 config lookup init_coef n 0 fir0 0).2.1 0).1 c).delay =
          some (eq_arena_sum config lookup init_coef c) ∧
      ((eq_setup_phase2 config n 0
        (eq_setup_phase1 config lookup init_coef n 0 fir0 0).2.1 0).1 c).delay_size =
          eq_chan_init_size config lookup init_coef c) := by
  have hres : ∀ k, k < n → resolved_response config k = config.data (k : Int) := by
    intro k hk
    unfold resolved_response
    rw [if_pos (by omega)]
  have hst := fun k (hk : k < n) =>
    (eq_setup_phase1_state config lookup init_coef n 0 fir0 0 h0 k).1 (Nat.zero_le _)
      (by omega)
  have h2 := (eq_setup_phase2_spec config
    (fun k => ((eq_setup_phase1 config lookup init_coef n 0 fir0 0).2.1 k).delay_size) n 0
    (eq_setup_phase1 config lookup init_coef n 0 fir0 0).2.1 0 (fun _ => rfl)).2 c
  have hkeep := eq_setup_phase2_keeps config n 0
    (eq_setup_phase1 config lookup init_coef n 0 fir0 0).2.1 0 c
  refine ⟨fun hneg => ?_, fun hpos => ⟨?_, ?_⟩⟩
  · rw [(h2.1 (Nat.zero_le _) (by omega)).2 (by rw [← hres c hc]; exact hneg),
      (hst c hc).1 hneg]
    rfl
  · rw [(h2.1 (Nat.zero_le _) (by omega)).1 (by rw [← hres c hc]; exact hpos),
      eq_arena_sum_eq, Nat.zero_add, Nat.sub_zero]
    congr 2
    apply List.map_congr_left
    intro k hk
    have hkc : k < c := by
      simp only [List.mem_map, List.mem_range] at hk
      obtain ⟨a, ha, hak⟩ := hk
      omega
    have hkn : k < n := by omega
    rw [← hres k hkn]
    by_cases hk0 : 0 ≤ resolved_response config k
    · rw [if_pos hk0, ((hst k hkn).2 hk0).2.2]
      simp [hk0, eq_chan_init_coef, eq_chan_init_size]
    · rw [if_neg hk0]
      simp [hk0]
  · rw [hkeep.2, ((hst c hc).2 hpos).2.2]
    rfl

/-- A successful `eq_fir_setup` with a non-empty arena leaves the channel states of the
second pass. -/
theorem eq_fir_setup_ok_states (env : eq_env) (cd : eq_fir_comp_data) (config : sof_eq_config)
    (nch : Int) (h : (eq_fir_setup env cd config nch).1 = 0)
    (hnz : (eq_fir_setup env cd config nch).2.fir_delay_size ≠ 0) :
    (eq_fir_setup env cd config nch).2.fir =
      (eq_setup_phase2 config nch.toNat 0
        (eq_setup_phase1 config (eq_fir_setup_lookup env config) (env.fir_init_coef config)
          nch.toNat 0 cd.fir 0).2.1 0).1 := by
  unfold eq_fir_setup at h hnz ⊢
  by_cases hrej : eq_fir_setup_rejects env config nch = true
  · rw [if_pos hrej] at h
    exact absurd h (by simp [EINVAL])
  · rw [if_neg hrej] at h hnz ⊢
    unfold eq_fir_setup_body at h hnz ⊢
    simp only at h hnz ⊢
    split_ifs at h hnz ⊢ with h1 h2 h3
    · exact absurd h h1
    · exact absurd h2 hnz
    · exact absurd h (by simp [ENOMEM])
    · rfl

/-- A successful `eq_iir_setup` with a non-empty arena leaves the channel states of the
second pass. -/
theorem eq_iir_setup_ok_states (env : eq_env) (cd : eq_iir_comp_data) (config : sof_eq_config)
    (nch : Int) (h : (eq_iir_setup env cd config nch).1 = 0)
    (hnz : (eq_iir_setup env cd config nch).2.iir_delay_size ≠ 0) :
    (eq_iir_setup env cd config nch).2.iir =
      (eq_setup_phase2 config nch.toNat 0
        (eq_setup_phase1 config (eq_iir_setup_lookup env config)
          (env.iir_init_coef_df2t config) nch.toNat 0
          (eq_iir_free_delaylines cd).iir 0).2.1 0).1 := by
  unfold eq_iir_setup at h hnz ⊢
  by_cases hrej : eq_iir_setup_rejects env config nch = true
  · rw [if_pos hrej] at h
    exact absurd h (by simp [EINVAL])
  · rw [if_neg hrej] at h hnz ⊢
    unfold eq_iir_setup_body at h hnz ⊢
    simp only at h hnz ⊢
    split_ifs at h hnz ⊢ with h1 h2 h3
    · exact absurd h h1
    · exact absurd h2 hnz
    · exact absurd h (by simp [ENOMEM])
    · rfl

/-- What holds of the second pass. When `nch` does not exceed `channels_in_config`, a
successful `eq_fir_setup` / `eq_iir_setup` with a non-empty arena gives a delay line to
exactly the channels below `nch` whose resolved response is non-negative; the delay line
of such a channel `c` starts at the sum of the sizes of the non-bypassed channels before
it and ends where the next one starts, so the delay lines come at increasing offsets, are
pairwise disjoint, lie inside the arena and fill it. -/
theorem eq_setup_partitions_within_config (env : eq_env) (cdf : eq_fir_comp_data)
    (cdi : eq_iir_comp_data) (cfgf cfgi : sof_eq_config) (nch : Int)
    (hlef : nch ≤ (cfgf.channels_in_config : Int))
    (hlei : nch ≤ (cfgi.channels_in_config : Int))
    (hfitf : eq_arena_sum cfgf (eq_fir_setup_lookup env cfgf) (env.fir_init_coef cfgf)
      nch.toNat < UINT32_MOD)
    (hfiti : eq_arena_sum cfgi (eq_iir_setup_lookup env cfgi) (env.iir_init_coef_df2t cfgi)
      nch.toNat < UINT32_MOD) :
    ((eq_fir_setup env cdf cfgf nch).1 = 0 →
      (eq_fir_setup env cdf cfgf nch).2.fir_delay_size ≠ 0 →
      ∀ c : Nat, (c : Int) < nch →
        (resolved_response cfgf c < 0 →
          ((eq_fir_setup env cdf cfgf nch).2.fir c).delay = none) ∧
        (0 ≤ resolved_response cfgf c →
          ((eq_fir_setup env cdf cfgf nch).2.fir c).delay =
            some (eq_arena_sum cfgf (eq_fir_setup_lookup env cfgf)
              (env.fir_init_coef cfgf) c) ∧
          eq_arena_sum cfgf (eq_fir_setup_lookup env cfgf) (env.fir_init_coef cfgf) c +
            ((eq_fir_setup env cdf cfgf nch).2.fir c).delay_size =
            eq_arena_sum cfgf (eq_fir_setup_lookup env cfgf) (env.fir_init_coef cfgf)
              (c + 1) ∧
          eq_arena_sum cfgf (eq_fir_setup_lookup env cfgf) (env.fir_init_coef cfgf) (c + 1) ≤
            (eq_fir_setup env cdf cfgf nch).2.fir_delay_size)) ∧
    ((eq_iir_setup env cdi cfgi nch).1 = 0 →
      (eq_iir_setup env cdi cfgi nch).2.iir_delay_size ≠ 0 →
      ∀ c : Nat, (c : Int) < nch →
        (resolved_response cfgi c < 0 →
          ((eq_iir_setup env cdi cfgi nch).2.iir c).delay = none) ∧
        (0 ≤ resolved_response cfgi c →
          ((eq_iir_setup env cdi cfgi nch).2.iir c).delay =
            some (eq_arena_sum cfgi (eq_iir_setup_lookup env cfgi)
              (env.iir_init_coef_df2t cfgi) c) ∧
          eq_arena_sum cfgi (eq_iir_setup_lookup env cfgi) (env.iir_init_coef_df2t cfgi) c +
            ((eq_iir_setup env cdi cfgi nch).2.iir c).delay_size =
            eq_arena_sum cfgi (eq_iir_setup_lookup env cfgi) (env.iir_init_coef_df2t cfgi)
              (c + 1) ∧
          eq_arena_sum cfgi (eq_iir_setup_lookup env cfgi) (env.iir_init_coef_df2t cfgi)
              (c + 1) ≤
            (eq_iir_setup env cdi cfgi nch).2.iir_delay_size)) := by
  constructor
  · intro hok hnz c hc
    obtain ⟨h1, h2⟩ := eq_fir_setup_ok_size env cdf cfgf nch hok
    have hsize : (eq_fir_setup env cdf cfgf nch).2.fir_delay_size =
        eq_arena_sum cfgf (eq_fir_setup_lookup env cfgf) (env.fir_init_coef cfgf)
          nch.toNat := by
      rw [h2, eq_setup_phase1_total _ _ _ _ _ h1, Nat.mod_eq_of_lt hfitf]
    have hp := eq_setup_passes_within_config cfgf (eq_fir_setup_lookup env cfgf)
      (env.fir_init_coef cfgf) nch.toNat cdf.fir (by omega) h1 c (by omega)
    rw [eq_fir_setup_ok_states env cdf cfgf nch hok hnz, hsize]
    refine ⟨hp.1, fun hpos => ⟨(hp.2 hpos).1, ?_, ?_⟩⟩
    · rw [(hp.2 hpos).2, eq_arena_sum_succ, if_pos hpos]
    · exact eq_arena_sum_mono _ _ _ _ _ (by omega)
  · intro hok hnz c hc
    obtain ⟨h1, h2⟩ := eq_iir_setup_ok_size env cdi cfgi nch hok
    have hsize : (eq_iir_setup env cdi cfgi nch).2.iir_delay_size =
        eq_arena_sum cfgi (eq_iir_setup_lookup env cfgi) (env.iir_init_coef_df2t cfgi)
          nch.toNat := by
      rw [h2, eq_setup_phase1_total _ _ _ _ _ h1, Nat.mod_eq_of_lt hfiti]
    have hp := eq_setup_passes_within_config cfgi (eq_iir_setup_lookup env cfgi)
      (env.iir_init_coef_df2t cfgi) nch.toNat (eq_iir_free_delaylines cdi).iir (by omega) h1 c
      (by omega)
    rw [eq_iir_setup_ok_states env cdi cfgi nch hok hnz, hsize]
    refine ⟨hp.1, fun hpos => ⟨(hp.2 hpos).1, ?_, ?_⟩⟩
    · rw [(hp.2 hpos).2, eq_arena_sum_succ, if_pos hpos]
    · exact eq_arena_sum_mono _ _ _ _ _ (by omega)

/-! ## Theorems: control commands -/

/-- What does hold of the size limit: a binary `fir_cmd_set_data` in READY state whose
`num_elems + elems_remaining` exceeds `SOF_EQ_FIR_MAX_SIZE` without exceeding the 32-bit
range returns `-EINVAL` and leaves the component data as they are; `eq_fir_new` and
`eq_iir_new` return `NULL` for an embedded blob above the maximum; and a binary
`iir_cmd_set_data` in READY state returns `-EINVAL` when the size field of the payload
exceeds `SOF_EQ_IIR_MAX_SIZE` (the blob stored before is freed by then). -/
theorem eq_blob_size_limit (env : eq_env) (cdf : eq_fir_comp_data) (cdi : eq_iir_comp_data)
    (cdata : sof_ipc_ctrl_data) (ipc : sof_ipc_comp_process)
    (hcmd : cdata.cmd = sof_ipc_ctrl_cmd.SOF_CTRL_CMD_BINARY) :
    (cdata.num_elems + cdata.elems_remaining < UINT32_MOD →
      cdata.num_elems + cdata.elems_remaining > env.SOF_EQ_FIR_MAX_SIZE →
      fir_cmd_set_data env comp_state.COMP_STATE_READY cdf cdata =
        cmd_result.done (-EINVAL) cdf) ∧
    (ipc.size > env.SOF_EQ_FIR_MAX_SIZE → eq_fir_new env ipc = none) ∧
    (ipc.size > env.SOF_EQ_IIR_MAX_SIZE → eq_iir_new env ipc = none) ∧
    (env.iir_config_size cdata.data > env.SOF_EQ_IIR_MAX_SIZE →
      iir_cmd_set_data env comp_state.COMP_STATE_READY cdi cdata =
        cmd_result.done (-EINVAL) { cdi with config := none }) := by
  refine ⟨fun h1 h2 => ?_, fun h => ?_, fun h => ?_, fun h => ?_⟩
  · unfold fir_cmd_set_data
    rw [hcmd]
    simp only [ne_eq, not_true_eq_false, if_false, Nat.mod_eq_of_lt h1, if_pos h2]
  · unfold eq_fir_new
    by_cases hi : ipc.comp_size_invalid = true
    · simp [hi]
    · simp [hi, h]
  · unfold eq_iir_new
    by_cases hi : ipc.comp_size_invalid = true
    · simp [hi]
    · simp [hi, h]
  · unfold iir_cmd_set_data
    rw [hcmd]
    simp only [ne_eq, not_true_eq_false, if_false, if_pos (Or.inl h)]

/-- C5, the code at a failing input. In READY state, a binary SET_DATA with
`msg_index = 0`, `num_elems = 4294967295` and `elems_remaining = 2` announces a blob of
4294967297 bytes, far above `SOF_EQ_FIR_MAX_SIZE = 4096`; the 32-bit sum the size check
compares is 1, the check passes, a block of 1 byte replaces the stored blob, and the call
ends in the failed `assert` on `memcpy_s` instead of returning `-EINVAL`. -/
theorem fir_cmd_set_data_size_check_wraps :
    4294967295 + 2 > eq_env_sample.SOF_EQ_FIR_MAX_SIZE ∧
    (4294967295 + 2) % UINT32_MOD = 1 ∧
    (fir_cmd_set_data eq_env_sample comp_state.COMP_STATE_READY eq_fir_cd_sample
      (ctrl_binary_msg 0 4294967295 2 [])).ret? ≠ some (-EINVAL) ∧
    (fir_cmd_set_data eq_env_sample comp_state.COMP_STATE_READY eq_fir_cd_sample
      (ctrl_binary_msg 0 4294967295 2 [])).is_assert_failed = true := by
  decide

/-- C6, the code at a failing input. The 56-byte FIR blob `fir_blob_stereo`, whose size
field is 56, is sent in READY state in two chunks of 28 bytes. The first call returns 0
and stores the first 28 bytes; in the second call (`msg_index = 1`, `num_elems = 28`,
`elems_remaining = 0`) the offset is 28 and the destination size handed to `memcpy_s` is
`28 + 0 - 28 = 0`, so the call ends in the failed `assert` and the blob is never stored.
Sent as one chunk, the blob is stored entire. -/
theorem fir_cmd_set_data_second_chunk_asserts :
    fir_blob_stereo.length = 56 ∧
    eq_env_sample.fir_config_size (blob_mem fir_blob_stereo) = 56 ∧
    (fir_cmd_set_data_seq eq_env_sample comp_state.COMP_STATE_READY eq_fir_cd_sample
      (blob_chunk_msgs fir_blob_stereo [28] 0 0)).ret? = some 0 ∧
    ((fir_cmd_set_data_seq eq_env_sample comp_state.COMP_STATE_READY eq_fir_cd_sample
      (blob_chunk_msgs fir_blob_stereo [28] 0 0)).blob? (fun cd => cd.config)).map
        (fun b => b.map (fun l => l.take 28)) = some (some (fir_blob_stereo.take 28)) ∧
    (fir_cmd_set_data_seq eq_env_sample comp_state.COMP_STATE_READY eq_fir_cd_sample
      (blob_chunk_msgs fir_blob_stereo [28, 28] 0 0)).is_assert_failed = true ∧
    (fir_cmd_set_data_seq eq_env_sample comp_state.COMP_STATE_READY eq_fir_cd_sample
      (blob_chunk_msgs fir_blob_stereo [28, 28] 0 0)).ret? = none ∧
    (fir_cmd_set_data_seq eq_env_sample comp_state.COMP_STATE_READY eq_fir_cd_sample
      (blob_chunk_msgs fir_blob_stereo [56] 0 0)).blob? (fun cd => cd.config) =
        some (some fir_blob_stereo) := by
  decide

/-- C7. In every component state other than READY, `fir_cmd_set_data` and
`iir_cmd_set_data` with the binary command return `-EBUSY` and leave the component data
(stored blob, filter states, delay arena) as they were, whatever the payload. -/
theorem eq_cmd_set_data_busy (env : eq_env) (dev_state : comp_state)
    (cdf : eq_fir_comp_data) (cdi : eq_iir_comp_data) (cdata : sof_ipc_ctrl_data)
    (hstate : dev_state ≠ comp_state.COMP_STATE_READY)
    (hcmd : cdata.cmd = sof_ipc_ctrl_cmd.SOF_CTRL_CMD_BINARY) :
    fir_cmd_set_data env dev_state cdf cdata = cmd_result.done (-EBUSY) cdf ∧
    iir_cmd_set_data env dev_state cdi cdata = cmd_result.done (-EBUSY) cdi := by
  constructor
  · unfold fir_cmd_set_data
    rw [hcmd]
    simp only [if_pos hstate]
  · unfold iir_cmd_set_data
    rw [hcmd]
    simp only [if_pos hstate]

/-- C7, at a running component: the whole stereo blob sent in one chunk to an ACTIVE
equalizer is answered with `-EBUSY` and changes nothing. -/
theorem eq_cmd_set_data_busy_witness :
    comp_state.COMP_STATE_ACTIVE ≠ comp_state.COMP_STATE_READY ∧
    (ctrl_binary_msg 0 56 0 fir_blob_stereo).cmd = sof_ipc_ctrl_cmd.SOF_CTRL_CMD_BINARY ∧
    fir_cmd_set_data eq_env_sample comp_state.COMP_STATE_ACTIVE eq_fir_cd_sample
      (ctrl_binary_msg 0 56 0 fir_blob_stereo) = cmd_result.done (-EBUSY) eq_fir_cd_sample ∧
    iir_cmd_set_data eq_env_sample comp_state.COMP_STATE_ACTIVE eq_iir_cd_sample
      (ctrl_binary_msg 0 56 0 fir_blob_stereo) = cmd_result.done (-EBUSY) eq_iir_cd_sample :=
  ⟨by decide, rfl,
    eq_cmd_set_data_busy eq_env_sample comp_state.COMP_STATE_ACTIVE eq_fir_cd_sample
      eq_iir_cd_sample (ctrl_binary_msg 0 56 0 fir_blob_stereo) (by decide) rfl⟩

/-! ## Theorems: mixer -/

/-- Wrapping to `int32_t` leaves the values of the `int32_t` range as they are. -/
theorem wrap_int32_of_range (x : Int) (h1 : -2147483648 ≤ x) (h2 : x ≤ 2147483647) :
    wrap_int32 x = x := by
  unfold wrap_int32
  norm_num
  omega

/-- Wrapping to `int64_t` leaves the values of the `int64_t` range as they are. -/
theorem wrap_int64_of_range (x : Int) (h1 : -9223372036854775808 ≤ x)
    (h2 : x ≤ 9223372036854775807) : wrap_int64 x = x := by
  unfold wrap_int64
  norm_num
  omega

/-- Adding to a wrapped 32-bit value and wrapping is wrapping the sum. -/
theorem wrap_int32_add (a b : Int) : wrap_int32 (wrap_int32 a + b) = wrap_int32 (a + b) := by
  unfold wrap_int32
  norm_num
  omega

/-- Adding to a wrapped 64-bit value and wrapping is wrapping the sum. -/
theorem wrap_int64_add (a b : Int) : wrap_int64 (wrap_int64 a + b) = wrap_int64 (a + b) := by
  unfold wrap_int64
  norm_num
  omega

/-- The 32-bit accumulator holds the wrapped exact sum. -/
theorem mix_n_s16_sum_eq (sources : Nat → Nat → Int) (frag : Nat) :
    ∀ (n j : Nat) (val : Int),
      mix_n_s16_sum sources frag n j (wrap_int32 val) =
        wrap_int32 (val +
          (((List.range n).map (fun t => j + t)).map (fun c => sources c frag)).sum) := by
  intro n
  induction n with
  | zero => intro j val; simp [mix_n_s16_sum]
  | succ n ih =>
    intro j val
    rw [range_succ_shift]
    simp only [mix_n_s16_sum, List.map_cons, List.sum_cons]
    rw [wrap_int32_add, ih (j + 1) (val + sources j frag), Int.add_assoc]

/-- The 64-bit accumulator holds the wrapped exact sum. -/
theorem mix_n_s32_sum_eq (sources : Nat → Nat → Int) (frag : Nat) :
    ∀ (n j : Nat) (val : Int),
      mix_n_s32_sum sources frag n j (wrap_int64 val) =
        wrap_int64 (val +
          (((List.range n).map (fun t => j + t)).map (fun c => sources c frag)).sum) := by
  intro n
  induction n with
  | zero => intro j val; simp [mix_n_s32_sum]
  | succ n ih =>
    intro j val
    rw [range_succ_shift]
    simp only [mix_n_s32_sum, List.map_cons, List.sum_cons]
    rw [wrap_int64_add, ih (j + 1) (val + sources j frag), Int.add_assoc]

/-- The accumulator of `mix_n_s16` when the loop over the sources ends. -/
theorem mix_n_s16_sum_total (sources : Nat → Nat → Int) (frag num_sources : Nat) :
    mix_n_s16_sum sources frag num_sources 0 0 =
      wrap_int32 (mix_exact_sum sources num_sources frag) := by
  have h := mix_n_s16_sum_eq sources frag num_sources 0 0
  have h0 : wrap_int32 0 = 0 := by decide
  rw [h0] at h
  rw [h]
  simp [mix_exact_sum]

/-- The accumulator of `mix_n_s32` when the loop over the sources ends. -/
theorem mix_n_s32_sum_total (sources : Nat → Nat → Int) (frag num_sources : Nat) :
    mix_n_s32_sum sources frag num_sources 0 0 =
      wrap_int64 (mix_exact_sum sources num_sources frag) := by
  have h := mix_n_s32_sum_eq sources frag num_sources 0 0
  have h0 : wrap_int64 0 = 0 := by decide
  rw [h0] at h
  rw [h]
  simp [mix_exact_sum]

/-- The exact sum of samples between `lo` and `hi` lies between `n * lo` and `n * hi`. -/
theorem mix_exact_sum_bounds (sources : Nat → Nat → Int) (frag : Nat) (lo hi : Int) :
    ∀ n : Nat, (∀ j, j < n → lo ≤ sources j frag ∧ sources j frag ≤ hi) →
      (n : Int) * lo ≤ mix_exact_sum sources n frag ∧
      mix_exact_sum sources n frag ≤ (n : Int) * hi := by
  intro n
  induction n with
  | zero => intro _; simp [mix_exact_sum]
  | succ n ih =>
    intro h
    have h1 := ih (fun j hj => h j (Nat.lt_succ_of_lt hj))
    have h2 := h n (Nat.lt_succ_self n)
    unfold mix_exact_sum at h1 ⊢
    rw [List.range_succ, List.map_append, List.sum_append]
    simp only [List.map_cons, List.map_nil, List.sum_cons, List.sum_nil, add_zero]
    push_cast
    constructor <;> nlinarith [h1.1, h1.2, h2.1, h2.2]

/-- The channel loop stores `out` in the next `n` fragments and nowhere else. -/
theorem mix_n_channels_spec (out : Nat → Int) :
    ∀ (n : Nat) (st : (Nat → Int) × Nat),
      (mix_n_channels out n st).2 = st.2 + n ∧
      ∀ k, (mix_n_channels out n st).1 k =
        if st.2 ≤ k ∧ k < st.2 + n then out k else st.1 k := by
  intro n
  induction n with
  | zero =>
    intro st
    refine ⟨rfl, fun k => ?_⟩
    rw [if_neg (by omega)]
    rfl
  | succ n ih =>
    intro st
    simp only [mix_n_channels]
    obtain ⟨h1, h2⟩ := ih (Function.update st.1 st.2 (out st.2), st.2 + 1)
    refine ⟨by rw [h1]; simp only; omega, fun k => ?_⟩
    rw [h2 k]
    simp only
    by_cases hk : k = st.2
    · subst hk
      simp
    · rw [Function.update_noteq hk]
      by_cases hin : st.2 + 1 ≤ k ∧ k < st.2 + 1 + n
      · rw [if_pos hin, if_pos (by omega)]
      · rw [if_neg hin, if_neg (by omega)]

/-- The frame loop stores `out` in the next `n * channels` fragments and nowhere else. -/
theorem mix_n_frames_spec (out : Nat → Int) (channels : Nat) :
    ∀ (n : Nat) (st : (Nat → Int) × Nat),
      (mix_n_frames out channels n st).2 = st.2 + n * channels ∧
      ∀ k, (mix_n_frames out channels n st).1 k =
        if st.2 ≤ k ∧ k < st.2 + n * channels then out k else st.1 k := by
  intro n
  induction n with
  | zero =>
    intro st
    refine ⟨by simp [mix_n_frames], fun k => ?_⟩
    rw [if_neg (by omega)]
    rfl
  | succ n ih =>
    intro st
    simp only [mix_n_frames]
    obtain ⟨h1, h2⟩ := ih (mix_n_channels out channels st)
    obtain ⟨c1, c2⟩ := mix_n_channels_spec out channels st
    have hmul : (n + 1) * channels = channels + n * channels := by ring
    refine ⟨by rw [h1, c1, hmul]; omega, fun k => ?_⟩
    rw [h2 k, c1, c2 k, hmul]
    by_cases ha : st.2 ≤ k ∧ k < st.2 + channels
    · rw [if_pos ha, if_neg (by omega), if_pos (by omega)]
    · rw [if_neg ha]
      by_cases hb : st.2 + channels ≤ k ∧ k < st.2 + channels + n * channels
      · rw [if_pos hb, if_pos (by omega)]
      · rw [if_neg hb, if_neg (by omega)]

/-- The sink after `mix_n_s16`: the first `frames * channels` fragments hold the
saturated 32-bit accumulator, the others are untouched. -/
theorem mix_n_s16_spec (channels : Nat) (sink : Nat → Int) (sources : Nat → Nat → Int)
    (num_sources frames k : Nat) :
    mix_n_s16 channels sink sources num_sources frames k =
      if k < frames * channels then
        sat_int16 (wrap_int32 (mix_exact_sum sources num_sources k))
      else sink k := by
  unfold mix_n_s16
  rw [(mix_n_frames_spec _ channels frames (sink, 0)).2 k]
  simp only [Nat.zero_le, true_and, Nat.zero_add, mix_n_s16_sum_total]

/-- The sink after `mix_n_s32`: the first `frames * channels` fragments hold the
saturated 64-bit accumulator, the others are untouched. -/
theorem mix_n_s32_spec (channels : Nat) (sink : Nat → Int) (sources : Nat → Nat → Int)
    (num_sources frames k : Nat) :
    mix_n_s32 channels sink sources num_sources frames k =
      if k < frames * channels then
        sat_int32 (wrap_int64 (mix_exact_sum sources num_sources k))
      else sink k := by
  unfold mix_n_s32
  rw [(mix_n_frames_spec _ channels frames (sink, 0)).2 k]
  simp only [Nat.zero_le, true_and, Nat.zero_add, mix_n_s32_sum_total]

/-- The 32-bit accumulator does not overflow for up to `PLATFORM_MAX_STREAMS` sources of
16-bit samples. -/
theorem mix_n_s16_no_overflow (sources : Nat → Nat → Int) (num_sources k : Nat)
    (hn : num_sources ≤ PLATFORM_MAX_STREAMS)
    (hs : ∀ j, j < num_sources → -32768 ≤ sources j k ∧ sources j k ≤ 32767) :
    wrap_int32 (mix_exact_sum sources num_sources k) =
      mix_exact_sum sources num_sources k := by
  have hb := mix_exact_sum_bounds sources k (-32768) 32767 num_sources hs
  have hn5 : (num_sources : Int) ≤ 5 := by
    have : num_sources ≤ 5 := hn
    exact_mod_cast this
  have h0 : (0 : Int) ≤ num_sources := Int.natCast_nonneg _
  apply wrap_int32_of_range <;> nlinarith [hb.1, hb.2]

/-- The 64-bit accumulator does not overflow for up to `PLATFORM_MAX_STREAMS` sources of
32-bit samples. -/
theorem mix_n_s32_no_overflow (sources : Nat → Nat → Int) (num_sources k : Nat)
    (hn : num_sources ≤ PLATFORM_MAX_STREAMS)
    (hs : ∀ j, j < num_sources → -2147483648 ≤ sources j k ∧ sources j k ≤ 2147483647) :
    wrap_int64 (mix_exact_sum sources num_sources k) =
      mix_exact_sum sources num_sources k := by
  have hb := mix_exact_sum_bounds sources k (-2147483648) 2147483647 num_sources hs
  have hn5 : (num_sources : Int) ≤ 5 := by
    have : num_sources ≤ 5 := hn
    exact_mod_cast this
  have h0 : (0 : Int) ≤ num_sources := Int.natCast_nonneg _
  apply wrap_int64_of_range <;> nlinarith [hb.1, hb.2]

/-- The exact sum over the buffers of a list is the sum of the list's samples. -/
theorem mix_exact_sum_of_list (l : List (Nat → Int)) (k : Nat) :
    mix_exact_sum (sources_of_list l) l.length k = (l.map (fun s => s k)).sum := by
  unfold mix_exact_sum
  congr 1
  induction l with
  | nil => rfl
  | cons x xs ih =>
    rw [List.length_cons, List.range_succ_eq_map, List.map_cons, List.map_map, List.map_cons]
    congr 1

/-- A fragment index below `frames * channels` is the index of a frame and a channel. -/
theorem mix_frag_index (frames channels k : Nat) (hk : k < frames * channels) :
    ∃ f ch, f < frames ∧ ch < channels ∧ k = f * channels + ch := by
  have hc : 0 < channels := by
    rcases Nat.eq_zero_or_pos channels with h | h
    · rw [h] at hk; simp at hk
    · exact h
  refine ⟨k / channels, k % channels, ?_, Nat.mod_lt _ hc, ?_⟩
  · exact Nat.div_lt_of_lt_mul (by rw [Nat.mul_comm]; exact hk)
  · rw [Nat.mul_comm]; exact (Nat.div_add_mod k channels).symm

/-- The index of a frame and a channel lies below `frames * channels`. -/
theorem mix_frag_index_lt (frames channels f ch : Nat) (hf : f < frames) (hch : ch < channels) :
    f * channels + ch < frames * channels := by
  have h1 : (f + 1) * channels ≤ frames * channels := Nat.mul_le_mul_right _ hf
  have h2 : (f + 1) * channels = f * channels + channels := by ring
  omega

/-- C8. `mix_n_s16` writes, for every frame `f < frames` and channel `ch < channels`, the
sink sample with index `f * channels + ch` equal to `sat_int16` of the exact integer sum of
that sample over the `num_sources` sources (for `num_sources ≤ PLATFORM_MAX_STREAMS` the
32-bit accumulator does not overflow), and leaves every other sink sample as it was;
`mix_n_s32` does the same with the 64-bit accumulator and `sat_int32`. -/
theorem mix_n_writes_saturated_sums (channels frames num_sources : Nat) (sink : Nat → Int)
    (src16 src32 : Nat → Nat → Int)
    (hn : num_sources ≤ PLATFORM_MAX_STREAMS)
    (h16 : ∀ j k, j < num_sources → -32768 ≤ src16 j k ∧ src16 j k ≤ 32767)
    (h32 : ∀ j k, j < num_sources → -2147483648 ≤ src32 j k ∧ src32 j k ≤ 2147483647) :
    (∀ f ch, f < frames → ch < channels →
      mix_n_s16 channels sink src16 num_sources frames (f * channels + ch) =
        sat_int16 (mix_exact_sum src16 num_sources (f * channels + ch))) ∧
    (∀ k, (¬ ∃ f ch, f < frames ∧ ch < channels ∧ k = f * channels + ch) →
      mix_n_s16 channels sink src16 num_sources frames k = sink k) ∧
    (∀ f ch, f < frames → ch < channels →
      mix_n_s32 channels sink src32 num_sources frames (f * channels + ch) =
        sat_int32 (mix_exact_sum src32 num_sources (f * channels + ch))) ∧
    (∀ k, (¬ ∃ f ch, f < frames ∧ ch < channels ∧ k = f * channels + ch) →
      mix_n_s32 channels sink src32 num_sources frames k = sink k) := by
  refine ⟨fun f ch hf hch => ?_, fun k hk => ?_, fun f ch hf hch => ?_, fun k hk => ?_⟩
  · rw [mix_n_s16_spec, if_pos (mix_frag_index_lt frames channels f ch hf hch),
      mix_n_s16_no_overflow src16 num_sources _ hn (fun j hj => h16 j _ hj)]
  · rw [mix_n_s16_spec, if_neg (fun h => hk (mix_frag_index frames channels k h))]
  · rw [mix_n_s32_spec, if_pos (mix_frag_index_lt frames channels f ch hf hch),
      mix_n_s32_no_overflow src32 num_sources _ hn (fun j hj => h32 j _ hj)]
  · rw [mix_n_s32_spec, if_neg (fun h => hk (mix_frag_index frames channels k h))]

/-- The samples of the three sample sources lie in the 16-bit range. -/
theorem mix_sources_sample_range (j k : Nat) :
    -32768 ≤ sources_of_list [mix_source_a, mix_source_b, mix_source_c] j k ∧
    sources_of_list [mix_source_a, mix_source_b, mix_source_c] j k ≤ 32767 := by
  rcases j with _ | _ | _ | j <;>
    simp [sources_of_list, mix_source_a, mix_source_b, mix_source_c] <;>
    split_ifs <;> omega

/-- C8, at three sources, one channel and two frames: fragment 0 has the exact sum 51000
and the sink gets 32767, fragment 1 has the exact sum -32770 and the sink gets -32768,
and fragment 2 keeps its value. -/
theorem mix_n_writes_saturated_sums_witness :
    3 ≤ PLATFORM_MAX_STREAMS ∧
    mix_n_s16 1 mix_sink_sample (sources_of_list [mix_source_a, mix_source_b, mix_source_c])
      3 2 (0 * 1 + 0) = 32767 ∧
    mix_n_s16 1 mix_sink_sample (sources_of_list [mix_source_a, mix_source_b, mix_source_c])
      3 2 (1 * 1 + 0) = -32768 ∧
    mix_n_s32 1 mix_sink_sample (sources_of_list [mix_source_a, mix_source_b, mix_source_c])
      3 2 (0 * 1 + 0) = 51000 ∧
    mix_n_s32 1 mix_sink_sample (sources_of_list [mix_source_a, mix_source_b, mix_source_c])
      3 2 (1 * 1 + 0) = -32770 :=
  have hr16 : ∀ j k, j < 3 →
      -32768 ≤ sources_of_list [mix_source_a, mix_source_b, mix_source_c] j k ∧
      sources_of_list [mix_source_a, mix_source_b, mix_source_c] j k ≤ 32767 :=
    fun j k _ => mix_sources_sample_range j k
  have hr32 : ∀ j k, j < 3 →
      -2147483648 ≤ sources_of_list [mix_source_a, mix_source_b, mix_source_c] j k ∧
      sources_of_list [mix_source_a, mix_source_b, mix_source_c] j k ≤ 2147483647 :=
    fun j k _ => ⟨by have := (mix_sources_sample_range j k).1; omega,
      by have := (mix_sources_sample_range j k).2; omega⟩
  ⟨by decide,
    (mix_n_writes_saturated_sums 1 2 3 mix_sink_sample _ _ (by decide) hr16 hr32).1 0 0
      (by decide) (by decide),
    (mix_n_writes_saturated_sums 1 2 3 mix_sink_sample _ _ (by decide) hr16 hr32).1 1 0
      (by decide) (by decide),
    (mix_n_writes_saturated_sums 1 2 3 mix_sink_sample _ _ (by decide) hr16 hr32).2.2.1 0 0
      (by decide) (by decide),
    (mix_n_writes_saturated_sums 1 2 3 mix_sink_sample _ _ (by decide) hr16 hr32).2.2.1 1 0
      (by decide) (by decide)⟩

/-- C9. With a single source, `mix_n_s16` (`mix_n_s32`) reproduces every input sample of
the 16-bit (32-bit) range unchanged, `INT16_MIN` and `INT16_MAX` (`INT32_MIN` and
`INT32_MAX`) included; with up to `PLATFORM_MAX_STREAMS` sources, an output sample is the
upper bound of the output range whenever the exact sum is above it, the lower bound
whenever the exact sum is below it, and the exact sum otherwise, so never a wrapped
value. -/
theorem mix_n_saturates (channels frames num_sources : Nat) (sink : Nat → Int)
    (src16 src32 : Nat → Nat → Int)
    (hn : num_sources ≤ PLATFORM_MAX_STREAMS)
    (h16 : ∀ j k, j < num_sources → -32768 ≤ src16 j k ∧ src16 j k ≤ 32767)
    (h32 : ∀ j k, j < num_sources → -2147483648 ≤ src32 j k ∧ src32 j k ≤ 2147483647) :
    (num_sources = 1 → ∀ k, k < frames * channels →
      mix_n_s16 channels sink src16 num_sources frames k = src16 0 k ∧
      mix_n_s32 channels sink src32 num_sources frames k = src32 0 k) ∧
    (∀ k, k < frames * channels →
      (mix_exact_sum src16 num_sources k > 32767 →
        mix_n_s16 channels sink src16 num_sources frames k = 32767) ∧
      (mix_exact_sum src16 num_sources k < -32768 →
        mix_n_s16 channels sink src16 num_sources frames k = -32768) ∧
      (-32768 ≤ mix_exact_sum src16 num_sources k →
        mix_exact_sum src16 num_sources k ≤ 32767 →
        mix_n_s16 channels sink src16 num_sources frames k =
          mix_exact_sum src16 num_sources k) ∧
      (mix_exact_sum src32 num_sources k > 2147483647 →
        mix_n_s32 channels sink src32 num_sources frames k = 2147483647) ∧
      (mix_exact_sum src32 num_sources k < -2147483648 →
        mix_n_s32 channels sink src32 num_sources frames k = -2147483648) ∧
      (-2147483648 ≤ mix_exact_sum src32 num_sources k →
        mix_exact_sum src32 num_sources k ≤ 2147483647 →
        mix_n_s32 channels sink src32 num_sources frames k =
          mix_exact_sum src32 num_sources k)) := by
  have e16 : ∀ k, k < frames * channels →
      mix_n_s16 channels sink src16 num_sources frames k =
        sat_int16 (mix_exact_sum src16 num_sources k) := fun k hk => by
    rw [mix_n_s16_spec, if_pos hk,
      mix_n_s16_no_overflow src16 num_sources _ hn (fun j hj => h16 j _ hj)]
  have e32 : ∀ k, k < frames * channels →
      mix_n_s32 channels sink src32 num_sources frames k =
        sat_int32 (mix_exact_sum src32 num_sources k) := fun k hk => by
    rw [mix_n_s32_spec, if_pos hk,
      mix_n_s32_no_overflow src32 num_sources _ hn (fun j hj => h32 j _ hj)]
  refine ⟨fun h1 k hk => ?_, fun k hk => ⟨fun h => ?_, fun h => ?_, fun ha hb => ?_,
    fun h => ?_, fun h => ?_, fun ha hb => ?_⟩⟩
  · have s16 : mix_exact_sum src16 num_sources k = src16 0 k := by
      rw [h1]; simp [mix_exact_sum, List.range_succ]
    have s32 : mix_exact_sum src32 num_sources k = src32 0 k := by
      rw [h1]; simp [mix_exact_sum, List.range_succ]
    have b16 := h16 0 k (by omega)
    have b32 := h32 0 k (by omega)
    rw [e16 k hk, e32 k hk, s16, s32]
    unfold sat_int16 sat_int32
    rw [if_neg (by omega), if_neg (by omega), if_neg (by omega), if_neg (by omega)]
    exact ⟨rfl, rfl⟩
  · rw [e16 k hk]; unfold sat_int16; rw [if_pos h]
  · rw [e16 k hk]; unfold sat_int16; rw [if_neg (by omega), if_pos h]
  · rw [e16 k hk]; unfold sat_int16; rw [if_neg (by omega), if_neg (by omega)]
  · rw [e32 k hk]; unfold sat_int32; rw [if_pos h]
  · rw [e32 k hk]; unfold sat_int32; rw [if_neg (by omega), if_pos h]
  · rw [e32 k hk]; unfold sat_int32; rw [if_neg (by omega), if_neg (by omega)]

/-- C9, at the boundary values: a single source holding `INT16_MAX` and `INT16_MIN`
(`INT32_MAX` and `INT32_MIN`) is reproduced unchanged. -/
theorem mix_n_saturates_witness :
    1 ≤ PLATFORM_MAX_STREAMS ∧
    mix_n_s16 1 mix_sink_sample (sources_of_list [mix_source_edge16]) 1 2 0 = 32767 ∧
    mix_n_s16 1 mix_sink_sample (sources_of_list [mix_source_edge16]) 1 2 1 = -32768 ∧
    mix_n_s32 1 mix_sink_sample (sources_of_list [mix_source_edge32]) 1 2 0 = 2147483647 ∧
    mix_n_s32 1 mix_sink_sample (sources_of_list [mix_source_edge32]) 1 2 1 = -2147483648 :=
  have hr16 : ∀ j k, j < 1 → -32768 ≤ sources_of_list [mix_source_edge16] j k ∧
      sources_of_list [mix_source_edge16] j k ≤ 32767 := fun j k hj => by
    have hj0 : j = 0 := by omega
    subst hj0
    simp only [sources_of_list, List.getD_cons_zero, mix_source_edge16]
    split_ifs <;> omega
  have hr32 : ∀ j k, j < 1 → -2147483648 ≤ sources_of_list [mix_source_edge32] j k ∧
      sources_of_list [mix_source_edge32] j k ≤ 2147483647 := fun j k hj => by
    have hj0 : j = 0 := by omega
    subst hj0
    simp only [sources_of_list, List.getD_cons_zero, mix_source_edge32]
    split_ifs <;> omega
  ⟨by decide,
    ((mix_n_saturates 1 2 1 mix_sink_sample _ _ (by decide) hr16 hr32).1 rfl 0 (by decide)).1,
    ((mix_n_saturates 1 2 1 mix_sink_sample _ _ (by decide) hr16 hr32).1 rfl 1 (by decide)).1,
    ((mix_n_saturates 1 2 1 mix_sink_sample _ _ (by decide) hr16 hr32).1 rfl 0 (by decide)).2,
    ((mix_n_saturates 1 2 1 mix_sink_sample _ _ (by decide) hr16 hr32).1 rfl 1 (by decide)).2⟩

/-- C10. Mixing does not depend on the order of the sources: for every list of sources
and every permutation of it, `mix_n_s16` and `mix_n_s32` leave identical sink contents. -/
theorem mix_n_source_order (channels frames : Nat) (sink : Nat → Int)
    (a b : List (Nat → Int)) (hperm : a.Perm b) :
    mix_n_s16 channels sink (sources_of_list a) a.length frames =
      mix_n_s16 channels sink (sources_of_list b) b.length frames ∧
    mix_n_s32 channels sink (sources_of_list a) a.length frames =
      mix_n_s32 channels sink (sources_of_list b) b.length frames := by
  have hsum : ∀ k, mix_exact_sum (sources_of_list a) a.length k =
      mix_exact_sum (sources_of_list b) b.length k := fun k => by
    rw [mix_exact_sum_of_list, mix_exact_sum_of_list]
    exact (hperm.map _).sum_eq
  constructor
  · funext k
    rw [mix_n_s16_spec, mix_n_s16_spec, hsum k]
  · funext k
    rw [mix_n_s32_spec, mix_n_s32_spec, hsum k]

/-- C10, at three sources: `mix([a, b, c]) = mix([c, a, b])`. -/
theorem mix_n_source_order_witness :
    [mix_source_a, mix_source_b, mix_source_c].Perm
      [mix_source_c, mix_source_a, mix_source_b] ∧
    mix_n_s16 2 mix_sink_sample
      (sources_of_list [mix_source_a, mix_source_b, mix_source_c]) 3 4 =
    mix_n_s16 2 mix_sink_sample
      (sources_of_list [mix_source_c, mix_source_a, mix_source_b]) 3 4 ∧
    mix_n_s32 2 mix_sink_sample
      (sources_of_list [mix_source_a, mix_source_b, mix_source_c]) 3 4 =
    mix_n_s32 2 mix_sink_sample
      (sources_of_list [mix_source_c, mix_source_a, mix_source_b]) 3 4 :=
  have hp : [mix_source_a, mix_source_b, mix_source_c].Perm
      [mix_source_c, mix_source_a, mix_source_b] :=
    @List.perm_append_comm (Nat → Int) [mix_source_a, mix_source_b] [mix_source_c]
  ⟨hp, mix_n_source_order 2 4 mix_sink_sample _ _ hp⟩

/-! ## Theorems: mixer copy and trigger -/

theorem mixer_copy_select_spec (st : comp_state) :
    ∀ (l : List comp_buffer) (i : Nat) (sel : List (Nat × comp_buffer)),
      sel.length < PLATFORM_MAX_STREAMS - 1 →
      mixer_copy_select st l i sel =
        if sel.length + ((l.enumFrom i).filter (fun source => source.2.source_state = st)).length
            < PLATFORM_MAX_STREAMS - 1
        then some (sel ++ (l.enumFrom i).filter (fun source => source.2.source_state = st))
        else none := by
  intro l
  induction l with
  | nil => intro i sel h; simp [mixer_copy_select, h]
  | cons b rest ih =>
    intro i sel h
    simp only [mixer_copy_select, List.enumFrom_cons]
    by_cases hb : b.source_state = st
    · simp only [hb, if_true, List.filter_cons, decide_True, List.length_cons,
        List.length_append, List.length_nil]
      by_cases h4 : sel.length + 1 = PLATFORM_MAX_STREAMS - 1
      · have : ((sel.length + (0 + 1) : Nat) : Int) = (PLATFORM_MAX_STREAMS : Int) - 1 := by
          simp only [PLATFORM_MAX_STREAMS] at h4 ⊢; omega
        rw [if_pos this, if_neg]
        simp only [PLATFORM_MAX_STREAMS] at h4 ⊢; omega
      · have : ¬ ((sel.length + (0 + 1) : Nat) : Int) = (PLATFORM_MAX_STREAMS : Int) - 1 := by
          simp only [PLATFORM_MAX_STREAMS] at h4 ⊢; omega
        rw [if_neg this, ih (i + 1) (sel ++ [(i, b)])
          (by simp only [PLATFORM_MAX_STREAMS, List.length_append, List.length_cons,
                List.length_nil] at h h4 ⊢; omega)]
        simp only [List.length_append, List.length_cons, List.length_nil, List.append_assoc,
          List.singleton_append]
        rw [show ∀ x : Nat, sel.length + (0 + 1) + x = sel.length + (x + 1) from
          fun x => by omega]
    · simp only [hb, if_false, List.filter_cons, decide_False]
      have : ¬ ((sel.length : Nat) : Int) = (PLATFORM_MAX_STREAMS : Int) - 1 := by
        simp only [PLATFORM_MAX_STREAMS] at h ⊢; omega
      rw [if_neg this, ih (i + 1) sel h]
      simp

theorem mixer_copy_select_qualifying (st : comp_state) (l : List comp_buffer) :
    mixer_copy_select st l 0 [] =
      if (mixer_qualifying st l).length < PLATFORM_MAX_STREAMS - 1
      then some (mixer_qualifying st l) else none := by
  rw [mixer_copy_select_spec st l 0 [] (by decide)]
  simp [mixer_qualifying, List.enum]

theorem foldr_min_init (a : Nat) :
    ∀ (xs : List Nat) (f : Nat), xs.foldr min (min f a) = min a (xs.foldr min f) := by
  intro xs
  induction xs with
  | nil => intro f; simp [Nat.min_comm]
  | cons x rest ih =>
    intro f
    simp only [List.foldr_cons, ih]
    omega

theorem mixer_copy_frames_spec (sink : comp_buffer) :
    ∀ (sel : List (Nat × comp_buffer)) (frames : Nat),
      mixer_copy_frames sink sel frames =
        (sel.map (fun source => comp_avail_frames source.2 sink)).foldr min frames := by
  intro sel
  induction sel with
  | nil => intro f; simp [mixer_copy_frames]
  | cons b rest ih =>
    intro f
    simp only [mixer_copy_frames, List.map_cons, List.foldr_cons]
    rw [ih, foldr_min_init]

theorem mixer_frame_budget_le (sink : comp_buffer) (sel : List (Nat × comp_buffer)) :
    mixer_frame_budget sink sel ≤ INT32_MAX ∧
    ∀ source ∈ sel, mixer_frame_budget sink sel ≤ comp_avail_frames source.2 sink := by
  induction sel with
  | nil => simp [mixer_frame_budget]
  | cons b rest ih =>
    simp only [mixer_frame_budget, List.map_cons, List.foldr_cons, List.mem_cons,
      forall_eq_or_imp] at ih ⊢
    refine ⟨by omega, by omega, fun p hp => ?_⟩
    have := ih.2 p hp
    omega

theorem mixer_frame_budget_attained (sink : comp_buffer) (sel : List (Nat × comp_buffer)) :
    mixer_frame_budget sink sel = INT32_MAX ∨
    ∃ source ∈ sel, mixer_frame_budget sink sel = comp_avail_frames source.2 sink := by
  induction sel with
  | nil => simp [mixer_frame_budget]
  | cons b rest ih =>
    simp only [mixer_frame_budget, List.map_cons, List.foldr_cons, List.mem_cons,
      exists_eq_or_imp] at ih ⊢
    rcases Nat.le_total (comp_avail_frames b.2 sink)
      (List.foldr min INT32_MAX (List.map (fun source => comp_avail_frames source.2 sink) rest))
      with h | h
    · right; left; exact Nat.min_eq_left h
    · rw [Nat.min_eq_right h]
      rcases ih with ih | ⟨p, hp, he⟩
      · left; exact ih
      · right; right; exact ⟨p, hp, he⟩

theorem mixer_qualifying_mem (st : comp_state) (l : List comp_buffer) (k : Nat)
    (b : comp_buffer) :
    (k, b) ∈ mixer_qualifying st l ↔ l[k]? = some b ∧ b.source_state = st := by
  simp [mixer_qualifying, List.mem_enum_iff_getElem?]

theorem mixer_qualifying_sorted (st : comp_state) (l : List comp_buffer) :
    ((mixer_qualifying st l).map Prod.fst).Pairwise (· < ·) := by
  unfold mixer_qualifying
  have h : (l.enum.map Prod.fst).Pairwise (· < ·) := by
    rw [List.enum_map_fst]
    exact List.pairwise_lt_range l.length
  exact (List.Pairwise.sublist ((List.filter_sublist _).map Prod.fst) h)

theorem mixer_copy_nothing (st : comp_state) (mf : Option mix_func_t) (sink : comp_buffer)
    (l : List comp_buffer)
    (h : mixer_qualifying st l = [] ∨
      PLATFORM_MAX_STREAMS - 1 ≤ (mixer_qualifying st l).length) :
    mixer_copy st mf sink l = (0, []) := by
  unfold mixer_copy
  rw [mixer_copy_select_qualifying]
  rcases h with h | h
  · rw [h]; simp [PLATFORM_MAX_STREAMS]
  · rw [if_neg (by omega)]

theorem mixer_copy_mixes (st : comp_state) (mf : Option mix_func_t) (sink : comp_buffer)
    (l : List comp_buffer) (first : Nat × comp_buffer) (others : List (Nat × comp_buffer))
    (hq : mixer_qualifying st l = first :: others)
    (hlt : (mixer_qualifying st l).length < PLATFORM_MAX_STREAMS - 1) :
    mixer_copy st mf sink l =
      (0, [copy_call.process
            (mf, (mixer_qualifying st l).map Prod.fst,
              mixer_frame_budget sink (mixer_qualifying st l))] ++
        (mixer_qualifying st l).reverse.map (fun source => copy_call.consume source.1
          ((mixer_frame_budget sink (mixer_qualifying st l) * first.2.source_frame_bytes)
            % UINT32_MOD)) ++
        [copy_call.produce
          ((mixer_frame_budget sink (mixer_qualifying st l) * sink.sink_frame_bytes)
            % UINT32_MOD)]) := by
  unfold mixer_copy
  rw [mixer_copy_select_qualifying, if_pos hlt, hq]
  simp only [mixer_copy_frames_spec, mixer_frame_budget]

theorem mixer_copy_bytes_no_wrap (sink : comp_buffer) (sel : List (Nat × comp_buffer))
    (source : Nat × comp_buffer) (hs : source ∈ sel)
    (havail : source.2.avail < UINT32_MOD) (hfree : sink.free < UINT32_MOD) :
    (mixer_frame_budget sink sel * source.2.source_frame_bytes) % UINT32_MOD =
        mixer_frame_budget sink sel * source.2.source_frame_bytes ∧
    (mixer_frame_budget sink sel * sink.sink_frame_bytes) % UINT32_MOD =
        mixer_frame_budget sink sel * sink.sink_frame_bytes := by
  have h := (mixer_frame_budget_le sink sel).2 source hs
  unfold comp_avail_frames at h
  have h1 : mixer_frame_budget sink sel * source.2.source_frame_bytes ≤ source.2.avail :=
    le_trans (Nat.mul_le_mul_right _ (le_trans h (Nat.min_le_left _ _)))
      (Nat.div_mul_le_self _ _)
  have h2 : mixer_frame_budget sink sel * sink.sink_frame_bytes ≤ sink.free :=
    le_trans (Nat.mul_le_mul_right _ (le_trans h (Nat.min_le_right _ _)))
      (Nat.div_mul_le_self _ _)
  exact ⟨Nat.mod_eq_of_lt (by omega), Nat.mod_eq_of_lt (by omega)⟩

theorem consumed_sources_calls {α : Type} (a : α) (sel : List (Nat × comp_buffer))
    (sb kb : Nat) :
    consumed_sources ([copy_call.process a] ++
      sel.map (fun source => copy_call.consume source.1 sb) ++ [copy_call.produce kb]) =
      sel.map Prod.fst := by
  simp only [consumed_sources, List.filterMap_append, List.filterMap_cons, List.filterMap_nil,
    List.append_nil, List.nil_append]
  induction sel with
  | nil => rfl
  | cons b rest ih => simp only [List.map_cons, List.filterMap_cons, ih]

theorem consumed_bytes_consume {α : Type} (sel : List (Nat × comp_buffer)) (sb k : Nat)
    (hnd : (sel.map Prod.fst).Nodup) :
    consumed_bytes (sel.map (fun source => (copy_call.consume source.1 sb : copy_call α))) k =
      if k ∈ sel.map Prod.fst then sb else 0 := by
  induction sel with
  | nil => simp [consumed_bytes]
  | cons b rest ih =>
    have hnd2 := List.nodup_cons.mp hnd
    have e : consumed_bytes ((b :: rest).map
        (fun source => (copy_call.consume source.1 sb : copy_call α))) k =
        (if b.1 = k then sb else 0) + consumed_bytes (rest.map
        (fun source => (copy_call.consume source.1 sb : copy_call α))) k := by
      simp [consumed_bytes]
    rw [e, ih hnd2.2]
    by_cases hk : b.1 = k
    · subst hk
      rw [if_pos rfl, if_neg hnd2.1, if_pos (by simp)]
      rfl
    · rw [if_neg hk]
      have hiff : k ∈ List.map Prod.fst (b :: rest) ↔ k ∈ List.map Prod.fst rest := by
        simp only [List.map_cons, List.mem_cons]
        constructor
        · rintro (h | h)
          · exact absurd h.symm hk
          · exact h
        · exact Or.inr
      simp only [hiff, Nat.zero_add]

theorem consumed_bytes_append {α : Type} (xs ys : List (copy_call α)) (k : Nat) :
    consumed_bytes (xs ++ ys) k = consumed_bytes xs k + consumed_bytes ys k := by
  simp [consumed_bytes]

theorem produced_bytes_append {α : Type} (xs ys : List (copy_call α)) :
    produced_bytes (xs ++ ys) = produced_bytes xs + produced_bytes ys := by
  simp [produced_bytes]

theorem produce_count_append {α : Type} (xs ys : List (copy_call α)) :
    produce_count (xs ++ ys) = produce_count xs + produce_count ys := by
  simp [produce_count]

theorem produced_consume {α : Type} (sel : List (Nat × comp_buffer)) (sb : Nat) :
    produced_bytes (sel.map (fun source => (copy_call.consume source.1 sb : copy_call α))) = 0 ∧
    produce_count (sel.map (fun source => (copy_call.consume source.1 sb : copy_call α))) = 0
    := by
  induction sel with
  | nil => exact ⟨rfl, rfl⟩
  | cons b rest ih =>
    constructor
    · have := ih.1
      simp only [produced_bytes, List.map_cons, List.sum_cons, List.map_map] at this ⊢
      rw [this]
    · have := ih.2
      simp only [produce_count, List.map_cons, List.filter_cons] at this ⊢
      simpa using this

theorem consumed_bytes_calls {α : Type} (a : α) (sel : List (Nat × comp_buffer))
    (sb kb k : Nat) (hnd : (sel.map Prod.fst).Nodup) :
    consumed_bytes ([copy_call.process a] ++
      sel.map (fun source => copy_call.consume source.1 sb) ++ [copy_call.produce kb]) k =
      if k ∈ sel.map Prod.fst then sb else 0 := by
  rw [consumed_bytes_append, consumed_bytes_append, consumed_bytes_consume sel sb k hnd]
  simp [consumed_bytes]

theorem produced_bytes_calls {α : Type} (a : α) (sel : List (Nat × comp_buffer))
    (sb kb : Nat) :
    produced_bytes ([copy_call.process a] ++
      sel.map (fun source => copy_call.consume source.1 sb) ++ [copy_call.produce kb]) = kb ∧
    produce_count ([copy_call.process a] ++
      sel.map (fun source => copy_call.consume source.1 sb) ++ [copy_call.produce kb]) = 1 := by
  rw [produced_bytes_append, produced_bytes_append, produce_count_append, produce_count_append,
    (produced_consume sel sb).1, (produced_consume sel sb).2]
  simp [produced_bytes, produce_count]

theorem mixer_source_status_count_pos (st : comp_state) (l : List comp_buffer) :
    0 ≤ mixer_source_status_count l st ∧
    (mixer_source_status_count l st > 0 ↔ ∃ source ∈ l, source.source_state = st) := by
  induction l with
  | nil => simp [mixer_source_status_count]
  | cons b rest ih =>
    simp only [mixer_source_status_count, List.mem_cons, exists_eq_or_imp]
    by_cases hb : b.source_state = st
    · simp only [hb, if_true, true_or, iff_true]
      omega
    · simp only [hb, if_false, false_or]
      rw [← ih.2]
      omega

theorem mixer_qualifying_nodup (st : comp_state) (l : List comp_buffer) :
    ((mixer_qualifying st l).map Prod.fst).Nodup :=
  (mixer_qualifying_sorted st l).imp (fun h => Nat.ne_of_lt h)

/-- C11, counterexample: with four source buffers written by active components and the
mixer active, all four qualify, yet `mixer_copy` returns 0 without calling the mixing
function and without a consume or produce call. -/
theorem mixer_copy_four_sources_not_mixed :
    (mixer_qualifying comp_state.COMP_STATE_ACTIVE mixer_sources_four).map Prod.fst
      = [0, 1, 2, 3] ∧
    mixer_copy comp_state.COMP_STATE_ACTIVE (some mix_func_t.mix_n_s16) mixer_sink_buffer
      mixer_sources_four = (0, []) := by
  decide

/-- C11, as the code has it: the qualifying sources are the buffers of the source list
whose writing component is in the state of the mixer, in list order. With none of them,
or with `PLATFORM_MAX_STREAMS - 1` or more, `mixer_copy` returns 0 and makes no call.
With fewer, it returns 0 after one call of the mixing function on exactly the
qualifying sources, in list order, and the sources it consumes from are exactly the
qualifying ones. -/
theorem mixer_copy_selects_by_state (st : comp_state) (mf : Option mix_func_t)
    (sink : comp_buffer) (l : List comp_buffer) :
    (∀ k b, (k, b) ∈ mixer_qualifying st l ↔ l[k]? = some b ∧ b.source_state = st) ∧
    ((mixer_qualifying st l).map Prod.fst).Pairwise (· < ·) ∧
    (mixer_qualifying st l = [] ∨ PLATFORM_MAX_STREAMS - 1 ≤ (mixer_qualifying st l).length →
      mixer_copy st mf sink l = (0, [])) ∧
    (mixer_qualifying st l ≠ [] →
      (mixer_qualifying st l).length < PLATFORM_MAX_STREAMS - 1 →
      (mixer_copy st mf sink l).1 = 0 ∧
      process_calls (mixer_copy st mf sink l).2 =
        [(mf, (mixer_qualifying st l).map Prod.fst,
          mixer_frame_budget sink (mixer_qualifying st l))] ∧
      ∀ k, k ∈ consumed_sources (mixer_copy st mf sink l).2 ↔
        ∃ b, l[k]? = some b ∧ b.source_state = st) := by
  refine ⟨mixer_qualifying_mem st l, mixer_qualifying_sorted st l,
    mixer_copy_nothing st mf sink l, fun hne hlt => ?_⟩
  obtain ⟨first, others, hq⟩ := List.exists_cons_of_ne_nil hne
  rw [mixer_copy_mixes st mf sink l first others hq hlt]
  refine ⟨rfl, ?_, fun k => ?_⟩
  · simp [process_calls, List.filterMap_append, List.filterMap_map]
  · show k ∈ consumed_sources (_ ++ _ ++ _) ↔ _
    rw [consumed_sources_calls, List.map_reverse, List.mem_reverse]
    simp only [List.mem_map, Prod.exists, exists_and_right, exists_eq_right,
      mixer_qualifying_mem]

/-- C11, witness: three sources, the second one paused, the mixer active. -/
theorem mixer_copy_selects_by_state_witness :
    process_calls (mixer_copy comp_state.COMP_STATE_ACTIVE (some mix_func_t.mix_n_s16)
      mixer_sink_buffer mixer_sources_three).2 = [(some mix_func_t.mix_n_s16, [0, 2], 6)] :=
  ((mixer_copy_selects_by_state comp_state.COMP_STATE_ACTIVE (some mix_func_t.mix_n_s16)
    mixer_sink_buffer mixer_sources_three).2.2.2 (by decide) (by decide)).2.1

/-- C12, counterexample: five source buffers, four of them written by active components
with 8 frames each, the sink with room for 10: four sources are selected and the minimum
over them of `comp_avail_frames` is 8, yet `mixer_copy` makes no consume and no produce
call. -/
theorem mixer_copy_five_sources_no_advance :
    (mixer_qualifying comp_state.COMP_STATE_ACTIVE mixer_sources_five).map Prod.fst
      = [1, 2, 3, 4] ∧
    mixer_frame_budget mixer_sink_buffer
      (mixer_qualifying comp_state.COMP_STATE_ACTIVE mixer_sources_five) = 8 ∧
    (mixer_copy comp_state.COMP_STATE_ACTIVE (some mix_func_t.mix_n_s32) mixer_sink_buffer
      mixer_sources_five).2 = [] := by
  decide

/-- C12, as the code has it: when between 1 and `PLATFORM_MAX_STREAMS - 2` sources
qualify, `mixer_copy` mixes `frames`, the minimum of `INT32_MAX` and of
`comp_avail_frames(source, sink)` over the selected sources; it then calls the consume
update once per selected source, last selected first, each with `frames` times the frame
bytes of the first selected source, and the produce update once with `frames` times the
sink frame bytes; no other source is consumed from. The byte counters are 32-bit
values. -/
theorem mixer_copy_frame_budget (st : comp_state) (mf : Option mix_func_t)
    (sink : comp_buffer) (l : List comp_buffer) (first : Nat × comp_buffer)
    (others : List (Nat × comp_buffer))
    (hq : mixer_qualifying st l = first :: others)
    (hlt : (mixer_qualifying st l).length < PLATFORM_MAX_STREAMS - 1)
    (havail : ∀ source ∈ l, source.avail < UINT32_MOD) (hfree : sink.free < UINT32_MOD) :
    mixer_frame_budget sink (mixer_qualifying st l) ≤ INT32_MAX ∧
    (∀ source ∈ mixer_qualifying st l,
      mixer_frame_budget sink (mixer_qualifying st l) ≤ comp_avail_frames source.2 sink) ∧
    (mixer_frame_budget sink (mixer_qualifying st l) = INT32_MAX ∨
      ∃ source ∈ mixer_qualifying st l,
        mixer_frame_budget sink (mixer_qualifying st l) = comp_avail_frames source.2 sink) ∧
    mixer_copy st mf sink l =
      (0, [copy_call.process (mf, (mixer_qualifying st l).map Prod.fst,
            mixer_frame_budget sink (mixer_qualifying st l))] ++
        (mixer_qualifying st l).reverse.map (fun source => copy_call.consume source.1
          (mixer_frame_budget sink (mixer_qualifying st l) * first.2.source_frame_bytes)) ++
        [copy_call.produce
          (mixer_frame_budget sink (mixer_qualifying st l) * sink.sink_frame_bytes)]) ∧
    ((mixer_qualifying st l).map Prod.fst).Nodup ∧
    consumed_sources (mixer_copy st mf sink l).2 =
      ((mixer_qualifying st l).map Prod.fst).reverse ∧
    (∀ k, consumed_bytes (mixer_copy st mf sink l).2 k =
      if k ∈ (mixer_qualifying st l).map Prod.fst
      then mixer_frame_budget sink (mixer_qualifying st l) * first.2.source_frame_bytes
      else 0) ∧
    produced_bytes (mixer_copy st mf sink l).2 =
      mixer_frame_budget sink (mixer_qualifying st l) * sink.sink_frame_bytes ∧
    produce_count (mixer_copy st mf sink l).2 = 1 := by
  have hmem : first ∈ mixer_qualifying st l := by rw [hq]; exact List.mem_cons_self _ _
  have hfirst : first.2.avail < UINT32_MOD := by
    have h := (mixer_qualifying_mem st l first.1 first.2).mp hmem
    exact havail _ (List.mem_iff_getElem?.mpr ⟨_, h.1⟩)
  have hw := mixer_copy_bytes_no_wrap sink (mixer_qualifying st l) first hmem hfirst hfree
  have hcopy := mixer_copy_mixes st mf sink l first others hq hlt
  rw [hw.1, hw.2] at hcopy
  have hnd := mixer_qualifying_nodup st l
  have hnd2 : ((mixer_qualifying st l).reverse.map Prod.fst).Nodup := by
    rw [List.map_reverse]; exact List.nodup_reverse.mpr hnd
  refine ⟨(mixer_frame_budget_le sink _).1, (mixer_frame_budget_le sink _).2,
    mixer_frame_budget_attained sink _, hcopy, hnd, ?_, fun k => ?_, ?_, ?_⟩
  · rw [hcopy, consumed_sources_calls, List.map_reverse]
  · rw [hcopy, consumed_bytes_calls _ _ _ _ _ hnd2, List.map_reverse]
    simp only [List.mem_reverse]
  · rw [hcopy]; exact (produced_bytes_calls _ _ _ _).1
  · rw [hcopy]; exact (produced_bytes_calls _ _ _ _).2

/-- C12, witness: three sources, the second one paused; 6 frames are mixed, 24 bytes are
consumed from the sources 2 and 0 and 24 bytes are produced. -/
theorem mixer_copy_frame_budget_witness :
    mixer_copy comp_state.COMP_STATE_ACTIVE (some mix_func_t.mix_n_s16) mixer_sink_buffer
      mixer_sources_three =
      (0, [copy_call.process (some mix_func_t.mix_n_s16, [0, 2], 6),
           copy_call.consume 2 24, copy_call.consume 0 24, copy_call.produce 24]) :=
  (mixer_copy_frame_budget comp_state.COMP_STATE_ACTIVE (some mix_func_t.mix_n_s16)
    mixer_sink_buffer mixer_sources_three
    (0, buffer_s16_stereo 100 0 comp_state.COMP_STATE_ACTIVE comp_state.COMP_STATE_ACTIVE)
    [(2, buffer_s16_stereo 24 0 comp_state.COMP_STATE_ACTIVE comp_state.COMP_STATE_ACTIVE)]
    (by decide) (by decide) (by decide) (by decide)).2.2.2.1

/-- C13: `mixer_trigger` returns the error of a failed transition, and
`PPL_STATUS_PATH_STOP` for a state that was already set. Otherwise, for START and
RELEASE it returns 1 when the sink-side component is ACTIVE and 0 when not, with the
state set by the transition; for PAUSE and STOP it returns 1 and leaves the mixer ACTIVE
when a source component is ACTIVE, and returns 0 with the state set by the transition
when none is; for every other command it returns 0 with the state set by the
transition. -/
theorem mixer_trigger_propagation (cenv : comp_env) (st : comp_state) (sink : comp_buffer)
    (sources : List comp_buffer) (cmd : comp_trigger) :
    ((cenv.comp_set_state st cmd).1 < 0 →
      mixer_trigger cenv st sink sources cmd = cenv.comp_set_state st cmd) ∧
    (0 ≤ (cenv.comp_set_state st cmd).1 →
      (cenv.comp_set_state st cmd).1 = cenv.COMP_STATUS_STATE_ALREADY_SET →
      mixer_trigger cenv st sink sources cmd =
        (cenv.PPL_STATUS_PATH_STOP, (cenv.comp_set_state st cmd).2)) ∧
    (0 ≤ (cenv.comp_set_state st cmd).1 →
      (cenv.comp_set_state st cmd).1 ≠ cenv.COMP_STATUS_STATE_ALREADY_SET →
      (cmd = comp_trigger.COMP_TRIGGER_START ∨ cmd = comp_trigger.COMP_TRIGGER_RELEASE →
        (sink.sink_state = comp_state.COMP_STATE_ACTIVE →
          mixer_trigger cenv st sink sources cmd = (1, (cenv.comp_set_state st cmd).2)) ∧
        (sink.sink_state ≠ comp_state.COMP_STATE_ACTIVE →
          mixer_trigger cenv st sink sources cmd = (0, (cenv.comp_set_state st cmd).2))) ∧
      (cmd = comp_trigger.COMP_TRIGGER_PAUSE ∨ cmd = comp_trigger.COMP_TRIGGER_STOP →
        ((∃ source ∈ sources, source.source_state = comp_state.COMP_STATE_ACTIVE) →
          mixer_trigger cenv st sink sources cmd = (1, comp_state.COMP_STATE_ACTIVE)) ∧
        ((¬ ∃ source ∈ sources, source.source_state = comp_state.COMP_STATE_ACTIVE) →
          mixer_trigger cenv st sink sources cmd = (0, (cenv.comp_set_state st cmd).2))) ∧
      (cmd ≠ comp_trigger.COMP_TRIGGER_START → cmd ≠ comp_trigger.COMP_TRIGGER_RELEASE →
        cmd ≠ comp_trigger.COMP_TRIGGER_PAUSE → cmd ≠ comp_trigger.COMP_TRIGGER_STOP →
        mixer_trigger cenv st sink sources cmd = (0, (cenv.comp_set_state st cmd).2))) := by
  have hc := (mixer_source_status_count_pos comp_state.COMP_STATE_ACTIVE sources).2
  refine ⟨fun h => ?_, fun h0 h1 => ?_, fun h0 h1 => ⟨fun hcmd => ⟨fun hs => ?_, fun hs => ?_⟩,
    fun hcmd => ⟨fun hs => ?_, fun hs => ?_⟩, fun c1 c2 c3 c4 => ?_⟩⟩
  · simp only [mixer_trigger, if_pos h]
  · simp only [mixer_trigger, if_neg (not_lt.mpr h0), if_pos h1]
  · rcases hcmd with rfl | rfl <;>
      simp only [mixer_trigger, if_neg (not_lt.mpr h0), if_neg h1, mixer_sink_status, hs,
        if_true]
  · rcases hcmd with rfl | rfl <;>
      simp only [mixer_trigger, if_neg (not_lt.mpr h0), if_neg h1, mixer_sink_status, hs,
        if_false]
  · rcases hcmd with rfl | rfl <;>
      simp only [mixer_trigger, if_neg (not_lt.mpr h0), if_neg h1, if_pos (hc.mpr hs)]
  · rcases hcmd with rfl | rfl <;>
      simp only [mixer_trigger, if_neg (not_lt.mpr h0), if_neg h1,
        if_neg (fun h => hs (hc.mp h))]
  · cases cmd <;>
      first
      | exact absurd rfl c1
      | exact absurd rfl c2
      | exact absurd rfl c3
      | exact absurd rfl c4
      | simp only [mixer_trigger, if_neg (not_lt.mpr h0), if_neg h1]

/-- C13, witness: PAUSE on an active mixer with an active source is absorbed. -/
theorem mixer_trigger_propagation_witness :
    mixer_trigger comp_env_sample comp_state.COMP_STATE_ACTIVE mixer_sink_buffer
      mixer_sources_three comp_trigger.COMP_TRIGGER_PAUSE
      = (1, comp_state.COMP_STATE_ACTIVE) :=
  (((mixer_trigger_propagation comp_env_sample comp_state.COMP_STATE_ACTIVE
    mixer_sink_buffer mixer_sources_three comp_trigger.COMP_TRIGGER_PAUSE).2.2
    (by decide) (by decide)).2.1 (Or.inl rfl)).1
    ⟨buffer_s16_stereo 100 0 comp_state.COMP_STATE_ACTIVE comp_state.COMP_STATE_ACTIVE,
      by decide, by decide⟩

/-! ## Theorems: equalizer copy -/

theorem to_size_t_of_nat (n : Nat) (h : n < UINT32_MOD) : to_size_t (n : Int) = n := by
  unfold to_size_t
  rw [Int.emod_eq_of_lt (by omega) (by exact_mod_cast h)]
  simp

theorem eq_fir_copy_calls (cd : eq_fir_comp_data) (nch : Int) (cl : comp_copy_limits)
    (n sfb kfb : Nat) (hframes : cl.frames = n)
    (hs : cl.source_frame_bytes = sfb) (hk : cl.sink_frame_bytes = kfb)
    (hsb : cl.source_bytes = (n : Int) * sfb) (hkb : cl.sink_bytes = (n : Int) * kfb)
    (hr1 : n * sfb < UINT32_MOD) (hr2 : n * kfb < UINT32_MOD) :
    eq_fir_copy cd nch cl =
      (0, (if n % 2 = 1 then
            [copy_call.process (eq_fir_slot.general, cd.eq_fir_func, 1, nch),
             copy_call.consume 0 sfb, copy_call.produce kfb]
          else []) ++
          (if 2 ≤ n - n % 2 then
            [copy_call.process
              (eq_fir_slot.even, cd.eq_fir_func_even, ((n - n % 2 : Nat) : Int), nch),
             copy_call.consume 0 ((n - n % 2) * sfb),
             copy_call.produce ((n - n % 2) * kfb)]
          else [])) := by
  obtain ⟨f, sb, kb, sfb1, kfb1⟩ := cl
  simp only at hframes hs hk hsb hkb
  subst hframes hs hk hsb hkb
  unfold eq_fir_copy
  rcases Nat.mod_two_eq_zero_or_one n with h0 | h1
  · have hodd : ¬ ((n : Int) % 2 = 1) := by omega
    simp only [hodd, decide_False, Bool.false_eq_true, if_false, List.nil_append, h0,
      Nat.sub_zero, Nat.zero_ne_one]
    by_cases h2 : 2 ≤ n
    · rw [if_pos (by omega), if_pos h2]
      rw [← Nat.cast_mul, ← Nat.cast_mul, to_size_t_of_nat _ hr1, to_size_t_of_nat _ hr2]
    · rw [if_neg (by omega), if_neg h2]
  · have hodd : (n : Int) % 2 = 1 := by omega
    have hn1 : 1 ≤ n := by omega
    have e1 : ((n : Int) - 1) = ((n - 1 : Nat) : Int) := by omega
    have hsfb : sfb < UINT32_MOD := lt_of_le_of_lt (Nat.le_mul_of_pos_left sfb hn1) hr1
    have hkfb : kfb < UINT32_MOD := lt_of_le_of_lt (Nat.le_mul_of_pos_left kfb hn1) hr2
    have e2 : (n : Int) * sfb - sfb = (((n - 1) * sfb : Nat) : Int) := by
      rw [Nat.cast_mul, ← e1]; ring
    have e3 : (n : Int) * kfb - kfb = (((n - 1) * kfb : Nat) : Int) := by
      rw [Nat.cast_mul, ← e1]; ring
    have hm1 : (n - 1) * sfb < UINT32_MOD :=
      lt_of_le_of_lt (Nat.mul_le_mul_right _ (Nat.sub_le _ _)) hr1
    have hm2 : (n - 1) * kfb < UINT32_MOD :=
      lt_of_le_of_lt (Nat.mul_le_mul_right _ (Nat.sub_le _ _)) hr2
    simp only [hodd, decide_True, if_true, h1, e1, e2, e3, to_size_t_of_nat _ hsfb,
      to_size_t_of_nat _ hkfb, to_size_t_of_nat _ hm1, to_size_t_of_nat _ hm2]
    by_cases h2 : 2 ≤ n - 1
    · rw [if_pos (by omega), if_pos h2]
    · rw [if_neg (by omega), if_neg h2]

/-- C17: for a frame budget `n` with `n` frames of source bytes and of sink bytes,
`eq_fir_copy` returns 0; it calls the general function, with exactly 1 frame, iff `n` is
odd; it calls the even-optimised function only with `n` rounded down to even, and only
when that is at least 2; and over the whole call it consumes `n` times the source frame
bytes and produces `n` times the sink frame bytes. -/
theorem eq_fir_copy_odd_even (cd : eq_fir_comp_data) (nch : Int) (cl : comp_copy_limits)
    (n sfb kfb : Nat) (hframes : cl.frames = n)
    (hs : cl.source_frame_bytes = sfb) (hk : cl.sink_frame_bytes = kfb)
    (hsb : cl.source_bytes = (n : Int) * sfb) (hkb : cl.sink_bytes = (n : Int) * kfb)
    (hr1 : n * sfb < UINT32_MOD) (hr2 : n * kfb < UINT32_MOD) :
    (eq_fir_copy cd nch cl).1 = 0 ∧
    ((process_calls (eq_fir_copy cd nch cl).2).filter
        (fun a => decide (a.1 = eq_fir_slot.general)) =
      if n % 2 = 1 then [(eq_fir_slot.general, cd.eq_fir_func, 1, nch)] else []) ∧
    ((process_calls (eq_fir_copy cd nch cl).2).filter
        (fun a => decide (a.1 = eq_fir_slot.even)) =
      if 2 ≤ n - n % 2
      then [(eq_fir_slot.even, cd.eq_fir_func_even, ((n - n % 2 : Nat) : Int), nch)]
      else []) ∧
    (n - n % 2) % 2 = 0 ∧
    consumed_bytes (eq_fir_copy cd nch cl).2 0 = n * sfb ∧
    produced_bytes (eq_fir_copy cd nch cl).2 = n * kfb := by
  rw [eq_fir_copy_calls cd nch cl n sfb kfb hframes hs hk hsb hkb hr1 hr2]
  rcases Nat.mod_two_eq_zero_or_one n with h0 | h1
  · have hne : ¬ (n % 2 = 1) := by omega
    by_cases h2 : 2 ≤ n - n % 2
    · rw [if_neg hne, if_pos h2, List.nil_append]
      refine ⟨rfl, ?_, ?_, by omega, ?_, ?_⟩
      · simp [process_calls, hne]
      · simp [process_calls, h2]
      · simp [consumed_bytes, h0]
      · simp [produced_bytes, h0]
    · rw [if_neg hne, if_neg h2, List.nil_append]
      have e : n = 0 := by omega
      subst e
      refine ⟨rfl, ?_, ?_, rfl, ?_, ?_⟩
      · simp [process_calls]
      · simp [process_calls]
      · simp [consumed_bytes]
      · simp [produced_bytes]
  · by_cases h2 : 2 ≤ n - n % 2
    · have e : 1 + (n - 1) = n := by omega
      rw [if_pos h1, if_pos h2]
      refine ⟨rfl, ?_, ?_, by omega, ?_, ?_⟩
      · simp [process_calls, h1]
      · simp [process_calls, h2]
      · simp only [consumed_bytes, h1]
        simp only [List.cons_append, List.nil_append, List.map_cons, List.map_nil,
          List.sum_cons, List.sum_nil, if_true]
        calc 0 + (sfb + (0 + (0 + ((n - 1) * sfb + (0 + 0))))) = (1 + (n - 1)) * sfb := by
              ring
          _ = n * sfb := by rw [e]
      · simp only [produced_bytes, h1]
        simp only [List.cons_append, List.nil_append, List.map_cons, List.map_nil,
          List.sum_cons, List.sum_nil]
        calc 0 + (0 + (kfb + (0 + (0 + ((n - 1) * kfb + 0))))) = (1 + (n - 1)) * kfb := by
              ring
          _ = n * kfb := by rw [e]
    · have e : n = 1 := by omega
      subst e
      rw [if_pos h1, if_neg h2]
      refine ⟨rfl, ?_, ?_, rfl, ?_, ?_⟩
      · simp [process_calls]
      · simp [process_calls]
      · simp [consumed_bytes]
      · simp [produced_bytes]

/-- C17, witness: five frames of 8 bytes: one frame through the general function, four
through the even one, 40 bytes consumed and produced. -/
theorem eq_fir_copy_odd_even_witness :
    (eq_fir_copy eq_fir_cd_prepared 2 (copy_limits_sample 5)).2 =
      [copy_call.process (eq_fir_slot.general, eq_fir_func_t.eq_fir_s32, 1, 2),
       copy_call.consume 0 8, copy_call.produce 8,
       copy_call.process (eq_fir_slot.even, eq_fir_func_t.eq_fir_s32, 4, 2),
       copy_call.consume 0 32, copy_call.produce 32] ∧
    consumed_bytes (eq_fir_copy eq_fir_cd_prepared 2 (copy_limits_sample 5)).2 0 = 5 * 8 :=
  ⟨by decide,
   (eq_fir_copy_odd_even eq_fir_cd_prepared 2 (copy_limits_sample 5) 5 8 8
    (by decide) (by decide) (by decide) (by decide) (by decide) (by decide)
    (by decide)).2.2.2.2.1⟩


/-! ## Theorems: equalizer prepare -/

theorem eq_fir_prepare_cases (cenv : comp_env) (env : eq_env) (args : eq_prepare_args)
    (dev : comp_dev) (cd : eq_fir_comp_data)
    (h0 : 0 ≤ (cenv.comp_set_state dev.state comp_trigger.COMP_TRIGGER_PREPARE).1)
    (h1 : (cenv.comp_set_state dev.state comp_trigger.COMP_TRIGGER_PREPARE).1
      ≠ cenv.COMP_STATUS_STATE_ALREADY_SET) :
    eq_fir_prepare cenv env args dev cd =
      if args.set_sink_buffer < 0 then
        (args.set_sink_buffer, eq_prepare_err cenv (eq_prepare_dev cenv args dev),
          { cd with source_format := args.source_fmt, sink_format := args.sink_fmt })
      else
        eq_fir_prepare_init cenv env args (eq_prepare_dev cenv args dev)
          { cd with source_format := args.source_fmt, sink_format := args.sink_fmt } := by
  unfold eq_fir_prepare
  rw [if_neg (not_lt.mpr h0), if_neg h1]

theorem eq_iir_prepare_cases (cenv : comp_env) (env : eq_env) (args : eq_prepare_args)
    (dev : comp_dev) (cd : eq_iir_comp_data)
    (h0 : 0 ≤ (cenv.comp_set_state dev.state comp_trigger.COMP_TRIGGER_PREPARE).1)
    (h1 : (cenv.comp_set_state dev.state comp_trigger.COMP_TRIGGER_PREPARE).1
      ≠ cenv.COMP_STATUS_STATE_ALREADY_SET) :
    eq_iir_prepare cenv env args dev cd =
      if args.set_sink_buffer < 0 then
        (args.set_sink_buffer, eq_prepare_err cenv (eq_prepare_dev cenv args dev),
          { cd with source_format := args.source_fmt, sink_format := args.sink_fmt })
      else
        eq_iir_prepare_init cenv env args (eq_prepare_dev cenv args dev)
          { cd with source_format := args.source_fmt, sink_format := args.sink_fmt } := by
  unfold eq_iir_prepare
  rw [if_neg (not_lt.mpr h0), if_neg h1]

theorem eq_fir_prepare_init_setup_fail (cenv : comp_env) (env : eq_env)
    (args : eq_prepare_args) (dev : comp_dev) (cd : eq_fir_comp_data) (blob : List Nat)
    (hc : cd.config = some blob)
    (hf : (eq_fir_setup env cd (args.config_view blob) (wrap_int32 dev.channels)).1 < 0) :
    eq_fir_prepare_init cenv env args dev cd =
      ((eq_fir_setup env cd (args.config_view blob) (wrap_int32 dev.channels)).1,
        eq_prepare_err cenv dev,
        (eq_fir_setup env cd (args.config_view blob) (wrap_int32 dev.channels)).2) := by
  unfold eq_fir_prepare_init
  generalize hS : eq_fir_setup env cd (args.config_view blob) (wrap_int32 dev.channels) = S
    at hf ⊢
  split
  · rename_i b hb
    have : b = blob := Option.some.inj (hb.symm.trans hc)
    subst this
    rw [hS]
    show (if S.1 < 0 then _ else _) = _
    rw [if_pos hf]
  · rename_i hb
    rw [hc] at hb
    exact absurd hb (by simp)

theorem eq_iir_prepare_init_setup_fail (cenv : comp_env) (env : eq_env)
    (args : eq_prepare_args) (dev : comp_dev) (cd : eq_iir_comp_data) (blob : List Nat)
    (hc : cd.config = some blob)
    (hf : (eq_iir_setup env cd (args.config_view blob) (wrap_int32 dev.channels)).1 < 0) :
    eq_iir_prepare_init cenv env args dev cd =
      ((eq_iir_setup env cd (args.config_view blob) (wrap_int32 dev.channels)).1,
        eq_prepare_err cenv dev,
        (eq_iir_setup env cd (args.config_view blob) (wrap_int32 dev.channels)).2) := by
  unfold eq_iir_prepare_init
  generalize hS : eq_iir_setup env cd (args.config_view blob) (wrap_int32 dev.channels) = S
    at hf ⊢
  split
  · rename_i b hb
    have : b = blob := Option.some.inj (hb.symm.trans hc)
    subst this
    rw [hS]
    show (if S.1 < 0 then _ else _) = _
    rw [if_pos hf]
  · rename_i hb
    rw [hc] at hb
    exact absurd hb (by simp)

theorem eq_iir_prepare_func_none (cenv : comp_env) (dev : comp_dev) (cd : eq_iir_comp_data)
    (map : List eq_iir_func_map) (hn : eq_iir_find_func cd map = none) :
    eq_iir_prepare_func cenv dev cd map =
      (-EINVAL, eq_prepare_err cenv dev,
        { cd with eq_iir_func := some eq_iir_func_t.eq_iir_s32_pass }) := by
  unfold eq_iir_prepare_func
  rw [hn]

theorem eq_iir_prepare_init_blob (cenv : comp_env) (env : eq_env)
    (args : eq_prepare_args) (dev : comp_dev) (cd : eq_iir_comp_data) (blob : List Nat)
    (hc : cd.config = some blob)
    (hf : 0 ≤ (eq_iir_setup env cd (args.config_view blob) (wrap_int32 dev.channels)).1) :
    eq_iir_prepare_init cenv env args dev cd =
      eq_iir_prepare_func cenv dev
        (eq_iir_setup env cd (args.config_view blob) (wrap_int32 dev.channels)).2
        fm_configured := by
  unfold eq_iir_prepare_init
  generalize hS : eq_iir_setup env cd (args.config_view blob) (wrap_int32 dev.channels) = S
    at hf ⊢
  split
  · rename_i b hb
    have : b = blob := Option.some.inj (hb.symm.trans hc)
    subst this
    rw [hS]
    show (if S.1 < 0 then _ else _) = _
    rw [if_neg (not_lt.mpr hf)]
  · rename_i hb
    rw [hc] at hb
    exact absurd hb (by simp)

theorem eq_iir_prepare_init_no_blob (cenv : comp_env) (env : eq_env)
    (args : eq_prepare_args) (dev : comp_dev) (cd : eq_iir_comp_data)
    (hc : cd.config = none) :
    eq_iir_prepare_init cenv env args dev cd =
      eq_iir_prepare_func cenv dev cd fm_passthrough := by
  unfold eq_iir_prepare_init
  split
  · rename_i b hb
    rw [hc] at hb
    exact absurd hb (by simp)
  · rfl

/-- C19, counterexample: an IIR equalizer with the stored blob `iir_blob_stereo`, between
a 16-bit source and a 32-bit sink. `eq_iir_setup` succeeds and allocates a 16-byte arena
for channel 1; the table `fm_configured` has no function for this pair of formats, so
`eq_iir_prepare` applies RESET and returns `-EINVAL`, and the arena stays recorded: size
16, arena pointer and the delay pointer of channel 1 not null. -/
theorem eq_iir_prepare_keeps_arena_on_error :
    (eq_iir_prepare comp_env_sample eq_env_sample
      (eq_prepare_args_sample sof_ipc_frame.S16_LE sof_ipc_frame.S32_LE 0)
      comp_dev_sample eq_iir_cd_configured).1 = -EINVAL ∧
    (eq_iir_prepare comp_env_sample eq_env_sample
      (eq_prepare_args_sample sof_ipc_frame.S16_LE sof_ipc_frame.S32_LE 0)
      comp_dev_sample eq_iir_cd_configured).2.1.state = comp_state.COMP_STATE_READY ∧
    (eq_iir_prepare comp_env_sample eq_env_sample
      (eq_prepare_args_sample sof_ipc_frame.S16_LE sof_ipc_frame.S32_LE 0)
      comp_dev_sample eq_iir_cd_configured).2.2.iir_delay_size = 16 ∧
    (eq_iir_prepare comp_env_sample eq_env_sample
      (eq_prepare_args_sample sof_ipc_frame.S16_LE sof_ipc_frame.S32_LE 0)
      comp_dev_sample eq_iir_cd_configured).2.2.iir_delay = some 16 ∧
    ((eq_iir_prepare comp_env_sample eq_env_sample
      (eq_prepare_args_sample sof_ipc_frame.S16_LE sof_ipc_frame.S32_LE 0)
      comp_dev_sample eq_iir_cd_configured).2.2.iir 1).delay = some 0 := by
  decide

/-- C19, as the code has it. After a PREPARE transition that succeeded and was not
already set, `eq_fir_prepare` and `eq_iir_prepare` end at the label `err:`, where the
RESET transition is applied (`eq_prepare_err`), and return the negative error, when
sizing the sink buffer fails, when the engine setup fails and, in `eq_iir_prepare`, when
the dispatch table has no processing function. Nothing is released on that path: after
a failed sizing the component data is the one from before the call with the two formats
stored, after a failed setup it is what setup left, and after a failed selection it is
what setup left with `eq_iir_s32_pass` installed. -/
theorem eq_prepare_error_resets (cenv : comp_env) (env : eq_env) (args : eq_prepare_args)
    (dev : comp_dev) (cdf : eq_fir_comp_data) (cdi : eq_iir_comp_data)
    (h0 : 0 ≤ (cenv.comp_set_state dev.state comp_trigger.COMP_TRIGGER_PREPARE).1)
    (h1 : (cenv.comp_set_state dev.state comp_trigger.COMP_TRIGGER_PREPARE).1
      ≠ cenv.COMP_STATUS_STATE_ALREADY_SET) :
    (eq_prepare_err cenv (eq_prepare_dev cenv args dev)).state =
      (cenv.comp_set_state
        (cenv.comp_set_state dev.state comp_trigger.COMP_TRIGGER_PREPARE).2
        comp_trigger.COMP_TRIGGER_RESET).2 ∧
    (args.set_sink_buffer < 0 →
      eq_fir_prepare cenv env args dev cdf =
        (args.set_sink_buffer, eq_prepare_err cenv (eq_prepare_dev cenv args dev),
          { cdf with source_format := args.source_fmt, sink_format := args.sink_fmt }) ∧
      eq_iir_prepare cenv env args dev cdi =
        (args.set_sink_buffer, eq_prepare_err cenv (eq_prepare_dev cenv args dev),
          { cdi with source_format := args.source_fmt, sink_format := args.sink_fmt })) ∧
    (∀ blob, 0 ≤ args.set_sink_buffer → cdf.config = some blob →
      (eq_fir_setup env
        { cdf with source_format := args.source_fmt, sink_format := args.sink_fmt }
        (args.config_view blob) (wrap_int32 dev.channels)).1 < 0 →
      eq_fir_prepare cenv env args dev cdf =
        ((eq_fir_setup env
            { cdf with source_format := args.source_fmt, sink_format := args.sink_fmt }
            (args.config_view blob) (wrap_int32 dev.channels)).1,
          eq_prepare_err cenv (eq_prepare_dev cenv args dev),
          (eq_fir_setup env
            { cdf with source_format := args.source_fmt, sink_format := args.sink_fmt }
            (args.config_view blob) (wrap_int32 dev.channels)).2)) ∧
    (∀ blob, 0 ≤ args.set_sink_buffer → cdi.config = some blob →
      (eq_iir_setup env
        { cdi with source_format := args.source_fmt, sink_format := args.sink_fmt }
        (args.config_view blob) (wrap_int32 dev.channels)).1 < 0 →
      eq_iir_prepare cenv env args dev cdi =
        ((eq_iir_setup env
            { cdi with source_format := args.source_fmt, sink_format := args.sink_fmt }
            (args.config_view blob) (wrap_int32 dev.channels)).1,
          eq_prepare_err cenv (eq_prepare_dev cenv args dev),
          (eq_iir_setup env
            { cdi with source_format := args.source_fmt, sink_format := args.sink_fmt }
            (args.config_view blob) (wrap_int32 dev.channels)).2)) ∧
    (∀ blob, 0 ≤ args.set_sink_buffer → cdi.config = some blob →
      0 ≤ (eq_iir_setup env
        { cdi with source_format := args.source_fmt, sink_format := args.sink_fmt }
        (args.config_view blob) (wrap_int32 dev.channels)).1 →
      eq_iir_find_func (eq_iir_setup env
        { cdi with source_format := args.source_fmt, sink_format := args.sink_fmt }
        (args.config_view blob) (wrap_int32 dev.channels)).2 fm_configured = none →
      eq_iir_prepare cenv env args dev cdi =
        (-EINVAL, eq_prepare_err cenv (eq_prepare_dev cenv args dev),
          { (eq_iir_setup env
            { cdi with source_format := args.source_fmt, sink_format := args.sink_fmt }
            (args.config_view blob) (wrap_int32 dev.channels)).2 with
            eq_iir_func := some eq_iir_func_t.eq_iir_s32_pass })) ∧
    (0 ≤ args.set_sink_buffer → cdi.config = none →
      eq_iir_find_func
        { cdi with source_format := args.source_fmt, sink_format := args.sink_fmt }
        fm_passthrough = none →
      eq_iir_prepare cenv env args dev cdi =
        (-EINVAL, eq_prepare_err cenv (eq_prepare_dev cenv args dev),
          { cdi with source_format := args.source_fmt, sink_format := args.sink_fmt
                     eq_iir_func := some eq_iir_func_t.eq_iir_s32_pass })) := by
  have hF := eq_fir_prepare_cases cenv env args dev cdf h0 h1
  have hI := eq_iir_prepare_cases cenv env args dev cdi h0 h1
  refine ⟨rfl, fun hs => ?_, fun blob hs hc hf => ?_, fun blob hs hc hf => ?_,
    fun blob hs hc hf hn => ?_, fun hs hc hn => ?_⟩
  · rw [hF, hI, if_pos hs, if_pos hs]
    exact ⟨rfl, rfl⟩
  · rw [hF, if_neg (not_lt.mpr hs)]
    exact eq_fir_prepare_init_setup_fail cenv env args (eq_prepare_dev cenv args dev)
      { cdf with source_format := args.source_fmt, sink_format := args.sink_fmt } blob hc hf
  · rw [hI, if_neg (not_lt.mpr hs)]
    exact eq_iir_prepare_init_setup_fail cenv env args (eq_prepare_dev cenv args dev)
      { cdi with source_format := args.source_fmt, sink_format := args.sink_fmt } blob hc hf
  · rw [hI, if_neg (not_lt.mpr hs),
      eq_iir_prepare_init_blob cenv env args (eq_prepare_dev cenv args dev)
        { cdi with source_format := args.source_fmt, sink_format := args.sink_fmt }
        blob hc hf]
    exact eq_iir_prepare_func_none cenv (eq_prepare_dev cenv args dev)
      (eq_iir_setup env
        { cdi with source_format := args.source_fmt, sink_format := args.sink_fmt }
        (args.config_view blob) (wrap_int32 dev.channels)).2 fm_configured hn
  · rw [hI, if_neg (not_lt.mpr hs),
      eq_iir_prepare_init_no_blob cenv env args (eq_prepare_dev cenv args dev)
        { cdi with source_format := args.source_fmt, sink_format := args.sink_fmt } hc]
    exact eq_iir_prepare_func_none cenv (eq_prepare_dev cenv args dev)
      { cdi with source_format := args.source_fmt, sink_format := args.sink_fmt }
      fm_passthrough hn

/-- C19, witness: sizing the sink buffer fails with -12 on a FIR equalizer that holds an
arena from an earlier prepare: RESET is applied, -12 is returned and the arena is still
recorded. -/
theorem eq_prepare_error_resets_witness :
    eq_fir_prepare comp_env_sample eq_env_sample
      (eq_prepare_args_sample sof_ipc_frame.S32_LE sof_ipc_frame.S32_LE (-12))
      comp_dev_sample eq_fir_cd_prepared =
      (-12,
        eq_prepare_err comp_env_sample (eq_prepare_dev comp_env_sample
          (eq_prepare_args_sample sof_ipc_frame.S32_LE sof_ipc_frame.S32_LE (-12))
          comp_dev_sample),
        { eq_fir_cd_prepared with
          source_format := sof_ipc_frame.S32_LE, sink_format := sof_ipc_frame.S32_LE }) :=
  ((eq_prepare_error_resets comp_env_sample eq_env_sample
    (eq_prepare_args_sample sof_ipc_frame.S32_LE sof_ipc_frame.S32_LE (-12))
    comp_dev_sample eq_fir_cd_prepared eq_iir_cd_prepared (by decide) (by decide)).2.1
    (by decide)).1


/-! ## Theorems: equalizer reset -/

theorem eq_pass_loop_spec (x : Nat → Int) :
    ∀ (n i : Nat) (y : Nat → Int) (j : Nat),
      eq_pass_loop x n i y j = if i ≤ j ∧ j < i + n then x j else y j := by
  intro n
  induction n with
  | zero =>
    intro i y j
    simp only [eq_pass_loop]
    rw [if_neg (by omega)]
  | succ n ih =>
    intro i y j
    simp only [eq_pass_loop]
    rw [ih]
    by_cases hj : j = i
    · subst hj
      by_cases h2 : j + 1 ≤ j ∧ j < j + 1 + n
      · omega
      · rw [if_neg h2, if_pos (by omega), Function.update_same]
    · by_cases h2 : i + 1 ≤ j ∧ j < i + 1 + n
      · rw [if_pos h2, if_pos (by omega)]
      · rw [if_neg h2, if_neg (by omega), Function.update_noteq hj]

theorem eq_iir_frames_bypass {σ : Type} (core : eq_chan_state → σ → Int → Int × σ)
    (filter : eq_chan_state) (hf : filter.coef = none) (nch : Nat) (x : Nat → Int) :
    ∀ (n idx : Nat) (mem : σ) (y : Nat → Int),
      (eq_iir_s32_default_frames core filter nch x n idx mem y).2 = mem ∧
      (∀ j, y j = x j → (eq_iir_s32_default_frames core filter nch x n idx mem y).1 j = x j) ∧
      (∀ i, i < n →
        (eq_iir_s32_default_frames core filter nch x n idx mem y).1 (idx + i * nch)
          = x (idx + i * nch)) ∧
      (∀ j, (∀ i, i < n → j ≠ idx + i * nch) →
        (eq_iir_s32_default_frames core filter nch x n idx mem y).1 j = y j) := by
  intro n
  induction n with
  | zero =>
    intro idx mem y
    simp [eq_iir_s32_default_frames]
  | succ n ih =>
    intro idx mem y
    simp only [eq_iir_s32_default_frames, iir_df2t, if_pos hf]
    obtain ⟨h1, h2, h3, h4⟩ := ih (idx + nch) mem (Function.update y idx (x idx))
    refine ⟨h1, fun j hj => ?_, fun i hi => ?_, fun j hj => ?_⟩
    · apply h2
      by_cases e : j = idx
      · subst e; rw [Function.update_same]
      · rw [Function.update_noteq e]; exact hj
    · cases i with
      | zero =>
        simp only [Nat.zero_mul, Nat.add_zero]
        apply h2
        rw [Function.update_same]
      | succ i =>
        have := h3 i (by omega)
        have e : idx + (i + 1) * nch = idx + nch + i * nch := by
          rw [Nat.succ_mul]; omega
        rw [e]; exact this
    · have hne : j ≠ idx := by
        have := hj 0 (by omega)
        simpa using this
      rw [h4 j (fun i hi => by
        have := hj (i + 1) (by omega)
        rw [Nat.succ_mul] at this
        omega), Function.update_noteq hne]

theorem eq_iir_channels_bypass {σ : Type} (core : eq_chan_state → σ → Int → Int × σ)
    (iir : Nat → eq_chan_state) (nch frames : Nat) (x : Nat → Int) :
    ∀ (n ch : Nat) (mem : Nat → σ) (y : Nat → Int),
      (∀ c, ch ≤ c → c < ch + n → (iir c).coef = none) →
      (eq_iir_s32_default_channels core iir nch frames x n ch mem y).2 = mem ∧
      (∀ j, y j = x j →
        (eq_iir_s32_default_channels core iir nch frames x n ch mem y).1 j = x j) ∧
      (∀ c i, ch ≤ c → c < ch + n → i < frames →
        (eq_iir_s32_default_channels core iir nch frames x n ch mem y).1 (c + i * nch)
          = x (c + i * nch)) ∧
      (∀ j, (∀ c i, ch ≤ c → c < ch + n → i < frames → j ≠ c + i * nch) →
        (eq_iir_s32_default_channels core iir nch frames x n ch mem y).1 j = y j) := by
  intro n
  induction n with
  | zero =>
    intro ch mem y _
    refine ⟨rfl, fun j hj => hj, fun c i h1 h2 _ => by omega, fun j _ => rfl⟩
  | succ n ih =>
    intro ch mem y hb
    simp only [eq_iir_s32_default_channels]
    obtain ⟨f1, f2, f3, f4⟩ :=
      eq_iir_frames_bypass core (iir ch) (hb ch (le_refl _) (by omega)) nch x frames ch
        (mem ch) y
    obtain ⟨h1, h2, h3, h4⟩ := ih (ch + 1)
      (Function.update mem ch
        (eq_iir_s32_default_frames core (iir ch) nch x frames ch (mem ch) y).2)
      (eq_iir_s32_default_frames core (iir ch) nch x frames ch (mem ch) y).1
      (fun c hc1 hc2 => hb c (by omega) (by omega))
    refine ⟨?_, fun j hj => h2 j (f2 j hj), fun c i hc1 hc2 hi => ?_, fun j hj => ?_⟩
    · rw [h1, f1]; exact Function.update_eq_self ch mem
    · by_cases e : c = ch
      · subst e
        exact h2 _ (f3 i hi)
      · exact h3 c i (by omega) (by omega) hi
    · rw [h4 j (fun c i hc1 hc2 hi => hj c i (by omega) (by omega) hi)]
      exact f4 j (fun i hi => hj ch i (le_refl _) (by omega) hi)

theorem eq_iir_s32_default_bypass {σ : Type} (core : eq_chan_state → σ → Int → Int × σ)
    (iir : Nat → eq_chan_state) (nch frames : Nat) (x : Nat → Int) (mem : Nat → σ)
    (y : Nat → Int) (hb : ∀ c, c < nch → (iir c).coef = none) (j : Nat) :
    (eq_iir_s32_default core iir nch frames x mem y).2 = mem ∧
    (eq_iir_s32_default core iir nch frames x mem y).1 j =
      if j < frames * nch then x j else y j := by
  obtain ⟨h1, _, h3, h4⟩ := eq_iir_channels_bypass core iir nch frames x nch 0 mem y
    (fun c _ hc => hb c (by omega))
  refine ⟨h1, ?_⟩
  unfold eq_iir_s32_default
  by_cases hj : j < frames * nch
  · rw [if_pos hj]
    have hn : 0 < nch := by
      rcases Nat.eq_zero_or_pos nch with h | h
      · subst h; simp at hj
      · exact h
    have := h3 (j % nch) (j / nch) (Nat.zero_le _) (by simpa using Nat.mod_lt j hn)
      ((Nat.div_lt_iff_lt_mul hn).mpr hj)
    rw [Nat.mod_add_div' j nch] at this
    exact this
  · rw [if_neg hj]
    apply h4
    intro c i _ hc hi e
    apply hj
    subst e
    have : (i + 1) * nch ≤ frames * nch := Nat.mul_le_mul_right _ hi
    rw [Nat.succ_mul] at this
    omega


/-- C20: `eq_fir_reset` and `eq_iir_reset` return 0 from every state and leave the RESET
transition applied, the arena size 0, every channel in the reset state with a null delay
pointer, and the stored blob untouched. The FIR functions are `eq_fir_s32_passthrough`,
which copies the `frames * nch` samples and leaves the rest of the sink as it was. The
IIR function is `eq_iir_s32_default`: on the reset channels, for up to
`PLATFORM_MAX_CHANNELS` channels, it leaves the delay-line memories alone and writes
what `eq_iir_s32_pass` writes, the `frames * nch` source samples. -/
theorem eq_reset_restores_passthrough (cenv : comp_env) (dev : comp_dev)
    (cdf : eq_fir_comp_data) (cdi : eq_iir_comp_data) :
    ((eq_fir_reset cenv dev cdf).1 = 0 ∧
      (eq_fir_reset cenv dev cdf).2.1.state =
        (cenv.comp_set_state dev.state comp_trigger.COMP_TRIGGER_RESET).2 ∧
      (eq_fir_reset cenv dev cdf).2.2.fir_delay_size = 0 ∧
      (∀ i, i < PLATFORM_MAX_CHANNELS →
        (eq_fir_reset cenv dev cdf).2.2.fir i = eq_chan_reset ∧
        ((eq_fir_reset cenv dev cdf).2.2.fir i).delay = none) ∧
      (eq_fir_reset cenv dev cdf).2.2.eq_fir_func = eq_fir_func_t.eq_fir_s32_passthrough ∧
      (eq_fir_reset cenv dev cdf).2.2.eq_fir_func_even
        = eq_fir_func_t.eq_fir_s32_passthrough ∧
      (eq_fir_reset cenv dev cdf).2.2.config = cdf.config) ∧
    (∀ (x y : Nat → Int) (frames nch : Nat) (j : Nat), frames * nch < 2 ^ 31 →
      eq_fir_s32_passthrough x y frames nch j = if j < frames * nch then x j else y j) ∧
    ((eq_iir_reset cenv dev cdi).1 = 0 ∧
      (eq_iir_reset cenv dev cdi).2.1.state =
        (cenv.comp_set_state dev.state comp_trigger.COMP_TRIGGER_RESET).2 ∧
      (eq_iir_reset cenv dev cdi).2.2.iir_delay_size = 0 ∧
      (∀ i, i < PLATFORM_MAX_CHANNELS →
        (eq_iir_reset cenv dev cdi).2.2.iir i = eq_chan_reset ∧
        ((eq_iir_reset cenv dev cdi).2.2.iir i).delay = none) ∧
      (eq_iir_reset cenv dev cdi).2.2.eq_iir_func = some eq_iir_func_t.eq_iir_s32_default ∧
      (eq_iir_reset cenv dev cdi).2.2.config = cdi.config) ∧
    (∀ (σ : Type) (core : eq_chan_state → σ → Int → Int × σ) (x y : Nat → Int)
      (mem : Nat → σ) (frames nch : Nat) (j : Nat),
      nch ≤ PLATFORM_MAX_CHANNELS → frames * nch < 2 ^ 31 →
      (eq_iir_s32_default core (eq_iir_reset cenv dev cdi).2.2.iir nch frames x mem y).2
        = mem ∧
      (eq_iir_s32_default core (eq_iir_reset cenv dev cdi).2.2.iir nch frames x mem y).1 j
        = (if j < frames * nch then x j else y j) ∧
      (eq_iir_s32_default core (eq_iir_reset cenv dev cdi).2.2.iir nch frames x mem y).1 j
        = eq_iir_s32_pass x y frames nch j) := by
  have hpass : ∀ (x y : Nat → Int) (n j : Nat),
      eq_pass_loop x n 0 y j = if j < n then x j else y j := by
    intro x y n j
    rw [eq_pass_loop_spec]
    by_cases h : j < n
    · rw [if_pos ⟨Nat.zero_le _, by omega⟩, if_pos h]
    · rw [if_neg (fun hh => h (by omega)), if_neg h]
  refine ⟨⟨rfl, rfl, rfl, fun i hi => ?_, rfl, rfl, rfl⟩, fun x y frames nch j hlt => ?_,
    ⟨rfl, rfl, rfl, fun i hi => ?_, rfl, rfl⟩,
    fun σ core x y mem frames nch j hn hlt => ?_⟩
  · have e : (eq_fir_reset cenv dev cdf).2.2.fir i = eq_chan_reset := by
      show (if i < PLATFORM_MAX_CHANNELS then eq_chan_reset else _) = _
      rw [if_pos hi]
    exact ⟨e, by rw [e]; rfl⟩
  · unfold eq_fir_s32_passthrough
    have hz : (frames : Int) * (nch : Int) = ((frames * nch : Nat) : Int) := by
      push_cast; rfl
    have e : (wrap_int32 ((frames : Int) * (nch : Int))).toNat = frames * nch := by
      rw [hz, wrap_int32_of_range _ (by omega) (by omega)]
      exact Int.toNat_natCast (frames * nch)
    rw [e, hpass]
  · have e : (eq_iir_reset cenv dev cdi).2.2.iir i = eq_chan_reset := by
      show (if i < PLATFORM_MAX_CHANNELS then eq_chan_reset else _) = _
      rw [if_pos hi]
    exact ⟨e, by rw [e]; rfl⟩
  · have hb : ∀ c, c < nch → ((eq_iir_reset cenv dev cdi).2.2.iir c).coef = none := by
      intro c hc
      show (if c < PLATFORM_MAX_CHANNELS then eq_chan_reset else _).coef = none
      rw [if_pos (by omega)]
      rfl
    have h := eq_iir_s32_default_bypass core _ nch frames x mem y hb j
    refine ⟨h.1, h.2, ?_⟩
    rw [h.2]
    unfold eq_iir_s32_pass
    have hz : (frames : Int) * (nch : Int) = ((frames * nch : Nat) : Int) := by
      push_cast; rfl
    have e : (wrap_int32 ((frames : Int) * (nch : Int) % (UINT32_MOD : Int))).toNat
        = frames * nch := by
      rw [hz, Int.emod_eq_of_lt (by omega) (by simp only [UINT32_MOD]; omega),
        wrap_int32_of_range _ (by omega) (by omega)]
      exact Int.toNat_natCast (frames * nch)
    rw [e, hpass]

/-- C20, witness: an IIR equalizer that holds a 16-byte arena is reset; afterwards two
frames of two channels pass through `eq_iir_s32_default` unchanged. -/
theorem eq_reset_restores_passthrough_witness :
    (eq_iir_reset comp_env_sample comp_dev_sample eq_iir_cd_prepared).2.2.iir_delay_size = 0 ∧
    (eq_iir_s32_default (fun (_ : eq_chan_state) (m : Nat) (_ : Int) => ((0 : Int), m))
      (eq_iir_reset comp_env_sample comp_dev_sample eq_iir_cd_prepared).2.2.iir 2 2
      eq_source_sample (fun _ => 0) mix_sink_sample).1 3 = 44 :=
  have h := eq_reset_restores_passthrough comp_env_sample comp_dev_sample
    eq_fir_cd_prepared eq_iir_cd_prepared
  ⟨h.2.2.1.2.2.1,
   (((h.2.2.2 Nat (fun (_ : eq_chan_state) (m : Nat) (_ : Int) => ((0 : Int), m))
      eq_source_sample mix_sink_sample (fun _ => 0) 2 2 3 (by decide) (by decide)).2.1).trans
      (by decide))⟩


/-! ## Theorems: sample rate converter -/

theorem src_find_fs_from_spec :
    ∀ (l : List Int) (i fs : Int), 0 ≤ i →
      (fs ∈ l → i ≤ src_find_fs_from l i fs ∧ src_find_fs_from l i fs < i + l.length ∧
        l[(src_find_fs_from l i fs - i).toNat]? = some fs) ∧
      (fs ∉ l → src_find_fs_from l i fs = -EINVAL) := by
  intro l
  induction l with
  | nil =>
    intro i fs _
    simp [src_find_fs_from]
  | cons x rest ih =>
    intro i fs hi
    simp only [src_find_fs_from]
    by_cases hx : x = fs
    · rw [if_pos hx]
      refine ⟨fun _ => ⟨le_refl _, by simp only [List.length_cons]; omega, ?_⟩, fun hn => ?_⟩
      · simp [hx]
      · exact absurd (by simp [hx]) hn
    · rw [if_neg hx]
      obtain ⟨h1, h2⟩ := ih (i + 1) fs (by omega)
      refine ⟨fun hm => ?_, fun hn => ?_⟩
      · have hm2 : fs ∈ rest := by
          rcases List.mem_cons.mp hm with h | h
          · exact absurd h.symm hx
          · exact h
        obtain ⟨a, b, c⟩ := h1 hm2
        refine ⟨by omega, by simp only [List.length_cons]; push_cast; omega, ?_⟩
        have e : (src_find_fs_from rest (i + 1) fs - i).toNat
            = (src_find_fs_from rest (i + 1) fs - (i + 1)).toNat + 1 := by omega
        rw [e, List.getElem?_cons_succ]
        exact c
      · exact h2 (fun h => hn (List.mem_cons_of_mem _ h))

theorem src_find_fs_spec (l : List Int) (fs : Int) :
    (fs ∈ l → 0 ≤ src_find_fs l fs ∧ src_find_fs l fs < l.length ∧
      l[(src_find_fs l fs).toNat]? = some fs) ∧
    (fs ∉ l → src_find_fs l fs = -EINVAL) := by
  have h := src_find_fs_from_spec l 0 fs (le_refl _)
  unfold src_find_fs
  refine ⟨fun hm => ?_, h.2⟩
  obtain ⟨a, b, c⟩ := h.1 hm
  refine ⟨a, by omega, ?_⟩
  simpa using c

theorem src_buffer_lengths_cases (env : src_env) (a : src_param)
    (fs_in fs_out nch source_frames : Int) :
    (nch > (PLATFORM_MAX_CHANNELS : Int) →
      src_buffer_lengths env a fs_in fs_out nch source_frames = (-EINVAL, a)) ∧
    (nch ≤ (PLATFORM_MAX_CHANNELS : Int) →
      (src_find_fs env.src_in_fs fs_in < 0 ∨ src_find_fs env.src_out_fs fs_out < 0 ∨
        (env.src_table1 (src_find_fs env.src_out_fs fs_out)
          (src_find_fs env.src_in_fs fs_in)).filter_length < 1) →
      src_buffer_lengths env a fs_in fs_out nch source_frames =
        (-EINVAL,
          { a with
            nch := nch
            idx_in := src_find_fs env.src_in_fs fs_in
            idx_out := src_find_fs env.src_out_fs fs_out })) ∧
    (nch ≤ (PLATFORM_MAX_CHANNELS : Int) →
      0 ≤ src_find_fs env.src_in_fs fs_in → 0 ≤ src_find_fs env.src_out_fs fs_out →
      1 ≤ (env.src_table1 (src_find_fs env.src_out_fs fs_out)
          (src_find_fs env.src_in_fs fs_in)).filter_length →
      (src_buffer_lengths env a fs_in fs_out nch source_frames).1 = 0 ∧
      (src_buffer_lengths env a fs_in fs_out nch source_frames).2.nch = nch ∧
      (src_buffer_lengths env a fs_in fs_out nch source_frames).2.idx_in
        = src_find_fs env.src_in_fs fs_in ∧
      (src_buffer_lengths env a fs_in fs_out nch source_frames).2.idx_out
        = src_find_fs env.src_out_fs fs_out ∧
      (src_buffer_lengths env a fs_in fs_out nch source_frames).2.fir_s1 =
        nch * src_fir_delay_length (env.src_table1 (src_find_fs env.src_out_fs fs_out)
          (src_find_fs env.src_in_fs fs_in)) ∧
      (src_buffer_lengths env a fs_in fs_out nch source_frames).2.out_s1 =
        nch * src_out_delay_length (env.src_table1 (src_find_fs env.src_out_fs fs_out)
          (src_find_fs env.src_in_fs fs_in)) ∧
      ((env.src_table2 (src_find_fs env.src_out_fs fs_out)
          (src_find_fs env.src_in_fs fs_in)).filter_length = 1 →
        (src_buffer_lengths env a fs_in fs_out nch source_frames).2.fir_s2 = 0 ∧
        (src_buffer_lengths env a fs_in fs_out nch source_frames).2.out_s2 = 0 ∧
        (src_buffer_lengths env a fs_in fs_out nch source_frames).2.sbuf_length = 0) ∧
      ((env.src_table2 (src_find_fs env.src_out_fs fs_out)
          (src_find_fs env.src_in_fs fs_in)).filter_length ≠ 1 →
        (src_buffer_lengths env a fs_in fs_out nch source_frames).2.fir_s2 =
          nch * src_fir_delay_length (env.src_table2 (src_find_fs env.src_out_fs fs_out)
            (src_find_fs env.src_in_fs fs_in)) ∧
        (src_buffer_lengths env a fs_in fs_out nch source_frames).2.out_s2 =
          nch * src_out_delay_length (env.src_table2 (src_find_fs env.src_out_fs fs_out)
            (src_find_fs env.src_in_fs fs_in)) ∧
        (src_buffer_lengths env a fs_in fs_out nch source_frames).2.sbuf_length =
          2 * nch * (env.src_table1 (src_find_fs env.src_out_fs fs_out)
            (src_find_fs env.src_in_fs fs_in)).blk_out *
            (Int.tdiv source_frames (env.src_table1 (src_find_fs env.src_out_fs fs_out)
              (src_find_fs env.src_in_fs fs_in)).blk_in + 1)) ∧
      (src_buffer_lengths env a fs_in fs_out nch source_frames).2.src_multich =
        (src_buffer_lengths env a fs_in fs_out nch source_frames).2.fir_s1 +
        (src_buffer_lengths env a fs_in fs_out nch source_frames).2.fir_s2 +
        (src_buffer_lengths env a fs_in fs_out nch source_frames).2.out_s1 +
        (src_buffer_lengths env a fs_in fs_out nch source_frames).2.out_s2 ∧
      (src_buffer_lengths env a fs_in fs_out nch source_frames).2.total =
        (src_buffer_lengths env a fs_in fs_out nch source_frames).2.sbuf_length +
        (src_buffer_lengths env a fs_in fs_out nch source_frames).2.src_multich) := by
  refine ⟨fun h => ?_, fun h hu => ?_, fun h hi ho hf => ?_⟩
  · unfold src_buffer_lengths
    rw [if_pos h]
  · unfold src_buffer_lengths
    rw [if_neg (by omega)]
    by_cases h2 : src_find_fs env.src_in_fs fs_in < 0 ∨ src_find_fs env.src_out_fs fs_out < 0
    · simp only [h2, if_true]
    · have h3 : (env.src_table1 (src_find_fs env.src_out_fs fs_out)
          (src_find_fs env.src_in_fs fs_in)).filter_length < 1 := by
        rcases hu with h | h | h
        · exact absurd (Or.inl h) h2
        · exact absurd (Or.inr h) h2
        · exact h
      simp only [h2, if_false, h3, if_true]
  · have h2 : ¬ (src_find_fs env.src_in_fs fs_in < 0 ∨ src_find_fs env.src_out_fs fs_out < 0) := by
      omega
    have h3 : ¬ (env.src_table1 (src_find_fs env.src_out_fs fs_out)
          (src_find_fs env.src_in_fs fs_in)).filter_length < 1 := by omega
    unfold src_buffer_lengths
    rw [if_neg (by omega)]
    simp only [h2, if_false, h3]
    by_cases h4 : (env.src_table2 (src_find_fs env.src_out_fs fs_out)
          (src_find_fs env.src_in_fs fs_in)).filter_length = 1
    · simp [h4]
    · simp [h4]

theorem src_buffer_lengths_ok_iff (env : src_env) (a : src_param)
    (fs_in fs_out nch source_frames : Int) :
    (src_buffer_lengths env a fs_in fs_out nch source_frames).1 = 0 ↔
      (nch ≤ (PLATFORM_MAX_CHANNELS : Int) ∧
        0 ≤ src_find_fs env.src_in_fs fs_in ∧ 0 ≤ src_find_fs env.src_out_fs fs_out ∧
        1 ≤ (env.src_table1 (src_find_fs env.src_out_fs fs_out)
          (src_find_fs env.src_in_fs fs_in)).filter_length) := by
  have h := src_buffer_lengths_cases env a fs_in fs_out nch source_frames
  constructor
  · intro h0
    by_cases h1 : nch > (PLATFORM_MAX_CHANNELS : Int)
    · rw [h.1 h1] at h0
      exact absurd (show (-EINVAL : Int) = 0 from h0) (by decide)
    · by_cases h2 : src_find_fs env.src_in_fs fs_in < 0 ∨
          src_find_fs env.src_out_fs fs_out < 0 ∨
          (env.src_table1 (src_find_fs env.src_out_fs fs_out)
            (src_find_fs env.src_in_fs fs_in)).filter_length < 1
      · rw [h.2.1 (by omega) h2] at h0
        exact absurd (show (-EINVAL : Int) = 0 from h0) (by decide)
      · omega
  · rintro ⟨h1, h2, h3, h4⟩
    exact (h.2.2 h1 h2 h3 h4).1

theorem src_buffer_lengths_err (env : src_env) (a : src_param)
    (fs_in fs_out nch source_frames : Int) :
    (src_buffer_lengths env a fs_in fs_out nch source_frames).1 = 0 ∨
    (src_buffer_lengths env a fs_in fs_out nch source_frames).1 = -EINVAL := by
  have h := src_buffer_lengths_cases env a fs_in fs_out nch source_frames
  by_cases h1 : nch > (PLATFORM_MAX_CHANNELS : Int)
  · right; rw [h.1 h1]
  · by_cases h2 : src_find_fs env.src_in_fs fs_in < 0 ∨
        src_find_fs env.src_out_fs fs_out < 0 ∨
        (env.src_table1 (src_find_fs env.src_out_fs fs_out)
          (src_find_fs env.src_in_fs fs_in)).filter_length < 1
    · right; rw [h.2.1 (by omega) h2]
    · left; exact (h.2.2 (by omega) (by omega) (by omega) (by omega)).1


theorem init_stages_two_ok (env : src_env) (s1 s2 : src_stage) (src : polyphase_src)
    (p : src_param) (start : Int)
    (h1 : s1.filter_length > 1 → s1.subfilter_length % 4 = 0)
    (h2 : s2.filter_length > 1 → s2.subfilter_length % 4 = 0)
    (hf1 : p.fir_s1 ≤ (PLATFORM_MAX_CHANNELS : Int) * env.MAX_FIR_DELAY_SIZE)
    (ho1 : p.out_s1 ≤ (PLATFORM_MAX_CHANNELS : Int) * env.MAX_OUT_DELAY_SIZE)
    (hf2 : p.fir_s2 ≤ (PLATFORM_MAX_CHANNELS : Int) * env.MAX_FIR_DELAY_SIZE)
    (ho2 : p.out_s2 ≤ (PLATFORM_MAX_CHANNELS : Int) * env.MAX_OUT_DELAY_SIZE) :
    (init_stages env s1 s2 src p 2 start).1 = 0 := by
  unfold init_stages
  have c1 : ¬ ((2 : Int) = 1 ∧ s1.blk_out = 0) := by omega
  have c2 : ¬ (s1.filter_length > 1 ∧ s1.subfilter_length % 4 > 0) := by
    rintro ⟨a, b⟩; have := h1 a; omega
  have c3 : ¬ (s2.filter_length > 1 ∧ s2.subfilter_length % 4 > 0) := by
    rintro ⟨a, b⟩; have := h2 a; omega
  simp only [c1, c2, c3, if_false]
  have c4 : (2 : Int) > 1 := by omega
  simp only [c4, if_true]
  rw [if_neg (by omega)]

theorem src_polyphase_init_cases (env : src_env) (src : polyphase_src) (p : src_param)
    (start : Int) :
    ((p.idx_in < 0 ∨ p.idx_out < 0 ∨ (env.src_table1 p.idx_out p.idx_in).filter_length = 0) →
      (src_polyphase_init env src p start).1 = -EINVAL) ∧
    (0 ≤ p.idx_in → 0 ≤ p.idx_out → (env.src_table1 p.idx_out p.idx_in).filter_length ≠ 0 →
      (init_stages env (env.src_table1 p.idx_out p.idx_in)
        (env.src_table2 p.idx_out p.idx_in) src p 2 start).1 = 0 →
      (src_polyphase_init env src p start).1 =
        if p.idx_in = p.idx_out then 0
        else if (env.src_table2 p.idx_out p.idx_in).filter_length = 1 then 1 else 2) := by
  refine ⟨fun h => ?_, fun hi ho hf hs => ?_⟩
  · unfold src_polyphase_init
    by_cases h1 : p.idx_in < 0 ∨ p.idx_out < 0
    · rw [if_pos h1]
    · rw [if_neg h1]
      have hz : (env.src_table1 p.idx_out p.idx_in).filter_length = 0 := by
        rcases h with h | h | h
        · exact absurd (Or.inl h) h1
        · exact absurd (Or.inr h) h1
        · exact h
      by_cases h2 : (init_stages env (env.src_table1 p.idx_out p.idx_in)
          (env.src_table2 p.idx_out p.idx_in) src p 2 start).1 < 0
      · simp only [h2, if_true]
      · simp only [h2, if_false, hz, if_true]
  · unfold src_polyphase_init
    rw [if_neg (by omega)]
    simp only [hs, lt_self_iff_false, if_false, hf]

theorem src_params_select_spec (n : Int) (cd : src_comp_data) :
    (n = 0 → src_params_select n cd = (0, { cd with src_func := src_func_t.src_copy_s32 })) ∧
    (n = 1 → src_params_select n cd = (0, { cd with src_func := src_func_t.src_1s })) ∧
    (n = 2 → src_params_select n cd = (0, { cd with src_func := src_func_t.src_2s })) ∧
    (n ≠ 0 → n ≠ 1 → n ≠ 2 →
      src_params_select n cd = (-EINVAL, { cd with src_func := src_func_t.src_fallback })) := by
  refine ⟨fun h => ?_, fun h => ?_, fun h => ?_, fun h0 h1 h2 => ?_⟩
  · subst h; rfl
  · subst h; rfl
  · subst h; rfl
  · unfold src_params_select
    rw [if_neg h0, if_neg h1, if_neg h2]


theorem src_mode_values (fs_in fs_out : Int) (stage2 : src_stage) :
    (src_mode fs_in fs_out stage2 = 0 ∧
      src_mode_func fs_in fs_out stage2 = src_func_t.src_copy_s32) ∨
    (src_mode fs_in fs_out stage2 = 1 ∧
      src_mode_func fs_in fs_out stage2 = src_func_t.src_1s) ∨
    (src_mode fs_in fs_out stage2 = 2 ∧
      src_mode_func fs_in fs_out stage2 = src_func_t.src_2s) := by
  unfold src_mode src_mode_func
  by_cases h : fs_in = fs_out
  · left; rw [if_pos h, if_pos h]; exact ⟨rfl, rfl⟩
  · rw [if_neg h, if_neg h]
    by_cases h2 : stage2.filter_length = 1
    · right; left; rw [if_pos h2, if_pos h2]; exact ⟨rfl, rfl⟩
    · right; right; rw [if_neg h2, if_neg h2]; exact ⟨rfl, rfl⟩

theorem src_supported_mode (env : src_env) (a : src_param) (src : polyphase_src)
    (fs_in fs_out nch source_frames start : Int)
    (hs : src_supported env fs_in fs_out) (hfit : src_tables_fit env fs_in fs_out)
    (hn : nch ≤ (PLATFORM_MAX_CHANNELS : Int)) :
    (src_buffer_lengths env a fs_in fs_out nch source_frames).1 = 0 ∧
    (src_polyphase_init env src (src_buffer_lengths env a fs_in fs_out nch source_frames).2
      start).1 = src_mode fs_in fs_out (src_lookup2 env fs_in fs_out) := by
  obtain ⟨hin, hout, hf1⟩ := hs
  obtain ⟨hal, ⟨w1, l1a, l1b, o1a, o1b⟩, ⟨w2, l2a, l2b, o2a, o2b⟩⟩ := hfit
  have hi := ((src_find_fs_spec env.src_in_fs fs_in).1 hin).1
  have ho := ((src_find_fs_spec env.src_out_fs fs_out).1 hout).1
  unfold src_lookup1 at hf1 w1 l1a l1b o1a o1b
  unfold src_lookup2 at w2 l2a l2b o2a o2b
  obtain ⟨r0, _, ri, ro, f1, o1, c1, c2, _, _⟩ :=
    (src_buffer_lengths_cases env a fs_in fs_out nch source_frames).2.2 hn hi ho hf1
  refine ⟨r0, ?_⟩
  have hmax : (0 : Int) ≤ env.MAX_FIR_DELAY_SIZE := le_trans l1a l1b
  have hmaxo : (0 : Int) ≤ env.MAX_OUT_DELAY_SIZE := le_trans o1a o1b
  have hP : ((PLATFORM_MAX_CHANNELS : Nat) : Int) = 4 := rfl
  have bound : ∀ (len mx : Int), 0 ≤ len → len ≤ mx →
      nch * len ≤ ((PLATFORM_MAX_CHANNELS : Nat) : Int) * mx := by
    intro len mx h0 h1
    calc nch * len ≤ ((PLATFORM_MAX_CHANNELS : Nat) : Int) * len :=
          Int.mul_le_mul_of_nonneg_right hn h0
      _ ≤ ((PLATFORM_MAX_CHANNELS : Nat) : Int) * mx :=
          Int.mul_le_mul_of_nonneg_left h1 (by rw [hP]; omega)
  have hs2 : (src_buffer_lengths env a fs_in fs_out nch source_frames).2.fir_s2 ≤
      ((PLATFORM_MAX_CHANNELS : Nat) : Int) * env.MAX_FIR_DELAY_SIZE ∧
      (src_buffer_lengths env a fs_in fs_out nch source_frames).2.out_s2 ≤
      ((PLATFORM_MAX_CHANNELS : Nat) : Int) * env.MAX_OUT_DELAY_SIZE := by
    by_cases h1 : (env.src_table2 (src_find_fs env.src_out_fs fs_out)
        (src_find_fs env.src_in_fs fs_in)).filter_length = 1
    · rw [(c1 h1).1, (c1 h1).2.1, hP]
      constructor <;> omega
    · rw [(c2 h1).1, (c2 h1).2.1]
      exact ⟨bound _ _ l2a l2b, bound _ _ o2a o2b⟩
  have hinit := init_stages_two_ok env
    (env.src_table1 (src_find_fs env.src_out_fs fs_out) (src_find_fs env.src_in_fs fs_in))
    (env.src_table2 (src_find_fs env.src_out_fs fs_out) (src_find_fs env.src_in_fs fs_in))
    src (src_buffer_lengths env a fs_in fs_out nch source_frames).2 start w1 w2
    (by rw [f1]; exact bound _ _ l1a l1b) (by rw [o1]; exact bound _ _ o1a o1b) hs2.1 hs2.2
  have hp := (src_polyphase_init_cases env src
    (src_buffer_lengths env a fs_in fs_out nch source_frames).2 start).2
  rw [ri, ro] at hp
  rw [hp hi ho (by omega) hinit]
  unfold src_mode src_lookup2
  by_cases e : fs_in = fs_out
  · rw [if_pos (hal.mpr e), if_pos e]
  · rw [if_neg (fun h => e (hal.mp h)), if_neg e]

theorem src_unsupported_lengths (env : src_env) (a : src_param)
    (fs_in fs_out nch source_frames : Int) (hs : ¬ src_supported env fs_in fs_out) :
    (src_buffer_lengths env a fs_in fs_out nch source_frames).1 = -EINVAL := by
  rcases src_buffer_lengths_err env a fs_in fs_out nch source_frames with h | h
  · exfalso
    obtain ⟨_, h2, h3, h4⟩ :=
      (src_buffer_lengths_ok_iff env a fs_in fs_out nch source_frames).mp h
    apply hs
    refine ⟨?_, ?_, h4⟩
    · by_contra hc
      rw [(src_find_fs_spec env.src_in_fs fs_in).2 hc] at h2
      exact absurd h2 (by decide)
    · by_contra hc
      rw [(src_find_fs_spec env.src_out_fs fs_out).2 hc] at h3
      exact absurd h3 (by decide)
  · exact h

theorem src_params_rates_keeps (ipc : sof_ipc_comp_src) (dev : comp_dev)
    (cd : src_comp_data) :
    (src_params_rates ipc dev cd).2.src_func = cd.src_func ∧
    (src_params_rates ipc dev cd).2.src = cd.src ∧
    (src_params_rates ipc dev cd).2.param = cd.param := by
  unfold src_params_rates
  by_cases h : ipc.source_rate = 0
  · rw [if_pos h]; exact ⟨rfl, rfl, rfl⟩
  · rw [if_neg h]; exact ⟨rfl, rfl, rfl⟩

theorem prod_fst_mk {α β : Type} (a : α) (b : β) (p : α × β) (h : p = (a, b)) :
    p.1 = a := by
  rw [h]

theorem prod_snd_mk {α β : Type} (a : α) (b : β) (p : α × β) (h : p = (a, b)) :
    p.2 = b := by
  rw [h]

theorem src_params_fail_eq (env : src_env) (ipc : sof_ipc_comp_src) (dev : comp_dev)
    (cd : src_comp_data)
    (h : (src_params_lengths env dev (src_params_rates ipc dev cd).2).1 < 0) :
    src_params env ipc dev cd =
    ((src_params_lengths env dev (src_params_rates ipc dev cd).2).1,
      (src_params_rates ipc dev cd).1,
      { (src_params_rates ipc dev cd).2 with
        param := (src_params_lengths env dev (src_params_rates ipc dev cd).2).2 }) := by
  unfold src_params
  rw [if_pos h]

theorem src_params_fail (env : src_env) (ipc : sof_ipc_comp_src) (dev : comp_dev)
    (cd : src_comp_data)
    (h : (src_params_lengths env dev (src_params_rates ipc dev cd).2).1 < 0) :
    (src_params env ipc dev cd).1 =
      (src_params_lengths env dev (src_params_rates ipc dev cd).2).1 ∧
    (src_params env ipc dev cd).2.2.src_func = cd.src_func := by
  have e := src_params_fail_eq env ipc dev cd h
  refine ⟨prod_fst_mk _ _ _ e, ?_⟩
  rw [prod_snd_mk _ _ _ (prod_snd_mk _ _ _ e)]
  exact (src_params_rates_keeps ipc dev cd).1

theorem src_params_pass_eq (env : src_env) (ipc : sof_ipc_comp_src) (dev : comp_dev)
    (cd : src_comp_data)
    (h : ¬ (src_params_lengths env dev (src_params_rates ipc dev cd).2).1 < 0) :
    src_params env ipc dev cd =
    ((src_params_alloc env
        { (src_params_rates ipc dev cd).2 with
          param := (src_params_lengths env dev (src_params_rates ipc dev cd).2).2 }).1,
      (src_params_rates ipc dev cd).1,
      (src_params_alloc env
        { (src_params_rates ipc dev cd).2 with
          param := (src_params_lengths env dev (src_params_rates ipc dev cd).2).2 }).2) := by
  unfold src_params
  rw [if_neg h]

theorem src_params_pass (env : src_env) (ipc : sof_ipc_comp_src) (dev : comp_dev)
    (cd : src_comp_data)
    (h : ¬ (src_params_lengths env dev (src_params_rates ipc dev cd).2).1 < 0) :
    (src_params env ipc dev cd).1 =
      (src_params_alloc env
        { (src_params_rates ipc dev cd).2 with
          param := (src_params_lengths env dev (src_params_rates ipc dev cd).2).2 }).1 ∧
    (src_params env ipc dev cd).2.2 =
      (src_params_alloc env
        { (src_params_rates ipc dev cd).2 with
          param := (src_params_lengths env dev (src_params_rates ipc dev cd).2).2 }).2 := by
  have e := src_params_pass_eq env ipc dev cd h
  exact ⟨prod_fst_mk _ _ _ e, prod_snd_mk _ _ _ (prod_snd_mk _ _ _ e)⟩

theorem src_params_alloc_ok (env : src_env) (cd : src_comp_data)
    (hsz : to_size_t (4 * cd.param.total) ≠ 0)
    (hal : env.alloc_ok (to_size_t (4 * cd.param.total)) = true) :
    src_params_alloc env cd = src_params_init env cd (to_size_t (4 * cd.param.total)) := by
  unfold src_params_alloc
  rw [if_neg hsz, if_neg (by rw [hal]; simp)]

theorem src_params_init_mode (env : src_env) (cd : src_comp_data) (sz : Nat) (m : Int)
    (f : src_func_t)
    (hm : (src_polyphase_init env cd.src cd.param cd.param.sbuf_length).1 = m)
    (hmf : (m = 0 ∧ f = src_func_t.src_copy_s32) ∨ (m = 1 ∧ f = src_func_t.src_1s) ∨
      (m = 2 ∧ f = src_func_t.src_2s)) :
    (src_params_init env cd sz).1 = 0 ∧ (src_params_init env cd sz).2.src_func = f := by
  unfold src_params_init
  rw [hm]
  rcases hmf with ⟨rfl, rfl⟩ | ⟨rfl, rfl⟩ | ⟨rfl, rfl⟩
  · exact ⟨rfl, rfl⟩
  · exact ⟨rfl, rfl⟩
  · exact ⟨rfl, rfl⟩

theorem src_params_supported_aux (env : src_env) (ipc : sof_ipc_comp_src) (dev : comp_dev)
    (cd X : src_comp_data) (R : Int × src_param)
    (hX : (src_params_rates ipc dev cd).2 = X)
    (hR : src_buffer_lengths env X.param (wrap_int32 X.source_rate) (wrap_int32 X.sink_rate)
      (wrap_int32 dev.channels) X.source_frames = R)
    (hs : src_supported env (wrap_int32 X.source_rate) (wrap_int32 X.sink_rate))
    (hfit : src_tables_fit env (wrap_int32 X.source_rate) (wrap_int32 X.sink_rate))
    (hn : wrap_int32 dev.channels ≤ (PLATFORM_MAX_CHANNELS : Int))
    (hsz : to_size_t (4 * R.2.total) ≠ 0)
    (hal : env.alloc_ok (to_size_t (4 * R.2.total)) = true) :
    (src_params env ipc dev cd).1 = 0 ∧
    (src_params env ipc dev cd).2.2.src_func =
      src_mode_func (wrap_int32 X.source_rate) (wrap_int32 X.sink_rate)
        (src_lookup2 env (wrap_int32 X.source_rate) (wrap_int32 X.sink_rate)) := by
  have hA := src_supported_mode env X.param X.src (wrap_int32 X.source_rate)
    (wrap_int32 X.sink_rate) (wrap_int32 dev.channels) X.source_frames R.2.sbuf_length
    hs hfit hn
  rw [hR] at hA
  have hmode := src_mode_values (wrap_int32 X.source_rate) (wrap_int32 X.sink_rate)
    (src_lookup2 env (wrap_int32 X.source_rate) (wrap_int32 X.sink_rate))
  have hpe : ¬ (src_params_lengths env dev (src_params_rates ipc dev cd).2).1 < 0 →
      _ := src_params_pass env ipc dev cd
  unfold src_params_lengths at hpe
  rw [hX, hR] at hpe
  have hp := hpe (by omega)
  have hok := src_params_alloc_ok env { X with param := R.2 } hsz hal
  have hfin := src_params_init_mode env { X with param := R.2 }
    (to_size_t (4 * R.2.total)) _ _ hA.2 hmode
  rw [hp.1, hp.2, hok]
  exact hfin

theorem src_params_supported (env : src_env) (ipc : sof_ipc_comp_src) (dev : comp_dev)
    (cd : src_comp_data)
    (hs : src_supported env (wrap_int32 (src_params_rates ipc dev cd).2.source_rate)
      (wrap_int32 (src_params_rates ipc dev cd).2.sink_rate))
    (hfit : src_tables_fit env (wrap_int32 (src_params_rates ipc dev cd).2.source_rate)
      (wrap_int32 (src_params_rates ipc dev cd).2.sink_rate))
    (hn : wrap_int32 dev.channels ≤ (PLATFORM_MAX_CHANNELS : Int))
    (hsz : to_size_t (4 * (src_params_lengths env dev
      (src_params_rates ipc dev cd).2).2.total) ≠ 0)
    (hal : env.alloc_ok (to_size_t (4 * (src_params_lengths env dev
      (src_params_rates ipc dev cd).2).2.total)) = true) :
    (src_params env ipc dev cd).1 = 0 ∧
    (src_params env ipc dev cd).2.2.src_func =
      src_mode_func (wrap_int32 (src_params_rates ipc dev cd).2.source_rate)
        (wrap_int32 (src_params_rates ipc dev cd).2.sink_rate)
        (src_lookup2 env (wrap_int32 (src_params_rates ipc dev cd).2.source_rate)
          (wrap_int32 (src_params_rates ipc dev cd).2.sink_rate)) := by
  unfold src_params_lengths at hsz hal
  exact src_params_supported_aux env ipc dev cd (src_params_rates ipc dev cd).2
    (src_buffer_lengths env (src_params_rates ipc dev cd).2.param
      (wrap_int32 (src_params_rates ipc dev cd).2.source_rate)
      (wrap_int32 (src_params_rates ipc dev cd).2.sink_rate) (wrap_int32 dev.channels)
      (src_params_rates ipc dev cd).2.source_frames) rfl rfl hs hfit hn hsz hal

/-- C14: for a supported pair of rates, on tables that carry each rate at the same index
of the two rate lists and whose stages pass the checks of `init_stages`,
`src_buffer_lengths` returns 0 and `src_polyphase_init`, on the parameters it left,
returns `src_mode`: 0 iff the rates are equal, 1 iff they differ and the second stage has
filter length 1, 2 otherwise; `src_params` then returns 0 with `src_copy_s32`, `src_1s`
or `src_2s` installed accordingly (`src_mode_func`), provided the delay lines have a
size other than 0 and are allocated. For a pair that is not supported
`src_buffer_lengths` returns `-EINVAL` and `src_params` returns it with the conversion
function untouched; `src_polyphase_init` returns `-EINVAL` for a negative index and for
a first stage of filter length 0. -/
theorem src_mode_selection (env : src_env) (ipc : sof_ipc_comp_src) (dev : comp_dev)
    (cd : src_comp_data) (a : src_param) (src : polyphase_src)
    (fs_in fs_out nch source_frames start : Int) :
    (src_supported env fs_in fs_out → src_tables_fit env fs_in fs_out →
      nch ≤ (PLATFORM_MAX_CHANNELS : Int) →
      (src_buffer_lengths env a fs_in fs_out nch source_frames).1 = 0 ∧
      (src_polyphase_init env src (src_buffer_lengths env a fs_in fs_out nch source_frames).2
        start).1 = src_mode fs_in fs_out (src_lookup2 env fs_in fs_out)) ∧
    (src_supported env (wrap_int32 (src_params_rates ipc dev cd).2.source_rate)
        (wrap_int32 (src_params_rates ipc dev cd).2.sink_rate) →
      src_tables_fit env (wrap_int32 (src_params_rates ipc dev cd).2.source_rate)
        (wrap_int32 (src_params_rates ipc dev cd).2.sink_rate) →
      wrap_int32 dev.channels ≤ (PLATFORM_MAX_CHANNELS : Int) →
      to_size_t (4 * (src_params_lengths env dev
        (src_params_rates ipc dev cd).2).2.total) ≠ 0 →
      env.alloc_ok (to_size_t (4 * (src_params_lengths env dev
        (src_params_rates ipc dev cd).2).2.total)) = true →
      (src_params env ipc dev cd).1 = 0 ∧
      (src_params env ipc dev cd).2.2.src_func =
        src_mode_func (wrap_int32 (src_params_rates ipc dev cd).2.source_rate)
          (wrap_int32 (src_params_rates ipc dev cd).2.sink_rate)
          (src_lookup2 env (wrap_int32 (src_params_rates ipc dev cd).2.source_rate)
            (wrap_int32 (src_params_rates ipc dev cd).2.sink_rate))) ∧
    (¬ src_supported env fs_in fs_out →
      (src_buffer_lengths env a fs_in fs_out nch source_frames).1 = -EINVAL) ∧
    (∀ p : src_param,
      p.idx_in < 0 ∨ p.idx_out < 0 ∨ (env.src_table1 p.idx_out p.idx_in).filter_length = 0 →
      (src_polyphase_init env src p start).1 = -EINVAL) ∧
    (¬ src_supported env (wrap_int32 (src_params_rates ipc dev cd).2.source_rate)
        (wrap_int32 (src_params_rates ipc dev cd).2.sink_rate) →
      (src_params env ipc dev cd).1 = -EINVAL ∧
      (src_params env ipc dev cd).2.2.src_func = cd.src_func) := by
  refine ⟨fun hs hfit hn => src_supported_mode env a src fs_in fs_out nch source_frames start
      hs hfit hn,
    fun hs hfit hn hsz hal => src_params_supported env ipc dev cd hs hfit hn hsz hal,
    fun hs => src_unsupported_lengths env a fs_in fs_out nch source_frames hs,
    fun p hp => (src_polyphase_init_cases env src p start).1 hp, fun hs => ?_⟩
  have h := src_unsupported_lengths env (src_params_rates ipc dev cd).2.param
    (wrap_int32 (src_params_rates ipc dev cd).2.source_rate)
    (wrap_int32 (src_params_rates ipc dev cd).2.sink_rate) (wrap_int32 dev.channels)
    (src_params_rates ipc dev cd).2.source_frames hs
  have h2 : (src_params_lengths env dev (src_params_rates ipc dev cd).2).1 = -EINVAL := by
    unfold src_params_lengths
    exact h
  have h3 := src_params_fail env ipc dev cd (by rw [h2]; decide)
  rw [h2] at h3
  exact h3

/-- C14, witness: on the sample tables 48000 to 16000 is a supported pair with a second
stage of filter length 1, and `src_params` installs `src_1s`. -/
theorem src_mode_selection_witness :
    (src_params src_env_sample ⟨0, 16000⟩ comp_dev_sample src_cd_sample).1 = 0 ∧
    (src_params src_env_sample ⟨0, 16000⟩ comp_dev_sample src_cd_sample).2.2.src_func
      = src_func_t.src_1s :=
  have h := (src_mode_selection src_env_sample ⟨0, 16000⟩ comp_dev_sample src_cd_sample
    src_param_zero src_cd_sample.src 48000 16000 2 144 0).2.1
    (by decide) (by decide) (by decide) (by decide) (by decide)
  ⟨h.1, h.2.trans (by decide)⟩

/-- C15: when `src_buffer_lengths` returns 0, with `stage1` and `stage2` the entries of
the two tables for the rate pair: `fir_s1` and `out_s1` are `nch` times the FIR and the
output delay length of stage 1; with a stage 2 of filter length 1, `fir_s2`, `out_s2` and
`sbuf_length` are 0, otherwise `fir_s2` and `out_s2` are the same formulas on stage 2 and
`sbuf_length = 2 * nch * stage1.blk_out * (source_frames / stage1.blk_in + 1)` with the
truncating division; `src_multich` is the sum of the four lengths and `total` adds
`sbuf_length`. -/
theorem src_buffer_lengths_sizes (env : src_env) (a : src_param)
    (fs_in fs_out nch source_frames : Int)
    (hok : (src_buffer_lengths env a fs_in fs_out nch source_frames).1 = 0) :
    (src_buffer_lengths env a fs_in fs_out nch source_frames).2.fir_s1 =
      nch * ((src_lookup1 env fs_in fs_out).subfilter_length +
        ((src_lookup1 env fs_in fs_out).num_of_subfilters - 1) *
          (src_lookup1 env fs_in fs_out).idm +
        (src_lookup1 env fs_in fs_out).blk_in) ∧
    (src_buffer_lengths env a fs_in fs_out nch source_frames).2.out_s1 =
      nch * (1 + ((src_lookup1 env fs_in fs_out).num_of_subfilters - 1) *
        (src_lookup1 env fs_in fs_out).odm) ∧
    ((src_lookup2 env fs_in fs_out).filter_length = 1 →
      (src_buffer_lengths env a fs_in fs_out nch source_frames).2.fir_s2 = 0 ∧
      (src_buffer_lengths env a fs_in fs_out nch source_frames).2.out_s2 = 0 ∧
      (src_buffer_lengths env a fs_in fs_out nch source_frames).2.sbuf_length = 0) ∧
    ((src_lookup2 env fs_in fs_out).filter_length ≠ 1 →
      (src_buffer_lengths env a fs_in fs_out nch source_frames).2.fir_s2 =
        nch * ((src_lookup2 env fs_in fs_out).subfilter_length +
          ((src_lookup2 env fs_in fs_out).num_of_subfilters - 1) *
            (src_lookup2 env fs_in fs_out).idm +
          (src_lookup2 env fs_in fs_out).blk_in) ∧
      (src_buffer_lengths env a fs_in fs_out nch source_frames).2.out_s2 =
        nch * (1 + ((src_lookup2 env fs_in fs_out).num_of_subfilters - 1) *
          (src_lookup2 env fs_in fs_out).odm) ∧
      (src_buffer_lengths env a fs_in fs_out nch source_frames).2.sbuf_length =
        2 * nch * (src_lookup1 env fs_in fs_out).blk_out *
          (Int.tdiv source_frames (src_lookup1 env fs_in fs_out).blk_in + 1)) ∧
    (src_buffer_lengths env a fs_in fs_out nch source_frames).2.src_multich =
      (src_buffer_lengths env a fs_in fs_out nch source_frames).2.fir_s1 +
      (src_buffer_lengths env a fs_in fs_out nch source_frames).2.fir_s2 +
      (src_buffer_lengths env a fs_in fs_out nch source_frames).2.out_s1 +
      (src_buffer_lengths env a fs_in fs_out nch source_frames).2.out_s2 ∧
    (src_buffer_lengths env a fs_in fs_out nch source_frames).2.total =
      (src_buffer_lengths env a fs_in fs_out nch source_frames).2.sbuf_length +
      (src_buffer_lengths env a fs_in fs_out nch source_frames).2.src_multich := by
  obtain ⟨h1, h2, h3, h4⟩ :=
    (src_buffer_lengths_ok_iff env a fs_in fs_out nch source_frames).mp hok
  obtain ⟨_, _, _, _, f1, o1, c1, c2, m, t⟩ :=
    (src_buffer_lengths_cases env a fs_in fs_out nch source_frames).2.2 h1 h2 h3 h4
  exact ⟨f1, o1, c1, c2, m, t⟩

/-- C15, witness: 44100 to 48000 with two channels and 48 source frames in the sample
tables: stage 1 gives `2 * (16 + 7 * 7 + 7) = 144` and `2 * (1 + 7 * 8) = 114`, the
stage buffer is `2 * 2 * 8 * (48 / 7 + 1) = 224` words. -/
theorem src_buffer_lengths_sizes_witness :
    (src_buffer_lengths src_env_sample src_param_zero 44100 48000 2 48).2.fir_s1 = 144 ∧
    (src_buffer_lengths src_env_sample src_param_zero 44100 48000 2 48).2.out_s1 = 114 ∧
    (src_buffer_lengths src_env_sample src_param_zero 44100 48000 2 48).2.sbuf_length
      = 224 :=
  have h := src_buffer_lengths_sizes src_env_sample src_param_zero 44100 48000 2 48
    (by decide)
  ⟨h.1.trans (by decide), h.2.1.trans (by decide), (h.2.2.2.1 (by decide)).2.2.trans
    (by decide)⟩

/-! ## Theorems: copy with nothing to process -/

theorem wrap_int32_nat (n : Nat) (h : n < 2 ^ 31) : wrap_int32 (n : Int) = n := by
  have h2 : (n : Int) ≤ 2147483647 := by
    have : (2 : Nat) ^ 31 = 2147483648 := by norm_num
    omega
  exact wrap_int32_of_range _ (by omega) h2

theorem tdiv_zero_of_small (a b : Int) (h0 : 0 ≤ a) (h1 : a < b) : Int.tdiv a b = 0 :=
  Int.tdiv_eq_zero_of_lt h0 h1

theorem src_get_copy_limits_stages_blocks (cd : src_comp_data) (s1 s2 : src_stage)
    (source sink : comp_buffer)
    (hb1 : 0 ≤ s1.blk_in) (hb2 : 0 ≤ s1.blk_out)
    (hsf : 0 ≤ cd.source_frames) (hkf : 0 ≤ cd.sink_frames)
    (ha : source.avail / source.source_frame_bytes < 2 ^ 31)
    (hf : sink.free / sink.sink_frame_bytes < 2 ^ 31)
    (hlow : ((source.avail / source.source_frame_bytes : Nat) : Int) < s1.blk_in ∨
      ((sink.free / sink.sink_frame_bytes : Nat) : Int) <
        (if s2.filter_length > 1 then s2.blk_out else s1.blk_out)) :
    (src_get_copy_limits_stages cd s1 s2 source sink).1 = - EIO := by
  have key : ∀ sp1 : src_param, (sp1.blk_in = 0 ∨ sp1.blk_out = 0) →
      (if sp1.blk_in = 0 ∨ sp1.blk_out = 0 then (- EIO, sp1) else ((0 : Int), sp1)).1 = - EIO := by
    intro sp1 h
    rw [if_pos h]
  unfold src_get_copy_limits_stages
  apply key
  rw [wrap_int32_nat _ ha, wrap_int32_nat _ hf]
  have hna : (0 : Int) ≤ ((source.avail / source.source_frame_bytes : Nat) : Int) :=
    Int.natCast_nonneg _
  have hnf : (0 : Int) ≤ ((sink.free / sink.sink_frame_bytes : Nat) : Int) :=
    Int.natCast_nonneg _
  generalize ((source.avail / source.source_frame_bytes : Nat) : Int) = na at hlow hna ⊢
  generalize ((sink.free / sink.sink_frame_bytes : Nat) : Int) = nf at hlow hnf ⊢
  by_cases h2 : s2.filter_length > 1
  · rw [if_pos h2] at hlow
    rw [if_pos h2]
    show Int.tdiv (min na (cd.source_frames + s1.blk_in)) s1.blk_in * s1.blk_in = 0 ∨
      Int.tdiv (min nf (cd.sink_frames + s2.blk_out)) s2.blk_out * s2.blk_out = 0
    rcases hlow with h | h
    · left
      rw [tdiv_zero_of_small _ _ (by omega) (by omega)]
      simp
    · right
      rw [tdiv_zero_of_small _ _ (by omega) (by omega)]
      simp
  · rw [if_neg h2] at hlow
    rw [if_neg h2]
    show min (Int.tdiv (min nf (cd.sink_frames + s1.blk_out)) s1.blk_out)
        (Int.tdiv na s1.blk_in) * s1.blk_in = 0 ∨
      min (Int.tdiv (min nf (cd.sink_frames + s1.blk_out)) s1.blk_out)
        (Int.tdiv na s1.blk_in) * s1.blk_out = 0
    left
    have e : min (Int.tdiv (min nf (cd.sink_frames + s1.blk_out)) s1.blk_out)
        (Int.tdiv na s1.blk_in) = 0 := by
      rcases hlow with h | h
      · rw [tdiv_zero_of_small na _ hna h]
        exact min_eq_right (Int.tdiv_nonneg (by omega) hb2)
      · rw [tdiv_zero_of_small (min nf (cd.sink_frames + s1.blk_out)) _ (by omega) (by omega)]
        exact min_eq_left (Int.tdiv_nonneg hna hb1)
    rw [e]
    simp

theorem src_copy_limits_fail (run : src_func_t → src_comp_data → Int × Int)
    (cd : src_comp_data) (s1 s2 : src_stage) (source sink : comp_buffer)
    (h1 : cd.src.stage1 = some s1) (h2 : cd.src.stage2 = some s2)
    (hret : (src_get_copy_limits_stages cd s1 s2 source sink).1 ≠ 0) :
    src_copy run cd source sink =
      some ((src_get_copy_limits_stages cd s1 s2 source sink).1, []) := by
  unfold src_copy src_get_copy_limits
  rw [h1, h2]
  show (if _ ≠ 0 then _ else _) = _
  rw [if_pos hret]

/-- C18, counterexample: a one-stage converter from 48000 to 16000 with blocks of 3
frames in; the source holds 2 frames (16 bytes), the sink has room for 8. `src_copy`
makes no call and returns `-EIO`, that is -5, not 0. -/
theorem src_copy_short_period_returns_eio :
    (src_cd_one_stage.src.stage1.map (fun s => s.blk_in)) = some 3 ∧
    ∀ run, src_copy run src_cd_one_stage (buffer_s32_stereo 16 0) (buffer_s32_stereo 0 64)
      = some (-5, []) := by
  refine ⟨by decide, fun run => ?_⟩
  rw [src_copy_limits_fail run src_cd_one_stage src_stage_1_3 src_stage_1_1 _ _
    (by decide) (by decide) (by decide)]
  decide

/-- C18, as the code has it: with too few source frames for one block of stage 1, or too
little sink room for one output block (of stage 2 in the two-stage case, of stage 1 in
the one-stage case), `src_copy` returns `-EIO`; it invokes no conversion function and
calls neither the consume nor the produce update. The block sizes and the period frame
counts are not negative and the frame counts of the buffers fit an `int`. -/
theorem src_copy_short_period (run : src_func_t → src_comp_data → Int × Int)
    (cd : src_comp_data) (s1 s2 : src_stage) (source sink : comp_buffer)
    (h1 : cd.src.stage1 = some s1) (h2 : cd.src.stage2 = some s2)
    (hb1 : 0 ≤ s1.blk_in) (hb2 : 0 ≤ s1.blk_out)
    (hsf : 0 ≤ cd.source_frames) (hkf : 0 ≤ cd.sink_frames)
    (ha : source.avail / source.source_frame_bytes < 2 ^ 31)
    (hf : sink.free / sink.sink_frame_bytes < 2 ^ 31)
    (hlow : ((source.avail / source.source_frame_bytes : Nat) : Int) < s1.blk_in ∨
      ((sink.free / sink.sink_frame_bytes : Nat) : Int) <
        (if s2.filter_length > 1 then s2.blk_out else s1.blk_out)) :
    src_copy run cd source sink = some (- EIO, []) := by
  have hr := src_get_copy_limits_stages_blocks cd s1 s2 source sink hb1 hb2 hsf hkf ha hf
    hlow
  have h := src_copy_limits_fail run cd s1 s2 source sink h1 h2 (by rw [hr]; decide)
  rw [hr] at h
  exact h

/-- C18, witness: the two-stage converter from 44100 to 48000 with 5 source frames, fewer
than the 7 of a block. -/
theorem src_copy_short_period_witness :
    src_copy src_run_sample src_cd_two_stage (buffer_s32_stereo 40 0)
      (buffer_s32_stereo 0 640) = some (- EIO, []) :=
  src_copy_short_period src_run_sample src_cd_two_stage src_stage_8_7 src_stage_20_21
    (buffer_s32_stereo 40 0) (buffer_s32_stereo 0 640) (by decide) (by decide) (by decide)
    (by decide) (by decide) (by decide) (by decide) (by decide)
    (Or.inl (by decide))

/-- C16, the code at failing inputs. With one source in the state of the mixer whose
buffer holds no data, `mixer_copy` still calls the mixing function, with 0 frames, and
the consume and produce updates, with 0 bytes. `eq_iir_copy` does the same for a source
buffer without data. `eq_fir_copy` makes no call on the same buffers, and `src_copy`
makes none either. -/
theorem copy_with_zero_frames :
    comp_avail_frames (buffer_s16_stereo 0 64 comp_state.COMP_STATE_ACTIVE
      comp_state.COMP_STATE_ACTIVE) mixer_sink_buffer = 0 ∧
    mixer_copy comp_state.COMP_STATE_ACTIVE (some mix_func_t.mix_n_s16) mixer_sink_buffer
      mixer_sources_empty =
      (0, [copy_call.process (some mix_func_t.mix_n_s16, [0], 0), copy_call.consume 0 0,
           copy_call.produce 0]) ∧
    (∀ cd : eq_iir_comp_data,
      eq_iir_copy cd (comp_get_copy_limits (buffer_s16_stereo 0 64
        comp_state.COMP_STATE_ACTIVE comp_state.COMP_STATE_ACTIVE) mixer_sink_buffer) =
        (0, [copy_call.process (cd.eq_iir_func, 0), copy_call.consume 0 0,
             copy_call.produce 0])) ∧
    (∀ (cd : eq_fir_comp_data) (nch : Int),
      eq_fir_copy cd nch (comp_get_copy_limits (buffer_s16_stereo 0 64
        comp_state.COMP_STATE_ACTIVE comp_state.COMP_STATE_ACTIVE) mixer_sink_buffer).2 =
        (0, [])) ∧
    (∀ run, src_copy run src_cd_one_stage (buffer_s32_stereo 0 64) (buffer_s32_stereo 0 64)
      = some (- EIO, [])) := by
  refine ⟨by decide, by decide, fun cd => ?_, fun cd nch => ?_, fun run => ?_⟩
  · have e : comp_get_copy_limits (buffer_s16_stereo 0 64
        comp_state.COMP_STATE_ACTIVE comp_state.COMP_STATE_ACTIVE) mixer_sink_buffer =
        (0, ⟨0, 0, 0, 4, 4⟩) := by decide
    rw [e]
    unfold eq_iir_copy
    rw [if_neg (by decide)]
    rfl
  · have e : comp_get_copy_limits (buffer_s16_stereo 0 64
        comp_state.COMP_STATE_ACTIVE comp_state.COMP_STATE_ACTIVE) mixer_sink_buffer =
        (0, ⟨0, 0, 0, 4, 4⟩) := by decide
    rw [e]
    unfold eq_fir_copy
    simp
  · rw [src_copy_limits_fail run src_cd_one_stage src_stage_1_3 src_stage_1_1 _ _
      (by decide) (by decide) (by decide)]
    decide

/-! ## Theorems: replacing the IIR blob -/

/-- A binary `iir_cmd_set_data` in READY state whose payload announces a valid size and
whose allocation succeeds returns 0 and stores the first `size` bytes of the payload. -/
theorem iir_cmd_set_data_stores (env : eq_env) (cd : eq_iir_comp_data)
    (cdata : sof_ipc_ctrl_data)
    (hcmd : cdata.cmd = sof_ipc_ctrl_cmd.SOF_CTRL_CMD_BINARY)
    (hmax : env.iir_config_size cdata.data ≤ env.SOF_EQ_IIR_MAX_SIZE)
    (hpos : env.iir_config_size cdata.data ≠ 0)
    (hal : env.alloc_ok (env.iir_config_size cdata.data) = true) :
    iir_cmd_set_data env comp_state.COMP_STATE_READY cd cdata =
      cmd_result.done 0
        { cd with
          config := some ((List.range (env.iir_config_size cdata.data)).map cdata.data) } := by
  unfold iir_cmd_set_data
  rw [hcmd]
  have hsz : ¬ (env.iir_config_size cdata.data > env.SOF_EQ_IIR_MAX_SIZE ∨
      env.iir_config_size cdata.data = 0) := by
    rintro (h | h)
    · omega
    · exact hpos h
  simp only [ne_eq, not_true_eq_false, if_false, if_neg hsz, rzalloc, hal, if_true,
    assert_memcpy_s, gt_iff_lt, lt_irrefl, List.length_replicate, Nat.zero_add,
    blob_write, List.take_zero, List.nil_append, List.drop_replicate, Nat.sub_self,
    List.replicate_zero, List.append_nil]

/-- A binary `iir_cmd_set_data` in READY state for whose size field the allocator has no
block returns `-EINVAL` with no blob stored. -/
theorem iir_cmd_set_data_no_memory (env : eq_env) (cd : eq_iir_comp_data)
    (cdata : sof_ipc_ctrl_data)
    (hcmd : cdata.cmd = sof_ipc_ctrl_cmd.SOF_CTRL_CMD_BINARY)
    (hal : env.alloc_ok (env.iir_config_size cdata.data) = false) :
    iir_cmd_set_data env comp_state.COMP_STATE_READY cd cdata =
      cmd_result.done (-EINVAL) { cd with config := none } := by
  unfold iir_cmd_set_data
  rw [hcmd]
  by_cases hsz : env.iir_config_size cdata.data > env.SOF_EQ_IIR_MAX_SIZE ∨
      env.iir_config_size cdata.data = 0
  · simp only [ne_eq, not_true_eq_false, if_false, if_pos hsz]
  · simp only [ne_eq, not_true_eq_false, if_false, if_neg hsz, rzalloc, hal,
      Bool.false_eq_true]

/-- A binary `iir_cmd_set_data` that returns 0 was called in READY state with a valid
size and an allocation that succeeded. -/
theorem iir_cmd_set_data_ret_zero (env : eq_env) (dev_state : comp_state)
    (cd : eq_iir_comp_data) (cdata : sof_ipc_ctrl_data)
    (hcmd : cdata.cmd = sof_ipc_ctrl_cmd.SOF_CTRL_CMD_BINARY)
    (hret : (iir_cmd_set_data env dev_state cd cdata).ret? = some 0) :
    dev_state = comp_state.COMP_STATE_READY ∧
    env.iir_config_size cdata.data ≤ env.SOF_EQ_IIR_MAX_SIZE ∧
    env.iir_config_size cdata.data ≠ 0 ∧
    env.alloc_ok (env.iir_config_size cdata.data) = true := by
  by_cases hst : dev_state = comp_state.COMP_STATE_READY
  · subst hst
    by_cases hal : env.alloc_ok (env.iir_config_size cdata.data) = true
    · by_cases hsz : env.iir_config_size cdata.data > env.SOF_EQ_IIR_MAX_SIZE ∨
          env.iir_config_size cdata.data = 0
      · exfalso
        unfold iir_cmd_set_data at hret
        rw [hcmd] at hret
        simp only [ne_eq, not_true_eq_false, if_false, if_pos hsz, cmd_result.ret?] at hret
        exact absurd (Option.some.inj hret) (by decide)
      · refine ⟨rfl, ?_, ?_, hal⟩
        · by_contra h
          exact hsz (Or.inl (by omega))
        · exact fun h => hsz (Or.inr h)
    · exfalso
      rw [iir_cmd_set_data_no_memory env cd cdata hcmd (by simpa using hal)] at hret
      exact absurd (Option.some.inj hret) (by decide)
  · exfalso
    unfold iir_cmd_set_data at hret
    rw [hcmd] at hret
    simp only [ne_eq, hst, not_false_eq_true, if_true, cmd_result.ret?] at hret
    exact absurd (Option.some.inj hret) (by decide)

/-- C21, the code at a counterexample. A READY IIR equalizer holds the blob
`iir_blob_stereo`; a binary SET_DATA carrying the same 88 bytes arrives while the
allocator has no memory. The call returns `-EINVAL` and no blob is stored any more: the
old blob was freed before the new one was allocated. -/
theorem iir_cmd_set_data_error_drops_blob :
    eq_iir_cd_configured.config = some iir_blob_stereo ∧
    (iir_cmd_set_data eq_env_no_memory comp_state.COMP_STATE_READY eq_iir_cd_configured
      (ctrl_binary_msg 0 88 0 iir_blob_stereo)).ret? = some (-EINVAL) ∧
    (iir_cmd_set_data eq_env_no_memory comp_state.COMP_STATE_READY eq_iir_cd_configured
      (ctrl_binary_msg 0 88 0 iir_blob_stereo)).blob? (fun cd => cd.config) =
        some none := by
  decide

/-- C21, as the code has it. A binary `iir_cmd_set_data` outside READY state returns
`-EBUSY` and leaves the component data, the stored blob included, unchanged. In READY
state the old blob is freed first: when the size field is valid and the allocation of the
new block fails, the call returns `-EINVAL` and no blob is stored. Whenever the call
returns 0, the stored blob is the first `size` bytes of the payload, `size` being the
size field of the payload's header, and nothing else of the component data has changed. -/
theorem iir_cmd_set_data_replaces_blob (env : eq_env) (dev_state : comp_state)
    (cd : eq_iir_comp_data) (cdata : sof_ipc_ctrl_data)
    (hcmd : cdata.cmd = sof_ipc_ctrl_cmd.SOF_CTRL_CMD_BINARY) :
    (dev_state ≠ comp_state.COMP_STATE_READY →
      iir_cmd_set_data env dev_state cd cdata = cmd_result.done (-EBUSY) cd) ∧
    (dev_state = comp_state.COMP_STATE_READY →
      env.iir_config_size cdata.data ≤ env.SOF_EQ_IIR_MAX_SIZE →
      env.iir_config_size cdata.data ≠ 0 →
      env.alloc_ok (env.iir_config_size cdata.data) = false →
      iir_cmd_set_data env dev_state cd cdata =
        cmd_result.done (-EINVAL) { cd with config := none }) ∧
    ((iir_cmd_set_data env dev_state cd cdata).ret? = some 0 →
      iir_cmd_set_data env dev_state cd cdata =
        cmd_result.done 0
          { cd with
            config := some ((List.range (env.iir_config_size cdata.data)).map cdata.data) }) := by
  refine ⟨fun hst => ?_, fun hst _ _ hal => ?_, fun hret => ?_⟩
  · unfold iir_cmd_set_data
    rw [hcmd]
    simp only [if_pos hst]
  · subst hst
    exact iir_cmd_set_data_no_memory env cd cdata hcmd hal
  · obtain ⟨hst, hmax, hpos, hal⟩ := iir_cmd_set_data_ret_zero env dev_state cd cdata hcmd hret
    subst hst
    exact iir_cmd_set_data_stores env cd cdata hcmd hmax hpos hal

/-- C21, witness: the 88 bytes of `iir_blob_stereo` sent to a READY equalizer without a
blob are stored entire. -/
theorem iir_cmd_set_data_replaces_blob_witness :
    (ctrl_binary_msg 0 88 0 iir_blob_stereo).cmd = sof_ipc_ctrl_cmd.SOF_CTRL_CMD_BINARY ∧
    (iir_cmd_set_data eq_env_sample comp_state.COMP_STATE_READY eq_iir_cd_sample
      (ctrl_binary_msg 0 88 0 iir_blob_stereo)).ret? = some 0 ∧
    iir_cmd_set_data eq_env_sample comp_state.COMP_STATE_READY eq_iir_cd_sample
      (ctrl_binary_msg 0 88 0 iir_blob_stereo) =
        cmd_result.done 0
          { eq_iir_cd_sample with
            config := some ((List.range (eq_env_sample.iir_config_size
              (ctrl_binary_msg 0 88 0 iir_blob_stereo).data)).map
                (ctrl_binary_msg 0 88 0 iir_blob_stereo).data) } ∧
    (List.range (eq_env_sample.iir_config_size
      (ctrl_binary_msg 0 88 0 iir_blob_stereo).data)).map
        (ctrl_binary_msg 0 88 0 iir_blob_stereo).data = iir_blob_stereo :=
  ⟨rfl, by decide,
    (iir_cmd_set_data_replaces_blob eq_env_sample comp_state.COMP_STATE_READY
      eq_iir_cd_sample (ctrl_binary_msg 0 88 0 iir_blob_stereo) rfl).2.2 (by decide),
    by decide⟩

/-! ## Theorems: the enum switch store -/

/-- Conversion to `int16_t` leaves a value of the 16-bit range as it is. -/
theorem wrap_int16_of_range (x : Int) (h0 : -32768 ≤ x) (h1 : x ≤ 32767) :
    wrap_int16 x = x := by
  unfold wrap_int16
  omega

/-- C22, the code at a counterexample. On the two-channel FIR blob `fir_config_stereo`
the pair (channel 0, response 65536) is accepted with return value 0, and the assignment
entry of channel 0 becomes 0, not 65536: the entries of the FIR blob are 16-bit words. -/
theorem eq_fir_switch_store_truncates :
    (eq_fir_switch_store_view (fun _ => eq_chan_reset) (some fir_config_stereo) 0 65536).1
      = 0 ∧
    ((eq_fir_switch_store_view (fun _ => eq_chan_reset) (some fir_config_stereo) 0
      65536).2.2.map (fun c => c.data 0)) = some 0 ∧
    (0 : Int) ≠ 65536 := by
  decide

/-- C22, as the code has it. `eq_fir_switch_store` and `eq_iir_switch_store` return
`-EINVAL` exactly when no blob is stored or `ch >= channels_in_config`, and then change
nothing. Otherwise they return 0, leave the channel states (coefficients, filter state,
delay lines) and the header fields of the blob as they are, and change the one word
`data[ch]`, an assignment entry: in the IIR blob it becomes `response`, in the FIR blob
it becomes `response` converted to the 16-bit type of the entries, which is `response`
itself when `response` lies in -32768..32767. -/
theorem eq_switch_store_effect (fir iir : Nat → eq_chan_state)
    (config : Option sof_eq_config) (ch : Nat) (response : Int) :
    ((eq_fir_switch_store_view fir config ch response).1 = -EINVAL ↔
      ∀ c, config = some c → c.channels_in_config ≤ ch) ∧
    ((eq_iir_switch_store_view iir config ch response).1 = -EINVAL ↔
      ∀ c, config = some c → c.channels_in_config ≤ ch) ∧
    ((∀ c, config = some c → c.channels_in_config ≤ ch) →
      eq_fir_switch_store_view fir config ch response = (-EINVAL, fir, config) ∧
      eq_iir_switch_store_view iir config ch response = (-EINVAL, iir, config)) ∧
    (∀ c, config = some c → ch < c.channels_in_config →
      eq_fir_switch_store_view fir config ch response =
        (0, fir, some { c with
          data := Function.update c.data (ch : Int) (wrap_int16 response) }) ∧
      eq_iir_switch_store_view iir config ch response =
        (0, iir, some { c with data := Function.update c.data (ch : Int) response }) ∧
      Function.update c.data (ch : Int) (wrap_int16 response) (ch : Int)
        = wrap_int16 response ∧
      (-32768 ≤ response → response ≤ 32767 →
        Function.update c.data (ch : Int) (wrap_int16 response) (ch : Int) = response) ∧
      Function.update c.data (ch : Int) response (ch : Int) = response ∧
      (∀ k : Int, k ≠ (ch : Int) →
        Function.update c.data (ch : Int) (wrap_int16 response) k = c.data k ∧
        Function.update c.data (ch : Int) response k = c.data k)) := by
  have hne : (0 : Int) ≠ -EINVAL := by decide
  cases config with
  | none =>
    refine ⟨⟨fun _ c hc => ?_, fun _ => rfl⟩, ⟨fun _ c hc => ?_, fun _ => rfl⟩,
      fun _ => ⟨rfl, rfl⟩, fun c hc => ?_⟩
    · exact absurd hc (by simp)
    · exact absurd hc (by simp)
    · exact absurd hc (by simp)
  | some c0 =>
    by_cases hch : ch ≥ c0.channels_in_config
    · have hF : eq_fir_switch_store_view fir (some c0) ch response
          = (-EINVAL, fir, some c0) := by
        simp only [eq_fir_switch_store_view, if_pos hch]
      have hI : eq_iir_switch_store_view iir (some c0) ch response
          = (-EINVAL, iir, some c0) := by
        simp only [eq_iir_switch_store_view, if_pos hch]
      have hall : ∀ c, some c0 = some c → c.channels_in_config ≤ ch := by
        intro c hc
        cases hc
        exact hch
      refine ⟨⟨fun _ => hall, fun _ => by rw [hF]⟩, ⟨fun _ => hall, fun _ => by rw [hI]⟩,
        fun _ => ⟨hF, hI⟩, fun c hc hlt => ?_⟩
      cases hc
      exact absurd hch (by omega)
    · have hF : eq_fir_switch_store_view fir (some c0) ch response
          = (0, fir, some { c0 with
              data := Function.update c0.data (ch : Int) (wrap_int16 response) }) := by
        simp only [eq_fir_switch_store_view, if_neg hch]
      have hI : eq_iir_switch_store_view iir (some c0) ch response
          = (0, iir, some { c0 with
              data := Function.update c0.data (ch : Int) response }) := by
        simp only [eq_iir_switch_store_view, if_neg hch]
      have hnall : ¬ ∀ c, some c0 = some c → c.channels_in_config ≤ ch :=
        fun h => hch (h c0 rfl)
      refine ⟨⟨fun h => ?_, fun h => absurd h hnall⟩,
        ⟨fun h => ?_, fun h => absurd h hnall⟩, fun h => absurd h hnall,
        fun c hc hlt => ?_⟩
      · rw [hF] at h
        exact absurd h hne
      · rw [hI] at h
        exact absurd h hne
      · cases hc
        refine ⟨hF, hI, Function.update_same _ _ _, fun h0 h1 => ?_,
          Function.update_same _ _ _, fun k hk => ?_⟩
        · rw [Function.update_same]
          exact wrap_int16_of_range response h0 h1
        · exact ⟨Function.update_noteq hk _ _, Function.update_noteq hk _ _⟩

/-- C22, witness: on the two-channel blobs, the pair (channel 1, response 0) is stored in
assignment entry 1 and the pair (channel 2, response 0) is rejected. -/
theorem eq_switch_store_effect_witness :
    (1 < fir_config_stereo.channels_in_config ∧
      eq_fir_switch_store_view (fun _ => eq_chan_reset) (some fir_config_stereo) 1 0 =
        (0, fun _ => eq_chan_reset, some { fir_config_stereo with
          data := Function.update fir_config_stereo.data ((1 : Nat) : Int)
            (wrap_int16 0) })) ∧
    ((eq_fir_switch_store_view (fun _ => eq_chan_reset) (some fir_config_stereo) 2 0).1
      = -EINVAL) :=
  ⟨⟨by decide,
    ((eq_switch_store_effect (fun _ => eq_chan_reset) (fun _ => eq_chan_reset)
      (some fir_config_stereo) 1 0).2.2.2 fir_config_stereo rfl (by decide)).1⟩,
   (eq_switch_store_effect (fun _ => eq_chan_reset) (fun _ => eq_chan_reset)
      (some fir_config_stereo) 2 0).1.mpr (fun c hc => by cases hc; decide)⟩

/-! ## Theorems: pages of the FIR GET_DATA -/

/-- A binary `fir_cmd_get_data` on a blob that fits the payload capacity `M` returns the
whole blob. -/
theorem fir_cmd_get_data_whole (env : eq_env) (hdr_bytes : Nat) (cd : eq_fir_comp_data)
    (cdata : sof_ipc_ctrl_data) (max_size : Int) (b : List Nat) (S M : Nat)
    (hcmd : cdata.cmd = sof_ipc_ctrl_cmd.SOF_CTRL_CMD_BINARY)
    (hmax : max_size = (hdr_bytes : Int) + (M : Int)) (hM31 : M < 2 ^ 31)
    (hb : cd.config = some b) (hS : env.fir_config_size (blob_mem b) = S)
    (hlen : S ≤ b.length) (hSM : S ≤ M) (hroom : S ≤ cdata.data_size) :
    fir_cmd_get_data env hdr_bytes cd cdata max_size =
      cmd_result.done 0
        { cdata with
          elems_remaining := 0
          num_elems := S
          data := fun k => if k < S then blob_mem b (0 + k) else cdata.data k
          data_size := S } := by
  have h1 : wrap_int32 (max_size - (hdr_bytes : Int)) = (M : Int) := by
    rw [hmax, add_sub_cancel_left]
    exact wrap_int32_nat M hM31
  have h2 : to_size_t (M : Int) = M :=
    to_size_t_of_nat M (by unfold UINT32_MOD; omega)
  unfold fir_cmd_get_data
  rw [hcmd]
  simp only [hb, h1, h2, hS, gt_iff_lt, if_neg (not_lt.mpr hSM),
    if_neg (not_lt.mpr hroom), Nat.zero_add, if_neg (not_lt.mpr hlen)]

/-- A binary `fir_cmd_get_data` on a blob of `S` bytes that exceeds the payload capacity
`M` returns, for a message index `k` with `k * M < S`, the `min M (S - k * M)` bytes of
the blob from offset `k * M` on, and reports `S - k * M` in `elems_remaining`. -/
theorem fir_cmd_get_data_page (env : eq_env) (hdr_bytes : Nat) (cd : eq_fir_comp_data)
    (cdata : sof_ipc_ctrl_data) (max_size : Int) (b : List Nat) (S M : Nat)
    (hcmd : cdata.cmd = sof_ipc_ctrl_cmd.SOF_CTRL_CMD_BINARY)
    (hmax : max_size = (hdr_bytes : Int) + (M : Int)) (hM31 : M < 2 ^ 31)
    (hb : cd.config = some b) (hS : env.fir_config_size (blob_mem b) = S)
    (hS31 : S < 2 ^ 31) (hlen : S ≤ b.length) (hSM : M < S)
    (hk : cdata.msg_index * M < S)
    (hroom : min M (S - cdata.msg_index * M) ≤ cdata.data_size) :
    fir_cmd_get_data env hdr_bytes cd cdata max_size =
      cmd_result.done 0
        { cdata with
          elems_remaining := S - cdata.msg_index * M
          num_elems := min M (S - cdata.msg_index * M)
          data := fun k =>
            if k < min M (S - cdata.msg_index * M)
            then blob_mem b (cdata.msg_index * M + k) else cdata.data k
          data_size := min M (S - cdata.msg_index * M) } := by
  have h1 : wrap_int32 (max_size - (hdr_bytes : Int)) = (M : Int) := by
    rw [hmax, add_sub_cancel_left]
    exact wrap_int32_nat M hM31
  have hU : UINT32_MOD = 4294967296 := by unfold UINT32_MOD; norm_num
  have h2 : to_size_t (M : Int) = M := to_size_t_of_nat M (by omega)
  have hoff : (cdata.msg_index * M) % UINT32_MOD = cdata.msg_index * M :=
    Nat.mod_eq_of_lt (by omega)
  have hnext : ((cdata.msg_index + 1) * M) % UINT32_MOD = (cdata.msg_index + 1) * M := by
    apply Nat.mod_eq_of_lt
    rw [Nat.add_mul, Nat.one_mul]
    omega
  have hrem : to_size_t ((S : Int) - ((cdata.msg_index * M : Nat) : Int))
      = S - cdata.msg_index * M := by
    rw [← Int.ofNat_sub (le_of_lt hk)]
    exact to_size_t_of_nat _ (by omega)
  have hbs : (if (cdata.msg_index + 1) * M > S then S - cdata.msg_index * M else M)
      = min M (S - cdata.msg_index * M) := by
    rw [Nat.add_mul, Nat.one_mul]
    split
    · omega
    · omega
  unfold fir_cmd_get_data
  rw [hcmd]
  simp only [hb, h1, h2, hS, gt_iff_lt, if_pos hSM, hoff, hnext, hrem]
  rw [show (if S < (cdata.msg_index + 1) * M then S - cdata.msg_index * M else M)
      = min M (S - cdata.msg_index * M) from hbs]
  rw [if_neg (not_lt.mpr hroom), if_neg (by omega)]

/-- A binary `fir_cmd_get_data` on a blob that fits the payload capacity `M`, for a
request whose ABI header announces less room than the blob takes: `memcpy_s` refuses
the copy and the `assert` fails. -/
theorem fir_cmd_get_data_whole_refused (env : eq_env) (hdr_bytes : Nat)
    (cd : eq_fir_comp_data) (cdata : sof_ipc_ctrl_data) (max_size : Int) (b : List Nat)
    (S M : Nat) (hcmd : cdata.cmd = sof_ipc_ctrl_cmd.SOF_CTRL_CMD_BINARY)
    (hmax : max_size = (hdr_bytes : Int) + (M : Int)) (hM31 : M < 2 ^ 31)
    (hb : cd.config = some b) (hS : env.fir_config_size (blob_mem b) = S)
    (hSM : S ≤ M) (hroom : cdata.data_size < S) :
    fir_cmd_get_data env hdr_bytes cd cdata max_size = cmd_result.assert_failed := by
  have h1 : wrap_int32 (max_size - (hdr_bytes : Int)) = (M : Int) := by
    rw [hmax, add_sub_cancel_left]
    exact wrap_int32_nat M hM31
  have h2 : to_size_t (M : Int) = M :=
    to_size_t_of_nat M (by unfold UINT32_MOD; omega)
  unfold fir_cmd_get_data
  rw [hcmd]
  simp only [hb, h1, h2, hS, gt_iff_lt, if_neg (not_lt.mpr hSM), if_pos hroom]

/-- A page of a binary `fir_cmd_get_data` on a blob that exceeds the payload capacity
`M`, for a request whose ABI header announces less room than the page takes: the
`assert` fails. -/
theorem fir_cmd_get_data_page_refused (env : eq_env) (hdr_bytes : Nat)
    (cd : eq_fir_comp_data) (cdata : sof_ipc_ctrl_data) (max_size : Int) (b : List Nat)
    (S M : Nat) (hcmd : cdata.cmd = sof_ipc_ctrl_cmd.SOF_CTRL_CMD_BINARY)
    (hmax : max_size = (hdr_bytes : Int) + (M : Int)) (hM31 : M < 2 ^ 31)
    (hb : cd.config = some b) (hS : env.fir_config_size (blob_mem b) = S)
    (hS31 : S < 2 ^ 31) (hSM : M < S) (hk : cdata.msg_index * M < S)
    (hroom : cdata.data_size < min M (S - cdata.msg_index * M)) :
    fir_cmd_get_data env hdr_bytes cd cdata max_size = cmd_result.assert_failed := by
  have h1 : wrap_int32 (max_size - (hdr_bytes : Int)) = (M : Int) := by
    rw [hmax, add_sub_cancel_left]
    exact wrap_int32_nat M hM31
  have hU : UINT32_MOD = 4294967296 := by unfold UINT32_MOD; norm_num
  have h2 : to_size_t (M : Int) = M := to_size_t_of_nat M (by omega)
  have hoff : (cdata.msg_index * M) % UINT32_MOD = cdata.msg_index * M :=
    Nat.mod_eq_of_lt (by omega)
  have hnext : ((cdata.msg_index + 1) * M) % UINT32_MOD = (cdata.msg_index + 1) * M := by
    apply Nat.mod_eq_of_lt
    rw [Nat.add_mul, Nat.one_mul]
    omega
  have hrem : to_size_t ((S : Int) - ((cdata.msg_index * M : Nat) : Int))
      = S - cdata.msg_index * M := by
    rw [← Int.ofNat_sub (le_of_lt hk)]
    exact to_size_t_of_nat _ (by omega)
  have hbs : (if (cdata.msg_index + 1) * M > S then S - cdata.msg_index * M else M)
      = min M (S - cdata.msg_index * M) := by
    rw [Nat.add_mul, Nat.one_mul]
    split
    · omega
    · omega
  unfold fir_cmd_get_data
  rw [hcmd]
  simp only [hb, h1, h2, hS, gt_iff_lt, if_pos hSM, hoff, hnext, hrem]
  rw [show (if S < (cdata.msg_index + 1) * M then S - cdata.msg_index * M else M)
      = min M (S - cdata.msg_index * M) from hbs]
  rw [if_pos hroom]

/-- C23, counterexample: the 56-byte blob `fir_blob_stereo` and a payload capacity of 56
bytes (`max_size = 176`, headers of 120 bytes), so the blob fits one message; the ABI
header of the request announces room for 0 bytes. The call does not return the blob: it
ends in the failed `assert` on `memcpy_s`. With a capacity of 28 bytes, the page with
message index 1 of a request that announces room for 27 bytes ends the same way. A
request that announces room for 56 bytes gets return 0. -/
theorem fir_cmd_get_data_small_room_asserts :
    eq_env_sample.fir_config_size (blob_mem fir_blob_stereo) = 56 ∧
    (176 : Int) - (ctrl_hdr_bytes_sample : Int) = 56 ∧
    (fir_cmd_get_data eq_env_sample ctrl_hdr_bytes_sample eq_fir_cd_configured
      (ctrl_get_msg 0 0) 176).is_assert_failed = true ∧
    (fir_cmd_get_data eq_env_sample ctrl_hdr_bytes_sample eq_fir_cd_configured
      (ctrl_get_msg 0 0) 176).ret? = none ∧
    (fir_cmd_get_data eq_env_sample ctrl_hdr_bytes_sample eq_fir_cd_configured
      (ctrl_get_msg 1 27) 148).is_assert_failed = true ∧
    (fir_cmd_get_data eq_env_sample ctrl_hdr_bytes_sample eq_fir_cd_configured
      (ctrl_get_msg 0 56) 176).ret? = some 0 := by
  decide

/-- C23, as the code has it. `fir_cmd_get_data` with the binary command, a stored blob
whose size field is `S` (below `2^31`, the block holding those `S` bytes) and a payload
capacity `M = max_size - (sizeof(struct sof_ipc_ctrl_data) + sizeof(struct sof_abi_hdr))`
with `0 < M < 2^31`. On a request whose ABI header announces room for the bytes to
return: for `S <= M` the call returns 0 with all `S` bytes from offset 0, `num_elems = S`
and `elems_remaining = 0`; for `S > M` and a message index `k` with `k * M < S` it
returns 0 with the bytes of the blob from offset `k * M` on and
`num_elems = min(M, S - k * M)`. On a request whose ABI header announces less room than
the bytes to return, `memcpy_s` refuses the copy and the call ends in the failed
`assert`. Without a stored blob the call returns `-EINVAL` and leaves the message as it
is. -/
theorem fir_cmd_get_data_pagination (env : eq_env) (hdr_bytes : Nat)
    (cd : eq_fir_comp_data) (cdata : sof_ipc_ctrl_data) (max_size : Int) (M : Nat)
    (hcmd : cdata.cmd = sof_ipc_ctrl_cmd.SOF_CTRL_CMD_BINARY)
    (hmax : max_size = (hdr_bytes : Int) + (M : Int)) (hM0 : 0 < M) (hM31 : M < 2 ^ 31) :
    (cd.config = none →
      fir_cmd_get_data env hdr_bytes cd cdata max_size = cmd_result.done (-EINVAL) cdata) ∧
    (∀ b S, cd.config = some b → env.fir_config_size (blob_mem b) = S → S ≤ b.length →
      S ≤ M → S ≤ cdata.data_size →
      ∃ out, fir_cmd_get_data env hdr_bytes cd cdata max_size = cmd_result.done 0 out ∧
        out.num_elems = S ∧ out.elems_remaining = 0 ∧
        ∀ i, i < S → out.data i = blob_mem b i) ∧
    (∀ b S, cd.config = some b → env.fir_config_size (blob_mem b) = S → S ≤ b.length →
      S < 2 ^ 31 → M < S → cdata.msg_index * M < S →
      min M (S - cdata.msg_index * M) ≤ cdata.data_size →
      ∃ out, fir_cmd_get_data env hdr_bytes cd cdata max_size = cmd_result.done 0 out ∧
        out.num_elems = min M (S - cdata.msg_index * M) ∧
        0 < out.num_elems ∧
        ∀ i, i < min M (S - cdata.msg_index * M) →
          out.data i = blob_mem b (cdata.msg_index * M + i)) ∧
    (∀ b S, cd.config = some b → env.fir_config_size (blob_mem b) = S →
      S ≤ M → cdata.data_size < S →
      fir_cmd_get_data env hdr_bytes cd cdata max_size = cmd_result.assert_failed) ∧
    (∀ b S, cd.config = some b → env.fir_config_size (blob_mem b) = S →
      S < 2 ^ 31 → M < S → cdata.msg_index * M < S →
      cdata.data_size < min M (S - cdata.msg_index * M) →
      fir_cmd_get_data env hdr_bytes cd cdata max_size = cmd_result.assert_failed) := by
  refine ⟨fun hn => ?_, fun b S hb hS hlen hSM hroom => ?_,
    fun b S hb hS hlen hS31 hSM hk hroom => ?_,
    fun b S hb hS hSM hroom =>
      fir_cmd_get_data_whole_refused env hdr_bytes cd cdata max_size b S M hcmd hmax hM31
        hb hS hSM hroom,
    fun b S hb hS hS31 hSM hk hroom =>
      fir_cmd_get_data_page_refused env hdr_bytes cd cdata max_size b S M hcmd hmax hM31
        hb hS hS31 hSM hk hroom⟩
  · unfold fir_cmd_get_data
    rw [hcmd]
    simp only [hn]
  · refine ⟨_, fir_cmd_get_data_whole env hdr_bytes cd cdata max_size b S M hcmd hmax hM31
      hb hS hlen hSM hroom, rfl, rfl, fun i hi => ?_⟩
    simp only [if_pos hi, Nat.zero_add]
  · refine ⟨_, fir_cmd_get_data_page env hdr_bytes cd cdata max_size b S M hcmd hmax hM31
      hb hS hS31 hlen hSM hk hroom, rfl, ?_, fun i hi => ?_⟩
    · show 0 < min M (S - cdata.msg_index * M)
      omega
    · simp only [if_pos hi]

/-- C23, witness: the 56-byte blob `fir_blob_stereo` read in pages of 28 bytes; the page
with message index 1 of a request that announces room for 56 bytes holds the bytes
28..55, and the same page of a request that announces room for 27 bytes ends in the
failed `assert`. -/
theorem fir_cmd_get_data_pagination_witness :
    (∃ out, fir_cmd_get_data eq_env_sample ctrl_hdr_bytes_sample eq_fir_cd_configured
        (ctrl_get_msg 1 56) 148 = cmd_result.done 0 out ∧
      out.num_elems = min 28 (56 - (ctrl_get_msg 1 56).msg_index * 28) ∧
      0 < out.num_elems ∧
      ∀ i, i < min 28 (56 - (ctrl_get_msg 1 56).msg_index * 28) →
        out.data i = blob_mem fir_blob_stereo ((ctrl_get_msg 1 56).msg_index * 28 + i)) ∧
    fir_cmd_get_data eq_env_sample ctrl_hdr_bytes_sample eq_fir_cd_configured
      (ctrl_get_msg 1 27) 148 = cmd_result.assert_failed :=
  ⟨(fir_cmd_get_data_pagination eq_env_sample ctrl_hdr_bytes_sample eq_fir_cd_configured
      (ctrl_get_msg 1 56) 148 28 rfl (by decide) (by decide) (by decide)).2.2.1
      fir_blob_stereo 56 rfl (by decide) (by decide) (by decide) (by decide) (by decide)
      (by decide),
    (fir_cmd_get_data_pagination eq_env_sample ctrl_hdr_bytes_sample eq_fir_cd_configured
      (ctrl_get_msg 1 27) 148 28 rfl (by decide) (by decide) (by decide)).2.2.2.2
      fir_blob_stereo 56 rfl (by decide) (by decide) (by decide) (by decide) (by decide)⟩

/-- The blob `fir_blob_max` holds 4096 bytes and its size field says so. -/
theorem fir_blob_max_size :
    eq_env_sample.fir_config_size (blob_mem fir_blob_max) = 4096 ∧
    fir_blob_max.length = 4096 := by
  constructor
  · decide
  · unfold fir_blob_max
    rw [List.length_append, List.length_replicate]
    rfl

/-- C24, the code at a failing input. The 56-byte blob `fir_blob_stereo` is read with a
payload capacity of 28 bytes (`max_size = 148`, headers of 120 bytes). The final page is
the one with message index 1 (`1 * 28 < 56 <= 2 * 28`): the call returns 0 with
`num_elems = 28` and `elems_remaining = 28`, not 0. The first page reports
`num_elems = 28` and `elems_remaining = 56`, a sum of 84 for a blob of 56 bytes; and the
first page of a blob of the maximum size 4096 read with a capacity of 2048 bytes reports
`2048 + 4096 = 6144`, above the maximum blob size. A blob that fits one page is reported
with `elems_remaining = 0`. -/
theorem fir_cmd_get_data_last_page_remaining :
    (eq_env_sample.fir_config_size (blob_mem fir_blob_stereo) = 56 ∧
      (148 : Int) - (ctrl_hdr_bytes_sample : Int) = 28 ∧
      1 * 28 < 56 ∧ 56 ≤ (1 + 1) * 28 ∧
      (fir_cmd_get_data eq_env_sample ctrl_hdr_bytes_sample eq_fir_cd_configured
        (ctrl_get_msg 1 56) 148).ret? = some 0 ∧
      (fir_cmd_get_data eq_env_sample ctrl_hdr_bytes_sample eq_fir_cd_configured
        (ctrl_get_msg 1 56) 148).out?.map (fun m => (m.num_elems, m.elems_remaining))
          = some (28, 28) ∧
      (fir_cmd_get_data eq_env_sample ctrl_hdr_bytes_sample eq_fir_cd_configured
        (ctrl_get_msg 0 56) 148).out?.map (fun m => (m.num_elems, m.elems_remaining))
          = some (28, 56) ∧
      (fir_cmd_get_data eq_env_sample ctrl_hdr_bytes_sample eq_fir_cd_configured
        (ctrl_get_msg 0 56) 176).out?.map (fun m => (m.num_elems, m.elems_remaining))
          = some (56, 0)) ∧
    ((fir_cmd_get_data eq_env_sample ctrl_hdr_bytes_sample
        { eq_fir_cd_sample with config := some fir_blob_max }
        (ctrl_get_msg 0 4096) 2168).out?.map (fun m => (m.num_elems, m.elems_remaining))
          = some (2048, 4096) ∧
      2048 + 4096 > eq_env_sample.SOF_EQ_FIR_MAX_SIZE) := by
  refine ⟨by decide, ?_, by decide⟩
  rw [fir_cmd_get_data_page eq_env_sample ctrl_hdr_bytes_sample
    { eq_fir_cd_sample with config := some fir_blob_max } (ctrl_get_msg 0 4096) 2168
    fir_blob_max 4096 2048 rfl (by decide) (by decide) rfl fir_blob_max_size.1 (by decide)
    (le_of_eq fir_blob_max_size.2.symm) (by decide) (by decide) (by decide)]
  rfl

/-! ## Theorems: the IIR dispatch tables -/

/-- The lookup in a dispatch table depends on the two formats only. -/
theorem eq_iir_find_func_formats (cd cd1 : eq_iir_comp_data) (map : List eq_iir_func_map)
    (hs : cd.source_format = cd1.source_format) (hk : cd.sink_format = cd1.sink_format) :
    eq_iir_find_func cd map = eq_iir_find_func cd1 map := by
  induction map with
  | nil => rfl
  | cons entry rest ih =>
    unfold eq_iir_find_func
    rw [hs, hk, ih]

/-- Both dispatch tables hold a function exactly for the five supported pairs. -/
theorem eq_iir_find_func_pairs (cd : eq_iir_comp_data) :
    ((eq_iir_find_func cd fm_configured).isSome = true ↔
      (cd.source_format, cd.sink_format) ∈ eq_iir_supported_pairs) ∧
    ((eq_iir_find_func cd fm_passthrough).isSome = true ↔
      (cd.source_format, cd.sink_format) ∈ eq_iir_supported_pairs) := by
  obtain ⟨iir, config, sf, kf, d, ds, f⟩ := cd
  cases sf <;> cases kf <;> simp [eq_iir_find_func, fm_configured, fm_passthrough,
    eq_iir_supported_pairs]

/-- Outside the five supported pairs neither table holds a function. -/
theorem eq_iir_find_func_none (cd : eq_iir_comp_data)
    (h : (cd.source_format, cd.sink_format) ∉ eq_iir_supported_pairs) :
    eq_iir_find_func cd fm_configured = none ∧ eq_iir_find_func cd fm_passthrough = none := by
  have hp := eq_iir_find_func_pairs cd
  constructor
  · cases hf : eq_iir_find_func cd fm_configured with
    | none => rfl
    | some f => exact absurd (hp.1.mp (by rw [hf]; rfl)) h
  · cases hf : eq_iir_find_func cd fm_passthrough with
    | none => rfl
    | some f => exact absurd (hp.2.mp (by rw [hf]; rfl)) h

/-- Function `eq_iir_setup` leaves the two formats and the function pointer as they
are. -/
theorem eq_iir_setup_keeps_formats (env : eq_env) (cd : eq_iir_comp_data)
    (config : sof_eq_config) (nch : Int) :
    (eq_iir_setup env cd config nch).2.source_format = cd.source_format ∧
    (eq_iir_setup env cd config nch).2.sink_format = cd.sink_format ∧
    (eq_iir_setup env cd config nch).2.eq_iir_func = cd.eq_iir_func := by
  unfold eq_iir_setup eq_iir_setup_body eq_iir_free_delaylines
  simp only
  split_ifs <;> exact ⟨rfl, rfl, rfl⟩

/-- The components of a triple that is given by an equation. -/
theorem triple_of_eq {α β γ : Type} (r : α × β × γ) (a : α) (b : β) (c : γ)
    (h : r = (a, b, c)) : r.1 = a ∧ r.2.1 = b ∧ r.2.2 = c := by
  subst h
  exact ⟨rfl, rfl, rfl⟩

/-- The part "Initialize EQ" of `eq_iir_prepare` for a pair of formats outside the five
supported ones: it ends at `err:` with a negative value, and the function pointer is left
as it was (setup failed) or set to `eq_iir_s32_pass` (no function in the table). -/
theorem eq_iir_prepare_init_unsupported (cenv : comp_env) (env : eq_env)
    (args : eq_prepare_args) (dev : comp_dev) (cd : eq_iir_comp_data)
    (h : (cd.source_format, cd.sink_format) ∉ eq_iir_supported_pairs) :
    (eq_iir_prepare_init cenv env args dev cd).1 < 0 ∧
    (eq_iir_prepare_init cenv env args dev cd).2.1 = eq_prepare_err cenv dev ∧
    ((eq_iir_prepare_init cenv env args dev cd).2.2.eq_iir_func = cd.eq_iir_func ∨
      ((eq_iir_prepare_init cenv env args dev cd).1 = -EINVAL ∧
        (eq_iir_prepare_init cenv env args dev cd).2.2.eq_iir_func
          = some eq_iir_func_t.eq_iir_s32_pass)) := by
  have hneg : -EINVAL < 0 := by decide
  cases hc : cd.config with
  | none =>
    obtain ⟨e1, e2, e3⟩ := triple_of_eq _ _ _ _
      ((eq_iir_prepare_init_no_blob cenv env args dev cd hc).trans
        (eq_iir_prepare_func_none cenv dev cd fm_passthrough (eq_iir_find_func_none cd h).2))
    rw [e1, e2, e3]
    exact ⟨hneg, rfl, Or.inr ⟨rfl, rfl⟩⟩
  | some blob =>
    have hk := eq_iir_setup_keeps_formats env cd (args.config_view blob)
      (wrap_int32 dev.channels)
    by_cases hf : (eq_iir_setup env cd (args.config_view blob)
        (wrap_int32 dev.channels)).1 < 0
    · obtain ⟨e1, e2, e3⟩ := triple_of_eq _ _ _ _
        (eq_iir_prepare_init_setup_fail cenv env args dev cd blob hc hf)
      rw [e1, e2, e3]
      exact ⟨hf, rfl, Or.inl hk.2.2⟩
    · have h2 : ((eq_iir_setup env cd (args.config_view blob)
            (wrap_int32 dev.channels)).2.source_format,
          (eq_iir_setup env cd (args.config_view blob)
            (wrap_int32 dev.channels)).2.sink_format) ∉ eq_iir_supported_pairs := by
        rw [hk.1, hk.2.1]
        exact h
      obtain ⟨e1, e2, e3⟩ := triple_of_eq _ _ _ _
        ((eq_iir_prepare_init_blob cenv env args dev cd blob hc (not_lt.mp hf)).trans
          (eq_iir_prepare_func_none cenv dev _ fm_configured
            (eq_iir_find_func_none _ h2).1))
      rw [e1, e2, e3]
      exact ⟨hneg, rfl, Or.inr ⟨rfl, rfl⟩⟩

/-- C25, the code at a counterexample. An IIR equalizer without a blob holds
`eq_iir_s32_default` after a reset. `eq_iir_prepare` for the pair (S16_LE, S32_LE), which
is in neither table, returns `-EINVAL` and installs a function all the same: the function
pointer is `eq_iir_s32_pass` afterwards. -/
theorem eq_iir_prepare_installs_fallback :
    (sof_ipc_frame.S16_LE, sof_ipc_frame.S32_LE) ∉ eq_iir_supported_pairs ∧
    eq_iir_cd_after_reset.config = none ∧
    eq_iir_cd_after_reset.eq_iir_func = some eq_iir_func_t.eq_iir_s32_default ∧
    (eq_iir_prepare comp_env_sample eq_env_sample
      (eq_prepare_args_sample sof_ipc_frame.S16_LE sof_ipc_frame.S32_LE 0)
      comp_dev_sample eq_iir_cd_after_reset).1 = -EINVAL ∧
    (eq_iir_prepare comp_env_sample eq_env_sample
      (eq_prepare_args_sample sof_ipc_frame.S16_LE sof_ipc_frame.S32_LE 0)
      comp_dev_sample eq_iir_cd_after_reset).2.2.eq_iir_func
        = some eq_iir_func_t.eq_iir_s32_pass := by
  decide

/-- C25, as the code has it. Over both tables `fm_configured` and `fm_passthrough`,
`eq_iir_find_func` returns a function exactly for the pairs (S16,S16), (S24_4,S24_4),
(S32,S16), (S32,S24_4) and (S32,S32). For every other pair of formats, whether or not a
blob is configured, an `eq_iir_prepare` whose PREPARE transition succeeded and was not
already set returns a negative value and applies RESET; no function of a table is
installed: the function pointer is left as it was when sizing the sink buffer or the
setup failed, and otherwise the call returns `-EINVAL` with the fall-back
`eq_iir_s32_pass` in the function pointer. -/
theorem eq_iir_dispatch_pairs (cenv : comp_env) (env : eq_env) (args : eq_prepare_args)
    (dev : comp_dev) (cd : eq_iir_comp_data) :
    ((eq_iir_find_func cd fm_configured).isSome = true ↔
      (cd.source_format, cd.sink_format) ∈ eq_iir_supported_pairs) ∧
    ((eq_iir_find_func cd fm_passthrough).isSome = true ↔
      (cd.source_format, cd.sink_format) ∈ eq_iir_supported_pairs) ∧
    (0 ≤ (cenv.comp_set_state dev.state comp_trigger.COMP_TRIGGER_PREPARE).1 →
      (cenv.comp_set_state dev.state comp_trigger.COMP_TRIGGER_PREPARE).1
        ≠ cenv.COMP_STATUS_STATE_ALREADY_SET →
      (args.source_fmt, args.sink_fmt) ∉ eq_iir_supported_pairs →
      (eq_iir_prepare cenv env args dev cd).1 < 0 ∧
      (eq_iir_prepare cenv env args dev cd).2.1
        = eq_prepare_err cenv (eq_prepare_dev cenv args dev) ∧
      ((eq_iir_prepare cenv env args dev cd).2.2.eq_iir_func = cd.eq_iir_func ∨
        ((eq_iir_prepare cenv env args dev cd).1 = -EINVAL ∧
          (eq_iir_prepare cenv env args dev cd).2.2.eq_iir_func
            = some eq_iir_func_t.eq_iir_s32_pass))) := by
  refine ⟨(eq_iir_find_func_pairs cd).1, (eq_iir_find_func_pairs cd).2,
    fun h0 h1 hp => ?_⟩
  rw [eq_iir_prepare_cases cenv env args dev cd h0 h1]
  by_cases hs : args.set_sink_buffer < 0
  · rw [if_pos hs]
    exact ⟨hs, rfl, Or.inl rfl⟩
  · rw [if_neg hs]
    exact eq_iir_prepare_init_unsupported cenv env args (eq_prepare_dev cenv args dev)
      { cd with source_format := args.source_fmt, sink_format := args.sink_fmt } hp

/-- C25, witness: for the pair (S16_LE, S32_LE) on a READY equalizer with the blob
`iir_blob_stereo`, prepare returns a negative value. -/
theorem eq_iir_dispatch_pairs_witness :
    (eq_iir_prepare comp_env_sample eq_env_sample
      (eq_prepare_args_sample sof_ipc_frame.S16_LE sof_ipc_frame.S32_LE 0)
      comp_dev_sample eq_iir_cd_configured).1 < 0 :=
  ((eq_iir_dispatch_pairs comp_env_sample eq_env_sample
    (eq_prepare_args_sample sof_ipc_frame.S16_LE sof_ipc_frame.S32_LE 0)
    comp_dev_sample eq_iir_cd_configured).2.2 (by decide) (by decide) (by decide)).1

/-! ## Theorems: the IMX8 interrupt encoding -/

set_option maxRecDepth 100000 in
/-- The fields decoded from `sof_imx_irq(spi)` for the 512 shared peripheral interrupts,
checked one by one. -/
theorem sof_imx_irq_fields_all :
    (List.range 512).all (fun spi => decide (
      SOF_IRQ_ID (sof_imx_irq spi) = spi % 256 ∧
      SOF_IRQ_NUMBER (sof_imx_irq spi) = STEERSPI2IRQ spi ∧
      STEERSPI2IRQ spi = 19 + spi / 64 ∧
      SOF_IRQ_BIT (sof_imx_irq spi) = 0 ∧
      SOF_IRQ_LEVEL (sof_imx_irq spi) = 0 ∧
      SOF_IRQ_CPU (sof_imx_irq spi) = 0)) = true := by
  decide

/-- The fields decoded from `sof_imx_irq(spi)` for `spi < 512`: the identifier is `spi`
modulo 256, the number is the vector `19 + spi / 64`, and bit, level and cpu are 0. -/
theorem sof_imx_irq_fields (spi : Nat) (h : spi < 512) :
    SOF_IRQ_ID (sof_imx_irq spi) = spi % 256 ∧
    SOF_IRQ_NUMBER (sof_imx_irq spi) = STEERSPI2IRQ spi ∧
    STEERSPI2IRQ spi = 19 + spi / 64 ∧
    SOF_IRQ_BIT (sof_imx_irq spi) = 0 ∧
    SOF_IRQ_LEVEL (sof_imx_irq spi) = 0 ∧
    SOF_IRQ_CPU (sof_imx_irq spi) = 0 := by
  have hall := sof_imx_irq_fields_all
  rw [List.all_eq_true] at hall
  exact of_decide_eq_true (hall spi (List.mem_range.mpr h))

/-- C26, the code at a failing input. The shared peripheral interrupt 420 of ESAI0
(`STEER_ESAI0_CTRL_ID`) is encoded by `sof_imx_irq` with vector 25, and decoded by
`SOF_IRQ_ID` as 164: the mask `SOF_IRQ_ID_MASK = 0xff` keeps eight bits of the nine the
512 interrupts need, so `platform_interrupt_mask` / `platform_interrupt_unmask` pass 164
to the steering registers. For every `spi` in 0..511 the decoded identifier is
`spi mod 256`, which is `spi` exactly for `spi < 256`; the number is `STEERSPI2IRQ(spi)`
and bit, level and cpu are 0. -/
theorem sof_imx_irq_id_truncated :
    SOF_IRQ_ID (sof_imx_irq 420) = 164 ∧
    SOF_IRQ_NUMBER (sof_imx_irq 420) = 25 ∧
    (platform_interrupt_mask true steer_irq_parent_init (sof_imx_irq 420)).value?
      = some (steer_call.steer_mask_spi 164) ∧
    (platform_interrupt_unmask true steer_irq_parent_init (sof_imx_irq 420)).value?
      = some (steer_call.steer_unmask_spi 164) ∧
    ∀ spi : Fin 512,
      SOF_IRQ_ID (sof_imx_irq spi) = spi % 256 ∧
      (SOF_IRQ_ID (sof_imx_irq spi) = spi ↔ (spi : Nat) < 256) ∧
      SOF_IRQ_NUMBER (sof_imx_irq spi) = STEERSPI2IRQ spi ∧
      SOF_IRQ_BIT (sof_imx_irq spi) = 0 ∧
      SOF_IRQ_LEVEL (sof_imx_irq spi) = 0 ∧
      SOF_IRQ_CPU (sof_imx_irq spi) = 0 := by
  refine ⟨by decide, by decide, by decide, by decide, fun spi => ?_⟩
  obtain ⟨h1, h2, _, h4, h5, h6⟩ := sof_imx_irq_fields spi.val spi.isLt
  refine ⟨h1, ?_, h2, h4, h5, h6⟩
  rw [h1]
  have := spi.isLt
  omega

/-- The parent lookup for the interrupt of a shared peripheral interrupt `spi < 512`:
the vectors 19..25 (`spi < 448`) go on to `get_irq_parent`, the vector 26 gets `NULL`. -/
theorem platform_irq_get_parent_spi (alloc_ok : Bool) (t : Nat → Option irq_desc)
    (spi : Nat) (h : spi < 512) :
    platform_irq_get_parent alloc_ok t (sof_imx_irq spi) =
      if spi < 448 then get_irq_parent alloc_ok t (sof_imx_irq spi)
      else irq_result.done none t := by
  obtain ⟨_, h2, h3, _⟩ := sof_imx_irq_fields spi h
  unfold platform_irq_get_parent
  simp only [h2, h3, IRQ_NUM_IRQSTR_DSP0, IRQ_NUM_IRQSTR_DSP7]
  have h32 : 19 + spi / 64 < 32 := by omega
  rw [if_neg (not_not.mpr h32)]
  by_cases hs : spi < 448
  · rw [if_pos hs, if_pos ⟨by omega, by omega⟩]
  · rw [if_neg hs, if_neg (by omega)]

/-- Function `get_irq_parent` for the interrupt of a shared peripheral interrupt
`spi < 512`: the parent is the entry `spi / 64` of the table, allocated and stored there
when the entry was `NULL`. -/
theorem get_irq_parent_spi (alloc_ok : Bool) (t : Nat → Option irq_desc)
    (spi : Nat) (h : spi < 512) :
    get_irq_parent alloc_ok t (sof_imx_irq spi) =
      match t (spi / 64) with
      | some parent => irq_result.done (some parent) t
      | none =>
        if alloc_ok then
          irq_result.done (some ⟨spi / 64, sof_imx_irq spi⟩)
            (Function.update t (spi / 64) (some ⟨spi / 64, sof_imx_irq spi⟩))
        else irq_result.assert_failed := by
  obtain ⟨_, h2, h3, _⟩ := sof_imx_irq_fields spi h
  have hidx : to_size_t (((19 + spi / 64 : Nat) : Int) - ((19 : Nat) : Int)) = spi / 64 := by
    have : ((19 + spi / 64 : Nat) : Int) - ((19 : Nat) : Int) = ((spi / 64 : Nat) : Int) := by
      push_cast
      ring
    rw [this]
    exact to_size_t_of_nat _ (by unfold UINT32_MOD; omega)
  unfold get_irq_parent
  simp only [h2, h3, IRQ_NUM_IRQSTR_DSP0, hidx, STEER_NB_IRQ_VECTORS]
  rw [if_neg (by omega)]

/-- C27, the code at a failing input. The shared peripheral interrupt 448 is steered to
vector 26 (`IRQ_NUM_IRQSTR_DSP7`), the entry 7 of the parent table; the test
`irq_num < IRQ_NUM_IRQSTR_DSP7` of `platform_irq_get_parent` leaves that vector out, so
the call returns `NULL` and `platform_interrupt_mask` / `platform_interrupt_unmask` end
in the failed `assert(parent)`. For every `spi` in 0..511 the vector is `19 + spi / 64`,
in 19..26, with index below `STEER_NB_IRQ_VECTORS`; for `spi < 448` (vectors 19..25,
for example 441 on vector 25) the parent is the entry `spi / 64` of the table, created
on first use, and for `spi` in 448..511 the call returns `NULL` whatever the table
holds. -/
theorem platform_irq_get_parent_last_vector :
    STEERSPI2IRQ 448 = 26 ∧
    (platform_irq_get_parent true steer_irq_parent_init (sof_imx_irq 448)).value?
      = some none ∧
    (platform_interrupt_mask true steer_irq_parent_init
      (sof_imx_irq 448)).is_assert_failed = true ∧
    (platform_interrupt_unmask true steer_irq_parent_init
      (sof_imx_irq 448)).is_assert_failed = true ∧
    STEERSPI2IRQ 441 = 25 ∧
    (platform_irq_get_parent true steer_irq_parent_init (sof_imx_irq 441)).value?
      = some (some ⟨6, sof_imx_irq 441⟩) ∧
    (platform_irq_get_parent true steer_irq_parent_init (sof_imx_irq 441)).parents?.map
      (fun t => t 6) = some (some ⟨6, sof_imx_irq 441⟩) ∧
    ∀ spi : Fin 512, ∀ (alloc_ok : Bool) (t : Nat → Option irq_desc),
      STEERSPI2IRQ spi = 19 + spi / 64 ∧
      19 ≤ STEERSPI2IRQ spi ∧ STEERSPI2IRQ spi ≤ 26 ∧
      STEERSPI2IRQ spi - 19 < STEER_NB_IRQ_VECTORS ∧
      ((spi : Nat) < 448 →
        platform_irq_get_parent alloc_ok t (sof_imx_irq spi) =
          match t (spi / 64) with
          | some parent => irq_result.done (some parent) t
          | none =>
            if alloc_ok then
              irq_result.done (some ⟨spi / 64, sof_imx_irq spi⟩)
                (Function.update t (spi / 64) (some ⟨spi / 64, sof_imx_irq spi⟩))
            else irq_result.assert_failed) ∧
      (448 ≤ (spi : Nat) →
        platform_irq_get_parent alloc_ok t (sof_imx_irq spi) = irq_result.done none t ∧
        platform_interrupt_mask alloc_ok t (sof_imx_irq spi) = irq_result.assert_failed ∧
        platform_interrupt_unmask alloc_ok t (sof_imx_irq spi)
          = irq_result.assert_failed) := by
  refine ⟨by decide, by decide, by decide, by decide, by decide, by decide, by decide,
    fun spi alloc_ok t => ?_⟩
  obtain ⟨_, _, h3, _⟩ := sof_imx_irq_fields spi.val spi.isLt
  have hlt := spi.isLt
  have hP := platform_irq_get_parent_spi alloc_ok t spi.val hlt
  refine ⟨h3, by omega, by omega, ?_, fun hs => ?_, fun hs => ?_⟩
  · unfold STEER_NB_IRQ_VECTORS
    omega
  · rw [hP, if_pos hs]
    exact get_irq_parent_spi alloc_ok t spi.val hlt
  · have hP2 : platform_irq_get_parent alloc_ok t (sof_imx_irq spi)
        = irq_result.done none t := by
      rw [hP, if_neg (by omega)]
    refine ⟨hP2, ?_, ?_⟩
    · unfold platform_interrupt_mask
      rw [hP2]
    · unfold platform_interrupt_unmask
      rw [hP2]

/-! ## Theorems: the response offset table -/

/-- The table the lookup loop builds: it has one entry per iteration, and entry `k` of
the remaining iterations is the running index after `k` updates while the loop counter
is below `number_of_responses`, and `NULL` from there on. -/
theorem eq_setup_lookup_entries (nr : Nat) (next : Int → Int) (n : Nat) :
    ∀ (i : Nat) (j : Int),
      (eq_setup_lookup nr next n i j).length = n ∧
      ∀ k, k < n →
        (eq_setup_lookup nr next n i j).getD k none =
          if i + k < nr then some (next^[k] j) else none := by
  induction n with
  | zero =>
    intro i j
    exact ⟨rfl, fun k hk => absurd hk (Nat.not_lt_zero k)⟩
  | succ n ih =>
    intro i j
    unfold eq_setup_lookup
    by_cases hi : i < nr
    · rw [if_pos hi]
      refine ⟨by rw [List.length_cons, (ih (i + 1) (next j)).1], fun k hk => ?_⟩
      cases k with
      | zero =>
        rw [if_pos (show i + 0 < nr from hi)]
        rfl
      | succ k =>
        rw [List.getD_cons_succ, (ih (i + 1) (next j)).2 k (by omega),
          Function.iterate_succ_apply]
        rw [show i + 1 + k = i + (k + 1) from by omega]
    · rw [if_neg hi]
      refine ⟨by rw [List.length_cons, (ih (i + 1) j).1], fun k hk => ?_⟩
      cases k with
      | zero =>
        rw [if_neg (show ¬ i + 0 < nr from hi)]
        rfl
      | succ k =>
        rw [List.getD_cons_succ, (ih (i + 1) j).2 k (by omega), if_neg (by omega),
          if_neg (by omega)]

/-- While the record starts fit an `int`, the running index of the lookup loop after `k`
updates is the start of record `k`. -/
theorem eq_record_start_iterate (len : Int → Int) (m : Nat)
    (hfit : ∀ k, k < m → -2147483648 ≤ eq_record_start len k ∧
      eq_record_start len k ≤ 2147483647) :
    ∀ k, k < m → (fun j => wrap_int32 (j + len j))^[k] 0 = eq_record_start len k := by
  intro k
  induction k with
  | zero => intro _; rfl
  | succ k ih =>
    intro hk
    rw [Function.iterate_succ_apply', ih (by omega)]
    show wrap_int32 (eq_record_start len (k + 1)) = _
    exact wrap_int32_of_range _ (hfit (k + 1) hk).1 (hfit (k + 1) hk).2

/-- The start of record `i` is the sum of the lengths of the records before it. -/
theorem eq_record_start_sum (len : Int → Int) (i : Nat) :
    eq_record_start len i = ∑ k in Finset.range i, len (eq_record_start len k) := by
  induction i with
  | zero => rfl
  | succ i ih =>
    rw [Finset.sum_range_succ, ← ih]
    rfl

/-- The table of a lookup loop whose update is `j += len j`, for at most `max`
responses whose record starts fit an `int`. -/
theorem eq_setup_lookup_prefix (nr max : Nat) (len next : Int → Int)
    (hnext : next = fun j => wrap_int32 (j + len j))
    (hnr : nr ≤ max)
    (hfit : ∀ k, k < nr → -2147483648 ≤ eq_record_start len k ∧
      eq_record_start len k ≤ 2147483647) :
    (eq_setup_lookup nr next max 0 0).length = max ∧
    (∀ i, i < nr →
      (eq_setup_lookup nr next max 0 0).getD i none = some (eq_record_start len i)) ∧
    (∀ i, nr ≤ i → (eq_setup_lookup nr next max 0 0).getD i none = none) := by
  have hE := eq_setup_lookup_entries nr next max 0 0
  refine ⟨hE.1, fun i hi => ?_, fun i hi => ?_⟩
  · rw [hE.2 i (by omega), Nat.zero_add, if_pos hi, hnext,
      eq_record_start_iterate len nr hfit i hi]
  · by_cases hlt : i < max
    · rw [hE.2 i hlt, Nat.zero_add, if_neg (by omega)]
    · rw [List.getD_eq_default _ _ (by rw [hE.1]; omega)]

/-- C28. For a FIR blob with at most `SOF_EQ_FIR_MAX_RESPONSES` responses and an IIR blob
with at most `SOF_EQ_IIR_MAX_RESPONSES` responses (the sanity checks of setup), whose
record starts fit the `int` the loop counts in: the table `lookup[]` that `eq_fir_setup`
builds has, for `i < number_of_responses`, the entry `lookup[i]` pointing at
coefficient-data index "sum over `k < i` of `SOF_EQ_FIR_COEF_NHEADER` + tap count of
record `k`", the tap count being the first word of record `k`; in `eq_iir_setup` the
record length is `SOF_EQ_IIR_NHEADER_DF2T + SOF_EQ_IIR_NBIQUAD_DF2T * num_sections`.
`lookup[0]` is coefficient-data index 0, the word `data[channels_in_config]` right after
the assignment entries, and every entry with index `>= number_of_responses` is `NULL`. -/
theorem eq_setup_lookup_prefix_sums (env : eq_env) (cf ci : sof_eq_config)
    (hnF : cf.number_of_responses ≤ env.SOF_EQ_FIR_MAX_RESPONSES)
    (hnI : ci.number_of_responses ≤ env.SOF_EQ_IIR_MAX_RESPONSES)
    (hfitF : ∀ k, k < cf.number_of_responses →
      -2147483648 ≤ eq_record_start (eq_fir_record_len env cf) k ∧
      eq_record_start (eq_fir_record_len env cf) k ≤ 2147483647)
    (hfitI : ∀ k, k < ci.number_of_responses →
      -2147483648 ≤ eq_record_start (eq_iir_record_len env ci) k ∧
      eq_record_start (eq_iir_record_len env ci) k ≤ 2147483647) :
    ((eq_fir_setup_lookup env cf).length = env.SOF_EQ_FIR_MAX_RESPONSES ∧
      (∀ i, i < cf.number_of_responses →
        (eq_fir_setup_lookup env cf).getD i none
          = some (eq_record_start (eq_fir_record_len env cf) i) ∧
        eq_record_start (eq_fir_record_len env cf) i =
          ∑ k in Finset.range i, ((env.SOF_EQ_FIR_COEF_NHEADER : Int) +
            coef_data cf (eq_record_start (eq_fir_record_len env cf) k))) ∧
      (∀ i, cf.number_of_responses ≤ i → (eq_fir_setup_lookup env cf).getD i none = none)) ∧
    ((eq_iir_setup_lookup env ci).length = env.SOF_EQ_IIR_MAX_RESPONSES ∧
      (∀ i, i < ci.number_of_responses →
        (eq_iir_setup_lookup env ci).getD i none
          = some (eq_record_start (eq_iir_record_len env ci) i) ∧
        eq_record_start (eq_iir_record_len env ci) i =
          ∑ k in Finset.range i, ((env.SOF_EQ_IIR_NHEADER_DF2T : Int) +
            (env.SOF_EQ_IIR_NBIQUAD_DF2T : Int) *
              env.iir_num_sections ci (eq_record_start (eq_iir_record_len env ci) k))) ∧
      (∀ i, ci.number_of_responses ≤ i → (eq_iir_setup_lookup env ci).getD i none = none)) ∧
    eq_record_start (eq_fir_record_len env cf) 0 = 0 ∧
    eq_record_start (eq_iir_record_len env ci) 0 = 0 ∧
    coef_data cf 0 = cf.data (cf.channels_in_config : Int) ∧
    coef_data ci 0 = ci.data (ci.channels_in_config : Int) := by
  have hF := eq_setup_lookup_prefix cf.number_of_responses env.SOF_EQ_FIR_MAX_RESPONSES
    (eq_fir_record_len env cf)
    (fun j => wrap_int32 (j + (env.SOF_EQ_FIR_COEF_NHEADER : Int) + coef_data cf j))
    (by funext j; unfold eq_fir_record_len; rw [add_assoc]) hnF hfitF
  have hI := eq_setup_lookup_prefix ci.number_of_responses env.SOF_EQ_IIR_MAX_RESPONSES
    (eq_iir_record_len env ci)
    (fun j => wrap_int32 (j + (env.SOF_EQ_IIR_NHEADER_DF2T : Int) +
      (env.SOF_EQ_IIR_NBIQUAD_DF2T : Int) * env.iir_num_sections ci j))
    (by funext j; unfold eq_iir_record_len; rw [add_assoc]) hnI hfitI
  refine ⟨⟨hF.1, fun i hi => ⟨hF.2.1 i hi, ?_⟩, hF.2.2⟩,
    ⟨hI.1, fun i hi => ⟨hI.2.1 i hi, ?_⟩, hI.2.2⟩, rfl, rfl, ?_, ?_⟩
  · exact eq_record_start_sum (eq_fir_record_len env cf) i
  · exact eq_record_start_sum (eq_iir_record_len env ci) i
  · unfold coef_data
    rw [add_zero]
  · unfold coef_data
    rw [add_zero]

/-- C28, witness: the FIR blob with three responses of 4, 2 and 0 taps has the records
at the coefficient-data indices 0, 14 and 26; the IIR blob with two responses of 2
sections and 1 section has them at 0 and 20. -/
theorem eq_setup_lookup_prefix_sums_witness :
    (eq_fir_setup_lookup eq_env_sample fir_config_three_responses).getD 2 none
      = some (eq_record_start (eq_fir_record_len eq_env_sample
        fir_config_three_responses) 2) ∧
    eq_record_start (eq_fir_record_len eq_env_sample fir_config_three_responses) 2 = 26 ∧
    (eq_iir_setup_lookup eq_env_sample iir_config_two_responses).getD 1 none
      = some (eq_record_start (eq_iir_record_len eq_env_sample
        iir_config_two_responses) 1) ∧
    eq_record_start (eq_iir_record_len eq_env_sample iir_config_two_responses) 1 = 20 ∧
    (eq_fir_setup_lookup eq_env_sample fir_config_three_responses).getD 3 none = none :=
  ⟨((eq_setup_lookup_prefix_sums eq_env_sample fir_config_three_responses
      iir_config_two_responses (by decide) (by decide) (by decide) (by decide)).1.2.1 2
      (by decide)).1,
    by decide,
    ((eq_setup_lookup_prefix_sums eq_env_sample fir_config_three_responses
      iir_config_two_responses (by decide) (by decide) (by decide) (by decide)).2.1.2.1 1
      (by decide)).1,
    by decide,
    (eq_setup_lookup_prefix_sums eq_env_sample fir_config_three_responses
      iir_config_two_responses (by decide) (by decide) (by decide) (by decide)).1.2.2 3
      (by decide)⟩

/-! ## Theorems: later chunks of the FIR SET_DATA -/

/-- C29, the code at a failing input. A READY FIR equalizer receives the first 28 bytes
of the 56-byte blob `fir_blob_stereo` with `num_elems = 28`, `elems_remaining = 28`: a
block of 56 bytes is allocated and the call returns 0. The second message
(`msg_index = 1`, `num_elems = 28`) declares `elems_remaining = 56`, a total of 84. The
32-bit offset is `56 - 56 - 28 = 4294967268` (28 bytes before the block), the destination
size handed to `memcpy_s` is `84 - 4294967268 = 112` modulo `2^32`, the check
`28 <= 112` passes and the copy runs outside the allocated block: the chunk is neither
rejected nor stopped by the `assert`. The same happens past the end of the block when the
first message declares 28 bytes in all while the size field of the blob says 56: a second
message with `num_elems = 4`, `elems_remaining = 0` has offset 52 in a block of 28 bytes
and a destination size of `4 - 52 = 4294967248`. -/
theorem fir_cmd_set_data_chunk_outside_block :
    (fir_cmd_set_data_seq eq_env_sample comp_state.COMP_STATE_READY eq_fir_cd_sample
      [ctrl_binary_msg 0 28 28 (fir_blob_stereo.take 28)]).ret? = some 0 ∧
    ((fir_cmd_set_data_seq eq_env_sample comp_state.COMP_STATE_READY eq_fir_cd_sample
      [ctrl_binary_msg 0 28 28 (fir_blob_stereo.take 28)]).blob? (fun cd => cd.config)).map
        (fun b => b.map (fun l => (l.length, eq_env_sample.fir_config_size (blob_mem l))))
      = some (some (56, 56)) ∧
    28 + 56 ≤ eq_env_sample.SOF_EQ_FIR_MAX_SIZE ∧
    to_size_t ((56 : Int) - 56 - 28) = 4294967268 ∧
    to_size_t (((28 + 56 : Nat) : Int) - 4294967268) = 112 ∧
    (fir_cmd_set_data_seq eq_env_sample comp_state.COMP_STATE_READY eq_fir_cd_sample
      [ctrl_binary_msg 0 28 28 (fir_blob_stereo.take 28),
       ctrl_binary_msg 1 28 56 (fir_blob_stereo.drop 28)]).is_undefined = true ∧
    (fir_cmd_set_data_seq eq_env_sample comp_state.COMP_STATE_READY eq_fir_cd_sample
      [ctrl_binary_msg 0 28 28 (fir_blob_stereo.take 28),
       ctrl_binary_msg 1 28 56 (fir_blob_stereo.drop 28)]).is_assert_failed = false ∧
    (fir_cmd_set_data_seq eq_env_sample comp_state.COMP_STATE_READY eq_fir_cd_sample
      [ctrl_binary_msg 0 28 28 (fir_blob_stereo.take 28),
       ctrl_binary_msg 1 28 56 (fir_blob_stereo.drop 28)]).ret? = none ∧
    ((fir_cmd_set_data_seq eq_env_sample comp_state.COMP_STATE_READY eq_fir_cd_sample
      [ctrl_binary_msg 0 28 0 (fir_blob_stereo.take 28)]).blob? (fun cd => cd.config)).map
        (fun b => b.map (fun l => (l.length, eq_env_sample.fir_config_size (blob_mem l))))
      = some (some (28, 56)) ∧
    to_size_t ((56 : Int) - 0 - 4) = 52 ∧
    to_size_t (((4 + 0 : Nat) : Int) - 52) = 4294967248 ∧
    (fir_cmd_set_data_seq eq_env_sample comp_state.COMP_STATE_READY eq_fir_cd_sample
      [ctrl_binary_msg 0 28 0 (fir_blob_stereo.take 28),
       ctrl_binary_msg 1 4 0 [1, 2, 3, 4]]).is_undefined = true ∧
    (fir_cmd_set_data_seq eq_env_sample comp_state.COMP_STATE_READY eq_fir_cd_sample
      [ctrl_binary_msg 0 28 0 (fir_blob_stereo.take 28),
       ctrl_binary_msg 1 4 0 [1, 2, 3, 4]]).is_assert_failed = false := by
  decide

/-! ## Theorems: the arena of the rate converter -/

/-- Function `init_stages` for two stages: when it returns 0, the two states are the ones
laid out from `start` on. -/
theorem init_stages_layout (env : src_env) (s1 s2 : src_stage) (src : polyphase_src)
    (p : src_param) (start : Int)
    (h : 0 ≤ (init_stages env s1 s2 src p 2 start).1) :
    (init_stages env s1 s2 src p 2 start).2.state1 =
      { fir_delay_size := p.fir_s1
        out_delay_size := p.out_s1
        fir_delay := some start
        out_delay := some (start + p.fir_s1)
        fir_wp := some (start + (p.fir_s1 - 1))
        out_rp := some (start + p.fir_s1) } ∧
    (init_stages env s1 s2 src p 2 start).2.state2 =
      { fir_delay_size := p.fir_s2
        out_delay_size := p.out_s2
        fir_delay := some (start + p.fir_s1 + p.out_s1)
        out_delay := some (start + p.fir_s1 + p.out_s1 + p.fir_s2)
        fir_wp := some (start + p.fir_s1 + p.out_s1 + (p.fir_s2 - 1))
        out_rp := some (start + p.fir_s1 + p.out_s1 + p.fir_s2) } := by
  have hneg : ¬ (0 : Int) ≤ -EINVAL := by decide
  have h21 : (2 : Int) > 1 := by decide
  have h2n : ¬ ((2 : Int) = 1 ∧ s1.blk_out = 0) := fun hh => absurd hh.1 (by decide)
  unfold init_stages at h ⊢
  simp only [if_neg h2n, if_pos h21] at h ⊢
  split_ifs at h ⊢
  · exact absurd h hneg
  · exact absurd h hneg
  · exact absurd h hneg
  · exact ⟨rfl, rfl⟩

/-- When `src_polyphase_init` does not return an error, `init_stages` was called for two
stages, did not fail, and the converter state is the one it left. -/
theorem src_polyphase_init_ok (env : src_env) (src : polyphase_src) (p : src_param)
    (start : Int) (h : 0 ≤ (src_polyphase_init env src p start).1) :
    0 ≤ (init_stages env (env.src_table1 p.idx_out p.idx_in)
      (env.src_table2 p.idx_out p.idx_in) src p 2 start).1 ∧
    (src_polyphase_init env src p start).2 =
      (init_stages env (env.src_table1 p.idx_out p.idx_in)
        (env.src_table2 p.idx_out p.idx_in) src p 2 start).2 := by
  have hneg : ¬ (0 : Int) ≤ -EINVAL := by decide
  unfold src_polyphase_init at h ⊢
  simp only at h ⊢
  split_ifs at h ⊢ with h1 h2 h3 <;>
    first
    | exact absurd h hneg
    | exact ⟨not_lt.mp h2, rfl⟩

/-- C30, the code at a counterexample. After `src_params` for 48000 to 16000 on the
sample tables (one stage, `src_1s`), the arena has 96 words: stage 1 has its FIR line at
0..93 and its output line at 94..95. Stage 2 has empty lines at offset 96, its FIR write
pointer is 95, one word before its own line and inside the output line of stage 1, and
its output read pointer is 96, the end of the arena. -/
theorem src_single_stage_second_state :
    src_cd_one_stage.src_func = src_func_t.src_1s ∧
    src_cd_one_stage.param.total = 96 ∧
    src_cd_one_stage.src.state1.out_delay = some 94 ∧
    src_cd_one_stage.src.state1.out_delay_size = 2 ∧
    src_cd_one_stage.src.state2.fir_delay = some 96 ∧
    src_cd_one_stage.src.state2.fir_delay_size = 0 ∧
    src_cd_one_stage.src.state2.fir_wp = some 95 ∧
    src_cd_one_stage.src.state2.out_rp = some 96 := by
  decide

/-- C30, as the code has it. When `src_polyphase_init`, called with the start of the
delay lines right after the `sbuf_length` staging samples, does not return an error, and
`total = sbuf_length + fir_s1 + fir_s2 + out_s1 + out_s2` as `src_buffer_lengths` sets
it: stage 1's FIR line (`fir_s1` words), stage 1's output line (`out_s1`), stage 2's FIR
line (`fir_s2`) and stage 2's output line (`out_s2`) follow one another in that order from
`sbuf_length` on and end at `total`; each output read pointer is the start of its output
line and each FIR write pointer is the start of its FIR line plus its size minus 1. That
slot lies inside the line for a line that is not empty: for stage 1 when `fir_s1 > 0`
and for stage 2 when `fir_s2 > 0` (two stages). With `fir_s2 = 0` (one stage, stage 2
unused) the write pointer of stage 2 is one word before its empty line. -/
theorem src_arena_layout (env : src_env) (src : polyphase_src) (p : src_param)
    (h : 0 ≤ (src_polyphase_init env src p p.sbuf_length).1)
    (htotal : p.total = p.sbuf_length + p.fir_s1 + p.fir_s2 + p.out_s1 + p.out_s2) :
    ∃ f1 o1 f2 o2 : Int,
      f1 = p.sbuf_length ∧ o1 = f1 + p.fir_s1 ∧ f2 = o1 + p.out_s1 ∧ o2 = f2 + p.fir_s2 ∧
      o2 + p.out_s2 = p.total ∧
      (src_polyphase_init env src p p.sbuf_length).2.state1 =
        { fir_delay_size := p.fir_s1, out_delay_size := p.out_s1
          fir_delay := some f1, out_delay := some o1
          fir_wp := some (f1 + (p.fir_s1 - 1)), out_rp := some o1 } ∧
      (src_polyphase_init env src p p.sbuf_length).2.state2 =
        { fir_delay_size := p.fir_s2, out_delay_size := p.out_s2
          fir_delay := some f2, out_delay := some o2
          fir_wp := some (f2 + (p.fir_s2 - 1)), out_rp := some o2 } ∧
      (0 < p.fir_s1 → f1 ≤ f1 + (p.fir_s1 - 1) ∧ f1 + (p.fir_s1 - 1) < o1) ∧
      (0 < p.fir_s2 → f2 ≤ f2 + (p.fir_s2 - 1) ∧ f2 + (p.fir_s2 - 1) < o2) ∧
      (p.fir_s2 = 0 → f2 + (p.fir_s2 - 1) = f2 - 1 ∧ f2 + (p.fir_s2 - 1) < f2) := by
  obtain ⟨h0, heq⟩ := src_polyphase_init_ok env src p p.sbuf_length h
  obtain ⟨hs1, hs2⟩ := init_stages_layout env (env.src_table1 p.idx_out p.idx_in)
    (env.src_table2 p.idx_out p.idx_in) src p p.sbuf_length h0
  refine ⟨p.sbuf_length, p.sbuf_length + p.fir_s1, p.sbuf_length + p.fir_s1 + p.out_s1,
    p.sbuf_length + p.fir_s1 + p.out_s1 + p.fir_s2, rfl, rfl, rfl, rfl, ?_, ?_, ?_,
    fun hp => ?_, fun hp => ?_, fun hz => ?_⟩
  · rw [htotal]
    ring
  · rw [heq, hs1]
  · rw [heq, hs2]
  · constructor <;> omega
  · constructor <;> omega
  · constructor <;> omega

/-- C30, witness: the parameters `src_buffer_lengths` computes for 44100 to 48000 with
two channels and 48 source frames (two stages): the arena of 2108 words holds the stage
buffer at 0..223 and the four lines from 224, 368, 482 and 1346 on. -/
theorem src_arena_layout_witness :
    ∃ f1 o1 f2 o2 : Int,
      f1 = src_cd_two_stage.param.sbuf_length ∧
      o1 = f1 + src_cd_two_stage.param.fir_s1 ∧
      f2 = o1 + src_cd_two_stage.param.out_s1 ∧
      o2 = f2 + src_cd_two_stage.param.fir_s2 ∧
      o2 + src_cd_two_stage.param.out_s2 = src_cd_two_stage.param.total ∧
      (src_polyphase_init src_env_sample src_cd_sample.src src_cd_two_stage.param
          src_cd_two_stage.param.sbuf_length).2.state1 =
        { fir_delay_size := src_cd_two_stage.param.fir_s1
          out_delay_size := src_cd_two_stage.param.out_s1
          fir_delay := some f1, out_delay := some o1
          fir_wp := some (f1 + (src_cd_two_stage.param.fir_s1 - 1)), out_rp := some o1 } ∧
      (src_polyphase_init src_env_sample src_cd_sample.src src_cd_two_stage.param
          src_cd_two_stage.param.sbuf_length).2.state2 =
        { fir_delay_size := src_cd_two_stage.param.fir_s2
          out_delay_size := src_cd_two_stage.param.out_s2
          fir_delay := some f2, out_delay := some o2
          fir_wp := some (f2 + (src_cd_two_stage.param.fir_s2 - 1)), out_rp := some o2 } ∧
      (0 < src_cd_two_stage.param.fir_s1 →
        f1 ≤ f1 + (src_cd_two_stage.param.fir_s1 - 1) ∧
        f1 + (src_cd_two_stage.param.fir_s1 - 1) < o1) ∧
      (0 < src_cd_two_stage.param.fir_s2 →
        f2 ≤ f2 + (src_cd_two_stage.param.fir_s2 - 1) ∧
        f2 + (src_cd_two_stage.param.fir_s2 - 1) < o2) ∧
      (src_cd_two_stage.param.fir_s2 = 0 →
        f2 + (src_cd_two_stage.param.fir_s2 - 1) = f2 - 1 ∧
        f2 + (src_cd_two_stage.param.fir_s2 - 1) < f2) :=
  src_arena_layout src_env_sample src_cd_sample.src src_cd_two_stage.param
    (by decide) (by decide)

/-! ## Theorems: the source array of the mixer copy -/

theorem mixer_qualifying_length_aux (st : comp_state) :
    ∀ (l : List comp_buffer) (i : Nat),
      ((l.enumFrom i).filter (fun source => source.2.source_state = st)).length =
        (l.filter (fun b => b.source_state = st)).length := by
  intro l
  induction l with
  | nil => intro i; rfl
  | cons a l ih =>
    intro i
    simp only [List.enumFrom_cons, List.filter_cons]
    by_cases h : a.source_state = st
    · simp [h, ih]
    · simp [h, ih]

theorem mixer_copy_slots_spec (st : comp_state) :
    ∀ (l : List comp_buffer) (num : Nat), num < PLATFORM_MAX_STREAMS - 1 →
      mixer_copy_slots st l num =
        List.range' num (min (l.filter (fun b => b.source_state = st)).length
          (PLATFORM_MAX_STREAMS - 1 - num)) := by
  intro l
  induction l with
  | nil => intro num _; simp [mixer_copy_slots]
  | cons a l ih =>
    intro num hnum
    simp only [mixer_copy_slots, List.filter_cons]
    by_cases h : a.source_state = st
    · simp only [h, if_true, decide_True]
      by_cases h4 : num + 1 = PLATFORM_MAX_STREAMS - 1
      · have : ((num + 1 : Nat) : Int) = (PLATFORM_MAX_STREAMS : Int) - 1 := by
          simp only [PLATFORM_MAX_STREAMS] at h4 ⊢; omega
        rw [if_pos this]
        have : PLATFORM_MAX_STREAMS - 1 - num = 1 := by omega
        rw [this, List.length_cons]
        simp [List.range']
      · have : ¬ ((num + 1 : Nat) : Int) = (PLATFORM_MAX_STREAMS : Int) - 1 := by
          simp only [PLATFORM_MAX_STREAMS] at h4 ⊢; omega
        rw [if_neg this, ih (num + 1) (by omega), List.length_cons]
        have : min ((l.filter (fun b => decide (b.source_state = st))).length + 1)
            (PLATFORM_MAX_STREAMS - 1 - num) =
            min (l.filter (fun b => decide (b.source_state = st))).length
              (PLATFORM_MAX_STREAMS - 1 - (num + 1)) + 1 := by omega
        rw [this, List.range'_succ]
        rfl
    · simp only [h, if_false, decide_False]
      have : ¬ ((num : Nat) : Int) = (PLATFORM_MAX_STREAMS : Int) - 1 := by
        simp only [PLATFORM_MAX_STREAMS] at hnum ⊢; omega
      rw [if_neg this, ih num hnum]
      simp

theorem mixer_copy_slots_qualifying (st : comp_state) (l : List comp_buffer) :
    mixer_copy_slots st l 0 =
      List.range (min (mixer_qualifying st l).length (PLATFORM_MAX_STREAMS - 1)) := by
  rw [mixer_copy_slots_spec st l 0 (by decide), List.range_eq_range']
  unfold mixer_qualifying
  rw [List.enum, mixer_qualifying_length_aux]
  rfl

/-- C40: for every source list, the loop of `mixer_copy` writes the slots
`0, 1, ..` of `sources[]` in order, one per state-matching source, and at most
`PLATFORM_MAX_STREAMS - 1` of them, so every written index is inside the array of
`PLATFORM_MAX_STREAMS` slots; when `PLATFORM_MAX_STREAMS - 1` slots have been written
`mixer_copy` returns 0 with no call of the mixing function and no consume or produce
call; and a call of the mixing function carries exactly the state-matching sources,
at most `PLATFORM_MAX_STREAMS - 2` of them. -/
theorem mixer_copy_sources_array_bound (st : comp_state) (mf : Option mix_func_t)
    (sink : comp_buffer) (l : List comp_buffer) :
    mixer_copy_slots st l 0 =
      List.range (min (mixer_qualifying st l).length (PLATFORM_MAX_STREAMS - 1)) ∧
    (∀ k ∈ mixer_copy_slots st l 0, k < PLATFORM_MAX_STREAMS) ∧
    (mixer_copy_slots st l 0).length ≤ PLATFORM_MAX_STREAMS - 1 ∧
    ((mixer_copy_slots st l 0).length = PLATFORM_MAX_STREAMS - 1 →
      mixer_copy st mf sink l = (0, [])) ∧
    (∀ f srcs frames, (f, srcs, frames) ∈ process_calls (mixer_copy st mf sink l).2 →
      srcs = (mixer_qualifying st l).map Prod.fst ∧
      srcs.length ≤ PLATFORM_MAX_STREAMS - 2) := by
  have hs := mixer_copy_slots_qualifying st l
  refine ⟨hs, ?_, ?_, ?_, ?_⟩
  · intro k hk
    rw [hs, List.mem_range] at hk
    simp only [PLATFORM_MAX_STREAMS] at hk ⊢
    omega
  · rw [hs, List.length_range]
    exact min_le_right _ _
  · intro h
    rw [hs, List.length_range] at h
    exact mixer_copy_nothing st mf sink l (Or.inr (by omega))
  · intro f srcs frames hmem
    by_cases hlt : (mixer_qualifying st l).length < PLATFORM_MAX_STREAMS - 1
    · by_cases hne : mixer_qualifying st l = []
      · rw [mixer_copy_nothing st mf sink l (Or.inl hne)] at hmem
        simp [process_calls] at hmem
      · obtain ⟨first, others, hq⟩ := List.exists_cons_of_ne_nil hne
        rw [mixer_copy_mixes st mf sink l first others hq hlt] at hmem
        simp [process_calls, List.filterMap_append, List.filterMap_map] at hmem
        obtain ⟨-, h2, -⟩ := hmem
        refine ⟨h2, ?_⟩
        rw [h2, List.length_map]
        simp only [PLATFORM_MAX_STREAMS] at hlt ⊢
        omega
    · rw [mixer_copy_nothing st mf sink l (Or.inr (by omega))] at hmem
      simp [process_calls] at hmem

/-! ## Theorems: the copy limits of a single stage -/

theorem tdiv_mul_le_of_nonneg (a b : Int) (ha : 0 ≤ a) (hb : 0 < b) :
    Int.tdiv a b * b ≤ a := by
  rw [Int.tdiv_eq_ediv ha (le_of_lt hb)]
  exact Int.ediv_mul_le a (ne_of_gt hb)

theorem src_get_copy_limits_single_stage (cd : src_comp_data) (s1 s2 : src_stage)
    (source sink : comp_buffer) (h2 : ¬ s2.filter_length > 1)
    (hb1 : 0 < s1.blk_in) (hb2 : 0 < s1.blk_out) (hkf : 0 ≤ cd.sink_frames)
    (ha : source.avail / source.source_frame_bytes < 2 ^ 31)
    (hf : sink.free / sink.sink_frame_bytes < 2 ^ 31) :
    (src_get_copy_limits_stages cd s1 s2 source sink).2.stage1_times =
      min (Int.tdiv (min ((sink.free / sink.sink_frame_bytes : Nat) : Int)
          (cd.sink_frames + s1.blk_out)) s1.blk_out)
        (Int.tdiv ((source.avail / source.source_frame_bytes : Nat) : Int) s1.blk_in) ∧
    (src_get_copy_limits_stages cd s1 s2 source sink).2.blk_in =
      (src_get_copy_limits_stages cd s1 s2 source sink).2.stage1_times * s1.blk_in ∧
    (src_get_copy_limits_stages cd s1 s2 source sink).2.blk_out =
      (src_get_copy_limits_stages cd s1 s2 source sink).2.stage1_times * s1.blk_out ∧
    (src_get_copy_limits_stages cd s1 s2 source sink).2.blk_out ≤
      cd.sink_frames + s1.blk_out ∧
    (src_get_copy_limits_stages cd s1 s2 source sink).2.blk_in ≤
      ((source.avail / source.source_frame_bytes : Nat) : Int) ∧
    (src_get_copy_limits_stages cd s1 s2 source sink).2.blk_out ≤
      ((sink.free / sink.sink_frame_bytes : Nat) : Int) ∧
    ((src_get_copy_limits_stages cd s1 s2 source sink).1 = - EIO ↔
      (src_get_copy_limits_stages cd s1 s2 source sink).2.blk_in = 0 ∨
      (src_get_copy_limits_stages cd s1 s2 source sink).2.blk_out = 0) ∧
    ((src_get_copy_limits_stages cd s1 s2 source sink).1 = - EIO ∨
      (src_get_copy_limits_stages cd s1 s2 source sink).1 = 0) := by
  have key : ∀ sp1 : src_param,
      ((if sp1.blk_in = 0 ∨ sp1.blk_out = 0 then (- EIO, sp1) else ((0 : Int), sp1)).2 = sp1) ∧
      ((if sp1.blk_in = 0 ∨ sp1.blk_out = 0 then (- EIO, sp1) else ((0 : Int), sp1)).1 = - EIO ↔
        (sp1.blk_in = 0 ∨ sp1.blk_out = 0)) ∧
      ((if sp1.blk_in = 0 ∨ sp1.blk_out = 0 then (- EIO, sp1) else ((0 : Int), sp1)).1 = - EIO ∨
       (if sp1.blk_in = 0 ∨ sp1.blk_out = 0 then (- EIO, sp1) else ((0 : Int), sp1)).1 = 0) := by
    intro sp1
    by_cases h : sp1.blk_in = 0 ∨ sp1.blk_out = 0
    · rw [if_pos h]; exact ⟨rfl, ⟨fun _ => h, fun _ => rfl⟩, Or.inl rfl⟩
    · rw [if_neg h]
      refine ⟨rfl, ⟨fun e => absurd e (show ¬ ((0 : Int) = - EIO) by decide), fun e => absurd e h⟩, Or.inr rfl⟩
  unfold src_get_copy_limits_stages
  simp only [if_neg h2]
  rw [wrap_int32_nat _ ha, wrap_int32_nat _ hf]
  have hna : (0 : Int) ≤ ((source.avail / source.source_frame_bytes : Nat) : Int) :=
    Int.natCast_nonneg _
  have hnf : (0 : Int) ≤ ((sink.free / sink.sink_frame_bytes : Nat) : Int) :=
    Int.natCast_nonneg _
  generalize ((source.avail / source.source_frame_bytes : Nat) : Int) = na at hna ⊢
  generalize ((sink.free / sink.sink_frame_bytes : Nat) : Int) = nf at hnf ⊢
  have hm : 0 ≤ min nf (cd.sink_frames + s1.blk_out) := by omega
  have h1 := tdiv_mul_le_of_nonneg _ _ hm hb2
  have h3 := tdiv_mul_le_of_nonneg _ _ hna hb1
  generalize Int.tdiv (min nf (cd.sink_frames + s1.blk_out)) s1.blk_out = q1 at h1 ⊢
  generalize Int.tdiv na s1.blk_in = q2 at h3 ⊢
  have h4 : min q1 q2 * s1.blk_out ≤ q1 * s1.blk_out :=
    Int.mul_le_mul_of_nonneg_right (min_le_left _ _) (le_of_lt hb2)
  have h5 : min q1 q2 * s1.blk_in ≤ q2 * s1.blk_in :=
    Int.mul_le_mul_of_nonneg_right (min_le_right _ _) (le_of_lt hb1)
  obtain ⟨k1, k2, k3⟩ := key { cd.param with
    stage1_times := min q1 q2
    blk_in := min q1 q2 * s1.blk_in
    blk_out := min q1 q2 * s1.blk_out }
  rw [k1]
  refine ⟨rfl, rfl, rfl, ?_, ?_, ?_, k2, k3⟩
  · show min q1 q2 * s1.blk_out ≤ _
    omega
  · show min q1 q2 * s1.blk_in ≤ _
    omega
  · show min q1 q2 * s1.blk_out ≤ _
    omega

set_option maxRecDepth 100000 in
/-- C38, the code at a failing input and the part of the claim that holds. After
`src_params` for a period of 100000 frames from 48000 to 16000 (one stage, 3 frames in,
1 frame out) the frame counts are `source_frames = 31564` and `sink_frames = 100000`;
with 300003 frames available and room for 200000, `src_get_copy_limits` returns 0 with
`blk_in = 300003`, above `source_frames + stage1.blk_in = 31567`. In the single-stage
case, for positive block sizes, the repeat count is the minimum of the clamped sink
count over `blk_out` and of the unclamped source count over `blk_in`; the other bounds
of the claim and the `-EIO` rule hold. -/
theorem src_get_copy_limits_source_not_clamped :
    (src_cd_long_period.src.stage1 = some src_stage_1_3 ∧
      src_cd_long_period.source_frames = 31564 ∧
      src_cd_long_period.sink_frames = 100000 ∧
      (src_get_copy_limits src_cd_long_period (buffer_s32_stereo 2400024 0)
        (buffer_s32_stereo 0 1600000)).map (fun r => (r.1, r.2.blk_in, r.2.blk_out))
        = some (0, 300003, 100001) ∧
      ¬ ((300003 : Int) ≤ src_cd_long_period.source_frames + src_stage_1_3.blk_in)) ∧
    (∀ (cd : src_comp_data) (s1 s2 : src_stage) (source sink : comp_buffer),
      ¬ s2.filter_length > 1 → 0 < s1.blk_in → 0 < s1.blk_out → 0 ≤ cd.sink_frames →
      source.avail / source.source_frame_bytes < 2 ^ 31 →
      sink.free / sink.sink_frame_bytes < 2 ^ 31 →
      (src_get_copy_limits_stages cd s1 s2 source sink).2.stage1_times =
        min (Int.tdiv (min ((sink.free / sink.sink_frame_bytes : Nat) : Int)
            (cd.sink_frames + s1.blk_out)) s1.blk_out)
          (Int.tdiv ((source.avail / source.source_frame_bytes : Nat) : Int) s1.blk_in) ∧
      (src_get_copy_limits_stages cd s1 s2 source sink).2.blk_in =
        (src_get_copy_limits_stages cd s1 s2 source sink).2.stage1_times * s1.blk_in ∧
      (src_get_copy_limits_stages cd s1 s2 source sink).2.blk_out =
        (src_get_copy_limits_stages cd s1 s2 source sink).2.stage1_times * s1.blk_out ∧
      (src_get_copy_limits_stages cd s1 s2 source sink).2.blk_out ≤
        cd.sink_frames + s1.blk_out ∧
      (src_get_copy_limits_stages cd s1 s2 source sink).2.blk_in ≤
        ((source.avail / source.source_frame_bytes : Nat) : Int) ∧
      (src_get_copy_limits_stages cd s1 s2 source sink).2.blk_out ≤
        ((sink.free / sink.sink_frame_bytes : Nat) : Int) ∧
      ((src_get_copy_limits_stages cd s1 s2 source sink).1 = - EIO ↔
        (src_get_copy_limits_stages cd s1 s2 source sink).2.blk_in = 0 ∨
        (src_get_copy_limits_stages cd s1 s2 source sink).2.blk_out = 0) ∧
      ((src_get_copy_limits_stages cd s1 s2 source sink).1 = - EIO ∨
        (src_get_copy_limits_stages cd s1 s2 source sink).1 = 0)) :=
  ⟨by decide, fun cd s1 s2 source sink h2 hb1 hb2 hkf ha hf =>
    src_get_copy_limits_single_stage cd s1 s2 source sink h2 hb1 hb2 hkf ha hf⟩

/-! ## Theorems: a failing coefficient initialisation -/

theorem eq_fir_setup_einval_keeps (env : eq_env) (cd : eq_fir_comp_data)
    (config : sof_eq_config) (nch : Int)
    (h : (eq_fir_setup env cd config nch).1 = -EINVAL) :
    (eq_fir_setup env cd config nch).2.fir_delay = cd.fir_delay ∧
    (eq_fir_setup env cd config nch).2.fir_delay_size = cd.fir_delay_size := by
  unfold eq_fir_setup at h ⊢
  by_cases hrej : eq_fir_setup_rejects env config nch = true
  · rw [if_pos hrej]; exact ⟨rfl, rfl⟩
  · rw [if_neg hrej] at h ⊢
    unfold eq_fir_setup_body at h ⊢
    simp only at h ⊢
    split_ifs at h ⊢ with h1 h2 h3
    · exact ⟨rfl, rfl⟩
    · exact absurd h (show ¬ ((0 : Int) = -EINVAL) by decide)
    · exact absurd h (show ¬ (-ENOMEM = -EINVAL) by decide)
    · exact absurd h (show ¬ ((0 : Int) = -EINVAL) by decide)

theorem eq_iir_setup_einval_keeps (env : eq_env) (cd : eq_iir_comp_data)
    (config : sof_eq_config) (nch : Int)
    (h : (eq_iir_setup env cd config nch).1 = -EINVAL) :
    (eq_iir_setup env cd config nch).2.iir_delay = cd.iir_delay ∧
    (eq_iir_setup env cd config nch).2.iir_delay_size = 0 := by
  unfold eq_iir_setup at h ⊢
  by_cases hrej : eq_iir_setup_rejects env config nch = true
  · rw [if_pos hrej]; exact ⟨rfl, rfl⟩
  · rw [if_neg hrej] at h ⊢
    unfold eq_iir_setup_body at h ⊢
    simp only at h ⊢
    split_ifs at h ⊢ with h1 h2 h3
    · exact ⟨rfl, rfl⟩
    · exact absurd h (show ¬ ((0 : Int) = -EINVAL) by decide)
    · exact absurd h (show ¬ (-ENOMEM = -EINVAL) by decide)
    · exact absurd h (show ¬ ((0 : Int) = -EINVAL) by decide)

theorem eq_setup_phase1_zero_size (config : sof_eq_config) (lookup : List (Option Int))
    (init_coef : Option Int → Int) (n : Nat) (fir : Nat → eq_chan_state) (c : Nat)
    (hc : c < n) (hr : 0 ≤ resolved_response config c)
    (hz : init_coef (lookup.getD (resolved_response config c).toNat none) = 0) :
    (eq_setup_phase1 config lookup init_coef n 0 fir 0).1 ≠ 0 := by
  intro h0
  have h := ((eq_setup_phase1_state config lookup init_coef n 0 fir 0 h0 c).1
    (Nat.zero_le _) (by omega)).2 hr
  have h2 := h.2.1
  unfold eq_chan_init_size at h2
  rw [hz] at h2
  exact absurd h2 (by decide)

theorem eq_fir_setup_helper_zero (env : eq_env) (cd : eq_fir_comp_data)
    (config : sof_eq_config) (nch : Int) (c : Nat) (hc : (c : Int) < nch)
    (hr : 0 ≤ resolved_response config c)
    (hz : env.fir_init_coef config
      ((eq_fir_setup_lookup env config).getD (resolved_response config c).toNat none) = 0) :
    (eq_fir_setup env cd config nch).1 = -EINVAL := by
  rcases eq_fir_setup_cases env cd config nch with h | ⟨h0, -⟩
  · exact h
  · exact absurd h0 (eq_setup_phase1_zero_size config _ _ nch.toNat cd.fir c (by omega) hr hz)

theorem eq_iir_setup_helper_zero (env : eq_env) (cd : eq_iir_comp_data)
    (config : sof_eq_config) (nch : Int) (c : Nat) (hc : (c : Int) < nch)
    (hr : 0 ≤ resolved_response config c)
    (hz : env.iir_init_coef_df2t config
      ((eq_iir_setup_lookup env config).getD (resolved_response config c).toNat none) = 0) :
    (eq_iir_setup env cd config nch).1 = -EINVAL := by
  rcases eq_iir_setup_cases env cd config nch with h | ⟨h0, -⟩
  · exact h
  · exact absurd h0 (eq_setup_phase1_zero_size config _ _ nch.toNat _ c (by omega) hr hz)

set_option maxRecDepth 100000 in
/-- C37, the code at a failing input and the part of the claim that holds. With helpers
that answer a record of 200 taps (of 9 sections) with `-EINVAL`, on a blob whose channel
0 uses such a record and whose channel 1 uses a record of 8 taps (2 sections, 32 bytes),
`eq_fir_setup` and `eq_iir_setup` return 0: the value `-22` is stored in the `size_t`
variable as 4294967274, passes the test `s > 0` and is added to the arena size, which
wraps to 10; an arena of 10 bytes is allocated and channel 0 is left with a delay line
of 4294967274 bytes. With one channel the arena size is 4294967274 and the result is 0
or `-ENOMEM`. A helper that returns zero for a non-bypassed channel makes setup return
`-EINVAL` with the arena pointer as it was. -/
theorem eq_setup_negative_helper_return :
    ((eq_fir_setup_lookup eq_env_checked fir_config_long_record).getD 0 none = some 0 ∧
      eq_env_checked.fir_init_coef fir_config_long_record (some 0) = -EINVAL ∧
      (eq_fir_setup eq_env_checked eq_fir_cd_sample fir_config_long_record 2).1 = 0 ∧
      (eq_fir_setup eq_env_checked eq_fir_cd_sample fir_config_long_record 2).2.fir_delay
        = some 10 ∧
      ((eq_fir_setup eq_env_checked eq_fir_cd_sample fir_config_long_record 2).2.fir 0)
        = ⟨some 0, 4294967274, some 0⟩ ∧
      (eq_fir_setup eq_env_checked eq_fir_cd_sample fir_config_long_record 1).1 = 0 ∧
      (eq_fir_setup eq_env_checked eq_fir_cd_sample fir_config_long_record 1).2.fir_delay
        = some 4294967274 ∧
      (eq_fir_setup { eq_env_checked with alloc_ok := fun _ => false } eq_fir_cd_sample
        fir_config_long_record 1).1 = -ENOMEM) ∧
    ((eq_iir_setup_lookup eq_env_checked iir_config_long_record).getD 0 none = some 0 ∧
      eq_env_checked.iir_init_coef_df2t iir_config_long_record (some 0) = -EINVAL ∧
      (eq_iir_setup eq_env_checked eq_iir_cd_sample iir_config_long_record 2).1 = 0 ∧
      (eq_iir_setup eq_env_checked eq_iir_cd_sample iir_config_long_record 2).2.iir_delay
        = some 10 ∧
      ((eq_iir_setup eq_env_checked eq_iir_cd_sample iir_config_long_record 2).2.iir 0)
        = ⟨some 0, 4294967274, some 0⟩) ∧
    (∀ (env : eq_env) (cd : eq_fir_comp_data) (config : sof_eq_config) (nch : Int)
        (c : Nat), (c : Int) < nch → 0 ≤ resolved_response config c →
      env.fir_init_coef config
        ((eq_fir_setup_lookup env config).getD (resolved_response config c).toNat none) = 0 →
      (eq_fir_setup env cd config nch).1 = -EINVAL ∧
      (eq_fir_setup env cd config nch).2.fir_delay = cd.fir_delay ∧
      (eq_fir_setup env cd config nch).2.fir_delay_size = cd.fir_delay_size) ∧
    (∀ (env : eq_env) (cd : eq_iir_comp_data) (config : sof_eq_config) (nch : Int)
        (c : Nat), (c : Int) < nch → 0 ≤ resolved_response config c →
      env.iir_init_coef_df2t config
        ((eq_iir_setup_lookup env config).getD (resolved_response config c).toNat none) = 0 →
      (eq_iir_setup env cd config nch).1 = -EINVAL ∧
      (eq_iir_setup env cd config nch).2.iir_delay = cd.iir_delay ∧
      (eq_iir_setup env cd config nch).2.iir_delay_size = 0) ∧
    (eq_env_sample.fir_init_coef fir_config_three_responses
        ((eq_fir_setup_lookup eq_env_sample fir_config_three_responses).getD
          (resolved_response fir_config_three_responses 0).toNat none) = 0 ∧
      (eq_fir_setup eq_env_sample eq_fir_cd_sample fir_config_three_responses 2).1
        = -EINVAL) := by
  refine ⟨by decide, by decide, fun env cd config nch c hc hr hz => ?_,
    fun env cd config nch c hc hr hz => ?_, by decide⟩
  · have h := eq_fir_setup_helper_zero env cd config nch c hc hr hz
    exact ⟨h, eq_fir_setup_einval_keeps env cd config nch h⟩
  · have h := eq_iir_setup_helper_zero env cd config nch c hc hr hz
    exact ⟨h, eq_iir_setup_einval_keeps env cd config nch h⟩

/-! ## Theorems: the pairs of an enum switch command -/

theorem BIT_of_lt (k : Nat) (hk : k < 32) : BIT k = 2 ^ k := by
  unfold BIT UINT32_MOD
  exact Nat.mod_eq_of_lt (Nat.pow_lt_pow_right (by norm_num) hk)

theorem io_reg_update_bits_clear (old k : Nat) (hold : old < 2 ^ 32) (hk : k < 32) (j : Nat) :
    (io_reg_update_bits old (BIT k) 0).testBit j = (old.testBit j && decide (j ≠ k)) := by
  unfold io_reg_update_bits UINT32_MOD
  rw [BIT_of_lt k hk]
  simp only [Nat.testBit_or, Nat.testBit_and, Nat.testBit_xor, Nat.testBit_two_pow_sub_one,
    Nat.testBit_two_pow, Nat.zero_and, Nat.zero_testBit, Bool.or_false]
  by_cases hj : j < 32
  · by_cases hjk : k = j
    · subst hjk; simp [hk]
    · have : j ≠ k := fun h => hjk h.symm
      simp [hj, hjk, this]
  · have : old.testBit j = false :=
      Nat.testBit_eq_false_of_lt (lt_of_lt_of_le hold (Nat.pow_le_pow_right (by norm_num) (by omega)))
    simp [this]

theorem io_reg_update_bits_other_bit (old k : Nat) (hk : k < 32) (hk1 : k ≠ 1) :
    io_reg_update_bits old (BIT k) (BIT 1) = io_reg_update_bits old (BIT k) 0 := by
  unfold io_reg_update_bits
  have : BIT 1 &&& BIT k = 0 := by
    rw [BIT_of_lt k hk, BIT_of_lt 1 (by norm_num)]
    apply Nat.eq_of_testBit_eq
    intro j
    simp only [Nat.testBit_and, Nat.testBit_two_pow, Nat.zero_testBit]
    by_cases h1 : 1 = j
    · subst h1; simp [hk1]
    · simp [h1]
  rw [this, Nat.zero_and]

theorem io_reg_update_bits_set_one (old : Nat) (j : Nat) :
    (io_reg_update_bits old (BIT 1) (BIT 1)).testBit j =
      ((old.testBit j && decide (j < 32) && decide (j ≠ 1)) || decide (j = 1)) := by
  unfold io_reg_update_bits UINT32_MOD
  rw [BIT_of_lt 1 (by norm_num)]
  simp only [Nat.testBit_or, Nat.testBit_and, Nat.testBit_xor, Nat.testBit_two_pow_sub_one,
    Nat.testBit_two_pow]
  by_cases h1 : 1 = j
  · subst h1; simp
  · have : j ≠ 1 := fun h => h1 h.symm
    simp [h1, this]

theorem steer_mask_updt_spec (regs : Nat → Nat) (spi val : Nat) (h : spi < 512) :
    steer_mask_updt regs spi val =
      some (Function.update regs (15 - spi / 32)
        (io_reg_update_bits (regs (15 - spi / 32)) (BIT (spi % 32))
          (if val = 0 then 0 else BIT val))) := by
  unfold steer_mask_updt
  rw [if_pos h]
  have : (15 + UINT32_MOD - spi / 32) % UINT32_MOD = 15 - spi / 32 := by
    unfold UINT32_MOD
    omega
  simp only [this]

/-- C34, the code at a failing input and the part of the claim that holds. The value
`steer_mask_updt` hands to `io_reg_update_bits` for an unmask is `BIT(1)`, under the mask
`BIT(spi % 32)`: `steer_unmask_spi(0)` leaves register 15 at 0 when it was 0 and clears
bit 0 when it was set, as `steer_mask_spi(0)` does; for every `spi < 512` with
`spi % 32 ≠ 1` the unmask has the effect of the mask. `steer_mask_spi` clears exactly
bit `spi % 32` of register `15 - spi / 32` and changes nothing else; `steer_unmask_spi`
sets exactly that bit when `spi % 32 = 1`; for `spi ≥ 512` the `assert` fails. -/
theorem steer_unmask_spi_wrong_bit :
    ((steer_unmask_spi (fun _ => 0) 0).map (fun r => r 15) = some 0 ∧
      (steer_unmask_spi (fun _ => 1) 0).map (fun r => r 15) = some 0 ∧
      (steer_mask_spi (fun _ => 1) 0).map (fun r => r 15) = some 0 ∧
      (steer_unmask_spi (fun _ => 0) 33).map (fun r => r 14) = some 2) ∧
    (∀ (regs : Nat → Nat) (spi : Nat), spi < 512 → spi % 32 ≠ 1 →
      steer_unmask_spi regs spi = steer_mask_spi regs spi) ∧
    (∀ (regs : Nat → Nat) (spi : Nat), spi < 512 → (∀ a, regs a < 2 ^ 32) →
      ∃ regs1, steer_mask_spi regs spi = some regs1 ∧
        (∀ a, a ≠ 15 - spi / 32 → regs1 a = regs a) ∧
        ∀ j, (regs1 (15 - spi / 32)).testBit j =
          ((regs (15 - spi / 32)).testBit j && decide (j ≠ spi % 32))) ∧
    (∀ (regs : Nat → Nat) (spi : Nat), spi < 512 → spi % 32 = 1 → (∀ a, regs a < 2 ^ 32) →
      ∃ regs1, steer_unmask_spi regs spi = some regs1 ∧
        (∀ a, a ≠ 15 - spi / 32 → regs1 a = regs a) ∧
        ∀ j, (regs1 (15 - spi / 32)).testBit j =
          ((regs (15 - spi / 32)).testBit j || decide (j = spi % 32))) ∧
    (∀ (regs : Nat → Nat) (spi : Nat), ¬ spi < 512 →
      steer_unmask_spi regs spi = none ∧ steer_mask_spi regs spi = none) := by
  refine ⟨by decide, fun regs spi h h1 => ?_, fun regs spi h hr => ?_,
    fun regs spi h h1 hr => ?_, fun regs spi h => ?_⟩
  · unfold steer_unmask_spi steer_mask_spi
    rw [steer_mask_updt_spec regs spi 1 h, steer_mask_updt_spec regs spi 0 h]
    rw [if_neg (by decide), if_pos rfl,
      io_reg_update_bits_other_bit _ (spi % 32) (Nat.mod_lt _ (by decide)) h1]
  · unfold steer_mask_spi
    rw [steer_mask_updt_spec regs spi 0 h, if_pos rfl]
    refine ⟨_, rfl, fun a ha => Function.update_noteq ha _ _, fun j => ?_⟩
    rw [Function.update_same]
    exact io_reg_update_bits_clear _ _ (hr _) (Nat.mod_lt _ (by decide)) j
  · unfold steer_unmask_spi
    rw [steer_mask_updt_spec regs spi 1 h, if_neg (by decide)]
    refine ⟨_, rfl, fun a ha => Function.update_noteq ha _ _, fun j => ?_⟩
    rw [Function.update_same, h1, io_reg_update_bits_set_one]
    by_cases hj1 : j = 1
    · simp [hj1]
    · by_cases hj : j < 32
      · simp [hj1, hj]
      · have : (regs (15 - spi / 32)).testBit j = false :=
          Nat.testBit_eq_false_of_lt (lt_of_lt_of_le (hr _)
            (Nat.pow_le_pow_right (by norm_num) (by omega)))
        simp [this]
  · unfold steer_unmask_spi steer_mask_spi steer_mask_updt
    exact ⟨if_neg h, if_neg h⟩

/-! ## Theorems: response records and the blob size -/

theorem eq_setup_phase1_size_field (config : sof_eq_config) (s : Nat)
    (lookup : List (Option Int)) (init_coef : Option Int → Int) :
    ∀ (n i : Nat) (fir : Nat → eq_chan_state) (size_sum : Nat),
      eq_setup_phase1 { config with size := s } lookup init_coef n i fir size_sum =
        eq_setup_phase1 config lookup init_coef n i fir size_sum := by
  intro n
  induction n with
  | zero => intro i fir size_sum; rfl
  | succ n ih =>
    intro i fir size_sum
    simp only [eq_setup_phase1, ih]

theorem eq_setup_phase2_size_field (config : sof_eq_config) (s : Nat) :
    ∀ (n i : Nat) (fir : Nat → eq_chan_state) (p : Nat),
      eq_setup_phase2 { config with size := s } n i fir p =
        eq_setup_phase2 config n i fir p := by
  intro n
  induction n with
  | zero => intro i fir p; rfl
  | succ n ih =>
    intro i fir p
    simp only [eq_setup_phase2, ih]

theorem eq_fir_setup_size_field (env : eq_env) (cd : eq_fir_comp_data)
    (config : sof_eq_config) (nch : Int) (s : Nat)
    (hh : ∀ eq, env.fir_init_coef { config with size := s } eq = env.fir_init_coef config eq) :
    eq_fir_setup env cd { config with size := s } nch = eq_fir_setup env cd config nch := by
  have hf : env.fir_init_coef { config with size := s } = env.fir_init_coef config :=
    funext hh
  have hl : eq_fir_setup_lookup env { config with size := s } =
      eq_fir_setup_lookup env config := rfl
  have hr : eq_fir_setup_rejects env { config with size := s } nch =
      eq_fir_setup_rejects env config nch := rfl
  unfold eq_fir_setup eq_fir_setup_body
  simp only [hf, hl, hr, eq_setup_phase1_size_field, eq_setup_phase2_size_field]

theorem eq_iir_setup_size_field (env : eq_env) (cd : eq_iir_comp_data)
    (config : sof_eq_config) (nch : Int) (s : Nat)
    (hh : ∀ eq, env.iir_init_coef_df2t { config with size := s } eq =
      env.iir_init_coef_df2t config eq)
    (hn : ∀ j, env.iir_num_sections { config with size := s } j =
      env.iir_num_sections config j) :
    eq_iir_setup env cd { config with size := s } nch = eq_iir_setup env cd config nch := by
  have hf : env.iir_init_coef_df2t { config with size := s } =
      env.iir_init_coef_df2t config := funext hh
  have hl : eq_iir_setup_lookup env { config with size := s } =
      eq_iir_setup_lookup env config := by
    unfold eq_iir_setup_lookup
    simp only [hn]
  have hr : eq_iir_setup_rejects env { config with size := s } nch =
      eq_iir_setup_rejects env config nch := rfl
  unfold eq_iir_setup eq_iir_setup_body
  simp only [hf, hl, hr, eq_setup_phase1_size_field, eq_setup_phase2_size_field]

theorem eq_record_start_nonneg (len : Int → Int) (m : Nat)
    (hlen : ∀ k, k < m → 0 ≤ len (eq_record_start len k)) :
    ∀ i, i ≤ m → 0 ≤ eq_record_start len i := by
  intro i
  induction i with
  | zero => intro _; exact le_refl _
  | succ i ih =>
    intro hi
    have h1 := ih (by omega)
    have h2 := hlen i (by omega)
    show 0 ≤ eq_record_start len i + len (eq_record_start len i)
    omega

theorem eq_record_start_mono (len : Int → Int) (m : Nat)
    (hlen : ∀ k, k < m → 0 ≤ len (eq_record_start len k)) :
    ∀ j, j ≤ m → ∀ i, i ≤ j → eq_record_start len i ≤ eq_record_start len j := by
  intro j
  induction j with
  | zero =>
    intro _ i hi
    have : i = 0 := by omega
    rw [this]
  | succ j ih =>
    intro hj i hi
    by_cases hij : i = j + 1
    · rw [hij]
    · have h1 := ih (by omega) i (by omega)
      have h2 := hlen j (by omega)
      show _ ≤ eq_record_start len j + len (eq_record_start len j)
      omega

/-- Records that follow one another with non-negative lengths and end inside the blob
lie inside the blob, each of them. -/
theorem eq_records_inside (hdr_bytes word_bytes : Nat) (config : sof_eq_config)
    (len : Int → Int) (nr : Nat)
    (hlen : ∀ k, k < nr → 0 ≤ len (eq_record_start len k))
    (hend : (hdr_bytes : Int) + (word_bytes : Int) *
      ((config.channels_in_config : Int) + eq_record_start len nr) ≤ (config.size : Int)) :
    eq_words_inside hdr_bytes word_bytes config 0 config.channels_in_config ∧
    ∀ i, i < nr →
      eq_words_inside hdr_bytes word_bytes config
        ((config.channels_in_config : Int) + eq_record_start len i)
        ((config.channels_in_config : Int) + eq_record_start len i +
          len (eq_record_start len i)) := by
  have hw : (0 : Int) ≤ (word_bytes : Int) := Int.natCast_nonneg _
  have hc : (0 : Int) ≤ (config.channels_in_config : Int) := Int.natCast_nonneg _
  have h0 := eq_record_start_nonneg len nr hlen
  have hm := eq_record_start_mono len nr hlen
  refine ⟨⟨le_refl _, hc, ?_⟩, fun i hi => ⟨?_, ?_, ?_⟩⟩
  · have h1 := h0 nr (le_refl _)
    have : (word_bytes : Int) * (config.channels_in_config : Int) ≤
        (word_bytes : Int) * ((config.channels_in_config : Int) + eq_record_start len nr) :=
      Int.mul_le_mul_of_nonneg_left (by omega) hw
    omega
  · have := h0 i (by omega)
    omega
  · have := hlen i hi
    omega
  · have h1 := hm nr (le_refl _) (i + 1) (by omega)
    have h2 : eq_record_start len (i + 1) =
        eq_record_start len i + len (eq_record_start len i) := rfl
    have : (word_bytes : Int) * ((config.channels_in_config : Int) + eq_record_start len i +
        len (eq_record_start len i)) ≤
        (word_bytes : Int) * ((config.channels_in_config : Int) + eq_record_start len nr) :=
      Int.mul_le_mul_of_nonneg_left (by omega) hw
    omega

theorem eq_fir_setup_ok_checks (env : eq_env) (cd : eq_fir_comp_data)
    (config : sof_eq_config) (nch : Int) (h : (eq_fir_setup env cd config nch).1 = 0) :
    1 ≤ config.channels_in_config ∧ config.channels_in_config ≤ PLATFORM_MAX_CHANNELS ∧
    config.number_of_responses ≤ env.SOF_EQ_FIR_MAX_RESPONSES ∧
    ∀ c : Nat, (c : Int) < nch → 0 ≤ resolved_response config c →
      resolved_response config c < (config.number_of_responses : Int) := by
  have hrej : ¬ eq_fir_setup_rejects env config nch = true := by
    intro hr
    unfold eq_fir_setup at h
    rw [if_pos hr] at h
    exact absurd h (show ¬ (-EINVAL = 0) by decide)
  rw [eq_fir_setup_rejects_iff] at hrej
  refine ⟨by omega, by omega, by omega, fun c hc hr => ?_⟩
  rcases eq_fir_setup_cases env cd config nch with he | ⟨h0, -⟩
  · rw [h] at he
    exact absurd he (show ¬ ((0 : Int) = -EINVAL) by decide)
  · exact (((eq_setup_phase1_state config _ _ nch.toNat 0 cd.fir 0 h0 c).1
      (Nat.zero_le _) (by omega)).2 hr).1

theorem eq_iir_setup_ok_checks (env : eq_env) (cd : eq_iir_comp_data)
    (config : sof_eq_config) (nch : Int) (h : (eq_iir_setup env cd config nch).1 = 0) :
    1 ≤ config.channels_in_config ∧ config.channels_in_config ≤ PLATFORM_MAX_CHANNELS ∧
    config.number_of_responses ≤ env.SOF_EQ_IIR_MAX_RESPONSES ∧
    ∀ c : Nat, (c : Int) < nch → 0 ≤ resolved_response config c →
      resolved_response config c < (config.number_of_responses : Int) := by
  have hrej : ¬ eq_iir_setup_rejects env config nch = true := by
    intro hr
    unfold eq_iir_setup at h
    rw [if_pos hr] at h
    exact absurd h (show ¬ (-EINVAL = 0) by decide)
  rw [eq_iir_setup_rejects_iff] at hrej
  refine ⟨by omega, by omega, by omega, fun c hc hr => ?_⟩
  rcases eq_iir_setup_cases env cd config nch with he | ⟨h0, -⟩
  · rw [h] at he
    exact absurd he (show ¬ ((0 : Int) = -EINVAL) by decide)
  · exact (((eq_setup_phase1_state config _ _ nch.toNat 0 _ 0 h0 c).1
      (Nat.zero_le _) (by omega)).2 hr).1

theorem eq_fir_setup_lookup_starts (env : eq_env) (cf : sof_eq_config)
    (hn : cf.number_of_responses ≤ env.SOF_EQ_FIR_MAX_RESPONSES)
    (hlen : ∀ k, k < cf.number_of_responses →
      0 ≤ coef_data cf (eq_record_start (eq_fir_record_len env cf) k))
    (hfit : eq_record_start (eq_fir_record_len env cf) cf.number_of_responses ≤ 2147483647) :
    ∀ i, i < cf.number_of_responses →
      (eq_fir_setup_lookup env cf).getD i none =
        some (eq_record_start (eq_fir_record_len env cf) i) := by
  have hl : ∀ k, k < cf.number_of_responses →
      0 ≤ eq_fir_record_len env cf (eq_record_start (eq_fir_record_len env cf) k) := by
    intro k hk
    have h1 := hlen k hk
    have h2 : (0 : Int) ≤ (env.SOF_EQ_FIR_COEF_NHEADER : Int) := Int.natCast_nonneg _
    unfold eq_fir_record_len at h1 ⊢
    omega
  have h0 := eq_record_start_nonneg _ _ hl
  have hm := eq_record_start_mono _ _ hl
  exact ( eq_setup_lookup_prefix cf.number_of_responses env.SOF_EQ_FIR_MAX_RESPONSES
    (eq_fir_record_len env cf)
    (fun j => wrap_int32 (j + (env.SOF_EQ_FIR_COEF_NHEADER : Int) + coef_data cf j))
    (by funext j; unfold eq_fir_record_len; rw [add_assoc]) hn
    (fun k hk => by
      have a := h0 k (by omega)
      have b := hm _ (le_refl _) k (by omega)
      omega)).2.1

theorem eq_iir_setup_lookup_starts (env : eq_env) (ci : sof_eq_config)
    (hn : ci.number_of_responses ≤ env.SOF_EQ_IIR_MAX_RESPONSES)
    (hlen : ∀ k, k < ci.number_of_responses →
      0 ≤ env.iir_num_sections ci (eq_record_start (eq_iir_record_len env ci) k))
    (hfit : eq_record_start (eq_iir_record_len env ci) ci.number_of_responses ≤ 2147483647) :
    (∀ k, k < ci.number_of_responses →
      0 ≤ eq_iir_record_len env ci (eq_record_start (eq_iir_record_len env ci) k)) ∧
    ∀ i, i < ci.number_of_responses →
      (eq_iir_setup_lookup env ci).getD i none =
        some (eq_record_start (eq_iir_record_len env ci) i) := by
  have hl : ∀ k, k < ci.number_of_responses →
      0 ≤ eq_iir_record_len env ci (eq_record_start (eq_iir_record_len env ci) k) := by
    intro k hk
    have h1 := hlen k hk
    have h2 : (0 : Int) ≤ (env.SOF_EQ_IIR_NHEADER_DF2T : Int) := Int.natCast_nonneg _
    have h3 : (0 : Int) ≤ (env.SOF_EQ_IIR_NBIQUAD_DF2T : Int) := Int.natCast_nonneg _
    have h4 := Int.mul_nonneg h3 h1
    show 0 ≤ (env.SOF_EQ_IIR_NHEADER_DF2T : Int) + (env.SOF_EQ_IIR_NBIQUAD_DF2T : Int) *
      env.iir_num_sections ci (eq_record_start (eq_iir_record_len env ci) k)
    omega
  have h0 := eq_record_start_nonneg _ _ hl
  have hm := eq_record_start_mono _ _ hl
  exact ⟨hl, ( eq_setup_lookup_prefix ci.number_of_responses env.SOF_EQ_IIR_MAX_RESPONSES
    (eq_iir_record_len env ci)
    (fun j => wrap_int32 (j + (env.SOF_EQ_IIR_NHEADER_DF2T : Int) +
      (env.SOF_EQ_IIR_NBIQUAD_DF2T : Int) * env.iir_num_sections ci j))
    (by funext j; unfold eq_iir_record_len; rw [add_assoc]) hn
    (fun k hk => by
      have a := h0 k (by omega)
      have b := hm _ (le_refl _) k (by omega)
      omega)).2.1⟩

/-- C36, counterexample: a FIR blob of 54 bytes whose record declares 64 taps, and an IIR
blob of 88 bytes whose record declares 8 sections. Setup returns 0 on both (the helpers
accept up to 192 taps and 8 sections), `lookup[0]` is the record at coefficient-data
index 0, and the record, 74 (62) words from its start, does not lie inside the blob. -/
theorem eq_setup_accepts_record_past_blob :
    ((eq_fir_setup eq_env_checked eq_fir_cd_sample fir_config_overrun 1).1 = 0 ∧
      (eq_fir_setup_lookup eq_env_checked fir_config_overrun).getD 0 none = some 0 ∧
      eq_fir_record_len eq_env_checked fir_config_overrun 0 = 74 ∧
      ¬ eq_words_inside 24 2 fir_config_overrun (1 + 0) (1 + 0 + 74)) ∧
    ((eq_iir_setup eq_env_checked eq_iir_cd_sample iir_config_overrun 2).1 = 0 ∧
      (eq_iir_setup_lookup eq_env_checked iir_config_overrun).getD 0 none = some 0 ∧
      eq_iir_record_len eq_env_checked iir_config_overrun 0 = 62 ∧
      ¬ eq_words_inside 28 4 iir_config_overrun (2 + 0) (2 + 0 + 62)) := by
  decide

/-- C36, as the code has it: `eq_fir_setup` and `eq_iir_setup` compare no offset with the
blob size. Their result is the same for every value `s` of the size field (the helpers
answering alike). When setup returns 0, `channels_in_config` is between 1 and
`PLATFORM_MAX_CHANNELS`, `number_of_responses` is at most the maximum, and every
non-bypassed channel `c < nch` has a resolved response below `number_of_responses`. The
assignment entries and every record of the offset table, from its start through header
plus declared taps (sections), lie inside the blob when the declared counts are
non-negative and the end of the last record, `hdr` bytes of header and
`channels_in_config` assignment entries before the records, is inside the blob. -/
theorem eq_setup_blob_bounds (env : eq_env) (cdf : eq_fir_comp_data)
    (cdi : eq_iir_comp_data) (cf ci : sof_eq_config) (nch : Int) (hdr_f hdr_i s : Nat) :
    ((∀ eq, env.fir_init_coef { cf with size := s } eq = env.fir_init_coef cf eq) →
      eq_fir_setup env cdf { cf with size := s } nch = eq_fir_setup env cdf cf nch) ∧
    ((∀ eq, env.iir_init_coef_df2t { ci with size := s } eq = env.iir_init_coef_df2t ci eq) →
      (∀ j, env.iir_num_sections { ci with size := s } j = env.iir_num_sections ci j) →
      eq_iir_setup env cdi { ci with size := s } nch = eq_iir_setup env cdi ci nch) ∧
    ((eq_fir_setup env cdf cf nch).1 = 0 →
      1 ≤ cf.channels_in_config ∧ cf.channels_in_config ≤ PLATFORM_MAX_CHANNELS ∧
      cf.number_of_responses ≤ env.SOF_EQ_FIR_MAX_RESPONSES ∧
      ∀ c : Nat, (c : Int) < nch → 0 ≤ resolved_response cf c →
        resolved_response cf c < (cf.number_of_responses : Int)) ∧
    ((eq_iir_setup env cdi ci nch).1 = 0 →
      1 ≤ ci.channels_in_config ∧ ci.channels_in_config ≤ PLATFORM_MAX_CHANNELS ∧
      ci.number_of_responses ≤ env.SOF_EQ_IIR_MAX_RESPONSES ∧
      ∀ c : Nat, (c : Int) < nch → 0 ≤ resolved_response ci c →
        resolved_response ci c < (ci.number_of_responses : Int)) ∧
    (cf.number_of_responses ≤ env.SOF_EQ_FIR_MAX_RESPONSES →
      (∀ k, k < cf.number_of_responses →
        0 ≤ coef_data cf (eq_record_start (eq_fir_record_len env cf) k)) →
      eq_record_start (eq_fir_record_len env cf) cf.number_of_responses ≤ 2147483647 →
      (hdr_f : Int) + ((2 : Nat) : Int) * ((cf.channels_in_config : Int) +
        eq_record_start (eq_fir_record_len env cf) cf.number_of_responses) ≤ (cf.size : Int) →
      eq_words_inside hdr_f 2 cf 0 cf.channels_in_config ∧
      ∀ i, i < cf.number_of_responses →
        (eq_fir_setup_lookup env cf).getD i none =
          some (eq_record_start (eq_fir_record_len env cf) i) ∧
        eq_words_inside hdr_f 2 cf
          ((cf.channels_in_config : Int) + eq_record_start (eq_fir_record_len env cf) i)
          ((cf.channels_in_config : Int) + eq_record_start (eq_fir_record_len env cf) i +
            eq_fir_record_len env cf (eq_record_start (eq_fir_record_len env cf) i))) ∧
    (ci.number_of_responses ≤ env.SOF_EQ_IIR_MAX_RESPONSES →
      (∀ k, k < ci.number_of_responses →
        0 ≤ env.iir_num_sections ci (eq_record_start (eq_iir_record_len env ci) k)) →
      eq_record_start (eq_iir_record_len env ci) ci.number_of_responses ≤ 2147483647 →
      (hdr_i : Int) + ((4 : Nat) : Int) * ((ci.channels_in_config : Int) +
        eq_record_start (eq_iir_record_len env ci) ci.number_of_responses) ≤ (ci.size : Int) →
      eq_words_inside hdr_i 4 ci 0 ci.channels_in_config ∧
      ∀ i, i < ci.number_of_responses →
        (eq_iir_setup_lookup env ci).getD i none =
          some (eq_record_start (eq_iir_record_len env ci) i) ∧
        eq_words_inside hdr_i 4 ci
          ((ci.channels_in_config : Int) + eq_record_start (eq_iir_record_len env ci) i)
          ((ci.channels_in_config : Int) + eq_record_start (eq_iir_record_len env ci) i +
            eq_iir_record_len env ci (eq_record_start (eq_iir_record_len env ci) i))) := by
  refine ⟨eq_fir_setup_size_field env cdf cf nch s, eq_iir_setup_size_field env cdi ci nch s,
    eq_fir_setup_ok_checks env cdf cf nch, eq_iir_setup_ok_checks env cdi ci nch,
    fun hn hlen hfit hend => ?_, fun hn hlen hfit hend => ?_⟩
  · have hl : ∀ k, k < cf.number_of_responses →
        0 ≤ eq_fir_record_len env cf (eq_record_start (eq_fir_record_len env cf) k) := by
      intro k hk
      have h1 := hlen k hk
      have h2 : (0 : Int) ≤ (env.SOF_EQ_FIR_COEF_NHEADER : Int) := Int.natCast_nonneg _
      unfold eq_fir_record_len at h1 ⊢
      omega
    have hin := eq_records_inside hdr_f 2 cf (eq_fir_record_len env cf)
      cf.number_of_responses hl hend
    exact ⟨hin.1, fun i hi =>
      ⟨eq_fir_setup_lookup_starts env cf hn hlen hfit i hi, hin.2 i hi⟩⟩
  · obtain ⟨hl, hst⟩ := eq_iir_setup_lookup_starts env ci hn hlen hfit
    have hin := eq_records_inside hdr_i 4 ci (eq_iir_record_len env ci)
      ci.number_of_responses hl hend
    exact ⟨hin.1, fun i hi => ⟨hst i hi, hin.2 i hi⟩⟩

/-- C36, witness: the stereo FIR blob of 56 bytes and the stereo IIR blob of 88 bytes of
the samples. Setup gives the same result when the size field says 0, and the one record
of each blob ends at the end of the blob. -/
theorem eq_setup_blob_bounds_witness :
    eq_fir_setup eq_env_sample eq_fir_cd_sample { fir_config_stereo with size := 0 } 2 =
      eq_fir_setup eq_env_sample eq_fir_cd_sample fir_config_stereo 2 ∧
    (eq_fir_setup eq_env_sample eq_fir_cd_sample fir_config_stereo 2).1 = 0 ∧
    eq_words_inside 24 2 fir_config_stereo 0 2 ∧
    eq_words_inside 24 2 fir_config_stereo (2 + 0) (2 + 0 + 14) ∧
    eq_words_inside 28 4 iir_config_stereo (2 + 0) (2 + 0 + 13) :=
  ⟨(eq_setup_blob_bounds eq_env_sample eq_fir_cd_sample eq_iir_cd_sample fir_config_stereo
      iir_config_stereo 2 24 28 0).1 (fun eq => by cases eq <;> rfl),
    by decide,
    ((eq_setup_blob_bounds eq_env_sample eq_fir_cd_sample eq_iir_cd_sample fir_config_stereo
      iir_config_stereo 2 24 28 0).2.2.2.2.1 (by decide) (by decide) (by decide)
      (by decide)).1,
    (((eq_setup_blob_bounds eq_env_sample eq_fir_cd_sample eq_iir_cd_sample fir_config_stereo
      iir_config_stereo 2 24 28 0).2.2.2.2.1 (by decide) (by decide) (by decide)
      (by decide)).2 0 (by decide)).2,
    (((eq_setup_blob_bounds eq_env_sample eq_fir_cd_sample eq_iir_cd_sample fir_config_stereo
      iir_config_stereo 2 24 28 0).2.2.2.2.2 (by decide) (by decide) (by decide)
      (by decide)).2 0 (by decide)).2⟩

/-! ## Theorems: the two stages of the rate converter -/

theorem src_times_min (T F d : Int) (hd : 0 < d) :
    (if T * d > F then Int.tdiv F d else T) = min T (Int.tdiv F d) := by
  have hq : T * d > F → Int.tdiv F d ≤ T := by
    intro h
    by_cases hF : 0 ≤ F
    · rw [Int.tdiv_eq_ediv hF (le_of_lt hd)]
      exact le_of_lt (Int.ediv_lt_of_lt_mul hd h)
    · have e : Int.tdiv F d = - ((-F) / d) := by
        have : F = - (-F) := by omega
        conv_lhs => rw [this, Int.neg_tdiv, Int.tdiv_eq_ediv (by omega) (le_of_lt hd)]
      rw [e]
      have : -T ≤ (-F) / d := Int.le_ediv_of_mul_le hd (by
        have : -T * d = -(T * d) := by ring
        omega)
      omega
  have hq2 : ¬ T * d > F → T ≤ Int.tdiv F d := by
    intro h
    by_cases hF : 0 ≤ F
    · rw [Int.tdiv_eq_ediv hF (le_of_lt hd)]
      exact Int.le_ediv_of_mul_le hd (by omega)
    · have e : Int.tdiv F d = - ((-F) / d) := by
        have : F = - (-F) := by omega
        conv_lhs => rw [this, Int.neg_tdiv, Int.tdiv_eq_ediv (by omega) (le_of_lt hd)]
      rw [e]
      have : (-F) / d ≤ -T := Int.ediv_le_of_le_mul hd (by
        have : -T * d = -(T * d) := by ring
        omega)
      omega
  by_cases h : T * d > F
  · rw [if_pos h, min_eq_right (hq h)]
  · rw [if_neg h, min_eq_left (hq2 h)]

theorem src_2s_times_min (T b n F : Int) (hd : 0 < b * n) :
    src_2s_times T b n F = min T (Int.tdiv F (b * n)) := by
  unfold src_2s_times
  rw [mul_assoc]
  exact src_times_min T F (b * n) hd

theorem src_2s_stage1_spec (polyphase_func : src_stage_prm → src_stage_prm) (dev : comp_dev)
    (cd : src_comp_data) (stage1 : src_stage) (source : comp_buffer)
    (source_r_ptr : Option Int) (nch sz : Int)
    (hnch : nch = wrap_int32 (dev.channels : Int))
    (hsz : sz = wrap_int32 (dev.sample_container_bytes : Int))
    (h1 : 0 < stage1.blk_out * nch) :
    (src_2s_stage1 polyphase_func dev cd stage1 source source_r_ptr).n_read =
      (if src_2s_runs1 cd stage1 nch sz source then
        src_2s_times1 cd stage1 nch * stage1.blk_in else 0) ∧
    (src_2s_stage1 polyphase_func dev cd stage1 source source_r_ptr).n_written = 0 ∧
    (src_2s_stage1 polyphase_func dev cd stage1 source source_r_ptr).cd.sbuf_avail =
      cd.sbuf_avail + src_2s_added cd stage1 nch sz source ∧
    (src_2s_stage1 polyphase_func dev cd stage1 source source_r_ptr).calls =
      (if src_2s_runs1 cd stage1 nch sz source then
        [{ nch := nch, shift := cd.data_shift, times := src_2s_times1 cd stage1 nch
           x_rptr := source_r_ptr, y_wptr := cd.sbuf_w_ptr, state := cd.src.state1
           stage := stage1 }]
       else []) ∧
    (src_2s_stage1 polyphase_func dev cd stage1 source source_r_ptr).cd.param = cd.param ∧
    (src_2s_stage1 polyphase_func dev cd stage1 source source_r_ptr).cd.data_shift =
      cd.data_shift ∧
    (src_2s_stage1 polyphase_func dev cd stage1 source source_r_ptr).cd.sbuf_r_ptr =
      cd.sbuf_r_ptr ∧
    (src_2s_stage1 polyphase_func dev cd stage1 source source_r_ptr).cd.src.state2 =
      cd.src.state2 := by
  rw [hnch] at h1
  rw [hnch, hsz]
  simp only [src_2s_stage1, src_2s_added, src_2s_runs1, src_2s_times1,
    src_2s_times_min _ _ _ _ h1]
  split_ifs with ha hb hc
  · exact ⟨rfl, rfl, rfl, rfl, rfl, rfl, rfl, rfl⟩
  · exact absurd (decide_eq_true ha) hb
  · exact absurd (of_decide_eq_true hc) ha
  · exact ⟨rfl, rfl, (add_zero _).symm, rfl, rfl, rfl, rfl, rfl⟩

theorem src_2s_stage2_spec (polyphase_func : src_stage_prm → src_stage_prm) (dev : comp_dev)
    (out1 : src_func_out) (stage2 : src_stage) (sink : comp_buffer)
    (sink_w_ptr : Option Int) (nch sz : Int)
    (hnch : nch = wrap_int32 (dev.channels : Int))
    (hsz : sz = wrap_int32 (dev.sample_container_bytes : Int))
    (h2 : 0 < stage2.blk_in * nch) :
    (src_2s_stage2 polyphase_func dev out1 stage2 sink sink_w_ptr).n_read = out1.n_read ∧
    (src_2s_stage2 polyphase_func dev out1 stage2 sink sink_w_ptr).n_written =
      (if src_2s_runs2 out1.cd stage2 nch sz out1.cd.sbuf_avail sink then
        src_2s_times2 out1.cd stage2 nch out1.cd.sbuf_avail * stage2.blk_out
      else out1.n_written) ∧
    (src_2s_stage2 polyphase_func dev out1 stage2 sink sink_w_ptr).cd.sbuf_avail =
      out1.cd.sbuf_avail - src_2s_removed out1.cd stage2 nch sz out1.cd.sbuf_avail sink ∧
    (src_2s_stage2 polyphase_func dev out1 stage2 sink sink_w_ptr).calls =
      out1.calls ++
      (if src_2s_runs2 out1.cd stage2 nch sz out1.cd.sbuf_avail sink then
        [{ nch := nch, shift := out1.cd.data_shift
           times := src_2s_times2 out1.cd stage2 nch out1.cd.sbuf_avail
           x_rptr := out1.cd.sbuf_r_ptr, y_wptr := sink_w_ptr, state := out1.cd.src.state2
           stage := stage2 }]
       else []) := by
  rw [hnch] at h2
  rw [hnch, hsz]
  simp only [src_2s_stage2, src_2s_removed, src_2s_runs2, src_2s_times2,
    src_2s_times_min _ _ _ _ h2]
  split_ifs with ha hb hc
  · exact ⟨rfl, rfl, rfl, rfl⟩
  · exact absurd (decide_eq_true ha) hb
  · exact absurd (of_decide_eq_true hc) ha
  · exact ⟨rfl, rfl, (sub_zero _).symm, (List.append_nil _).symm⟩

theorem wrap_int32_le_nat (n : Nat) : wrap_int32 (n : Int) ≤ (n : Int) := by
  unfold wrap_int32
  norm_num
  omega

theorem src_2s_times1_room (cd : src_comp_data) (stage1 : src_stage) (nch : Int)
    (h1 : 0 < stage1.blk_out * nch) (hfree : 0 ≤ cd.param.sbuf_length - cd.sbuf_avail) :
    src_2s_times1 cd stage1 nch * stage1.blk_out * nch ≤
      cd.param.sbuf_length - cd.sbuf_avail := by
  unfold src_2s_times1
  have hq := tdiv_mul_le_of_nonneg _ _ hfree h1
  have hm : min cd.param.stage1_times
      (Int.tdiv (cd.param.sbuf_length - cd.sbuf_avail) (stage1.blk_out * nch)) *
        (stage1.blk_out * nch) ≤
      Int.tdiv (cd.param.sbuf_length - cd.sbuf_avail) (stage1.blk_out * nch) *
        (stage1.blk_out * nch) :=
    Int.mul_le_mul_of_nonneg_right (min_le_right _ _) (le_of_lt h1)
  rw [mul_assoc]
  omega

theorem src_2s_times2_staged (cd : src_comp_data) (stage2 : src_stage) (nch staged : Int)
    (h2 : 0 < stage2.blk_in * nch) (hst : 0 ≤ staged) :
    src_2s_times2 cd stage2 nch staged * stage2.blk_in * nch ≤ staged := by
  unfold src_2s_times2
  have hq := tdiv_mul_le_of_nonneg _ _ hst h2
  have hm : min cd.param.stage2_times (Int.tdiv staged (stage2.blk_in * nch)) *
        (stage2.blk_in * nch) ≤
      Int.tdiv staged (stage2.blk_in * nch) * (stage2.blk_in * nch) :=
    Int.mul_le_mul_of_nonneg_right (min_le_right _ _) (le_of_lt h2)
  rw [mul_assoc]
  omega

theorem src_2s_added_bounds (cd : src_comp_data) (stage1 : src_stage) (nch sz : Int)
    (source : comp_buffer) (h1 : 0 < stage1.blk_out * nch)
    (hT : 0 ≤ cd.param.stage1_times)
    (hfree : 0 ≤ cd.param.sbuf_length - cd.sbuf_avail) :
    0 ≤ src_2s_added cd stage1 nch sz source ∧
    src_2s_added cd stage1 nch sz source ≤ cd.param.sbuf_length - cd.sbuf_avail := by
  unfold src_2s_added
  by_cases hr : src_2s_runs1 cd stage1 nch sz source = true
  · rw [if_pos hr]
    refine ⟨?_, src_2s_times1_room cd stage1 nch h1 hfree⟩
    have ht : 0 ≤ src_2s_times1 cd stage1 nch :=
      le_min hT (Int.tdiv_nonneg hfree (le_of_lt h1))
    rw [mul_assoc]
    exact Int.mul_nonneg ht (le_of_lt h1)
  · rw [if_neg hr]
    exact ⟨le_refl _, hfree⟩

theorem src_2s_removed_bounds (cd : src_comp_data) (stage2 : src_stage) (nch sz staged : Int)
    (sink : comp_buffer) (h2 : 0 < stage2.blk_in * nch) (hT : 0 ≤ cd.param.stage2_times)
    (hst : 0 ≤ staged) :
    0 ≤ src_2s_removed cd stage2 nch sz staged sink ∧
    src_2s_removed cd stage2 nch sz staged sink ≤ staged := by
  unfold src_2s_removed
  by_cases hr : src_2s_runs2 cd stage2 nch sz staged sink = true
  · rw [if_pos hr]
    refine ⟨?_, src_2s_times2_staged cd stage2 nch staged h2 hst⟩
    have ht : 0 ≤ src_2s_times2 cd stage2 nch staged :=
      le_min hT (Int.tdiv_nonneg hst (le_of_lt h2))
    rw [mul_assoc]
    exact Int.mul_nonneg ht (le_of_lt h2)
  · rw [if_neg hr]
    exact ⟨le_refl _, hst⟩

/-- The two stages together: what `src_2s` reports, leaves in the stage buffer and hands
to `polyphase_func`. -/
theorem src_2s_stages_spec (polyphase_func : src_stage_prm → src_stage_prm) (dev : comp_dev)
    (cd : src_comp_data) (stage1 stage2 : src_stage) (source sink : comp_buffer)
    (source_r_ptr sink_w_ptr : Option Int) (nch sz : Int)
    (hnch : nch = wrap_int32 (dev.channels : Int))
    (hsz : sz = wrap_int32 (dev.sample_container_bytes : Int))
    (h1 : 0 < stage1.blk_out * nch) (h2 : 0 < stage2.blk_in * nch) :
    (src_2s_stages polyphase_func dev cd stage1 stage2 source sink source_r_ptr
        sink_w_ptr).n_read =
      (if src_2s_runs1 cd stage1 nch sz source then
        src_2s_times1 cd stage1 nch * stage1.blk_in else 0) ∧
    (src_2s_stages polyphase_func dev cd stage1 stage2 source sink source_r_ptr
        sink_w_ptr).n_written =
      (if src_2s_runs2 cd stage2 nch sz
          (cd.sbuf_avail + src_2s_added cd stage1 nch sz source) sink then
        src_2s_times2 cd stage2 nch (cd.sbuf_avail + src_2s_added cd stage1 nch sz source) *
          stage2.blk_out
      else 0) ∧
    (src_2s_stages polyphase_func dev cd stage1 stage2 source sink source_r_ptr
        sink_w_ptr).cd.sbuf_avail =
      cd.sbuf_avail + src_2s_added cd stage1 nch sz source -
        src_2s_removed cd stage2 nch sz
          (cd.sbuf_avail + src_2s_added cd stage1 nch sz source) sink ∧
    (src_2s_stages polyphase_func dev cd stage1 stage2 source sink source_r_ptr
        sink_w_ptr).calls =
      (if src_2s_runs1 cd stage1 nch sz source then
        [{ nch := nch, shift := cd.data_shift, times := src_2s_times1 cd stage1 nch
           x_rptr := source_r_ptr, y_wptr := cd.sbuf_w_ptr, state := cd.src.state1
           stage := stage1 }]
       else []) ++
      (if src_2s_runs2 cd stage2 nch sz
          (cd.sbuf_avail + src_2s_added cd stage1 nch sz source) sink then
        [{ nch := nch, shift := cd.data_shift
           times := src_2s_times2 cd stage2 nch
             (cd.sbuf_avail + src_2s_added cd stage1 nch sz source)
           x_rptr := cd.sbuf_r_ptr, y_wptr := sink_w_ptr, state := cd.src.state2
           stage := stage2 }]
       else []) := by
  obtain ⟨a1, a2, a3, a4, a5, a6, a7, a8⟩ :=
    src_2s_stage1_spec polyphase_func dev cd stage1 source source_r_ptr nch sz hnch hsz h1
  obtain ⟨b1, b2, b3, b4⟩ :=
    src_2s_stage2_spec polyphase_func dev
      (src_2s_stage1 polyphase_func dev cd stage1 source source_r_ptr) stage2 sink sink_w_ptr
      nch sz hnch hsz h2
  have hruns : ∀ staged, src_2s_runs2
      (src_2s_stage1 polyphase_func dev cd stage1 source source_r_ptr).cd stage2 nch sz
        staged sink = src_2s_runs2 cd stage2 nch sz staged sink := by
    intro staged
    unfold src_2s_runs2 src_2s_times2
    rw [a5]
  have htimes : ∀ staged, src_2s_times2
      (src_2s_stage1 polyphase_func dev cd stage1 source source_r_ptr).cd stage2 nch
        staged = src_2s_times2 cd stage2 nch staged := by
    intro staged
    unfold src_2s_times2
    rw [a5]
  have hrem : ∀ staged, src_2s_removed
      (src_2s_stage1 polyphase_func dev cd stage1 source source_r_ptr).cd stage2 nch sz
        staged sink = src_2s_removed cd stage2 nch sz staged sink := by
    intro staged
    unfold src_2s_removed
    rw [hruns, htimes]
  unfold src_2s_stages
  rw [b1, b2, b3, b4, a1, a2, a3, a4, a6, a7, a8, hruns, htimes, hrem]
  exact ⟨rfl, rfl, rfl, rfl⟩

theorem src_2s_some (polyphase_func : src_stage_prm → src_stage_prm) (dev : comp_dev)
    (cd : src_comp_data) (stage1 stage2 : src_stage) (source sink : comp_buffer)
    (source_r_ptr sink_w_ptr : Option Int)
    (hs1 : cd.src.stage1 = some stage1) (hs2 : cd.src.stage2 = some stage2) :
    src_2s polyphase_func dev cd source sink source_r_ptr sink_w_ptr =
      some (src_2s_stages polyphase_func dev cd stage1 stage2 source sink source_r_ptr
        sink_w_ptr) := by
  simp only [src_2s, hs1, hs2]

theorem src_2s_stage1_param (polyphase_func : src_stage_prm → src_stage_prm) (dev : comp_dev)
    (cd : src_comp_data) (stage1 : src_stage) (source : comp_buffer)
    (source_r_ptr : Option Int) :
    (src_2s_stage1 polyphase_func dev cd stage1 source source_r_ptr).cd.param = cd.param := by
  simp only [src_2s_stage1]
  split_ifs <;> rfl

theorem src_2s_stage2_param (polyphase_func : src_stage_prm → src_stage_prm) (dev : comp_dev)
    (out1 : src_func_out) (stage2 : src_stage) (sink : comp_buffer)
    (sink_w_ptr : Option Int) :
    (src_2s_stage2 polyphase_func dev out1 stage2 sink sink_w_ptr).cd.param =
      out1.cd.param := by
  simp only [src_2s_stage2]
  split_ifs <;> rfl

theorem src_2s_stages_param (polyphase_func : src_stage_prm → src_stage_prm) (dev : comp_dev)
    (cd : src_comp_data) (stage1 stage2 : src_stage) (source sink : comp_buffer)
    (source_r_ptr sink_w_ptr : Option Int) :
    (src_2s_stages polyphase_func dev cd stage1 stage2 source sink source_r_ptr
      sink_w_ptr).cd.param = cd.param := by
  unfold src_2s_stages
  rw [src_2s_stage2_param, src_2s_stage1_param]

theorem src_get_copy_limits_times_nonneg (cd : src_comp_data) (s1 s2 : src_stage)
    (source sink : comp_buffer) (h2 : s2.filter_length > 1)
    (hb1 : 0 < s1.blk_in) (hb2 : 0 < s2.blk_out)
    (hsf : 0 ≤ cd.source_frames) (hkf : 0 ≤ cd.sink_frames)
    (ha : source.avail / source.source_frame_bytes < 2 ^ 31)
    (hf : sink.free / sink.sink_frame_bytes < 2 ^ 31) :
    0 ≤ (src_get_copy_limits_stages cd s1 s2 source sink).2.stage1_times ∧
    0 ≤ (src_get_copy_limits_stages cd s1 s2 source sink).2.stage2_times ∧
    (src_get_copy_limits_stages cd s1 s2 source sink).2.sbuf_length =
      cd.param.sbuf_length := by
  have hna : (0 : Int) ≤ ((source.avail / source.source_frame_bytes : Nat) : Int) :=
    Int.natCast_nonneg _
  have hnf : (0 : Int) ≤ ((sink.free / sink.sink_frame_bytes : Nat) : Int) :=
    Int.natCast_nonneg _
  unfold src_get_copy_limits_stages
  simp only [if_pos h2]
  rw [wrap_int32_nat _ ha, wrap_int32_nat _ hf]
  split_ifs <;>
    exact ⟨Int.tdiv_nonneg (le_min hna (by omega)) (le_of_lt hb1),
      Int.tdiv_nonneg (le_min hnf (by omega)) (le_of_lt hb2), rfl⟩

/-- C31: `src_2s` with both stage pointers set, `nch` channels and `sz` bytes per
sample, for positive block sizes. The stage-1 repeat count handed to `polyphase_func`
is `min(stage1_times, sbuf_free / (stage1.blk_out * nch))`, and stage 1 runs exactly
when the source holds the bytes of that many input blocks and the stage buffer has room
for the output (which it always has when `sbuf_free` is not negative). The stage-2
repeat count is `min(stage2_times, sbuf_avail / (stage2.blk_in * nch))`, with the
samples stage 1 just added counted in, and stage 2 runs exactly when these samples make
up the input blocks (always, when their number is not negative) and the sink has room
for the output. The frames reported read are the frames of the stage-1 blocks when
stage 1 ran and 0 otherwise, likewise the frames reported written for stage 2; read
frames times `nch * sz` never exceed the source's available bytes and written frames
times `nch * sz` never exceed the sink's free bytes. -/
theorem src_2s_repeat_counts (polyphase_func : src_stage_prm → src_stage_prm)
    (dev : comp_dev) (cd : src_comp_data) (stage1 stage2 : src_stage)
    (source sink : comp_buffer) (source_r_ptr sink_w_ptr : Option Int) (nch sz : Int)
    (hs1 : cd.src.stage1 = some stage1) (hs2 : cd.src.stage2 = some stage2)
    (hnch : nch = wrap_int32 (dev.channels : Int))
    (hsz : sz = wrap_int32 (dev.sample_container_bytes : Int))
    (h1 : 0 < stage1.blk_out * nch) (h2 : 0 < stage2.blk_in * nch) :
    ∃ out, src_2s polyphase_func dev cd source sink source_r_ptr sink_w_ptr = some out ∧
      out.calls =
        (if src_2s_runs1 cd stage1 nch sz source then
          [{ nch := nch, shift := cd.data_shift, times := src_2s_times1 cd stage1 nch
             x_rptr := source_r_ptr, y_wptr := cd.sbuf_w_ptr, state := cd.src.state1
             stage := stage1 }]
         else []) ++
        (if src_2s_runs2 cd stage2 nch sz
            (cd.sbuf_avail + src_2s_added cd stage1 nch sz source) sink then
          [{ nch := nch, shift := cd.data_shift
             times := src_2s_times2 cd stage2 nch
               (cd.sbuf_avail + src_2s_added cd stage1 nch sz source)
             x_rptr := cd.sbuf_r_ptr, y_wptr := sink_w_ptr, state := cd.src.state2
             stage := stage2 }]
         else []) ∧
      out.n_read =
        (if src_2s_runs1 cd stage1 nch sz source then
          src_2s_times1 cd stage1 nch * stage1.blk_in else 0) ∧
      out.n_written =
        (if src_2s_runs2 cd stage2 nch sz
            (cd.sbuf_avail + src_2s_added cd stage1 nch sz source) sink then
          src_2s_times2 cd stage2 nch
            (cd.sbuf_avail + src_2s_added cd stage1 nch sz source) * stage2.blk_out
        else 0) ∧
      out.n_read * (nch * sz) ≤ (source.avail : Int) ∧
      out.n_written * (nch * sz) ≤ (sink.free : Int) ∧
      src_2s_times1 cd stage1 nch =
        min cd.param.stage1_times
          (Int.tdiv (cd.param.sbuf_length - cd.sbuf_avail) (stage1.blk_out * nch)) ∧
      (∀ staged, src_2s_times2 cd stage2 nch staged =
        min cd.param.stage2_times (Int.tdiv staged (stage2.blk_in * nch))) ∧
      (0 ≤ cd.param.sbuf_length - cd.sbuf_avail →
        (src_2s_runs1 cd stage1 nch sz source = true ↔
          wrap_int32 (source.avail : Int) ≥
            src_2s_times1 cd stage1 nch * stage1.blk_in * nch * sz)) ∧
      (∀ staged, 0 ≤ staged →
        (src_2s_runs2 cd stage2 nch sz staged sink = true ↔
          wrap_int32 (sink.free : Int) ≥
            src_2s_times2 cd stage2 nch staged * stage2.blk_out * nch * sz)) := by
  obtain ⟨e1, e2, -, e4⟩ := src_2s_stages_spec polyphase_func dev cd stage1 stage2 source
    sink source_r_ptr sink_w_ptr nch sz hnch hsz h1 h2
  refine ⟨_, src_2s_some polyphase_func dev cd stage1 stage2 source sink source_r_ptr
    sink_w_ptr hs1 hs2, e4, e1, e2, ?_, ?_, rfl, fun _ => rfl, fun hfree => ?_,
    fun staged hst => ?_⟩
  · rw [e1]
    by_cases hr : src_2s_runs1 cd stage1 nch sz source = true
    · rw [if_pos hr]
      have hc := (of_decide_eq_true hr).1
      have hw := wrap_int32_le_nat source.avail
      have : src_2s_times1 cd stage1 nch * stage1.blk_in * (nch * sz) =
          src_2s_times1 cd stage1 nch * stage1.blk_in * nch * sz := by ring
      rw [this]
      exact le_trans hc hw
    · rw [if_neg hr, zero_mul]
      exact Int.natCast_nonneg _
  · rw [e2]
    by_cases hr : src_2s_runs2 cd stage2 nch sz
        (cd.sbuf_avail + src_2s_added cd stage1 nch sz source) sink = true
    · rw [if_pos hr]
      have hc := (of_decide_eq_true hr).2
      have hw := wrap_int32_le_nat sink.free
      have : src_2s_times2 cd stage2 nch
            (cd.sbuf_avail + src_2s_added cd stage1 nch sz source) * stage2.blk_out *
            (nch * sz) =
          src_2s_times2 cd stage2 nch
            (cd.sbuf_avail + src_2s_added cd stage1 nch sz source) * stage2.blk_out *
            nch * sz := by ring
      rw [this]
      exact le_trans hc hw
    · rw [if_neg hr, zero_mul]
      exact Int.natCast_nonneg _
  · have hroom := src_2s_times1_room cd stage1 nch h1 hfree
    unfold src_2s_runs1
    rw [decide_eq_true_iff]
    exact ⟨fun h => h.1, fun h => ⟨h, hroom⟩⟩
  · have hroom := src_2s_times2_staged cd stage2 nch staged h2 hst
    unfold src_2s_runs2
    rw [decide_eq_true_iff]
    exact ⟨fun h => h.2, fun h => ⟨hroom, h⟩⟩

/-- C31, witness: the converter from 44100 to 48000 of the samples with an empty stage
buffer, 48 frames in the source and room for 48 in the sink: the call reports frame
counts within both buffers. -/
theorem src_2s_repeat_counts_witness :
    ∃ out, src_2s polyphase_func_sample comp_dev_sample src_cd_two_stage_limits
        (buffer_s32_stereo 384 0) (buffer_s32_stereo 0 384) (some 0) (some 0) = some out ∧
      out.n_read * (2 * 4) ≤ ((buffer_s32_stereo 384 0).avail : Int) ∧
      out.n_written * (2 * 4) ≤ ((buffer_s32_stereo 0 384).free : Int) :=
  (src_2s_repeat_counts polyphase_func_sample comp_dev_sample src_cd_two_stage_limits
    src_stage_8_7 src_stage_20_21 (buffer_s32_stereo 384 0) (buffer_s32_stereo 0 384)
    (some 0) (some 0) 2 4 (by decide) (by decide) (by decide) (by decide) (by decide)
    (by decide)).elim
    (fun out h => ⟨out, h.1, h.2.2.2.2.1, h.2.2.2.2.2.1⟩)

theorem sbuf_bounds_arith (a L A R : Int) (hA1 : A ≤ L - a) (hR0 : 0 ≤ R)
    (hR1 : R ≤ a + A) : 0 ≤ a + A - R ∧ a + A - R ≤ L ∧ a + A ≤ L := by
  omega

/-- C35: a call of `src_2s` with positive block sizes and channel count and with repeat
counts that are not negative (as `src_get_copy_limits` leaves them for non-negative frame
counts) preserves `0 <= sbuf_avail <= sbuf_length`: stage 1 adds exactly
`times1 * stage1.blk_out * nch` samples when it runs and nothing otherwise, stage 2
removes exactly `times2 * stage2.blk_in * nch` samples when it runs and nothing
otherwise, the sum added is not negative and fits the free part of the stage buffer,
the sum removed is not negative and does not exceed what is staged. `src_params` starts
from `sbuf_avail = 0`, and `src_get_copy_limits` leaves `sbuf_length` as it is. -/
theorem src_2s_sbuf_avail_invariant (polyphase_func : src_stage_prm → src_stage_prm)
    (dev : comp_dev) (cd : src_comp_data) (stage1 stage2 : src_stage)
    (source sink : comp_buffer) (source_r_ptr sink_w_ptr : Option Int) (nch sz : Int)
    (hs1 : cd.src.stage1 = some stage1) (hs2 : cd.src.stage2 = some stage2)
    (hnch : nch = wrap_int32 (dev.channels : Int))
    (hsz : sz = wrap_int32 (dev.sample_container_bytes : Int))
    (hn : 0 < nch) (hb1 : 0 < stage1.blk_out) (hb2 : 0 < stage2.blk_in)
    (hT1 : 0 ≤ cd.param.stage1_times) (hT2 : 0 ≤ cd.param.stage2_times)
    (hinv : 0 ≤ cd.sbuf_avail ∧ cd.sbuf_avail ≤ cd.param.sbuf_length) :
    ∃ out, src_2s polyphase_func dev cd source sink source_r_ptr sink_w_ptr = some out ∧
      (0 ≤ out.cd.sbuf_avail ∧ out.cd.sbuf_avail ≤ out.cd.param.sbuf_length) ∧
      out.cd.param = cd.param ∧
      out.cd.sbuf_avail =
        cd.sbuf_avail + src_2s_added cd stage1 nch sz source -
          src_2s_removed cd stage2 nch sz
            (cd.sbuf_avail + src_2s_added cd stage1 nch sz source) sink ∧
      src_2s_added cd stage1 nch sz source =
        (if src_2s_runs1 cd stage1 nch sz source then
          src_2s_times1 cd stage1 nch * stage1.blk_out * nch else 0) ∧
      (∀ staged, src_2s_removed cd stage2 nch sz staged sink =
        (if src_2s_runs2 cd stage2 nch sz staged sink then
          src_2s_times2 cd stage2 nch staged * stage2.blk_in * nch else 0)) ∧
      (0 ≤ src_2s_added cd stage1 nch sz source ∧
        cd.sbuf_avail + src_2s_added cd stage1 nch sz source ≤ cd.param.sbuf_length) ∧
      (0 ≤ src_2s_removed cd stage2 nch sz
          (cd.sbuf_avail + src_2s_added cd stage1 nch sz source) sink ∧
        src_2s_removed cd stage2 nch sz
          (cd.sbuf_avail + src_2s_added cd stage1 nch sz source) sink ≤
          cd.sbuf_avail + src_2s_added cd stage1 nch sz source) ∧
      (∀ (env : src_env) (cd0 : src_comp_data) (n : Nat),
        (src_params_init env cd0 n).2.sbuf_avail = 0) ∧
      (∀ (cd0 : src_comp_data) (s1 s2 : src_stage) (source0 sink0 : comp_buffer),
        s2.filter_length > 1 → 0 < s1.blk_in → 0 < s2.blk_out →
        0 ≤ cd0.source_frames → 0 ≤ cd0.sink_frames →
        source0.avail / source0.source_frame_bytes < 2 ^ 31 →
        sink0.free / sink0.sink_frame_bytes < 2 ^ 31 →
        0 ≤ (src_get_copy_limits_stages cd0 s1 s2 source0 sink0).2.stage1_times ∧
        0 ≤ (src_get_copy_limits_stages cd0 s1 s2 source0 sink0).2.stage2_times ∧
        (src_get_copy_limits_stages cd0 s1 s2 source0 sink0).2.sbuf_length =
          cd0.param.sbuf_length) := by
  have h1 : 0 < stage1.blk_out * nch := Int.mul_pos hb1 hn
  have h2 : 0 < stage2.blk_in * nch := Int.mul_pos hb2 hn
  have hfree : 0 ≤ cd.param.sbuf_length - cd.sbuf_avail := Int.sub_nonneg_of_le hinv.2
  have ha := src_2s_added_bounds cd stage1 nch sz source h1 hT1 hfree
  have hr := src_2s_removed_bounds cd stage2 nch sz
    (cd.sbuf_avail + src_2s_added cd stage1 nch sz source) sink h2 hT2
    (Int.add_nonneg hinv.1 ha.1)
  have hp := src_2s_stages_param polyphase_func dev cd stage1 stage2 source sink
    source_r_ptr sink_w_ptr
  have hb := sbuf_bounds_arith cd.sbuf_avail cd.param.sbuf_length
    (src_2s_added cd stage1 nch sz source)
    (src_2s_removed cd stage2 nch sz
      (cd.sbuf_avail + src_2s_added cd stage1 nch sz source) sink)
    ha.2 hr.1 hr.2
  obtain ⟨-, -, e3, -⟩ := src_2s_stages_spec polyphase_func dev cd stage1 stage2 source
    sink source_r_ptr sink_w_ptr nch sz hnch hsz h1 h2
  refine ⟨_, src_2s_some polyphase_func dev cd stage1 stage2 source sink source_r_ptr
    sink_w_ptr hs1 hs2, ?_, hp, e3, rfl, fun _ => rfl, ⟨ha.1, hb.2.2⟩, hr, ?_, ?_⟩
  · rw [e3, hp]
    exact ⟨hb.1, hb.2.1⟩
  · intro env cd0 n
    unfold src_params_init src_params_select
    split_ifs <;> rfl
  · intro cd0 s1 s2 source0 sink0 hf hb1 hb2 hsf hkf ha hf2
    exact src_get_copy_limits_times_nonneg cd0 s1 s2 source0 sink0 hf hb1 hb2 hsf hkf ha hf2

/-- C35, witness: the converter from 44100 to 48000 of the samples with an empty stage
buffer of 224 samples, 6 blocks of stage 1 and 2 blocks of stage 2. -/
theorem src_2s_sbuf_avail_invariant_witness :
    ∃ out, src_2s polyphase_func_sample comp_dev_sample src_cd_two_stage_limits
        (buffer_s32_stereo 384 0) (buffer_s32_stereo 0 384) (some 0) (some 0) = some out ∧
      (0 ≤ out.cd.sbuf_avail ∧ out.cd.sbuf_avail ≤ out.cd.param.sbuf_length) :=
  (src_2s_sbuf_avail_invariant polyphase_func_sample comp_dev_sample src_cd_two_stage_limits
    src_stage_8_7 src_stage_20_21 (buffer_s32_stereo 384 0) (buffer_s32_stereo 0 384)
    (some 0) (some 0) 2 4 (by decide) (by decide) (by decide) (by decide) (by decide)
    (by decide) (by decide) (by decide) (by decide) (by decide)).elim
    (fun out h => ⟨out, h.1, h.2.1⟩)

/-! ## Theorems: the direct copy of the rate converter -/

theorem circular_copy_add (source : Int → Int) (Ls Lk : Int) (a : Nat) :
    ∀ (b : Nat) (r w : Int) (sink : Int → Int),
      circular_copy source Ls Lk (a + b) r w sink =
        circular_copy source Ls Lk b (r + a) (w + a) (circular_copy source Ls Lk a r w sink) := by
  induction a with
  | zero =>
    intro b r w sink
    simp [circular_copy]
  | succ a ih =>
    intro b r w sink
    have e : a + 1 + b = (a + b) + 1 := by omega
    rw [e]
    simp only [circular_copy]
    rw [ih]
    have e1 : r + 1 + (a : Int) = r + ((a + 1 : Nat) : Int) := by push_cast; ring
    have e2 : w + 1 + (a : Int) = w + ((a + 1 : Nat) : Int) := by push_cast; ring
    rw [e1, e2]

theorem circular_copy_congr (source : Int → Int) (Ls Lk : Int) :
    ∀ (k : Nat) (r w r2 w2 : Int) (sink : Int → Int),
      r % Ls = r2 % Ls → w % Lk = w2 % Lk →
      circular_copy source Ls Lk k r w sink = circular_copy source Ls Lk k r2 w2 sink := by
  intro k
  induction k with
  | zero => intro r w r2 w2 sink _ _; rfl
  | succ k ih =>
    intro r w r2 w2 sink hr hw
    simp only [circular_copy]
    rw [hr, hw]
    apply ih
    · rw [Int.add_emod, hr, ← Int.add_emod]
    · rw [Int.add_emod, hw, ← Int.add_emod]

theorem src_inc_wrap_emod (p L : Int) (h0 : 0 ≤ p) (h1 : p ≤ L) :
    src_inc_wrap p L % L = p % L ∧ 0 ≤ src_inc_wrap p L ∧ (0 < L → src_inc_wrap p L < L) := by
  unfold src_inc_wrap
  by_cases h : p ≥ L
  · rw [if_pos h]
    have : p = L := by omega
    subst this
    simp
  · rw [if_neg h]
    exact ⟨rfl, h0, fun _ => by omega⟩

theorem circular_copy_bulk (source : Int → Int) (Ls Lk : Int) :
    ∀ (c : Nat) (r w : Int) (sink : Int → Int),
      0 ≤ r → r + c ≤ Ls → 0 ≤ w → w + c ≤ Lk →
      circular_copy source Ls Lk c r w sink = src_copy_bulk source sink r w c := by
  intro c
  induction c with
  | zero =>
    intro r w sink _ _ _ _
    funext j
    simp only [circular_copy, src_copy_bulk]
    rw [if_neg (by push_cast; omega)]
  | succ c ih =>
    intro r w sink hr hrc hw hwc
    simp only [circular_copy]
    push_cast at hrc hwc
    rw [ih (r + 1) (w + 1) _ (by omega) (by omega) (by omega) (by omega)]
    have hwm : w % Lk = w := Int.emod_eq_of_lt hw (by omega)
    have hrm : r % Ls = r := Int.emod_eq_of_lt hr (by omega)
    rw [hwm, hrm]
    funext j
    simp only [src_copy_bulk]
    push_cast
    by_cases hj : j = w
    · subst hj
      rw [if_neg (by omega), if_pos (by omega), Function.update_same]
      congr 1
      omega
    · rw [Function.update_noteq hj]
      by_cases hin : w + 1 ≤ j ∧ j < w + 1 + c
      · rw [if_pos hin, if_pos (by omega)]
        congr 1
        omega
      · rw [if_neg hin, if_neg (by omega)]


theorem src_copy_loop_spec (source : Int → Int) (Ls Lk : Int) :
    ∀ (fuel : Nat) (n src snk : Int) (sink : Int → Int) (copies : List (Int × Int × Int)),
      0 ≤ src → src < Ls → 0 ≤ snk → snk < Lk → n.toNat ≤ fuel →
      ∃ copies1, src_copy_loop source Ls Lk fuel n src snk sink copies =
          some (circular_copy source Ls Lk n.toNat src snk sink, copies ++ copies1) ∧
        ∀ c ∈ copies1, 0 < c.2.2 ∧ 0 ≤ c.1 ∧ c.1 + c.2.2 ≤ Ls ∧
          0 ≤ c.2.1 ∧ c.2.1 + c.2.2 ≤ Lk := by
  intro fuel
  induction fuel with
  | zero =>
    intro n src snk sink copies _ _ _ _ hn
    have hn0 : ¬ n > 0 := by omega
    have ht : n.toNat = 0 := by omega
    refine ⟨[], ?_, fun c hc => absurd hc (List.not_mem_nil c)⟩
    simp only [src_copy_loop, if_neg hn0, ht, circular_copy, List.append_nil]
  | succ f ih =>
    intro n src snk sink copies hs0 hs1 hk0 hk1 hn
    by_cases hn0 : n > 0
    · obtain ⟨c, hc⟩ : ∃ c : Int, c =
          (if n < (if Ls - src < Lk - snk then Ls - src else Lk - snk) then n
            else (if Ls - src < Lk - snk then Ls - src else Lk - snk)) := ⟨_, rfl⟩
      have hcb : 0 < c ∧ c ≤ n ∧ c ≤ Ls - src ∧ c ≤ Lk - snk := by
        rw [hc]
        split_ifs <;> omega
      have hstep : src_copy_loop source Ls Lk (f + 1) n src snk sink copies =
          src_copy_loop source Ls Lk f (n - c) (src_inc_wrap (src + c) Ls)
            (src_inc_wrap (snk + c) Lk) (src_copy_bulk source sink src snk c)
            (copies ++ [(src, snk, c)]) := by
        simp only [src_copy_loop, if_pos hn0]
        rw [← hc, if_neg (by omega)]
      obtain ⟨w1, w2, w3⟩ := src_inc_wrap_emod (src + c) Ls (by omega) (by omega)
      obtain ⟨v1, v2, v3⟩ := src_inc_wrap_emod (snk + c) Lk (by omega) (by omega)
      obtain ⟨copies1, h1, h2⟩ := ih (n - c) (src_inc_wrap (src + c) Ls)
        (src_inc_wrap (snk + c) Lk) (src_copy_bulk source sink src snk c)
        (copies ++ [(src, snk, c)]) w2 (w3 (by omega)) v2 (v3 (by omega)) (by omega)
      refine ⟨(src, snk, c) :: copies1, ?_, fun x hx => ?_⟩
      · rw [hstep, h1]
        have hnat : n.toNat = c.toNat + (n - c).toNat := by omega
        have hcn : ((c.toNat : Nat) : Int) = c := Int.toNat_of_nonneg (by omega)
        rw [hnat, circular_copy_add, hcn,
          circular_copy_bulk source Ls Lk c.toNat src snk sink hs0 (by omega) hk0 (by omega),
          hcn, circular_copy_congr source Ls Lk (n - c).toNat (src + c) (snk + c)
            (src_inc_wrap (src + c) Ls) (src_inc_wrap (snk + c) Lk) _ w1.symm v1.symm,
          List.append_assoc]
        rfl
      · rcases List.mem_cons.1 hx with hx | hx
        · rw [hx]
          exact ⟨hcb.1, hs0, (by show src + c ≤ Ls; omega), hk0,
            (by show snk + c ≤ Lk; omega)⟩
        · exact h2 x hx
    · have ht : n.toNat = 0 := by omega
      refine ⟨[], ?_, fun c hc => absurd hc (List.not_mem_nil c)⟩
      simp only [src_copy_loop, if_neg hn0, ht, circular_copy, List.append_nil]

theorem emod_shift_ne (w d L : Int) (h0 : 0 < d) (h1 : d < L) : (w + d) % L ≠ w % L := by
  intro h
  have h2 := (Int.emod_eq_emod_iff_emod_sub_eq_zero).1 h
  have h3 : w + d - w = d := by omega
  rw [h3, Int.emod_eq_of_lt (by omega) h1] at h2
  omega

theorem circular_copy_get (source : Int → Int) (Ls Lk : Int) :
    ∀ (k : Nat) (r w : Int) (sink : Int → Int), (k : Int) ≤ Lk →
      (∀ i : Nat, i < k →
        circular_copy source Ls Lk k r w sink ((w + i) % Lk) = source ((r + i) % Ls)) ∧
      (∀ j, (∀ i : Nat, i < k → j ≠ (w + i) % Lk) →
        circular_copy source Ls Lk k r w sink j = sink j) := by
  intro k
  induction k with
  | zero =>
    intro r w sink _
    exact ⟨fun i hi => absurd hi (Nat.not_lt_zero i), fun j _ => rfl⟩
  | succ k ih =>
    intro r w sink hk
    push_cast at hk
    obtain ⟨ih1, ih2⟩ := ih (r + 1) (w + 1)
      (Function.update sink (w % Lk) (source (r % Ls))) (by omega)
    simp only [circular_copy]
    refine ⟨fun i hi => ?_, fun j hj => ?_⟩
    · cases i with
      | zero =>
        simp only [Nat.cast_zero, add_zero]
        rw [ih2, Function.update_same]
        intro i hi2
        have e : w + 1 + (i : Int) = w + (1 + (i : Int)) := by ring
        rw [e]
        exact (emod_shift_ne w (1 + (i : Int)) Lk (by omega) (by omega)).symm
      | succ i =>
        have e1 : w + ((i + 1 : Nat) : Int) = w + 1 + (i : Int) := by push_cast; ring
        have e2 : r + ((i + 1 : Nat) : Int) = r + 1 + (i : Int) := by push_cast; ring
        rw [e1, e2]
        exact ih1 i (by omega)
    · rw [ih2 j (fun i hi => by
        have := hj (i + 1) (by omega)
        have e1 : w + ((i + 1 : Nat) : Int) = w + 1 + (i : Int) := by push_cast; ring
        rw [e1] at this
        exact this)]
      have h0 := hj 0 (by omega)
      simp only [Nat.cast_zero, add_zero] at h0
      exact Function.update_noteq h0 _ _

/-- C32: `src_copy_s32` and `src_copy_s16` for a block of `n = blk_in * channels`
samples (the product as the code takes it), rings of `source_len` and `sink_len`
samples and positions `r`, `w` inside them. With as many iterations allowed as there are
samples, the loop ends; both functions report `n_read = n_written = blk_in`; every bulk
copy has a positive count and stays inside both rings from its source and sink offsets;
and the sink ring they leave is that of the per-sample circular copy of `n` samples.
For `n` up to the size of the sink ring this means that for all `i < n`,
`sink[(w + i) mod sink_len] = source[(r + i) mod source_len]`, and that every other
sample of the sink ring is as before. -/
theorem src_copy_direct_circular (dev : comp_dev) (cd : src_comp_data)
    (source sink : Int → Int) (source_len sink_len r w : Int) (fuel : Nat)
    (hr : 0 ≤ r ∧ r < source_len) (hw : 0 ≤ w ∧ w < sink_len)
    (hfuel : (wrap_int32 (cd.param.blk_in * (dev.channels : Int))).toNat ≤ fuel) :
    ∃ out, src_copy_s32 dev cd source source_len r sink sink_len w fuel = some out ∧
      (∃ out16, src_copy_s16 dev cd source source_len r sink sink_len w fuel = some out16 ∧
        out16.n_read = out.n_read ∧ out16.n_written = out.n_written ∧
        out16.sink = out.sink ∧ out16.copies = out.copies) ∧
      out.n_read = cd.param.blk_in ∧ out.n_written = cd.param.blk_in ∧
      out.sink = circular_copy source source_len sink_len
        (wrap_int32 (cd.param.blk_in * (dev.channels : Int))).toNat r w sink ∧
      (∀ c ∈ out.copies, 0 < c.2.2 ∧ 0 ≤ c.1 ∧ c.1 + c.2.2 ≤ source_len ∧
        0 ≤ c.2.1 ∧ c.2.1 + c.2.2 ≤ sink_len) ∧
      (wrap_int32 (cd.param.blk_in * (dev.channels : Int)) ≤ sink_len →
        (∀ i : Nat, (i : Int) < wrap_int32 (cd.param.blk_in * (dev.channels : Int)) →
          out.sink ((w + i) % sink_len) = source ((r + i) % source_len)) ∧
        (∀ j, (∀ i : Nat, (i : Int) < wrap_int32 (cd.param.blk_in * (dev.channels : Int)) →
            j ≠ (w + i) % sink_len) → out.sink j = sink j)) := by
  simp only [src_copy_s32, src_copy_s16]
  generalize wrap_int32 (cd.param.blk_in * (dev.channels : Int)) = n at hfuel ⊢
  obtain ⟨copies1, h1, h2⟩ := src_copy_loop_spec source source_len sink_len fuel n r w sink []
    hr.1 hr.2 hw.1 hw.2 hfuel
  rw [h1]
  refine ⟨_, rfl, ⟨_, rfl, rfl, rfl, rfl, rfl⟩, rfl, rfl, rfl, ?_, fun hn => ?_⟩
  · intro c hc
    exact h2 c (by simpa using hc)
  · obtain ⟨g1, g2⟩ := circular_copy_get source source_len sink_len n.toNat r w sink
      (by omega)
    exact ⟨fun i hi => g1 i (by omega), fun j hj => g2 j (fun i hi => hj i (by omega))⟩

/-- C32, witness: a block of 2 stereo frames from offset 4 of a source ring of 6 samples
to offset 3 of a sink ring of 5 samples. Two bulk copies of 2 samples each are made, the
first up to the end of both rings, the second from their starts. -/
theorem src_copy_direct_circular_witness :
    (∃ out, src_copy_s32 comp_dev_sample src_cd_copy ring_source_six 6 4 ring_sink_blank 5 3
        4 = some out ∧
      out.n_read = src_cd_copy.param.blk_in ∧ out.n_written = src_cd_copy.param.blk_in ∧
      ∀ c ∈ out.copies, 0 < c.2.2 ∧ 0 ≤ c.1 ∧ c.1 + c.2.2 ≤ 6 ∧
        0 ≤ c.2.1 ∧ c.2.1 + c.2.2 ≤ 5) ∧
    (src_copy_s32 comp_dev_sample src_cd_copy ring_source_six 6 4 ring_sink_blank 5 3 4).map
      (fun o => (o.n_read, o.n_written, o.copies, (List.range 5).map (fun j => o.sink j))) =
      some (2, 2, [(4, 3, 2), (0, 0, 2)], [10, 11, -1, 14, 15]) :=
  ⟨(src_copy_direct_circular comp_dev_sample src_cd_copy ring_source_six ring_sink_blank
      6 5 4 3 4 (by decide) (by decide) (by decide)).elim
      (fun out h => ⟨out, h.1, h.2.2.1, h.2.2.2.1, h.2.2.2.2.2.1⟩),
    rfl⟩

/-! ## Theorems: the pass-through functions -/

theorem eq_pass_conv_loop_spec (conv : Int → Int) (x : Nat → Int) :
    ∀ (n i : Nat) (y : Nat → Int) (j : Nat),
      eq_pass_conv_loop conv x n i y j = if i ≤ j ∧ j < i + n then conv (x j) else y j := by
  intro n
  induction n with
  | zero =>
    intro i y j
    simp only [eq_pass_conv_loop]
    rw [if_neg (by omega)]
  | succ n ih =>
    intro i y j
    simp only [eq_pass_conv_loop]
    rw [ih]
    by_cases hj : j = i
    · subst hj
      by_cases h2 : j + 1 ≤ j ∧ j < j + 1 + n
      · omega
      · rw [if_neg h2, if_pos (by omega), Function.update_same]
    · by_cases h2 : i + 1 ≤ j ∧ j < i + 1 + n
      · rw [if_pos h2, if_pos (by omega)]
      · rw [if_neg h2, if_neg (by omega), Function.update_noteq hj]

theorem eq_iir_s32_s24_pass_loop_spec (x : Nat → Int) :
    ∀ (n i : Nat) (y : Nat → Int) (j : Nat),
      eq_iir_s32_s24_pass_loop x n i y j =
        if i ≤ j ∧ j < i + n then int32_lo16 (sat_int24 (Q_SHIFT_RND (x j) 31 23))
        else if 0 < n ∧ j = i + n then
          int32_hi16 (sat_int24 (Q_SHIFT_RND (x (j - 1)) 31 23))
        else y j := by
  intro n
  induction n with
  | zero =>
    intro i y j
    simp only [eq_iir_s32_s24_pass_loop]
    rw [if_neg (by omega), if_neg (by omega)]
  | succ n ih =>
    intro i y j
    simp only [eq_iir_s32_s24_pass_loop]
    rw [ih]
    by_cases h1 : i + 1 ≤ j ∧ j < i + 1 + n
    · rw [if_pos h1, if_pos (by omega)]
    · rw [if_neg h1]
      by_cases h2 : 0 < n ∧ j = i + 1 + n
      · rw [if_pos h2, if_neg (by omega), if_pos (by omega)]
      · rw [if_neg h2]
        by_cases hj : j = i
        · subst hj
          rw [if_pos (by omega), Function.update_noteq (by omega), Function.update_same]
        · by_cases hj1 : j = i + 1
          · subst hj1
            have hn : n = 0 := by omega
            subst hn
            rw [if_neg (by omega), if_pos (by omega), Function.update_same]
            rfl
          · rw [if_neg (by omega), if_neg (by omega), Function.update_noteq hj1,
              Function.update_noteq hj]

theorem int32_of_frags_halves (v : Int) (h1 : -2147483648 ≤ v) (h2 : v ≤ 2147483647) :
    int32_of_frags (int32_lo16 v) (int32_hi16 v) = v := by
  unfold int32_of_frags int32_lo16 int32_hi16 wrap_int16 wrap_int32
  norm_num
  omega

/-- C33, the code at a failing input and the part of the claim that holds.
`eq_iir_s32_s24_pass` takes the address of the 16-bit fragment `i` of the sink for its
32-bit store: for `n = frames * channels` samples it writes the 16-bit fragments
`0 .. n` (the low halves of the converted samples, then the high half of the last one)
and not the `n` 32-bit slots. For one stereo frame `0x12345678`, `0x23456789` into a
cleared sink, the converted samples are 1193046 and 2311528, the fragments are left as
13398, 17768, 35, 0, and the 32-bit slots 0 and 1 hold 1164457046 and 35. The other five
pass-through functions write output sample `i` into slot `i` of the sink's width for
`i < n` and nothing else; a 32-bit word stored at an even fragment reads back from its
slot. -/
theorem eq_iir_s32_s24_pass_fragment_width :
    ((List.range 4).map (eq_iir_s32_s24_pass pass_source_frame (fun _ => 0) 1 2) =
        [13398, 17768, 35, 0] ∧
      (List.range 2).map (fun i => sat_int24 (Q_SHIFT_RND (pass_source_frame i) 31 23)) =
        [1193046, 2311528] ∧
      (List.range 2).map (frag_slot32
        (eq_iir_s32_s24_pass pass_source_frame (fun _ => 0) 1 2)) = [1164457046, 35]) ∧
    (∀ (x y : Nat → Int) (frames nch j : Nat),
      eq_iir_s32_s24_pass x y frames nch j =
        if j < (wrap_int32 ((frames * nch) % UINT32_MOD)).toNat then
          int32_lo16 (sat_int24 (Q_SHIFT_RND (x j) 31 23))
        else if 0 < (wrap_int32 ((frames * nch) % UINT32_MOD)).toNat ∧
            j = (wrap_int32 ((frames * nch) % UINT32_MOD)).toNat then
          int32_hi16 (sat_int24 (Q_SHIFT_RND (x (j - 1)) 31 23))
        else y j) ∧
    (∀ (x y : Nat → Int) (frames nch : Int) (j : Nat),
      eq_fir_s16_passthrough x y frames nch j =
        (if j < (wrap_int32 (frames * nch)).toNat then x j else y j) ∧
      eq_fir_s32_passthrough x y frames nch j =
        (if j < (wrap_int32 (frames * nch)).toNat then x j else y j)) ∧
    (∀ (x y : Nat → Int) (frames nch j : Nat),
      eq_iir_s16_pass x y frames nch j =
        (if j < (wrap_int32 ((frames * nch) % UINT32_MOD)).toNat then x j else y j) ∧
      eq_iir_s32_pass x y frames nch j =
        (if j < (wrap_int32 ((frames * nch) % UINT32_MOD)).toNat then x j else y j) ∧
      eq_iir_s32_s16_pass x y frames nch j =
        (if j < (wrap_int32 ((frames * nch) % UINT32_MOD)).toNat then
          sat_int16 (Q_SHIFT_RND (x j) 31 15) else y j)) ∧
    (∀ v : Int, -2147483648 ≤ v → v ≤ 2147483647 →
      int32_of_frags (int32_lo16 v) (int32_hi16 v) = v) := by
  have hcond : ∀ j n : Nat, (0 ≤ j ∧ j < n) = (j < n) := by
    intro j n
    exact propext ⟨fun h => h.2, fun h => ⟨Nat.zero_le _, h⟩⟩
  refine ⟨by decide, fun x y frames nch j => ?_, fun x y frames nch j => ⟨?_, ?_⟩,
    fun x y frames nch j => ⟨?_, ?_, ?_⟩, int32_of_frags_halves⟩
  · unfold eq_iir_s32_s24_pass
    rw [eq_iir_s32_s24_pass_loop_spec]
    simp only [Nat.zero_add, hcond]
  · unfold eq_fir_s16_passthrough
    rw [eq_pass_loop_spec]
    simp only [Nat.zero_add, hcond]
  · unfold eq_fir_s32_passthrough
    rw [eq_pass_loop_spec]
    simp only [Nat.zero_add, hcond]
  · unfold eq_iir_s16_pass
    rw [eq_pass_loop_spec]
    simp only [Nat.zero_add, hcond]
  · unfold eq_iir_s32_pass
    rw [eq_pass_loop_spec]
    simp only [Nat.zero_add, hcond]
  · unfold eq_iir_s32_s16_pass
    rw [eq_pass_conv_loop_spec]
    simp only [Nat.zero_add, hcond]

end sof
